import Mathlib

set_option maxRecDepth 40000
set_option maxHeartbeats 2000000

/-!
Verification of the Kea client-classification expression parser
(`src/lib/eval/parser.cc`, a Bison 3.0.4 generated LALR(1) parser).

The embedding mirrors the generated parser: the LALR tables are copied
verbatim, the shift/reduce driver follows the `lalr1.cc` skeleton code in
`EvalParser::parse`, the per-rule semantic actions are translated one by one
from the `switch (yyn)` block, and `EvalParser::yysyntax_error_` together
with `yytnamerr_` is translated for the diagnostic-message contract.

`eval_context.cc` / `token.h` are not part of the analysed sources; the
few helpers the parser calls there (`EvalContext::error`, the
`convert*` numeric helpers, the option-name registry) are modelled from the
specification and marked as such.
-/

namespace KeaEval

/-- Protocol family selector (`Option::V4` / `Option::V6`). -/
inductive Universe
  | V4
  | V6
deriving DecidableEq, Repr

/-- Source span of a symbol (`location_type`): begin and end positions. -/
structure Loc where
  lo : Nat
  hi : Nat
deriving DecidableEq, Repr

/-- `TokenOption::RepresentationType`. -/
inductive RepresentationType
  | TEXTUAL
  | HEXADECIMAL
  | EXISTS
deriving DecidableEq, Repr

/-- `TokenPkt::MetadataType`. -/
inductive MetadataType
  | IFACE
  | SRC
  | DST
  | LEN
deriving DecidableEq, Repr

/-- `TokenPkt4::FieldType`. -/
inductive Pkt4Field
  | CHADDR
  | HLEN
  | HTYPE
  | CIADDR
  | GIADDR
  | YIADDR
  | SIADDR
  | MSGTYPE
  | TRANSID
deriving DecidableEq, Repr

/-- `TokenPkt6::FieldType`. -/
inductive Pkt6Field
  | MSGTYPE
  | TRANSID
deriving DecidableEq, Repr

/-- `TokenRelay6Field::FieldType`. -/
inductive Relay6FieldType
  | PEERADDR
  | LINKADDR
deriving DecidableEq, Repr

/-- `TokenVendor::FieldType` (the vendor token mode enum). -/
inductive VendorField
  | SUBOPTION
  | ENTERPRISE_ID
  | EXISTS
  | DATA
deriving DecidableEq, Repr

/-- Third constructor argument of the vendor and vendor-class tokens: the
parser either passes a `TokenOption::RepresentationType` or a
`TokenVendor::FieldType` (two C++ constructor overloads). -/
inductive VendorArg3
  | rep (r : RepresentationType)
  | field (f : VendorField)
deriving DecidableEq, Repr

/-- Program instruction. Modelled from the spec: `token.h` is not among the
analysed sources, so each constructor records exactly the arguments the
parser passes when it creates the corresponding C++ token object. -/
inductive Token
  | TokenString (s : String)
  | TokenHexString (s : String)
  | TokenIpAddress (s : String)
  | TokenInteger (n : Nat)
  | TokenNot
  | TokenAnd
  | TokenOr
  | TokenEqual
  | TokenOption (code : Nat) (rep : RepresentationType)
  | TokenRelay4Option (code : Nat) (rep : RepresentationType)
  | TokenRelay6Option (nest : Nat) (code : Nat) (rep : RepresentationType)
  | TokenPkt (m : MetadataType)
  | TokenPkt4 (f : Pkt4Field)
  | TokenPkt6 (f : Pkt6Field)
  | TokenRelay6Field (nest : Nat) (f : Relay6FieldType)
  | TokenSubstring
  | TokenConcat
  | TokenVendor (u : Universe) (eid : Nat) (a : VendorArg3)
  | TokenVendorSub (u : Universe) (eid : Nat) (rep : RepresentationType) (code : Nat)
  | TokenVendorClass (u : Universe) (eid : Nat) (a : VendorArg3)
  | TokenVendorClassData (u : Universe) (eid : Nat) (f : VendorField) (idx : Nat)
deriving DecidableEq, Repr

/-- Compilation failure. Modelled from the spec: `EvalContext::error`
(`eval_context.cc`, not among the analysed sources) throws, aborting the
parse; the spec distinguishes syntax errors, semantic (family-gating)
errors and numeric/name conversion errors. `fuelExhausted` is an artifact
of the fuel-bounded embedding of the parse loop. -/
inductive ParseError
  | semError (loc : Loc) (msg : String)
  | convError (loc : Loc) (msg : String)
  | synError (loc : Loc) (msg : String)
  | fuelExhausted
deriving DecidableEq, Repr

/-- Evaluation context: the protocol family selector and the token program
built up by the semantic actions (`ctx.expression.push_back`), plus the
option name registry consulted by `convertOptionName`. -/
structure EvalContext where
  option_universe : Universe
  expression : List Token
  option_names : List (String × Nat)
deriving DecidableEq, Repr

/-- `EvalContext::getUniverse()`. -/
def EvalContext.getUniverse (ctx : EvalContext) : Universe :=
  ctx.option_universe

/-- `ctx.expression.push_back(tok)`: append one token at the end. -/
def emit (t : Token) (ctx : EvalContext) : EvalContext :=
  { ctx with expression := ctx.expression ++ [t] }

/-- Accumulating decimal reader over the characters of a numeric lexeme;
fails on the first non-digit. -/
def decNatList : List Char → Nat → Option Nat
  | [], acc => some acc
  | c :: cs, acc =>
      if c.isDigit then decNatList cs (acc * 10 + (c.toNat - 48)) else none

/-- Decimal reading of a numeric lexeme: nonempty and every character a
digit. -/
def decNat? (s : String) : Option Nat :=
  match s.data with
  | [] => none
  | c :: cs => decNatList (c :: cs) 0

/-- Modelled from the spec: `EvalContext::convertUint32` — a decimal
integer literal that does not fit its 32-bit target width (or is not a
valid decimal literal) fails with a ConversionError. -/
def EvalContext.convertUint32 (_ctx : EvalContext) (s : String) (loc : Loc) :
    Except ParseError Nat :=
  match decNat? s with
  | some n =>
      if n < 4294967296 then .ok n
      else .error (.convError loc (s ++ " is not a valid 32-bit unsigned integer"))
  | none => .error (.convError loc (s ++ " is not a valid 32-bit unsigned integer"))

/-- Modelled from the spec: `EvalContext::convertUint8` — 8-bit target
width. -/
def EvalContext.convertUint8 (_ctx : EvalContext) (s : String) (loc : Loc) :
    Except ParseError Nat :=
  match decNat? s with
  | some n =>
      if n < 256 then .ok n
      else .error (.convError loc (s ++ " is not a valid 8-bit unsigned integer"))
  | none => .error (.convError loc (s ++ " is not a valid 8-bit unsigned integer"))

/-- Modelled from the spec: `EvalContext::convertOptionCode` — the option
code is stored as a 16-bit value (`uint16_t` in the parser). -/
def EvalContext.convertOptionCode (_ctx : EvalContext) (s : String) (loc : Loc) :
    Except ParseError Nat :=
  match decNat? s with
  | some n =>
      if n < 65536 then .ok n
      else .error (.convError loc (s ++ " is not a valid option code"))
  | none => .error (.convError loc (s ++ " is not a valid option code"))

/-- Modelled from the spec: `EvalContext::convertOptionName` — the option
name registry resolves a bare option name to its numeric code; a failed
lookup is a ConversionError. -/
def EvalContext.convertOptionName (ctx : EvalContext) (s : String) (loc : Loc) :
    Except ParseError Nat :=
  match ctx.option_names.lookup s with
  | some n => .ok n
  | none => .error (.convError loc ("option name " ++ s ++ " is not known"))

/-- Modelled from the spec: `EvalContext::convertNestLevelNumber` — the
nest level is stored as an 8-bit value (`uint8_t` in the parser). -/
def EvalContext.convertNestLevelNumber (_ctx : EvalContext) (s : String) (loc : Loc) :
    Except ParseError Nat :=
  match decNat? s with
  | some n =>
      if n < 256 then .ok n
      else .error (.convError loc (s ++ " is not a valid nest level"))
  | none => .error (.convError loc (s ++ " is not a valid nest level"))

/-- Semantic value of a grammar symbol (the variant value in the generated
parser: strings for literal terminals, fixed-width integers and enum values
for the typed nonterminals). -/
inductive YYVal
  | vnone
  | vstr (s : String)
  | vu8 (n : Nat)
  | vu16 (n : Nat)
  | vu32 (n : Nat)
  | vrep (r : RepresentationType)
  | vmeta (m : MetadataType)
  | vpkt4 (f : Pkt4Field)
  | vpkt6 (f : Pkt6Field)
  | vrel6 (f : Relay6FieldType)
deriving DecidableEq, Repr

/-- `value.as<std::string>()`. -/
def YYVal.asStr : YYVal → String
  | .vstr s => s
  | _ => ""

/-- `value.as<uint8_t>()`. -/
def YYVal.asU8 : YYVal → Nat
  | .vu8 n => n
  | _ => 0

/-- `value.as<uint16_t>()`. -/
def YYVal.asU16 : YYVal → Nat
  | .vu16 n => n
  | _ => 0

/-- `value.as<uint32_t>()`. -/
def YYVal.asU32 : YYVal → Nat
  | .vu32 n => n
  | _ => 0

/-- `value.as<TokenOption::RepresentationType>()`. -/
def YYVal.asRep : YYVal → RepresentationType
  | .vrep r => r
  | _ => .TEXTUAL

/-- `value.as<TokenPkt::MetadataType>()`. -/
def YYVal.asMeta : YYVal → MetadataType
  | .vmeta m => m
  | _ => .IFACE

/-- `value.as<TokenPkt4::FieldType>()`. -/
def YYVal.asPkt4 : YYVal → Pkt4Field
  | .vpkt4 f => f
  | _ => .CHADDR

/-- `value.as<TokenPkt6::FieldType>()`. -/
def YYVal.asPkt6 : YYVal → Pkt6Field
  | .vpkt6 f => f
  | _ => .MSGTYPE

/-- `value.as<TokenRelay6Field::FieldType>()`. -/
def YYVal.asRel6 : YYVal → Relay6FieldType
  | .vrel6 f => f
  | _ => .PEERADDR

/-- Terminal symbols of the expression grammar, numbered 0..51 as in
`yytname_`; the literal terminals 47..51 carry their lexeme. -/
inductive Terminal
  | tEndOfFile
  | tErrorTok
  | tUndef
  | tLParen
  | tRParen
  | tNot
  | tAnd
  | tOr
  | tEqual
  | tOption
  | tRelay4
  | tRelay6
  | tPeerAddr
  | tLinkAddr
  | tLBracket
  | tRBracket
  | tDot
  | tText
  | tHex
  | tExists
  | tPkt
  | tIface
  | tSrc
  | tDst
  | tLen
  | tPkt4
  | tMac
  | tHlen
  | tHtype
  | tCiaddr
  | tGiaddr
  | tYiaddr
  | tSiaddr
  | tSubstring
  | tAll
  | tComma
  | tConcat
  | tPkt6
  | tMsgType
  | tTransId
  | tVendorClass
  | tVendor
  | tStar
  | tData
  | tEnterprise
  | tTopLevelBool
  | tTopLevelString
  | tString (s : String)
  | tInteger (s : String)
  | tHexString (s : String)
  | tOptionName (s : String)
  | tIpAddress (s : String)

/-- Terminal symbol number (`type_get()`), matching `yytname_` order. -/
def Terminal.num : Terminal → Nat
  | .tEndOfFile => 0
  | .tErrorTok => 1
  | .tUndef => 2
  | .tLParen => 3
  | .tRParen => 4
  | .tNot => 5
  | .tAnd => 6
  | .tOr => 7
  | .tEqual => 8
  | .tOption => 9
  | .tRelay4 => 10
  | .tRelay6 => 11
  | .tPeerAddr => 12
  | .tLinkAddr => 13
  | .tLBracket => 14
  | .tRBracket => 15
  | .tDot => 16
  | .tText => 17
  | .tHex => 18
  | .tExists => 19
  | .tPkt => 20
  | .tIface => 21
  | .tSrc => 22
  | .tDst => 23
  | .tLen => 24
  | .tPkt4 => 25
  | .tMac => 26
  | .tHlen => 27
  | .tHtype => 28
  | .tCiaddr => 29
  | .tGiaddr => 30
  | .tYiaddr => 31
  | .tSiaddr => 32
  | .tSubstring => 33
  | .tAll => 34
  | .tComma => 35
  | .tConcat => 36
  | .tPkt6 => 37
  | .tMsgType => 38
  | .tTransId => 39
  | .tVendorClass => 40
  | .tVendor => 41
  | .tStar => 42
  | .tData => 43
  | .tEnterprise => 44
  | .tTopLevelBool => 45
  | .tTopLevelString => 46
  | .tString _ => 47
  | .tInteger _ => 48
  | .tHexString _ => 49
  | .tOptionName _ => 50
  | .tIpAddress _ => 51

/-- Semantic value a terminal carries onto the stack when shifted (the
five literal terminals carry their lexeme string). -/
def Terminal.val : Terminal → YYVal
  | .tString s => .vstr s
  | .tInteger s => .vstr s
  | .tHexString s => .vstr s
  | .tOptionName s => .vstr s
  | .tIpAddress s => .vstr s
  | _ => .vnone
/-- Bison table `yypact_` (copied from parser.cc). -/
def yypact_ : List Int :=
  [-23, 41, 41, 36, 41, 41, 28, 31, 35, 56, 60, 92, 93, 84, -8, 59, -98, -98, -98, -98, -98, 47, 55, -98, -98, 47, 55, -98, 58, -98, 43, 43, 61, 17, -14, 88, 88, 48, -22, 73, -22, 74, 41, 41, 88, -98, -98, -98, 107, 108, -98, 111, -98, -98, -98, -98, -98, -98, -98, -98, -98, -98, -98, -98, -98, -98, -98, 113, 116, 117, 91, 96, 71, 98, -98, -98, -98, -98, -98, 119, -98, 123, -98, -98, 126, -98, 124, 125, 127, 43, 43, 61, -22, -22, 94, 88, 128, 129, 52, 66, 18, 131, 132, 133, 134, 135, -98, 118, 147, -15, 2, -98, -98, -98, -98, -98, -98, 138, -98, -98, -98, 139, 140, 141, 142, 143, -29, -98, -98, 146, 148, -98, 43, 62, 62, 20, 120, 145, -98, -98, 157, 121, 43, 149, 151, 152, -98, 153, 155, 156, 43, 43, -98, 158, 85, 160, 161, 97, -98, -98, 162, 163, -98, -98, 62, 62]

/-- Bison table `yydefact_` (copied from parser.cc). -/
def yydefact_ : List Int :=
  [0, 0, 0, 0, 0, 0, 0, 0, 0, 0, 0, 0, 0, 0, 0, 0, 18, 36, 19, 20, 2, 6, 0, 35, 3, 4, 5, 1, 0, 8, 0, 0, 0, 0, 0, 0, 0, 0, 0, 0, 0, 0, 0, 0, 0, 7, 37, 38, 0, 0, 41, 0, 42, 43, 44, 45, 24, 48, 49, 50, 51, 52, 53, 54, 55, 56, 25, 0, 0, 0, 0, 0, 0, 0, 57, 58, 26, 47, 46, 0, 31, 0, 30, 9, 10, 11, 0, 0, 0, 0, 0, 0, 0, 0, 0, 0, 0, 0, 0, 0, 0, 0, 0, 0, 0, 0, 61, 0, 0, 0, 0, 39, 40, 12, 21, 13, 22, 0, 59, 60, 27, 0, 0, 0, 0, 0, 0, 29, 15, 33, 0, 16, 0, 0, 0, 0, 0, 0, 63, 62, 0, 0, 0, 0, 0, 0, 28, 0, 0, 0, 0, 0, 34, 0, 0, 0, 0, 0, 14, 23, 0, 0, 17, 32, 0, 0]

/-- Bison table `yypgoto_` (copied from parser.cc). -/
def yypgoto_ : List Int :=
  [-98, -98, -98, -98, 5, -1, -98, -31, -97, 76, -98, -37, -98, -98, -98, -98, -98]

/-- Bison table `yydefgoto_` (copied from parser.cc). -/
def yydefgoto_ : List Int :=
  [-1, 3, 24, 20, 21, 22, 23, 48, 114, 51, 56, 79, 66, 76, 120, 107, 140]

/-- Bison table `yytable_` (copied from parser.cc). -/
def yytable_ : List Int :=
  [49, 26, 116, 81, 128, 138, 38, 25, 39, 28, 29, 130, 57, 58, 59, 60, 61, 62, 63, 139, 77, 131, 1, 2, 64, 65, 78, 117, 129, 144, 118, 119, 118, 119, 72, 73, 27, 116, 52, 53, 54, 55, 30, 85, 4, 31, 5, 83, 84, 32, 6, 7, 8, 42, 43, 104, 105, 159, 101, 102, 163, 9, 45, 44, 42, 43, 10, 159, 163, 111, 112, 113, 33, 40, 11, 41, 34, 12, 13, 111, 112, 14, 15, 111, 112, 115, 74, 75, 16, 17, 18, 46, 19, 47, 108, 35, 36, 67, 68, 69, 37, 143, 111, 112, 158, 92, 94, 39, 9, 50, 93, 148, 41, 10, 111, 112, 162, 80, 82, 155, 156, 11, 86, 87, 12, 13, 88, 89, 70, 71, 90, 91, 42, 95, 96, 16, 17, 18, 97, 19, 98, 99, 106, 100, 109, 110, 121, 122, 123, 124, 125, 127, 132, 126, 145, 133, 134, 135, 136, 137, 141, 146, 142, 129, 149, 150, 151, 103, 152, 147, 153, 0, 154, 0, 157, 160, 161, 0, 164, 165]

/-- Bison table `yycheck_` (copied from parser.cc). -/
def yycheck_ : List Int :=
  [31, 2, 99, 40, 19, 34, 14, 2, 16, 4, 5, 9, 26, 27, 28, 29, 30, 31, 32, 48, 42, 19, 45, 46, 38, 39, 48, 9, 43, 9, 12, 13, 12, 13, 35, 36, 0, 134, 21, 22, 23, 24, 14, 44, 3, 14, 5, 42, 43, 14, 9, 10, 11, 6, 7, 92, 93, 154, 89, 90, 157, 20, 4, 8, 6, 7, 25, 164, 165, 17, 18, 19, 16, 14, 33, 16, 16, 36, 37, 17, 18, 40, 41, 17, 18, 19, 38, 39, 47, 48, 49, 48, 51, 50, 95, 3, 3, 9, 10, 11, 16, 132, 17, 18, 19, 14, 35, 16, 20, 48, 14, 142, 16, 25, 17, 18, 19, 44, 44, 150, 151, 33, 15, 15, 36, 37, 15, 14, 40, 41, 14, 14, 6, 35, 15, 47, 48, 49, 15, 51, 16, 16, 48, 16, 16, 16, 15, 15, 15, 15, 15, 4, 14, 35, 9, 16, 16, 16, 16, 16, 14, 4, 14, 43, 15, 14, 14, 91, 15, 48, 15, -1, 16, -1, 16, 15, 15, -1, 16, 16]

/-- Bison table `yystos_` (copied from parser.cc). -/
def yystos_ : List Int :=
  [0, 45, 46, 53, 3, 5, 9, 10, 11, 20, 25, 33, 36, 37, 40, 41, 47, 48, 49, 51, 55, 56, 57, 58, 54, 56, 57, 0, 56, 56, 14, 14, 14, 16, 16, 3, 3, 16, 14, 16, 14, 16, 6, 7, 8, 4, 48, 50, 59, 59, 48, 61, 21, 22, 23, 24, 62, 26, 27, 28, 29, 30, 31, 32, 38, 39, 64, 9, 10, 11, 40, 41, 57, 57, 38, 39, 65, 42, 48, 63, 44, 63, 44, 56, 56, 57, 15, 15, 15, 14, 14, 14, 14, 14, 35, 35, 15, 15, 16, 16, 16, 59, 59, 61, 63, 63, 48, 67, 57, 16, 16, 17, 18, 19, 60, 19, 60, 9, 12, 13, 66, 15, 15, 15, 15, 15, 35, 4, 19, 43, 9, 19, 14, 16, 16, 16, 16, 16, 34, 48, 68, 14, 14, 59, 9, 9, 4, 48, 59, 15, 14, 14, 15, 15, 16, 59, 59, 16, 19, 60, 15, 15, 19, 60, 16, 16]

/-- Bison table `yyr1_`: left-hand-side symbol of each rule (copied from parser.cc). -/
def yyr1_ : List Int :=
  [0, 52, 53, 53, 54, 54, 55, 56, 56, 56, 56, 56, 56, 56, 56, 56, 56, 56, 57, 57, 57, 57, 57, 57, 57, 57, 57, 57, 57, 57, 57, 57, 57, 57, 57, 57, 58, 59, 59, 60, 60, 61, 62, 62, 62, 62, 63, 63, 64, 64, 64, 64, 64, 64, 64, 64, 64, 65, 65, 66, 66, 67, 68, 68]

/-- Bison table `yyr2_`: right-hand-side length of each rule (copied from parser.cc). -/
def yyr2_ : List Int :=
  [0, 2, 2, 2, 1, 1, 1, 3, 2, 3, 3, 3, 6, 6, 11, 6, 6, 11, 1, 1, 1, 6, 6, 11, 3, 3, 3, 6, 8, 6, 3, 3, 11, 6, 9, 1, 1, 1, 1, 1, 1, 1, 1, 1, 1, 1, 1, 1, 1, 1, 1, 1, 1, 1, 1, 1, 1, 1, 1, 1, 1, 1, 1, 1]

/-- Symbol names `yytname_` (copied from parser.cc). -/
def yytname_ : List String :=
  ["\"end of file\"", "error", "$undefined", "\"(\"", "\")\"", "\"not\"", "\"and\"", "\"or\"", "\"==\"", "\"option\"", "\"relay4\"", "\"relay6\"", "\"peeraddr\"", "\"linkaddr\"", "\"[\"", "\"]\"", "\".\"", "\"text\"", "\"hex\"", "\"exists\"", "\"pkt\"", "\"iface\"", "\"src\"", "\"dst\"", "\"len\"", "\"pkt4\"", "\"mac\"", "\"hlen\"", "\"htype\"", "\"ciaddr\"", "\"giaddr\"", "\"yiaddr\"", "\"siaddr\"", "\"substring\"", "\"all\"", "\",\"", "\"concat\"", "\"pkt6\"", "\"msgtype\"", "\"transid\"", "\"vendor-class\"", "\"vendor\"", "\"*\"", "\"data\"", "\"enterprise\"", "\"top-level bool\"", "\"top-level string\"", "\"constant string\"", "\"integer\"", "\"constant hexstring\"", "\"option name\"", "\"ip address\"", "$accept", "start", "string_expression", "expression", "bool_expr", "string_expr", "integer_expr", "option_code", "option_repr_type", "nest_level", "pkt_metadata", "enterprise_id", "pkt4_field", "pkt6_field", "relay6_field", "start_expr", "length_expr"]


/-- `yypact_ninf_` (from parser.cc). -/
def yypact_ninf_ : Int := -98

/-- `yytable_ninf_` (from parser.cc). -/
def yytable_ninf_ : Int := -1

/-- `yylast_`: highest index in `yytable_`/`yycheck_`. -/
def yylast_ : Nat := 179

/-- `yyntokens_`: number of terminal symbols. -/
def yyntokens_ : Nat := 52

/-- `yyterror_`: the error pseudo-terminal. -/
def yyterror_ : Nat := 1

/-- `yyfinal_`: the accepting state (the unique state whose accessing
symbol, per `yystos_`, is the end-of-file terminal). -/
def yyfinal_ : Nat := 27

/-- One entry of the parser stack: state, semantic value and location. -/
structure StackEntry where
  state : Nat
  val : YYVal
  loc : Loc
deriving DecidableEq, Repr

/-- `yystack_[k]` — the k-th entry from the top of the stack. -/
def stkGet (stk : List StackEntry) (k : Nat) : StackEntry :=
  stk.getD k ⟨0, .vnone, ⟨0, 0⟩⟩

/-- `EvalParser::yy_lr_goto_state_`. -/
def yyLrGotoState (state : Nat) (sym : Nat) : Nat :=
  let yyr : Int := yypgoto_.getD (sym - yyntokens_) 0 + Int.ofNat state
  if 0 ≤ yyr ∧ yyr ≤ Int.ofNat yylast_ ∧
      yycheck_.getD yyr.toNat (-2) = Int.ofNat state then
    (yytable_.getD yyr.toNat 0).toNat
  else
    (yydefgoto_.getD (sym - yyntokens_) 0).toNat

/-- The semantic action of each reduction, translated case by case from the
`switch (yyn)` block of `EvalParser::parse` (rules 8-63; rules without an
action leave the program untouched and produce no value). `stk` is the
parser stack at the moment of the reduction, so `stkGet stk k` is
`yystack_[k]`. On a grammar rule whose action calls `error(...)` (the
protocol-family gates) or whose conversion helper fails, the action raises
the error and nothing is appended. -/
def reduceAction (rule : Nat) (stk : List StackEntry) (ctx : EvalContext) :
    Except ParseError (YYVal × EvalContext) :=
  match rule with
  | 8 => .ok (.vnone, emit .TokenNot ctx)
  | 9 => .ok (.vnone, emit .TokenAnd ctx)
  | 10 => .ok (.vnone, emit .TokenOr ctx)
  | 11 => .ok (.vnone, emit .TokenEqual ctx)
  | 12 => .ok (.vnone, emit (.TokenOption (stkGet stk 3).val.asU16 .EXISTS) ctx)
  | 13 =>
      match ctx.getUniverse with
      | .V4 => .ok (.vnone, emit (.TokenRelay4Option (stkGet stk 3).val.asU16 .EXISTS) ctx)
      | .V6 => .error (.semError (stkGet stk 5).loc "relay4 can only be used in DHCPv4.")
  | 14 =>
      match ctx.getUniverse with
      | .V6 => .ok (.vnone, emit (.TokenRelay6Option (stkGet stk 8).val.asU8
          (stkGet stk 3).val.asU16 .EXISTS) ctx)
      | .V4 => .error (.semError (stkGet stk 10).loc "relay6 can only be used in DHCPv6.")
  | 15 => .ok (.vnone, emit (.TokenVendorClass ctx.getUniverse (stkGet stk 3).val.asU32
      (.rep .EXISTS)) ctx)
  | 16 => .ok (.vnone, emit (.TokenVendor ctx.getUniverse (stkGet stk 3).val.asU32
      (.rep .EXISTS)) ctx)
  | 17 => .ok (.vnone, emit (.TokenVendorSub ctx.getUniverse (stkGet stk 8).val.asU32
      .EXISTS (stkGet stk 3).val.asU16) ctx)
  | 18 => .ok (.vnone, emit (.TokenString (stkGet stk 0).val.asStr) ctx)
  | 19 => .ok (.vnone, emit (.TokenHexString (stkGet stk 0).val.asStr) ctx)
  | 20 => .ok (.vnone, emit (.TokenIpAddress (stkGet stk 0).val.asStr) ctx)
  | 21 => .ok (.vnone, emit (.TokenOption (stkGet stk 3).val.asU16 (stkGet stk 0).val.asRep) ctx)
  | 22 =>
      match ctx.getUniverse with
      | .V4 => .ok (.vnone, emit (.TokenRelay4Option (stkGet stk 3).val.asU16
          (stkGet stk 0).val.asRep) ctx)
      | .V6 => .error (.semError (stkGet stk 5).loc "relay4 can only be used in DHCPv4.")
  | 23 =>
      match ctx.getUniverse with
      | .V6 => .ok (.vnone, emit (.TokenRelay6Option (stkGet stk 8).val.asU8
          (stkGet stk 3).val.asU16 (stkGet stk 0).val.asRep) ctx)
      | .V4 => .error (.semError (stkGet stk 10).loc "relay6 can only be used in DHCPv6.")
  | 24 => .ok (.vnone, emit (.TokenPkt (stkGet stk 0).val.asMeta) ctx)
  | 25 =>
      match ctx.getUniverse with
      | .V4 => .ok (.vnone, emit (.TokenPkt4 (stkGet stk 0).val.asPkt4) ctx)
      | .V6 => .error (.semError (stkGet stk 2).loc "pkt4 can only be used in DHCPv4.")
  | 26 =>
      match ctx.getUniverse with
      | .V6 => .ok (.vnone, emit (.TokenPkt6 (stkGet stk 0).val.asPkt6) ctx)
      | .V4 => .error (.semError (stkGet stk 2).loc "pkt6 can only be used in DHCPv6.")
  | 27 =>
      match ctx.getUniverse with
      | .V6 => .ok (.vnone, emit (.TokenRelay6Field (stkGet stk 3).val.asU8
          (stkGet stk 0).val.asRel6) ctx)
      | .V4 => .error (.semError (stkGet stk 5).loc "relay6 can only be used in DHCPv6.")
  | 28 => .ok (.vnone, emit .TokenSubstring ctx)
  | 29 => .ok (.vnone, emit .TokenConcat ctx)
  | 30 => .ok (.vnone, emit (.TokenVendor ctx.getUniverse 0 (.field .ENTERPRISE_ID)) ctx)
  | 31 => .ok (.vnone, emit (.TokenVendorClass ctx.getUniverse 0 (.field .ENTERPRISE_ID)) ctx)
  | 32 => .ok (.vnone, emit (.TokenVendorSub ctx.getUniverse (stkGet stk 8).val.asU32
      (stkGet stk 0).val.asRep (stkGet stk 3).val.asU16) ctx)
  | 33 => .ok (.vnone, emit (.TokenVendorClassData ctx.getUniverse (stkGet stk 3).val.asU32
      .DATA 0) ctx)
  | 34 =>
      match ctx.convertUint8 (stkGet stk 1).val.asStr (stkGet stk 1).loc with
      | .ok idx => .ok (.vnone, emit (.TokenVendorClassData ctx.getUniverse
          (stkGet stk 6).val.asU32 .DATA idx) ctx)
      | .error e => .error e
  | 35 => .ok (.vnone, emit (.TokenInteger (stkGet stk 0).val.asU32) ctx)
  | 36 =>
      match ctx.convertUint32 (stkGet stk 0).val.asStr (stkGet stk 0).loc with
      | .ok n => .ok (.vu32 n, ctx)
      | .error e => .error e
  | 37 =>
      match ctx.convertOptionCode (stkGet stk 0).val.asStr (stkGet stk 0).loc with
      | .ok n => .ok (.vu16 n, ctx)
      | .error e => .error e
  | 38 =>
      match ctx.convertOptionName (stkGet stk 0).val.asStr (stkGet stk 0).loc with
      | .ok n => .ok (.vu16 n, ctx)
      | .error e => .error e
  | 39 => .ok (.vrep .TEXTUAL, ctx)
  | 40 => .ok (.vrep .HEXADECIMAL, ctx)
  | 41 =>
      match ctx.convertNestLevelNumber (stkGet stk 0).val.asStr (stkGet stk 0).loc with
      | .ok n => .ok (.vu8 n, ctx)
      | .error e => .error e
  | 42 => .ok (.vmeta .IFACE, ctx)
  | 43 => .ok (.vmeta .SRC, ctx)
  | 44 => .ok (.vmeta .DST, ctx)
  | 45 => .ok (.vmeta .LEN, ctx)
  | 46 =>
      match ctx.convertUint32 (stkGet stk 0).val.asStr (stkGet stk 0).loc with
      | .ok n => .ok (.vu32 n, ctx)
      | .error e => .error e
  | 47 => .ok (.vu32 0, ctx)
  | 48 => .ok (.vpkt4 .CHADDR, ctx)
  | 49 => .ok (.vpkt4 .HLEN, ctx)
  | 50 => .ok (.vpkt4 .HTYPE, ctx)
  | 51 => .ok (.vpkt4 .CIADDR, ctx)
  | 52 => .ok (.vpkt4 .GIADDR, ctx)
  | 53 => .ok (.vpkt4 .YIADDR, ctx)
  | 54 => .ok (.vpkt4 .SIADDR, ctx)
  | 55 => .ok (.vpkt4 .MSGTYPE, ctx)
  | 56 => .ok (.vpkt4 .TRANSID, ctx)
  | 57 => .ok (.vpkt6 .MSGTYPE, ctx)
  | 58 => .ok (.vpkt6 .TRANSID, ctx)
  | 59 => .ok (.vrel6 .PEERADDR, ctx)
  | 60 => .ok (.vrel6 .LINKADDR, ctx)
  | 61 => .ok (.vnone, emit (.TokenString (stkGet stk 0).val.asStr) ctx)
  | 62 => .ok (.vnone, emit (.TokenString (stkGet stk 0).val.asStr) ctx)
  | 63 => .ok (.vnone, emit (.TokenString "all") ctx)
  | _ => .ok (.vnone, ctx)

/-- `EvalParser::yytnamerr_` inner loop: strip the outer double quotes of a
terminal name, bailing out (returning the original, signalled by `none`)
on an apostrophe (code 39), a comma, or a backslash not followed by a
backslash. -/
def yytnamerrStrip : List Char → String → Option String
  | [], _ => none
  | c :: cs, acc =>
      if c.toNat = 39 ∨ c = ',' then none
      else if c = '\\' then
        match cs with
        | '\\' :: cs2 => yytnamerrStrip cs2 (acc.push '\\')
        | _ => none
      else if c = '"' then some acc
      else yytnamerrStrip cs (acc.push c)

/-- `EvalParser::yytnamerr_`. -/
def yytnamerr (s : String) : String :=
  match s.toList with
  | '"' :: rest => (yytnamerrStrip rest "").getD s
  | _ => s

/-- The candidate expected terminals considered by
`EvalParser::yysyntax_error_`: the loop over `yyx` with its bounds and
filters (skip the error pseudo-terminal and table error entries). -/
def synCandidates (ystate : Nat) : List Nat :=
  let yyn : Int := yypact_.getD ystate 0
  if yyn = yypact_ninf_ then []
  else
    let yyxbegin : Nat := if yyn < 0 then (-yyn).toNat else 0
    let yychecklim : Int := Int.ofNat yylast_ - yyn + 1
    let yyxend : Nat := if yychecklim < Int.ofNat yyntokens_ then yychecklim.toNat else yyntokens_
    (List.range yyxend).filter (fun yyx =>
      decide (yyxbegin ≤ yyx) &&
      (yycheck_.getD (Int.ofNat yyx + yyn).toNat (-2) == Int.ofNat yyx) &&
      !(yyx == yyterror_) &&
      !(yytable_.getD (Int.ofNat yyx + yyn).toNat 0 == yytable_ninf_))

/-- The argument-collection loop of `yysyntax_error_`: starting from
`yycount = 1` (the unexpected terminal is argument 0), add one expected
terminal name per candidate; when a fifth argument would be exceeded
(`yycount == YYERROR_VERBOSE_ARGS_MAXIMUM`), reset the count to 1 and
stop. Returns the final `yycount` and the collected arguments. -/
def synArgsLoop : List Nat → Nat → List String → Nat × List String
  | [], c, args => (c, args)
  | x :: xs, c, args =>
      if c = 5 then (1, args)
      else synArgsLoop xs (c + 1) (args ++ [yytname_.getD x ""])

/-- The `yyformat` template selected by `yycount`, with each `%s` replaced
by `yytnamerr_` of the corresponding argument — the expansion of the
`YYCASE_`/substitution code at the end of `yysyntax_error_`. -/
def formatSynMsg (c : Nat) (args : List String) : String :=
  match c with
  | 0 => "syntax error"
  | 1 => "syntax error, unexpected " ++ yytnamerr (args.getD 0 "")
  | 2 => "syntax error, unexpected " ++ yytnamerr (args.getD 0 "") ++
      ", expecting " ++ yytnamerr (args.getD 1 "")
  | 3 => "syntax error, unexpected " ++ yytnamerr (args.getD 0 "") ++
      ", expecting " ++ yytnamerr (args.getD 1 "") ++ " or " ++ yytnamerr (args.getD 2 "")
  | 4 => "syntax error, unexpected " ++ yytnamerr (args.getD 0 "") ++
      ", expecting " ++ yytnamerr (args.getD 1 "") ++ " or " ++ yytnamerr (args.getD 2 "") ++
      " or " ++ yytnamerr (args.getD 3 "")
  | _ => "syntax error, unexpected " ++ yytnamerr (args.getD 0 "") ++
      ", expecting " ++ yytnamerr (args.getD 1 "") ++ " or " ++ yytnamerr (args.getD 2 "") ++
      " or " ++ yytnamerr (args.getD 3 "") ++ " or " ++ yytnamerr (args.getD 4 "")

/-- `EvalParser::yysyntax_error_`: the diagnostic for a syntax error in
state `ystate` with lookahead `yytoken` (`none` models an empty
lookahead). -/
def yysyntaxErrorMsg (ystate : Nat) (yytoken : Option Terminal) : String :=
  match yytoken with
  | none => "syntax error"
  | some t =>
      let res := synArgsLoop (synCandidates ystate) 1 [yytname_.getD t.num ""]
      formatSynMsg res.1 res.2

/-- One decision of the `EvalParser::parse` loop. -/
inductive YYStep
  | accept
  | abort (st : Nat) (l : Loc) (t : Option Terminal)
  | shift (st : Nat) (tl : Terminal × Loc) (rest : List (Terminal × Loc))
  | reduce (rule : Nat) (la2 : Option (Terminal × Loc)) (rest : List (Terminal × Loc))

/-- The control logic of one iteration of `EvalParser::parse`
(yynewstate/yybackup/yydefault): accept on the final state, otherwise
consult `yypact_`; on the default marker take the `yydefact_` reduction
without lookahead, otherwise read the lookahead and consult
`yycheck_`/`yytable_` to shift, reduce, or report a syntax error. -/
def yydecide (stk : List StackEntry) (la : Option (Terminal × Loc))
    (input : List (Terminal × Loc)) : YYStep :=
  let top := stkGet stk 0
  if top.state = yyfinal_ then .accept
  else
    let yyn : Int := yypact_.getD top.state 0
    if yyn = yypact_ninf_ then
      let rule := (yydefact_.getD top.state 0).toNat
      if rule = 0 then .abort top.state ⟨0, 0⟩ none
      else .reduce rule la input
    else
      let next : (Terminal × Loc) × List (Terminal × Loc) :=
        match la, input with
        | some tl, inp => (tl, inp)
        | none, [] => ((.tEndOfFile, ⟨0, 0⟩), [])
        | none, tl :: rest => (tl, rest)
      let tl := next.1
      let input2 := next.2
      let tn : Int := Int.ofNat tl.1.num
      let idx : Int := yyn + tn
      if idx < 0 ∨ Int.ofNat yylast_ < idx ∨ yycheck_.getD idx.toNat (-2) ≠ tn then
        let rule := (yydefact_.getD top.state 0).toNat
        if rule = 0 then .abort top.state tl.2 (some tl.1)
        else .reduce rule (some tl) input2
      else
        let act : Int := yytable_.getD idx.toNat 0
        if act ≤ 0 then
          if act = yytable_ninf_ then .abort top.state tl.2 (some tl.1)
          else .reduce (-act).toNat (some tl) input2
        else .shift act.toNat tl input2

/-- The parse loop of `EvalParser::parse` (lalr1.cc skeleton): fueled
shift/reduce driver over the tables. `stk` is the parser stack (head =
top), `la` the pending lookahead, `input` the remaining lexer output. A
reduction pops `yyr2_[rule]` entries, runs the semantic action, and pushes
the goto state with the merged location (`YYLLOC_DEFAULT`). Since
`EvalContext::error` throws, a detected syntax error aborts the parse with
the `yysyntax_error_` message at the lookahead location, and a semantic
action error propagates out; the skeleton error-recovery code is
therefore unreachable and not modelled. -/
def yyparse (fuel : Nat) (ctx : EvalContext) (stk : List StackEntry)
    (la : Option (Terminal × Loc)) (input : List (Terminal × Loc)) :
    Except ParseError EvalContext :=
  match fuel with
  | 0 => .error .fuelExhausted
  | Nat.succ fuel =>
      match yydecide stk la input with
      | .accept => .ok ctx
      | .abort st l t => .error (.synError l (yysyntaxErrorMsg st t))
      | .shift st tl rest => yyparse fuel ctx (⟨st, tl.1.val, tl.2⟩ :: stk) none rest
      | .reduce rule la2 rest =>
          let len := (yyr2_.getD rule 0).toNat
          let lhsLoc : Loc :=
            if len = 0 then ⟨(stkGet stk 0).loc.hi, (stkGet stk 0).loc.hi⟩
            else ⟨(stkGet stk (len - 1)).loc.lo, (stkGet stk 0).loc.hi⟩
          let gotoSt := yyLrGotoState (stkGet stk len).state (yyr1_.getD rule 0).toNat
          match reduceAction rule stk ctx with
          | .error e => .error e
          | .ok (val, ctx2) =>
              yyparse fuel ctx2 (⟨gotoSt, val, lhsLoc⟩ :: stk.drop len) la2 rest

/-- Attach locations to a terminal list: the i-th terminal spans ⟨i, i⟩. -/
def locate (ts : List Terminal) : List (Terminal × Loc) :=
  ts.enum.map (fun p => (p.2, ⟨p.1, p.1⟩))

/-- Compile a located token stream under protocol family `u` (the lexer
emits the top-level marker first and the end-of-file terminal last), and
return the emitted token program. -/
def parseToks (u : Universe) (ts : List Terminal) : Except ParseError (List Token) :=
  match yyparse 500 ⟨u, [], []⟩ [⟨0, .vnone, ⟨0, 0⟩⟩] none (locate ts) with
  | .ok ctx => .ok ctx.expression
  | .error e => .error e

theorem yyparse_succ_decide (fuel : Nat) (ctx : EvalContext) (stk : List StackEntry)
    (la : Option (Terminal × Loc)) (input : List (Terminal × Loc)) :
    yyparse (fuel + 1) ctx stk la input =
      match yydecide stk la input with
      | .accept => .ok ctx
      | .abort st l t => .error (.synError l (yysyntaxErrorMsg st t))
      | .shift st tl rest => yyparse fuel ctx (⟨st, tl.1.val, tl.2⟩ :: stk) none rest
      | .reduce rule la2 rest =>
          let len := (yyr2_.getD rule 0).toNat
          let lhsLoc : Loc :=
            if len = 0 then ⟨(stkGet stk 0).loc.hi, (stkGet stk 0).loc.hi⟩
            else ⟨(stkGet stk (len - 1)).loc.lo, (stkGet stk 0).loc.hi⟩
          let gotoSt := yyLrGotoState (stkGet stk len).state (yyr1_.getD rule 0).toNat
          match reduceAction rule stk ctx with
          | .error e => .error e
          | .ok (val, ctx2) =>
              yyparse fuel ctx2 (⟨gotoSt, val, lhsLoc⟩ :: stk.drop len) la2 rest := rfl

theorem yyparse_step_accept (fuel : Nat) (ctx : EvalContext) (stk : List StackEntry)
    (la : Option (Terminal × Loc)) (input : List (Terminal × Loc))
    (hd : yydecide stk la input = .accept) :
    yyparse (fuel + 1) ctx stk la input = .ok ctx := by
  rw [yyparse_succ_decide, hd]

theorem yyparse_step_abort (fuel : Nat) (ctx : EvalContext) (stk : List StackEntry)
    (la : Option (Terminal × Loc)) (input : List (Terminal × Loc))
    (st : Nat) (l : Loc) (t : Option Terminal)
    (hd : yydecide stk la input = .abort st l t) :
    yyparse (fuel + 1) ctx stk la input = .error (.synError l (yysyntaxErrorMsg st t)) := by
  rw [yyparse_succ_decide, hd]

theorem yyparse_step_shift (fuel : Nat) (ctx : EvalContext) (stk : List StackEntry)
    (la : Option (Terminal × Loc)) (input : List (Terminal × Loc))
    (st : Nat) (tl : Terminal × Loc) (rest : List (Terminal × Loc)) (stk2 : List StackEntry)
    (hd : yydecide stk la input = .shift st tl rest)
    (hstk : (⟨st, tl.1.val, tl.2⟩ : StackEntry) :: stk = stk2) :
    yyparse (fuel + 1) ctx stk la input = yyparse fuel ctx stk2 none rest := by
  subst hstk
  rw [yyparse_succ_decide, hd]

theorem yyparse_step_reduce (fuel : Nat) (ctx : EvalContext) (stk : List StackEntry)
    (la : Option (Terminal × Loc)) (input : List (Terminal × Loc))
    (rule : Nat) (la2 : Option (Terminal × Loc)) (rest : List (Terminal × Loc))
    (val : YYVal) (ctx2 : EvalContext) (len : Nat) (lhsLoc : Loc) (gotoSt : Nat)
    (stk2 : List StackEntry)
    (hd : yydecide stk la input = .reduce rule la2 rest)
    (ha : reduceAction rule stk ctx = .ok (val, ctx2))
    (hlen : (yyr2_.getD rule 0).toNat = len)
    (hloc : (if len = 0 then (⟨(stkGet stk 0).loc.hi, (stkGet stk 0).loc.hi⟩ : Loc)
             else ⟨(stkGet stk (len - 1)).loc.lo, (stkGet stk 0).loc.hi⟩) = lhsLoc)
    (hgoto : yyLrGotoState (stkGet stk len).state (yyr1_.getD rule 0).toNat = gotoSt)
    (hstk : (⟨gotoSt, val, lhsLoc⟩ : StackEntry) :: stk.drop len = stk2) :
    yyparse (fuel + 1) ctx stk la input = yyparse fuel ctx2 stk2 la2 rest := by
  subst hlen hloc hgoto hstk
  rw [yyparse_succ_decide, hd]
  simp only [ha]

theorem yyparse_step_reduce_err (fuel : Nat) (ctx : EvalContext) (stk : List StackEntry)
    (la : Option (Terminal × Loc)) (input : List (Terminal × Loc))
    (rule : Nat) (la2 : Option (Terminal × Loc)) (rest : List (Terminal × Loc))
    (e : ParseError)
    (hd : yydecide stk la input = .reduce rule la2 rest)
    (ha : reduceAction rule stk ctx = .error e) :
    yyparse (fuel + 1) ctx stk la input = .error e := by
  rw [yyparse_succ_decide, hd]
  simp only [ha]


theorem reduceOk_append (rule : Nat) (stk : List StackEntry) (ctx : EvalContext)
    (val : YYVal) (ctx2 : EvalContext)
    (h : reduceAction rule stk ctx = .ok (val, ctx2)) :
    ∃ app : List Token, ctx2.expression = ctx.expression ++ app ∧ app.length ≤ 1 ∧
      ((8 ≤ rule ∧ rule ≤ 35) ∨ (61 ≤ rule ∧ rule ≤ 63) → app.length = 1) := by
  unfold reduceAction at h
  split at h
  all_goals try split at h
  all_goals first
    | (simp only [Except.ok.injEq, Prod.mk.injEq] at h
       obtain ⟨h1, h2⟩ := h
       subst h2
       first
         | exact ⟨_, rfl, by simp [emit], by simp [emit]⟩
         | (refine ⟨[], by simp, by simp, ?_⟩
            intro hc
            exfalso
            try simp only [imp_false] at *
            omega))
    | simp at h




def tokenFamilyOk (u : Universe) : Token → Prop
  | .TokenRelay4Option _ _ => u = .V4
  | .TokenPkt4 _ => u = .V4
  | .TokenRelay6Option _ _ _ => u = .V6
  | .TokenPkt6 _ => u = .V6
  | .TokenRelay6Field _ _ => u = .V6
  | _ => True

theorem reduceOk_family (rule : Nat) (stk : List StackEntry) (ctx : EvalContext)
    (val : YYVal) (ctx2 : EvalContext)
    (h : reduceAction rule stk ctx = .ok (val, ctx2)) :
    ∀ t ∈ ctx2.expression, t ∈ ctx.expression ∨ tokenFamilyOk ctx.option_universe t := by
  unfold reduceAction at h
  split at h
  all_goals try split at h
  all_goals first
    | (simp only [Except.ok.injEq, Prod.mk.injEq] at h
       obtain ⟨h1, h2⟩ := h
       subst h2
       intro t ht
       first
         | exact Or.inl ht
         | (simp only [emit, List.mem_append, List.mem_cons, List.not_mem_nil, or_false] at ht
            refine ht.imp id (fun hteq => ?_)
            subst hteq
            simp only [tokenFamilyOk]
            all_goals simp only [EvalContext.getUniverse] at *
            all_goals assumption))
    | simp at h

theorem yyparse_append (fuel : Nat) : ∀ (ctx : EvalContext) (stk : List StackEntry)
    (la : Option (Terminal × Loc)) (input : List (Terminal × Loc)) (ctx2 : EvalContext),
    yyparse fuel ctx stk la input = .ok ctx2 →
    ∃ app : List Token, ctx2.expression = ctx.expression ++ app := by
  induction fuel with
  | zero =>
      intro ctx stk la input ctx2 h
      simp [yyparse] at h
  | succ fuel ih =>
      intro ctx stk la input ctx2 h
      rw [yyparse] at h
      split at h
      · simp only [Except.ok.injEq] at h
        exact ⟨[], by rw [← h]; simp⟩
      · simp at h
      · exact ih _ _ _ _ _ h
      · split at h
        · simp at h
        · rename_i val ctxm heq
          obtain ⟨a1, h1, _⟩ := reduceOk_append _ _ _ _ _ heq
          obtain ⟨a2, h2⟩ := ih _ _ _ _ _ h
          exact ⟨a1 ++ a2, by rw [h2, h1, List.append_assoc]⟩

theorem run_or_and (x1 y1 x2 y2 x3 y3 : String) :
    yyparse 500 (EvalContext.mk Universe.V4 [] []) [StackEntry.mk 0 YYVal.vnone (Loc.mk 0 0)] none
      [(Terminal.tTopLevelBool, (Loc.mk 0 0)), ((Terminal.tString x1), (Loc.mk 1 1)), (Terminal.tEqual, (Loc.mk 2 2)), ((Terminal.tString y1), (Loc.mk 3 3)), (Terminal.tOr, (Loc.mk 4 4)), ((Terminal.tString x2), (Loc.mk 5 5)), (Terminal.tEqual, (Loc.mk 6 6)), ((Terminal.tString y2), (Loc.mk 7 7)), (Terminal.tAnd, (Loc.mk 8 8)), ((Terminal.tString x3), (Loc.mk 9 9)), (Terminal.tEqual, (Loc.mk 10 10)), ((Terminal.tString y3), (Loc.mk 11 11)), (Terminal.tEndOfFile, (Loc.mk 12 12))] =
    .ok (EvalContext.mk Universe.V4 [(Token.TokenString x1), (Token.TokenString y1), Token.TokenEqual, (Token.TokenString x2), (Token.TokenString y2), Token.TokenEqual, (Token.TokenString x3), (Token.TokenString y3), Token.TokenEqual, Token.TokenAnd, Token.TokenOr] []) := by
  exact ((yyparse_step_shift _ _ _ _ _ _ _ _ [(StackEntry.mk 1 YYVal.vnone (Loc.mk 0 0)), (StackEntry.mk 0 YYVal.vnone (Loc.mk 0 0))] (by rfl) (by rfl)).trans
  ((yyparse_step_shift _ _ _ _ _ _ _ _ [(StackEntry.mk 16 (YYVal.vstr x1) (Loc.mk 1 1)), (StackEntry.mk 1 YYVal.vnone (Loc.mk 0 0)), (StackEntry.mk 0 YYVal.vnone (Loc.mk 0 0))] (by rfl) (by rfl)).trans
  ((yyparse_step_reduce _ _ _ _ _ _ _ _ _ (EvalContext.mk Universe.V4 [(Token.TokenString x1)] []) _ _ _ [(StackEntry.mk 22 YYVal.vnone (Loc.mk 1 1)), (StackEntry.mk 1 YYVal.vnone (Loc.mk 0 0)), (StackEntry.mk 0 YYVal.vnone (Loc.mk 0 0))] (by rfl) (by rfl) (by rfl) (by rfl) (by rfl) (by rfl)).trans
  ((yyparse_step_shift _ _ _ _ _ _ _ _ [(StackEntry.mk 44 YYVal.vnone (Loc.mk 2 2)), (StackEntry.mk 22 YYVal.vnone (Loc.mk 1 1)), (StackEntry.mk 1 YYVal.vnone (Loc.mk 0 0)), (StackEntry.mk 0 YYVal.vnone (Loc.mk 0 0))] (by rfl) (by rfl)).trans
  ((yyparse_step_shift _ _ _ _ _ _ _ _ [(StackEntry.mk 16 (YYVal.vstr y1) (Loc.mk 3 3)), (StackEntry.mk 44 YYVal.vnone (Loc.mk 2 2)), (StackEntry.mk 22 YYVal.vnone (Loc.mk 1 1)), (StackEntry.mk 1 YYVal.vnone (Loc.mk 0 0)), (StackEntry.mk 0 YYVal.vnone (Loc.mk 0 0))] (by rfl) (by rfl)).trans
  ((yyparse_step_reduce _ _ _ _ _ _ _ _ _ (EvalContext.mk Universe.V4 [(Token.TokenString x1), (Token.TokenString y1)] []) _ _ _ [(StackEntry.mk 85 YYVal.vnone (Loc.mk 3 3)), (StackEntry.mk 44 YYVal.vnone (Loc.mk 2 2)), (StackEntry.mk 22 YYVal.vnone (Loc.mk 1 1)), (StackEntry.mk 1 YYVal.vnone (Loc.mk 0 0)), (StackEntry.mk 0 YYVal.vnone (Loc.mk 0 0))] (by rfl) (by rfl) (by rfl) (by rfl) (by rfl) (by rfl)).trans
  ((yyparse_step_reduce _ _ _ _ _ _ _ _ _ (EvalContext.mk Universe.V4 [(Token.TokenString x1), (Token.TokenString y1), Token.TokenEqual] []) _ _ _ [(StackEntry.mk 21 YYVal.vnone (Loc.mk 1 3)), (StackEntry.mk 1 YYVal.vnone (Loc.mk 0 0)), (StackEntry.mk 0 YYVal.vnone (Loc.mk 0 0))] (by rfl) (by rfl) (by rfl) (by rfl) (by rfl) (by rfl)).trans
  ((yyparse_step_shift _ _ _ _ _ _ _ _ [(StackEntry.mk 43 YYVal.vnone (Loc.mk 4 4)), (StackEntry.mk 21 YYVal.vnone (Loc.mk 1 3)), (StackEntry.mk 1 YYVal.vnone (Loc.mk 0 0)), (StackEntry.mk 0 YYVal.vnone (Loc.mk 0 0))] (by rfl) (by rfl)).trans
  ((yyparse_step_shift _ _ _ _ _ _ _ _ [(StackEntry.mk 16 (YYVal.vstr x2) (Loc.mk 5 5)), (StackEntry.mk 43 YYVal.vnone (Loc.mk 4 4)), (StackEntry.mk 21 YYVal.vnone (Loc.mk 1 3)), (StackEntry.mk 1 YYVal.vnone (Loc.mk 0 0)), (StackEntry.mk 0 YYVal.vnone (Loc.mk 0 0))] (by rfl) (by rfl)).trans
  ((yyparse_step_reduce _ _ _ _ _ _ _ _ _ (EvalContext.mk Universe.V4 [(Token.TokenString x1), (Token.TokenString y1), Token.TokenEqual, (Token.TokenString x2)] []) _ _ _ [(StackEntry.mk 22 YYVal.vnone (Loc.mk 5 5)), (StackEntry.mk 43 YYVal.vnone (Loc.mk 4 4)), (StackEntry.mk 21 YYVal.vnone (Loc.mk 1 3)), (StackEntry.mk 1 YYVal.vnone (Loc.mk 0 0)), (StackEntry.mk 0 YYVal.vnone (Loc.mk 0 0))] (by rfl) (by rfl) (by rfl) (by rfl) (by rfl) (by rfl)).trans
  ((yyparse_step_shift _ _ _ _ _ _ _ _ [(StackEntry.mk 44 YYVal.vnone (Loc.mk 6 6)), (StackEntry.mk 22 YYVal.vnone (Loc.mk 5 5)), (StackEntry.mk 43 YYVal.vnone (Loc.mk 4 4)), (StackEntry.mk 21 YYVal.vnone (Loc.mk 1 3)), (StackEntry.mk 1 YYVal.vnone (Loc.mk 0 0)), (StackEntry.mk 0 YYVal.vnone (Loc.mk 0 0))] (by rfl) (by rfl)).trans
  ((yyparse_step_shift _ _ _ _ _ _ _ _ [(StackEntry.mk 16 (YYVal.vstr y2) (Loc.mk 7 7)), (StackEntry.mk 44 YYVal.vnone (Loc.mk 6 6)), (StackEntry.mk 22 YYVal.vnone (Loc.mk 5 5)), (StackEntry.mk 43 YYVal.vnone (Loc.mk 4 4)), (StackEntry.mk 21 YYVal.vnone (Loc.mk 1 3)), (StackEntry.mk 1 YYVal.vnone (Loc.mk 0 0)), (StackEntry.mk 0 YYVal.vnone (Loc.mk 0 0))] (by rfl) (by rfl)).trans
  ((yyparse_step_reduce _ _ _ _ _ _ _ _ _ (EvalContext.mk Universe.V4 [(Token.TokenString x1), (Token.TokenString y1), Token.TokenEqual, (Token.TokenString x2), (Token.TokenString y2)] []) _ _ _ [(StackEntry.mk 85 YYVal.vnone (Loc.mk 7 7)), (StackEntry.mk 44 YYVal.vnone (Loc.mk 6 6)), (StackEntry.mk 22 YYVal.vnone (Loc.mk 5 5)), (StackEntry.mk 43 YYVal.vnone (Loc.mk 4 4)), (StackEntry.mk 21 YYVal.vnone (Loc.mk 1 3)), (StackEntry.mk 1 YYVal.vnone (Loc.mk 0 0)), (StackEntry.mk 0 YYVal.vnone (Loc.mk 0 0))] (by rfl) (by rfl) (by rfl) (by rfl) (by rfl) (by rfl)).trans
  ((yyparse_step_reduce _ _ _ _ _ _ _ _ _ (EvalContext.mk Universe.V4 [(Token.TokenString x1), (Token.TokenString y1), Token.TokenEqual, (Token.TokenString x2), (Token.TokenString y2), Token.TokenEqual] []) _ _ _ [(StackEntry.mk 84 YYVal.vnone (Loc.mk 5 7)), (StackEntry.mk 43 YYVal.vnone (Loc.mk 4 4)), (StackEntry.mk 21 YYVal.vnone (Loc.mk 1 3)), (StackEntry.mk 1 YYVal.vnone (Loc.mk 0 0)), (StackEntry.mk 0 YYVal.vnone (Loc.mk 0 0))] (by rfl) (by rfl) (by rfl) (by rfl) (by rfl) (by rfl)).trans
  ((yyparse_step_shift _ _ _ _ _ _ _ _ [(StackEntry.mk 42 YYVal.vnone (Loc.mk 8 8)), (StackEntry.mk 84 YYVal.vnone (Loc.mk 5 7)), (StackEntry.mk 43 YYVal.vnone (Loc.mk 4 4)), (StackEntry.mk 21 YYVal.vnone (Loc.mk 1 3)), (StackEntry.mk 1 YYVal.vnone (Loc.mk 0 0)), (StackEntry.mk 0 YYVal.vnone (Loc.mk 0 0))] (by rfl) (by rfl)).trans
  ((yyparse_step_shift _ _ _ _ _ _ _ _ [(StackEntry.mk 16 (YYVal.vstr x3) (Loc.mk 9 9)), (StackEntry.mk 42 YYVal.vnone (Loc.mk 8 8)), (StackEntry.mk 84 YYVal.vnone (Loc.mk 5 7)), (StackEntry.mk 43 YYVal.vnone (Loc.mk 4 4)), (StackEntry.mk 21 YYVal.vnone (Loc.mk 1 3)), (StackEntry.mk 1 YYVal.vnone (Loc.mk 0 0)), (StackEntry.mk 0 YYVal.vnone (Loc.mk 0 0))] (by rfl) (by rfl)).trans
  ((yyparse_step_reduce _ _ _ _ _ _ _ _ _ (EvalContext.mk Universe.V4 [(Token.TokenString x1), (Token.TokenString y1), Token.TokenEqual, (Token.TokenString x2), (Token.TokenString y2), Token.TokenEqual, (Token.TokenString x3)] []) _ _ _ [(StackEntry.mk 22 YYVal.vnone (Loc.mk 9 9)), (StackEntry.mk 42 YYVal.vnone (Loc.mk 8 8)), (StackEntry.mk 84 YYVal.vnone (Loc.mk 5 7)), (StackEntry.mk 43 YYVal.vnone (Loc.mk 4 4)), (StackEntry.mk 21 YYVal.vnone (Loc.mk 1 3)), (StackEntry.mk 1 YYVal.vnone (Loc.mk 0 0)), (StackEntry.mk 0 YYVal.vnone (Loc.mk 0 0))] (by rfl) (by rfl) (by rfl) (by rfl) (by rfl) (by rfl)).trans
  ((yyparse_step_shift _ _ _ _ _ _ _ _ [(StackEntry.mk 44 YYVal.vnone (Loc.mk 10 10)), (StackEntry.mk 22 YYVal.vnone (Loc.mk 9 9)), (StackEntry.mk 42 YYVal.vnone (Loc.mk 8 8)), (StackEntry.mk 84 YYVal.vnone (Loc.mk 5 7)), (StackEntry.mk 43 YYVal.vnone (Loc.mk 4 4)), (StackEntry.mk 21 YYVal.vnone (Loc.mk 1 3)), (StackEntry.mk 1 YYVal.vnone (Loc.mk 0 0)), (StackEntry.mk 0 YYVal.vnone (Loc.mk 0 0))] (by rfl) (by rfl)).trans
  ((yyparse_step_shift _ _ _ _ _ _ _ _ [(StackEntry.mk 16 (YYVal.vstr y3) (Loc.mk 11 11)), (StackEntry.mk 44 YYVal.vnone (Loc.mk 10 10)), (StackEntry.mk 22 YYVal.vnone (Loc.mk 9 9)), (StackEntry.mk 42 YYVal.vnone (Loc.mk 8 8)), (StackEntry.mk 84 YYVal.vnone (Loc.mk 5 7)), (StackEntry.mk 43 YYVal.vnone (Loc.mk 4 4)), (StackEntry.mk 21 YYVal.vnone (Loc.mk 1 3)), (StackEntry.mk 1 YYVal.vnone (Loc.mk 0 0)), (StackEntry.mk 0 YYVal.vnone (Loc.mk 0 0))] (by rfl) (by rfl)).trans
  ((yyparse_step_reduce _ _ _ _ _ _ _ _ _ (EvalContext.mk Universe.V4 [(Token.TokenString x1), (Token.TokenString y1), Token.TokenEqual, (Token.TokenString x2), (Token.TokenString y2), Token.TokenEqual, (Token.TokenString x3), (Token.TokenString y3)] []) _ _ _ [(StackEntry.mk 85 YYVal.vnone (Loc.mk 11 11)), (StackEntry.mk 44 YYVal.vnone (Loc.mk 10 10)), (StackEntry.mk 22 YYVal.vnone (Loc.mk 9 9)), (StackEntry.mk 42 YYVal.vnone (Loc.mk 8 8)), (StackEntry.mk 84 YYVal.vnone (Loc.mk 5 7)), (StackEntry.mk 43 YYVal.vnone (Loc.mk 4 4)), (StackEntry.mk 21 YYVal.vnone (Loc.mk 1 3)), (StackEntry.mk 1 YYVal.vnone (Loc.mk 0 0)), (StackEntry.mk 0 YYVal.vnone (Loc.mk 0 0))] (by rfl) (by rfl) (by rfl) (by rfl) (by rfl) (by rfl)).trans
  ((yyparse_step_reduce _ _ _ _ _ _ _ _ _ (EvalContext.mk Universe.V4 [(Token.TokenString x1), (Token.TokenString y1), Token.TokenEqual, (Token.TokenString x2), (Token.TokenString y2), Token.TokenEqual, (Token.TokenString x3), (Token.TokenString y3), Token.TokenEqual] []) _ _ _ [(StackEntry.mk 83 YYVal.vnone (Loc.mk 9 11)), (StackEntry.mk 42 YYVal.vnone (Loc.mk 8 8)), (StackEntry.mk 84 YYVal.vnone (Loc.mk 5 7)), (StackEntry.mk 43 YYVal.vnone (Loc.mk 4 4)), (StackEntry.mk 21 YYVal.vnone (Loc.mk 1 3)), (StackEntry.mk 1 YYVal.vnone (Loc.mk 0 0)), (StackEntry.mk 0 YYVal.vnone (Loc.mk 0 0))] (by rfl) (by rfl) (by rfl) (by rfl) (by rfl) (by rfl)).trans
  ((yyparse_step_reduce _ _ _ _ _ _ _ _ _ (EvalContext.mk Universe.V4 [(Token.TokenString x1), (Token.TokenString y1), Token.TokenEqual, (Token.TokenString x2), (Token.TokenString y2), Token.TokenEqual, (Token.TokenString x3), (Token.TokenString y3), Token.TokenEqual, Token.TokenAnd] []) _ _ _ [(StackEntry.mk 84 YYVal.vnone (Loc.mk 5 11)), (StackEntry.mk 43 YYVal.vnone (Loc.mk 4 4)), (StackEntry.mk 21 YYVal.vnone (Loc.mk 1 3)), (StackEntry.mk 1 YYVal.vnone (Loc.mk 0 0)), (StackEntry.mk 0 YYVal.vnone (Loc.mk 0 0))] (by rfl) (by rfl) (by rfl) (by rfl) (by rfl) (by rfl)).trans
  ((yyparse_step_reduce _ _ _ _ _ _ _ _ _ (EvalContext.mk Universe.V4 [(Token.TokenString x1), (Token.TokenString y1), Token.TokenEqual, (Token.TokenString x2), (Token.TokenString y2), Token.TokenEqual, (Token.TokenString x3), (Token.TokenString y3), Token.TokenEqual, Token.TokenAnd, Token.TokenOr] []) _ _ _ [(StackEntry.mk 21 YYVal.vnone (Loc.mk 1 11)), (StackEntry.mk 1 YYVal.vnone (Loc.mk 0 0)), (StackEntry.mk 0 YYVal.vnone (Loc.mk 0 0))] (by rfl) (by rfl) (by rfl) (by rfl) (by rfl) (by rfl)).trans
  ((yyparse_step_reduce _ _ _ _ _ _ _ _ _ (EvalContext.mk Universe.V4 [(Token.TokenString x1), (Token.TokenString y1), Token.TokenEqual, (Token.TokenString x2), (Token.TokenString y2), Token.TokenEqual, (Token.TokenString x3), (Token.TokenString y3), Token.TokenEqual, Token.TokenAnd, Token.TokenOr] []) _ _ _ [(StackEntry.mk 20 YYVal.vnone (Loc.mk 1 11)), (StackEntry.mk 1 YYVal.vnone (Loc.mk 0 0)), (StackEntry.mk 0 YYVal.vnone (Loc.mk 0 0))] (by rfl) (by rfl) (by rfl) (by rfl) (by rfl) (by rfl)).trans
  ((yyparse_step_reduce _ _ _ _ _ _ _ _ _ (EvalContext.mk Universe.V4 [(Token.TokenString x1), (Token.TokenString y1), Token.TokenEqual, (Token.TokenString x2), (Token.TokenString y2), Token.TokenEqual, (Token.TokenString x3), (Token.TokenString y3), Token.TokenEqual, Token.TokenAnd, Token.TokenOr] []) _ _ _ [(StackEntry.mk 3 YYVal.vnone (Loc.mk 0 11)), (StackEntry.mk 0 YYVal.vnone (Loc.mk 0 0))] (by rfl) (by rfl) (by rfl) (by rfl) (by rfl) (by rfl)).trans
  ((yyparse_step_shift _ _ _ _ _ _ _ _ [(StackEntry.mk 27 YYVal.vnone (Loc.mk 12 12)), (StackEntry.mk 3 YYVal.vnone (Loc.mk 0 11)), (StackEntry.mk 0 YYVal.vnone (Loc.mk 0 0))] (by rfl) (by rfl)).trans
  (yyparse_step_accept _ _ _ _ _ (by rfl))))))))))))))))))))))))))))

theorem run_or_and_right (x1 y1 x2 y2 x3 y3 : String) :
    yyparse 500 (EvalContext.mk Universe.V4 [] []) [StackEntry.mk 0 YYVal.vnone (Loc.mk 0 0)] none
      [(Terminal.tTopLevelBool, (Loc.mk 0 0)), ((Terminal.tString x1), (Loc.mk 1 1)), (Terminal.tEqual, (Loc.mk 2 2)), ((Terminal.tString y1), (Loc.mk 3 3)), (Terminal.tOr, (Loc.mk 4 4)), (Terminal.tLParen, (Loc.mk 5 5)), ((Terminal.tString x2), (Loc.mk 6 6)), (Terminal.tEqual, (Loc.mk 7 7)), ((Terminal.tString y2), (Loc.mk 8 8)), (Terminal.tAnd, (Loc.mk 9 9)), ((Terminal.tString x3), (Loc.mk 10 10)), (Terminal.tEqual, (Loc.mk 11 11)), ((Terminal.tString y3), (Loc.mk 12 12)), (Terminal.tRParen, (Loc.mk 13 13)), (Terminal.tEndOfFile, (Loc.mk 14 14))] =
    .ok (EvalContext.mk Universe.V4 [(Token.TokenString x1), (Token.TokenString y1), Token.TokenEqual, (Token.TokenString x2), (Token.TokenString y2), Token.TokenEqual, (Token.TokenString x3), (Token.TokenString y3), Token.TokenEqual, Token.TokenAnd, Token.TokenOr] []) := by
  exact ((yyparse_step_shift _ _ _ _ _ _ _ _ [(StackEntry.mk 1 YYVal.vnone (Loc.mk 0 0)), (StackEntry.mk 0 YYVal.vnone (Loc.mk 0 0))] (by rfl) (by rfl)).trans
  ((yyparse_step_shift _ _ _ _ _ _ _ _ [(StackEntry.mk 16 (YYVal.vstr x1) (Loc.mk 1 1)), (StackEntry.mk 1 YYVal.vnone (Loc.mk 0 0)), (StackEntry.mk 0 YYVal.vnone (Loc.mk 0 0))] (by rfl) (by rfl)).trans
  ((yyparse_step_reduce _ _ _ _ _ _ _ _ _ (EvalContext.mk Universe.V4 [(Token.TokenString x1)] []) _ _ _ [(StackEntry.mk 22 YYVal.vnone (Loc.mk 1 1)), (StackEntry.mk 1 YYVal.vnone (Loc.mk 0 0)), (StackEntry.mk 0 YYVal.vnone (Loc.mk 0 0))] (by rfl) (by rfl) (by rfl) (by rfl) (by rfl) (by rfl)).trans
  ((yyparse_step_shift _ _ _ _ _ _ _ _ [(StackEntry.mk 44 YYVal.vnone (Loc.mk 2 2)), (StackEntry.mk 22 YYVal.vnone (Loc.mk 1 1)), (StackEntry.mk 1 YYVal.vnone (Loc.mk 0 0)), (StackEntry.mk 0 YYVal.vnone (Loc.mk 0 0))] (by rfl) (by rfl)).trans
  ((yyparse_step_shift _ _ _ _ _ _ _ _ [(StackEntry.mk 16 (YYVal.vstr y1) (Loc.mk 3 3)), (StackEntry.mk 44 YYVal.vnone (Loc.mk 2 2)), (StackEntry.mk 22 YYVal.vnone (Loc.mk 1 1)), (StackEntry.mk 1 YYVal.vnone (Loc.mk 0 0)), (StackEntry.mk 0 YYVal.vnone (Loc.mk 0 0))] (by rfl) (by rfl)).trans
  ((yyparse_step_reduce _ _ _ _ _ _ _ _ _ (EvalContext.mk Universe.V4 [(Token.TokenString x1), (Token.TokenString y1)] []) _ _ _ [(StackEntry.mk 85 YYVal.vnone (Loc.mk 3 3)), (StackEntry.mk 44 YYVal.vnone (Loc.mk 2 2)), (StackEntry.mk 22 YYVal.vnone (Loc.mk 1 1)), (StackEntry.mk 1 YYVal.vnone (Loc.mk 0 0)), (StackEntry.mk 0 YYVal.vnone (Loc.mk 0 0))] (by rfl) (by rfl) (by rfl) (by rfl) (by rfl) (by rfl)).trans
  ((yyparse_step_reduce _ _ _ _ _ _ _ _ _ (EvalContext.mk Universe.V4 [(Token.TokenString x1), (Token.TokenString y1), Token.TokenEqual] []) _ _ _ [(StackEntry.mk 21 YYVal.vnone (Loc.mk 1 3)), (StackEntry.mk 1 YYVal.vnone (Loc.mk 0 0)), (StackEntry.mk 0 YYVal.vnone (Loc.mk 0 0))] (by rfl) (by rfl) (by rfl) (by rfl) (by rfl) (by rfl)).trans
  ((yyparse_step_shift _ _ _ _ _ _ _ _ [(StackEntry.mk 43 YYVal.vnone (Loc.mk 4 4)), (StackEntry.mk 21 YYVal.vnone (Loc.mk 1 3)), (StackEntry.mk 1 YYVal.vnone (Loc.mk 0 0)), (StackEntry.mk 0 YYVal.vnone (Loc.mk 0 0))] (by rfl) (by rfl)).trans
  ((yyparse_step_shift _ _ _ _ _ _ _ _ [(StackEntry.mk 4 YYVal.vnone (Loc.mk 5 5)), (StackEntry.mk 43 YYVal.vnone (Loc.mk 4 4)), (StackEntry.mk 21 YYVal.vnone (Loc.mk 1 3)), (StackEntry.mk 1 YYVal.vnone (Loc.mk 0 0)), (StackEntry.mk 0 YYVal.vnone (Loc.mk 0 0))] (by rfl) (by rfl)).trans
  ((yyparse_step_shift _ _ _ _ _ _ _ _ [(StackEntry.mk 16 (YYVal.vstr x2) (Loc.mk 6 6)), (StackEntry.mk 4 YYVal.vnone (Loc.mk 5 5)), (StackEntry.mk 43 YYVal.vnone (Loc.mk 4 4)), (StackEntry.mk 21 YYVal.vnone (Loc.mk 1 3)), (StackEntry.mk 1 YYVal.vnone (Loc.mk 0 0)), (StackEntry.mk 0 YYVal.vnone (Loc.mk 0 0))] (by rfl) (by rfl)).trans
  ((yyparse_step_reduce _ _ _ _ _ _ _ _ _ (EvalContext.mk Universe.V4 [(Token.TokenString x1), (Token.TokenString y1), Token.TokenEqual, (Token.TokenString x2)] []) _ _ _ [(StackEntry.mk 22 YYVal.vnone (Loc.mk 6 6)), (StackEntry.mk 4 YYVal.vnone (Loc.mk 5 5)), (StackEntry.mk 43 YYVal.vnone (Loc.mk 4 4)), (StackEntry.mk 21 YYVal.vnone (Loc.mk 1 3)), (StackEntry.mk 1 YYVal.vnone (Loc.mk 0 0)), (StackEntry.mk 0 YYVal.vnone (Loc.mk 0 0))] (by rfl) (by rfl) (by rfl) (by rfl) (by rfl) (by rfl)).trans
  ((yyparse_step_shift _ _ _ _ _ _ _ _ [(StackEntry.mk 44 YYVal.vnone (Loc.mk 7 7)), (StackEntry.mk 22 YYVal.vnone (Loc.mk 6 6)), (StackEntry.mk 4 YYVal.vnone (Loc.mk 5 5)), (StackEntry.mk 43 YYVal.vnone (Loc.mk 4 4)), (StackEntry.mk 21 YYVal.vnone (Loc.mk 1 3)), (StackEntry.mk 1 YYVal.vnone (Loc.mk 0 0)), (StackEntry.mk 0 YYVal.vnone (Loc.mk 0 0))] (by rfl) (by rfl)).trans
  ((yyparse_step_shift _ _ _ _ _ _ _ _ [(StackEntry.mk 16 (YYVal.vstr y2) (Loc.mk 8 8)), (StackEntry.mk 44 YYVal.vnone (Loc.mk 7 7)), (StackEntry.mk 22 YYVal.vnone (Loc.mk 6 6)), (StackEntry.mk 4 YYVal.vnone (Loc.mk 5 5)), (StackEntry.mk 43 YYVal.vnone (Loc.mk 4 4)), (StackEntry.mk 21 YYVal.vnone (Loc.mk 1 3)), (StackEntry.mk 1 YYVal.vnone (Loc.mk 0 0)), (StackEntry.mk 0 YYVal.vnone (Loc.mk 0 0))] (by rfl) (by rfl)).trans
  ((yyparse_step_reduce _ _ _ _ _ _ _ _ _ (EvalContext.mk Universe.V4 [(Token.TokenString x1), (Token.TokenString y1), Token.TokenEqual, (Token.TokenString x2), (Token.TokenString y2)] []) _ _ _ [(StackEntry.mk 85 YYVal.vnone (Loc.mk 8 8)), (StackEntry.mk 44 YYVal.vnone (Loc.mk 7 7)), (StackEntry.mk 22 YYVal.vnone (Loc.mk 6 6)), (StackEntry.mk 4 YYVal.vnone (Loc.mk 5 5)), (StackEntry.mk 43 YYVal.vnone (Loc.mk 4 4)), (StackEntry.mk 21 YYVal.vnone (Loc.mk 1 3)), (StackEntry.mk 1 YYVal.vnone (Loc.mk 0 0)), (StackEntry.mk 0 YYVal.vnone (Loc.mk 0 0))] (by rfl) (by rfl) (by rfl) (by rfl) (by rfl) (by rfl)).trans
  ((yyparse_step_reduce _ _ _ _ _ _ _ _ _ (EvalContext.mk Universe.V4 [(Token.TokenString x1), (Token.TokenString y1), Token.TokenEqual, (Token.TokenString x2), (Token.TokenString y2), Token.TokenEqual] []) _ _ _ [(StackEntry.mk 28 YYVal.vnone (Loc.mk 6 8)), (StackEntry.mk 4 YYVal.vnone (Loc.mk 5 5)), (StackEntry.mk 43 YYVal.vnone (Loc.mk 4 4)), (StackEntry.mk 21 YYVal.vnone (Loc.mk 1 3)), (StackEntry.mk 1 YYVal.vnone (Loc.mk 0 0)), (StackEntry.mk 0 YYVal.vnone (Loc.mk 0 0))] (by rfl) (by rfl) (by rfl) (by rfl) (by rfl) (by rfl)).trans
  ((yyparse_step_shift _ _ _ _ _ _ _ _ [(StackEntry.mk 42 YYVal.vnone (Loc.mk 9 9)), (StackEntry.mk 28 YYVal.vnone (Loc.mk 6 8)), (StackEntry.mk 4 YYVal.vnone (Loc.mk 5 5)), (StackEntry.mk 43 YYVal.vnone (Loc.mk 4 4)), (StackEntry.mk 21 YYVal.vnone (Loc.mk 1 3)), (StackEntry.mk 1 YYVal.vnone (Loc.mk 0 0)), (StackEntry.mk 0 YYVal.vnone (Loc.mk 0 0))] (by rfl) (by rfl)).trans
  ((yyparse_step_shift _ _ _ _ _ _ _ _ [(StackEntry.mk 16 (YYVal.vstr x3) (Loc.mk 10 10)), (StackEntry.mk 42 YYVal.vnone (Loc.mk 9 9)), (StackEntry.mk 28 YYVal.vnone (Loc.mk 6 8)), (StackEntry.mk 4 YYVal.vnone (Loc.mk 5 5)), (StackEntry.mk 43 YYVal.vnone (Loc.mk 4 4)), (StackEntry.mk 21 YYVal.vnone (Loc.mk 1 3)), (StackEntry.mk 1 YYVal.vnone (Loc.mk 0 0)), (StackEntry.mk 0 YYVal.vnone (Loc.mk 0 0))] (by rfl) (by rfl)).trans
  ((yyparse_step_reduce _ _ _ _ _ _ _ _ _ (EvalContext.mk Universe.V4 [(Token.TokenString x1), (Token.TokenString y1), Token.TokenEqual, (Token.TokenString x2), (Token.TokenString y2), Token.TokenEqual, (Token.TokenString x3)] []) _ _ _ [(StackEntry.mk 22 YYVal.vnone (Loc.mk 10 10)), (StackEntry.mk 42 YYVal.vnone (Loc.mk 9 9)), (StackEntry.mk 28 YYVal.vnone (Loc.mk 6 8)), (StackEntry.mk 4 YYVal.vnone (Loc.mk 5 5)), (StackEntry.mk 43 YYVal.vnone (Loc.mk 4 4)), (StackEntry.mk 21 YYVal.vnone (Loc.mk 1 3)), (StackEntry.mk 1 YYVal.vnone (Loc.mk 0 0)), (StackEntry.mk 0 YYVal.vnone (Loc.mk 0 0))] (by rfl) (by rfl) (by rfl) (by rfl) (by rfl) (by rfl)).trans
  ((yyparse_step_shift _ _ _ _ _ _ _ _ [(StackEntry.mk 44 YYVal.vnone (Loc.mk 11 11)), (StackEntry.mk 22 YYVal.vnone (Loc.mk 10 10)), (StackEntry.mk 42 YYVal.vnone (Loc.mk 9 9)), (StackEntry.mk 28 YYVal.vnone (Loc.mk 6 8)), (StackEntry.mk 4 YYVal.vnone (Loc.mk 5 5)), (StackEntry.mk 43 YYVal.vnone (Loc.mk 4 4)), (StackEntry.mk 21 YYVal.vnone (Loc.mk 1 3)), (StackEntry.mk 1 YYVal.vnone (Loc.mk 0 0)), (StackEntry.mk 0 YYVal.vnone (Loc.mk 0 0))] (by rfl) (by rfl)).trans
  ((yyparse_step_shift _ _ _ _ _ _ _ _ [(StackEntry.mk 16 (YYVal.vstr y3) (Loc.mk 12 12)), (StackEntry.mk 44 YYVal.vnone (Loc.mk 11 11)), (StackEntry.mk 22 YYVal.vnone (Loc.mk 10 10)), (StackEntry.mk 42 YYVal.vnone (Loc.mk 9 9)), (StackEntry.mk 28 YYVal.vnone (Loc.mk 6 8)), (StackEntry.mk 4 YYVal.vnone (Loc.mk 5 5)), (StackEntry.mk 43 YYVal.vnone (Loc.mk 4 4)), (StackEntry.mk 21 YYVal.vnone (Loc.mk 1 3)), (StackEntry.mk 1 YYVal.vnone (Loc.mk 0 0)), (StackEntry.mk 0 YYVal.vnone (Loc.mk 0 0))] (by rfl) (by rfl)).trans
  ((yyparse_step_reduce _ _ _ _ _ _ _ _ _ (EvalContext.mk Universe.V4 [(Token.TokenString x1), (Token.TokenString y1), Token.TokenEqual, (Token.TokenString x2), (Token.TokenString y2), Token.TokenEqual, (Token.TokenString x3), (Token.TokenString y3)] []) _ _ _ [(StackEntry.mk 85 YYVal.vnone (Loc.mk 12 12)), (StackEntry.mk 44 YYVal.vnone (Loc.mk 11 11)), (StackEntry.mk 22 YYVal.vnone (Loc.mk 10 10)), (StackEntry.mk 42 YYVal.vnone (Loc.mk 9 9)), (StackEntry.mk 28 YYVal.vnone (Loc.mk 6 8)), (StackEntry.mk 4 YYVal.vnone (Loc.mk 5 5)), (StackEntry.mk 43 YYVal.vnone (Loc.mk 4 4)), (StackEntry.mk 21 YYVal.vnone (Loc.mk 1 3)), (StackEntry.mk 1 YYVal.vnone (Loc.mk 0 0)), (StackEntry.mk 0 YYVal.vnone (Loc.mk 0 0))] (by rfl) (by rfl) (by rfl) (by rfl) (by rfl) (by rfl)).trans
  ((yyparse_step_reduce _ _ _ _ _ _ _ _ _ (EvalContext.mk Universe.V4 [(Token.TokenString x1), (Token.TokenString y1), Token.TokenEqual, (Token.TokenString x2), (Token.TokenString y2), Token.TokenEqual, (Token.TokenString x3), (Token.TokenString y3), Token.TokenEqual] []) _ _ _ [(StackEntry.mk 83 YYVal.vnone (Loc.mk 10 12)), (StackEntry.mk 42 YYVal.vnone (Loc.mk 9 9)), (StackEntry.mk 28 YYVal.vnone (Loc.mk 6 8)), (StackEntry.mk 4 YYVal.vnone (Loc.mk 5 5)), (StackEntry.mk 43 YYVal.vnone (Loc.mk 4 4)), (StackEntry.mk 21 YYVal.vnone (Loc.mk 1 3)), (StackEntry.mk 1 YYVal.vnone (Loc.mk 0 0)), (StackEntry.mk 0 YYVal.vnone (Loc.mk 0 0))] (by rfl) (by rfl) (by rfl) (by rfl) (by rfl) (by rfl)).trans
  ((yyparse_step_reduce _ _ _ _ _ _ _ _ _ (EvalContext.mk Universe.V4 [(Token.TokenString x1), (Token.TokenString y1), Token.TokenEqual, (Token.TokenString x2), (Token.TokenString y2), Token.TokenEqual, (Token.TokenString x3), (Token.TokenString y3), Token.TokenEqual, Token.TokenAnd] []) _ _ _ [(StackEntry.mk 28 YYVal.vnone (Loc.mk 6 12)), (StackEntry.mk 4 YYVal.vnone (Loc.mk 5 5)), (StackEntry.mk 43 YYVal.vnone (Loc.mk 4 4)), (StackEntry.mk 21 YYVal.vnone (Loc.mk 1 3)), (StackEntry.mk 1 YYVal.vnone (Loc.mk 0 0)), (StackEntry.mk 0 YYVal.vnone (Loc.mk 0 0))] (by rfl) (by rfl) (by rfl) (by rfl) (by rfl) (by rfl)).trans
  ((yyparse_step_shift _ _ _ _ _ _ _ _ [(StackEntry.mk 45 YYVal.vnone (Loc.mk 13 13)), (StackEntry.mk 28 YYVal.vnone (Loc.mk 6 12)), (StackEntry.mk 4 YYVal.vnone (Loc.mk 5 5)), (StackEntry.mk 43 YYVal.vnone (Loc.mk 4 4)), (StackEntry.mk 21 YYVal.vnone (Loc.mk 1 3)), (StackEntry.mk 1 YYVal.vnone (Loc.mk 0 0)), (StackEntry.mk 0 YYVal.vnone (Loc.mk 0 0))] (by rfl) (by rfl)).trans
  ((yyparse_step_reduce _ _ _ _ _ _ _ _ _ (EvalContext.mk Universe.V4 [(Token.TokenString x1), (Token.TokenString y1), Token.TokenEqual, (Token.TokenString x2), (Token.TokenString y2), Token.TokenEqual, (Token.TokenString x3), (Token.TokenString y3), Token.TokenEqual, Token.TokenAnd] []) _ _ _ [(StackEntry.mk 84 YYVal.vnone (Loc.mk 5 13)), (StackEntry.mk 43 YYVal.vnone (Loc.mk 4 4)), (StackEntry.mk 21 YYVal.vnone (Loc.mk 1 3)), (StackEntry.mk 1 YYVal.vnone (Loc.mk 0 0)), (StackEntry.mk 0 YYVal.vnone (Loc.mk 0 0))] (by rfl) (by rfl) (by rfl) (by rfl) (by rfl) (by rfl)).trans
  ((yyparse_step_reduce _ _ _ _ _ _ _ _ _ (EvalContext.mk Universe.V4 [(Token.TokenString x1), (Token.TokenString y1), Token.TokenEqual, (Token.TokenString x2), (Token.TokenString y2), Token.TokenEqual, (Token.TokenString x3), (Token.TokenString y3), Token.TokenEqual, Token.TokenAnd, Token.TokenOr] []) _ _ _ [(StackEntry.mk 21 YYVal.vnone (Loc.mk 1 13)), (StackEntry.mk 1 YYVal.vnone (Loc.mk 0 0)), (StackEntry.mk 0 YYVal.vnone (Loc.mk 0 0))] (by rfl) (by rfl) (by rfl) (by rfl) (by rfl) (by rfl)).trans
  ((yyparse_step_reduce _ _ _ _ _ _ _ _ _ (EvalContext.mk Universe.V4 [(Token.TokenString x1), (Token.TokenString y1), Token.TokenEqual, (Token.TokenString x2), (Token.TokenString y2), Token.TokenEqual, (Token.TokenString x3), (Token.TokenString y3), Token.TokenEqual, Token.TokenAnd, Token.TokenOr] []) _ _ _ [(StackEntry.mk 20 YYVal.vnone (Loc.mk 1 13)), (StackEntry.mk 1 YYVal.vnone (Loc.mk 0 0)), (StackEntry.mk 0 YYVal.vnone (Loc.mk 0 0))] (by rfl) (by rfl) (by rfl) (by rfl) (by rfl) (by rfl)).trans
  ((yyparse_step_reduce _ _ _ _ _ _ _ _ _ (EvalContext.mk Universe.V4 [(Token.TokenString x1), (Token.TokenString y1), Token.TokenEqual, (Token.TokenString x2), (Token.TokenString y2), Token.TokenEqual, (Token.TokenString x3), (Token.TokenString y3), Token.TokenEqual, Token.TokenAnd, Token.TokenOr] []) _ _ _ [(StackEntry.mk 3 YYVal.vnone (Loc.mk 0 13)), (StackEntry.mk 0 YYVal.vnone (Loc.mk 0 0))] (by rfl) (by rfl) (by rfl) (by rfl) (by rfl) (by rfl)).trans
  ((yyparse_step_shift _ _ _ _ _ _ _ _ [(StackEntry.mk 27 YYVal.vnone (Loc.mk 14 14)), (StackEntry.mk 3 YYVal.vnone (Loc.mk 0 13)), (StackEntry.mk 0 YYVal.vnone (Loc.mk 0 0))] (by rfl) (by rfl)).trans
  (yyparse_step_accept _ _ _ _ _ (by rfl)))))))))))))))))))))))))))))))

theorem run_or_and_left (x1 y1 x2 y2 x3 y3 : String) :
    yyparse 500 (EvalContext.mk Universe.V4 [] []) [StackEntry.mk 0 YYVal.vnone (Loc.mk 0 0)] none
      [(Terminal.tTopLevelBool, (Loc.mk 0 0)), (Terminal.tLParen, (Loc.mk 1 1)), ((Terminal.tString x1), (Loc.mk 2 2)), (Terminal.tEqual, (Loc.mk 3 3)), ((Terminal.tString y1), (Loc.mk 4 4)), (Terminal.tOr, (Loc.mk 5 5)), ((Terminal.tString x2), (Loc.mk 6 6)), (Terminal.tEqual, (Loc.mk 7 7)), ((Terminal.tString y2), (Loc.mk 8 8)), (Terminal.tRParen, (Loc.mk 9 9)), (Terminal.tAnd, (Loc.mk 10 10)), ((Terminal.tString x3), (Loc.mk 11 11)), (Terminal.tEqual, (Loc.mk 12 12)), ((Terminal.tString y3), (Loc.mk 13 13)), (Terminal.tEndOfFile, (Loc.mk 14 14))] =
    .ok (EvalContext.mk Universe.V4 [(Token.TokenString x1), (Token.TokenString y1), Token.TokenEqual, (Token.TokenString x2), (Token.TokenString y2), Token.TokenEqual, Token.TokenOr, (Token.TokenString x3), (Token.TokenString y3), Token.TokenEqual, Token.TokenAnd] []) := by
  exact ((yyparse_step_shift _ _ _ _ _ _ _ _ [(StackEntry.mk 1 YYVal.vnone (Loc.mk 0 0)), (StackEntry.mk 0 YYVal.vnone (Loc.mk 0 0))] (by rfl) (by rfl)).trans
  ((yyparse_step_shift _ _ _ _ _ _ _ _ [(StackEntry.mk 4 YYVal.vnone (Loc.mk 1 1)), (StackEntry.mk 1 YYVal.vnone (Loc.mk 0 0)), (StackEntry.mk 0 YYVal.vnone (Loc.mk 0 0))] (by rfl) (by rfl)).trans
  ((yyparse_step_shift _ _ _ _ _ _ _ _ [(StackEntry.mk 16 (YYVal.vstr x1) (Loc.mk 2 2)), (StackEntry.mk 4 YYVal.vnone (Loc.mk 1 1)), (StackEntry.mk 1 YYVal.vnone (Loc.mk 0 0)), (StackEntry.mk 0 YYVal.vnone (Loc.mk 0 0))] (by rfl) (by rfl)).trans
  ((yyparse_step_reduce _ _ _ _ _ _ _ _ _ (EvalContext.mk Universe.V4 [(Token.TokenString x1)] []) _ _ _ [(StackEntry.mk 22 YYVal.vnone (Loc.mk 2 2)), (StackEntry.mk 4 YYVal.vnone (Loc.mk 1 1)), (StackEntry.mk 1 YYVal.vnone (Loc.mk 0 0)), (StackEntry.mk 0 YYVal.vnone (Loc.mk 0 0))] (by rfl) (by rfl) (by rfl) (by rfl) (by rfl) (by rfl)).trans
  ((yyparse_step_shift _ _ _ _ _ _ _ _ [(StackEntry.mk 44 YYVal.vnone (Loc.mk 3 3)), (StackEntry.mk 22 YYVal.vnone (Loc.mk 2 2)), (StackEntry.mk 4 YYVal.vnone (Loc.mk 1 1)), (StackEntry.mk 1 YYVal.vnone (Loc.mk 0 0)), (StackEntry.mk 0 YYVal.vnone (Loc.mk 0 0))] (by rfl) (by rfl)).trans
  ((yyparse_step_shift _ _ _ _ _ _ _ _ [(StackEntry.mk 16 (YYVal.vstr y1) (Loc.mk 4 4)), (StackEntry.mk 44 YYVal.vnone (Loc.mk 3 3)), (StackEntry.mk 22 YYVal.vnone (Loc.mk 2 2)), (StackEntry.mk 4 YYVal.vnone (Loc.mk 1 1)), (StackEntry.mk 1 YYVal.vnone (Loc.mk 0 0)), (StackEntry.mk 0 YYVal.vnone (Loc.mk 0 0))] (by rfl) (by rfl)).trans
  ((yyparse_step_reduce _ _ _ _ _ _ _ _ _ (EvalContext.mk Universe.V4 [(Token.TokenString x1), (Token.TokenString y1)] []) _ _ _ [(StackEntry.mk 85 YYVal.vnone (Loc.mk 4 4)), (StackEntry.mk 44 YYVal.vnone (Loc.mk 3 3)), (StackEntry.mk 22 YYVal.vnone (Loc.mk 2 2)), (StackEntry.mk 4 YYVal.vnone (Loc.mk 1 1)), (StackEntry.mk 1 YYVal.vnone (Loc.mk 0 0)), (StackEntry.mk 0 YYVal.vnone (Loc.mk 0 0))] (by rfl) (by rfl) (by rfl) (by rfl) (by rfl) (by rfl)).trans
  ((yyparse_step_reduce _ _ _ _ _ _ _ _ _ (EvalContext.mk Universe.V4 [(Token.TokenString x1), (Token.TokenString y1), Token.TokenEqual] []) _ _ _ [(StackEntry.mk 28 YYVal.vnone (Loc.mk 2 4)), (StackEntry.mk 4 YYVal.vnone (Loc.mk 1 1)), (StackEntry.mk 1 YYVal.vnone (Loc.mk 0 0)), (StackEntry.mk 0 YYVal.vnone (Loc.mk 0 0))] (by rfl) (by rfl) (by rfl) (by rfl) (by rfl) (by rfl)).trans
  ((yyparse_step_shift _ _ _ _ _ _ _ _ [(StackEntry.mk 43 YYVal.vnone (Loc.mk 5 5)), (StackEntry.mk 28 YYVal.vnone (Loc.mk 2 4)), (StackEntry.mk 4 YYVal.vnone (Loc.mk 1 1)), (StackEntry.mk 1 YYVal.vnone (Loc.mk 0 0)), (StackEntry.mk 0 YYVal.vnone (Loc.mk 0 0))] (by rfl) (by rfl)).trans
  ((yyparse_step_shift _ _ _ _ _ _ _ _ [(StackEntry.mk 16 (YYVal.vstr x2) (Loc.mk 6 6)), (StackEntry.mk 43 YYVal.vnone (Loc.mk 5 5)), (StackEntry.mk 28 YYVal.vnone (Loc.mk 2 4)), (StackEntry.mk 4 YYVal.vnone (Loc.mk 1 1)), (StackEntry.mk 1 YYVal.vnone (Loc.mk 0 0)), (StackEntry.mk 0 YYVal.vnone (Loc.mk 0 0))] (by rfl) (by rfl)).trans
  ((yyparse_step_reduce _ _ _ _ _ _ _ _ _ (EvalContext.mk Universe.V4 [(Token.TokenString x1), (Token.TokenString y1), Token.TokenEqual, (Token.TokenString x2)] []) _ _ _ [(StackEntry.mk 22 YYVal.vnone (Loc.mk 6 6)), (StackEntry.mk 43 YYVal.vnone (Loc.mk 5 5)), (StackEntry.mk 28 YYVal.vnone (Loc.mk 2 4)), (StackEntry.mk 4 YYVal.vnone (Loc.mk 1 1)), (StackEntry.mk 1 YYVal.vnone (Loc.mk 0 0)), (StackEntry.mk 0 YYVal.vnone (Loc.mk 0 0))] (by rfl) (by rfl) (by rfl) (by rfl) (by rfl) (by rfl)).trans
  ((yyparse_step_shift _ _ _ _ _ _ _ _ [(StackEntry.mk 44 YYVal.vnone (Loc.mk 7 7)), (StackEntry.mk 22 YYVal.vnone (Loc.mk 6 6)), (StackEntry.mk 43 YYVal.vnone (Loc.mk 5 5)), (StackEntry.mk 28 YYVal.vnone (Loc.mk 2 4)), (StackEntry.mk 4 YYVal.vnone (Loc.mk 1 1)), (StackEntry.mk 1 YYVal.vnone (Loc.mk 0 0)), (StackEntry.mk 0 YYVal.vnone (Loc.mk 0 0))] (by rfl) (by rfl)).trans
  ((yyparse_step_shift _ _ _ _ _ _ _ _ [(StackEntry.mk 16 (YYVal.vstr y2) (Loc.mk 8 8)), (StackEntry.mk 44 YYVal.vnone (Loc.mk 7 7)), (StackEntry.mk 22 YYVal.vnone (Loc.mk 6 6)), (StackEntry.mk 43 YYVal.vnone (Loc.mk 5 5)), (StackEntry.mk 28 YYVal.vnone (Loc.mk 2 4)), (StackEntry.mk 4 YYVal.vnone (Loc.mk 1 1)), (StackEntry.mk 1 YYVal.vnone (Loc.mk 0 0)), (StackEntry.mk 0 YYVal.vnone (Loc.mk 0 0))] (by rfl) (by rfl)).trans
  ((yyparse_step_reduce _ _ _ _ _ _ _ _ _ (EvalContext.mk Universe.V4 [(Token.TokenString x1), (Token.TokenString y1), Token.TokenEqual, (Token.TokenString x2), (Token.TokenString y2)] []) _ _ _ [(StackEntry.mk 85 YYVal.vnone (Loc.mk 8 8)), (StackEntry.mk 44 YYVal.vnone (Loc.mk 7 7)), (StackEntry.mk 22 YYVal.vnone (Loc.mk 6 6)), (StackEntry.mk 43 YYVal.vnone (Loc.mk 5 5)), (StackEntry.mk 28 YYVal.vnone (Loc.mk 2 4)), (StackEntry.mk 4 YYVal.vnone (Loc.mk 1 1)), (StackEntry.mk 1 YYVal.vnone (Loc.mk 0 0)), (StackEntry.mk 0 YYVal.vnone (Loc.mk 0 0))] (by rfl) (by rfl) (by rfl) (by rfl) (by rfl) (by rfl)).trans
  ((yyparse_step_reduce _ _ _ _ _ _ _ _ _ (EvalContext.mk Universe.V4 [(Token.TokenString x1), (Token.TokenString y1), Token.TokenEqual, (Token.TokenString x2), (Token.TokenString y2), Token.TokenEqual] []) _ _ _ [(StackEntry.mk 84 YYVal.vnone (Loc.mk 6 8)), (StackEntry.mk 43 YYVal.vnone (Loc.mk 5 5)), (StackEntry.mk 28 YYVal.vnone (Loc.mk 2 4)), (StackEntry.mk 4 YYVal.vnone (Loc.mk 1 1)), (StackEntry.mk 1 YYVal.vnone (Loc.mk 0 0)), (StackEntry.mk 0 YYVal.vnone (Loc.mk 0 0))] (by rfl) (by rfl) (by rfl) (by rfl) (by rfl) (by rfl)).trans
  ((yyparse_step_reduce _ _ _ _ _ _ _ _ _ (EvalContext.mk Universe.V4 [(Token.TokenString x1), (Token.TokenString y1), Token.TokenEqual, (Token.TokenString x2), (Token.TokenString y2), Token.TokenEqual, Token.TokenOr] []) _ _ _ [(StackEntry.mk 28 YYVal.vnone (Loc.mk 2 8)), (StackEntry.mk 4 YYVal.vnone (Loc.mk 1 1)), (StackEntry.mk 1 YYVal.vnone (Loc.mk 0 0)), (StackEntry.mk 0 YYVal.vnone (Loc.mk 0 0))] (by rfl) (by rfl) (by rfl) (by rfl) (by rfl) (by rfl)).trans
  ((yyparse_step_shift _ _ _ _ _ _ _ _ [(StackEntry.mk 45 YYVal.vnone (Loc.mk 9 9)), (StackEntry.mk 28 YYVal.vnone (Loc.mk 2 8)), (StackEntry.mk 4 YYVal.vnone (Loc.mk 1 1)), (StackEntry.mk 1 YYVal.vnone (Loc.mk 0 0)), (StackEntry.mk 0 YYVal.vnone (Loc.mk 0 0))] (by rfl) (by rfl)).trans
  ((yyparse_step_reduce _ _ _ _ _ _ _ _ _ (EvalContext.mk Universe.V4 [(Token.TokenString x1), (Token.TokenString y1), Token.TokenEqual, (Token.TokenString x2), (Token.TokenString y2), Token.TokenEqual, Token.TokenOr] []) _ _ _ [(StackEntry.mk 21 YYVal.vnone (Loc.mk 1 9)), (StackEntry.mk 1 YYVal.vnone (Loc.mk 0 0)), (StackEntry.mk 0 YYVal.vnone (Loc.mk 0 0))] (by rfl) (by rfl) (by rfl) (by rfl) (by rfl) (by rfl)).trans
  ((yyparse_step_shift _ _ _ _ _ _ _ _ [(StackEntry.mk 42 YYVal.vnone (Loc.mk 10 10)), (StackEntry.mk 21 YYVal.vnone (Loc.mk 1 9)), (StackEntry.mk 1 YYVal.vnone (Loc.mk 0 0)), (StackEntry.mk 0 YYVal.vnone (Loc.mk 0 0))] (by rfl) (by rfl)).trans
  ((yyparse_step_shift _ _ _ _ _ _ _ _ [(StackEntry.mk 16 (YYVal.vstr x3) (Loc.mk 11 11)), (StackEntry.mk 42 YYVal.vnone (Loc.mk 10 10)), (StackEntry.mk 21 YYVal.vnone (Loc.mk 1 9)), (StackEntry.mk 1 YYVal.vnone (Loc.mk 0 0)), (StackEntry.mk 0 YYVal.vnone (Loc.mk 0 0))] (by rfl) (by rfl)).trans
  ((yyparse_step_reduce _ _ _ _ _ _ _ _ _ (EvalContext.mk Universe.V4 [(Token.TokenString x1), (Token.TokenString y1), Token.TokenEqual, (Token.TokenString x2), (Token.TokenString y2), Token.TokenEqual, Token.TokenOr, (Token.TokenString x3)] []) _ _ _ [(StackEntry.mk 22 YYVal.vnone (Loc.mk 11 11)), (StackEntry.mk 42 YYVal.vnone (Loc.mk 10 10)), (StackEntry.mk 21 YYVal.vnone (Loc.mk 1 9)), (StackEntry.mk 1 YYVal.vnone (Loc.mk 0 0)), (StackEntry.mk 0 YYVal.vnone (Loc.mk 0 0))] (by rfl) (by rfl) (by rfl) (by rfl) (by rfl) (by rfl)).trans
  ((yyparse_step_shift _ _ _ _ _ _ _ _ [(StackEntry.mk 44 YYVal.vnone (Loc.mk 12 12)), (StackEntry.mk 22 YYVal.vnone (Loc.mk 11 11)), (StackEntry.mk 42 YYVal.vnone (Loc.mk 10 10)), (StackEntry.mk 21 YYVal.vnone (Loc.mk 1 9)), (StackEntry.mk 1 YYVal.vnone (Loc.mk 0 0)), (StackEntry.mk 0 YYVal.vnone (Loc.mk 0 0))] (by rfl) (by rfl)).trans
  ((yyparse_step_shift _ _ _ _ _ _ _ _ [(StackEntry.mk 16 (YYVal.vstr y3) (Loc.mk 13 13)), (StackEntry.mk 44 YYVal.vnone (Loc.mk 12 12)), (StackEntry.mk 22 YYVal.vnone (Loc.mk 11 11)), (StackEntry.mk 42 YYVal.vnone (Loc.mk 10 10)), (StackEntry.mk 21 YYVal.vnone (Loc.mk 1 9)), (StackEntry.mk 1 YYVal.vnone (Loc.mk 0 0)), (StackEntry.mk 0 YYVal.vnone (Loc.mk 0 0))] (by rfl) (by rfl)).trans
  ((yyparse_step_reduce _ _ _ _ _ _ _ _ _ (EvalContext.mk Universe.V4 [(Token.TokenString x1), (Token.TokenString y1), Token.TokenEqual, (Token.TokenString x2), (Token.TokenString y2), Token.TokenEqual, Token.TokenOr, (Token.TokenString x3), (Token.TokenString y3)] []) _ _ _ [(StackEntry.mk 85 YYVal.vnone (Loc.mk 13 13)), (StackEntry.mk 44 YYVal.vnone (Loc.mk 12 12)), (StackEntry.mk 22 YYVal.vnone (Loc.mk 11 11)), (StackEntry.mk 42 YYVal.vnone (Loc.mk 10 10)), (StackEntry.mk 21 YYVal.vnone (Loc.mk 1 9)), (StackEntry.mk 1 YYVal.vnone (Loc.mk 0 0)), (StackEntry.mk 0 YYVal.vnone (Loc.mk 0 0))] (by rfl) (by rfl) (by rfl) (by rfl) (by rfl) (by rfl)).trans
  ((yyparse_step_reduce _ _ _ _ _ _ _ _ _ (EvalContext.mk Universe.V4 [(Token.TokenString x1), (Token.TokenString y1), Token.TokenEqual, (Token.TokenString x2), (Token.TokenString y2), Token.TokenEqual, Token.TokenOr, (Token.TokenString x3), (Token.TokenString y3), Token.TokenEqual] []) _ _ _ [(StackEntry.mk 83 YYVal.vnone (Loc.mk 11 13)), (StackEntry.mk 42 YYVal.vnone (Loc.mk 10 10)), (StackEntry.mk 21 YYVal.vnone (Loc.mk 1 9)), (StackEntry.mk 1 YYVal.vnone (Loc.mk 0 0)), (StackEntry.mk 0 YYVal.vnone (Loc.mk 0 0))] (by rfl) (by rfl) (by rfl) (by rfl) (by rfl) (by rfl)).trans
  ((yyparse_step_reduce _ _ _ _ _ _ _ _ _ (EvalContext.mk Universe.V4 [(Token.TokenString x1), (Token.TokenString y1), Token.TokenEqual, (Token.TokenString x2), (Token.TokenString y2), Token.TokenEqual, Token.TokenOr, (Token.TokenString x3), (Token.TokenString y3), Token.TokenEqual, Token.TokenAnd] []) _ _ _ [(StackEntry.mk 21 YYVal.vnone (Loc.mk 1 13)), (StackEntry.mk 1 YYVal.vnone (Loc.mk 0 0)), (StackEntry.mk 0 YYVal.vnone (Loc.mk 0 0))] (by rfl) (by rfl) (by rfl) (by rfl) (by rfl) (by rfl)).trans
  ((yyparse_step_reduce _ _ _ _ _ _ _ _ _ (EvalContext.mk Universe.V4 [(Token.TokenString x1), (Token.TokenString y1), Token.TokenEqual, (Token.TokenString x2), (Token.TokenString y2), Token.TokenEqual, Token.TokenOr, (Token.TokenString x3), (Token.TokenString y3), Token.TokenEqual, Token.TokenAnd] []) _ _ _ [(StackEntry.mk 20 YYVal.vnone (Loc.mk 1 13)), (StackEntry.mk 1 YYVal.vnone (Loc.mk 0 0)), (StackEntry.mk 0 YYVal.vnone (Loc.mk 0 0))] (by rfl) (by rfl) (by rfl) (by rfl) (by rfl) (by rfl)).trans
  ((yyparse_step_reduce _ _ _ _ _ _ _ _ _ (EvalContext.mk Universe.V4 [(Token.TokenString x1), (Token.TokenString y1), Token.TokenEqual, (Token.TokenString x2), (Token.TokenString y2), Token.TokenEqual, Token.TokenOr, (Token.TokenString x3), (Token.TokenString y3), Token.TokenEqual, Token.TokenAnd] []) _ _ _ [(StackEntry.mk 3 YYVal.vnone (Loc.mk 0 13)), (StackEntry.mk 0 YYVal.vnone (Loc.mk 0 0))] (by rfl) (by rfl) (by rfl) (by rfl) (by rfl) (by rfl)).trans
  ((yyparse_step_shift _ _ _ _ _ _ _ _ [(StackEntry.mk 27 YYVal.vnone (Loc.mk 14 14)), (StackEntry.mk 3 YYVal.vnone (Loc.mk 0 13)), (StackEntry.mk 0 YYVal.vnone (Loc.mk 0 0))] (by rfl) (by rfl)).trans
  (yyparse_step_accept _ _ _ _ _ (by rfl)))))))))))))))))))))))))))))))

theorem run_not_and (x1 y1 x2 y2 : String) :
    yyparse 500 (EvalContext.mk Universe.V4 [] []) [StackEntry.mk 0 YYVal.vnone (Loc.mk 0 0)] none
      [(Terminal.tTopLevelBool, (Loc.mk 0 0)), (Terminal.tNot, (Loc.mk 1 1)), ((Terminal.tString x1), (Loc.mk 2 2)), (Terminal.tEqual, (Loc.mk 3 3)), ((Terminal.tString y1), (Loc.mk 4 4)), (Terminal.tAnd, (Loc.mk 5 5)), ((Terminal.tString x2), (Loc.mk 6 6)), (Terminal.tEqual, (Loc.mk 7 7)), ((Terminal.tString y2), (Loc.mk 8 8)), (Terminal.tEndOfFile, (Loc.mk 9 9))] =
    .ok (EvalContext.mk Universe.V4 [(Token.TokenString x1), (Token.TokenString y1), Token.TokenEqual, Token.TokenNot, (Token.TokenString x2), (Token.TokenString y2), Token.TokenEqual, Token.TokenAnd] []) := by
  exact ((yyparse_step_shift _ _ _ _ _ _ _ _ [(StackEntry.mk 1 YYVal.vnone (Loc.mk 0 0)), (StackEntry.mk 0 YYVal.vnone (Loc.mk 0 0))] (by rfl) (by rfl)).trans
  ((yyparse_step_shift _ _ _ _ _ _ _ _ [(StackEntry.mk 5 YYVal.vnone (Loc.mk 1 1)), (StackEntry.mk 1 YYVal.vnone (Loc.mk 0 0)), (StackEntry.mk 0 YYVal.vnone (Loc.mk 0 0))] (by rfl) (by rfl)).trans
  ((yyparse_step_shift _ _ _ _ _ _ _ _ [(StackEntry.mk 16 (YYVal.vstr x1) (Loc.mk 2 2)), (StackEntry.mk 5 YYVal.vnone (Loc.mk 1 1)), (StackEntry.mk 1 YYVal.vnone (Loc.mk 0 0)), (StackEntry.mk 0 YYVal.vnone (Loc.mk 0 0))] (by rfl) (by rfl)).trans
  ((yyparse_step_reduce _ _ _ _ _ _ _ _ _ (EvalContext.mk Universe.V4 [(Token.TokenString x1)] []) _ _ _ [(StackEntry.mk 22 YYVal.vnone (Loc.mk 2 2)), (StackEntry.mk 5 YYVal.vnone (Loc.mk 1 1)), (StackEntry.mk 1 YYVal.vnone (Loc.mk 0 0)), (StackEntry.mk 0 YYVal.vnone (Loc.mk 0 0))] (by rfl) (by rfl) (by rfl) (by rfl) (by rfl) (by rfl)).trans
  ((yyparse_step_shift _ _ _ _ _ _ _ _ [(StackEntry.mk 44 YYVal.vnone (Loc.mk 3 3)), (StackEntry.mk 22 YYVal.vnone (Loc.mk 2 2)), (StackEntry.mk 5 YYVal.vnone (Loc.mk 1 1)), (StackEntry.mk 1 YYVal.vnone (Loc.mk 0 0)), (StackEntry.mk 0 YYVal.vnone (Loc.mk 0 0))] (by rfl) (by rfl)).trans
  ((yyparse_step_shift _ _ _ _ _ _ _ _ [(StackEntry.mk 16 (YYVal.vstr y1) (Loc.mk 4 4)), (StackEntry.mk 44 YYVal.vnone (Loc.mk 3 3)), (StackEntry.mk 22 YYVal.vnone (Loc.mk 2 2)), (StackEntry.mk 5 YYVal.vnone (Loc.mk 1 1)), (StackEntry.mk 1 YYVal.vnone (Loc.mk 0 0)), (StackEntry.mk 0 YYVal.vnone (Loc.mk 0 0))] (by rfl) (by rfl)).trans
  ((yyparse_step_reduce _ _ _ _ _ _ _ _ _ (EvalContext.mk Universe.V4 [(Token.TokenString x1), (Token.TokenString y1)] []) _ _ _ [(StackEntry.mk 85 YYVal.vnone (Loc.mk 4 4)), (StackEntry.mk 44 YYVal.vnone (Loc.mk 3 3)), (StackEntry.mk 22 YYVal.vnone (Loc.mk 2 2)), (StackEntry.mk 5 YYVal.vnone (Loc.mk 1 1)), (StackEntry.mk 1 YYVal.vnone (Loc.mk 0 0)), (StackEntry.mk 0 YYVal.vnone (Loc.mk 0 0))] (by rfl) (by rfl) (by rfl) (by rfl) (by rfl) (by rfl)).trans
  ((yyparse_step_reduce _ _ _ _ _ _ _ _ _ (EvalContext.mk Universe.V4 [(Token.TokenString x1), (Token.TokenString y1), Token.TokenEqual] []) _ _ _ [(StackEntry.mk 29 YYVal.vnone (Loc.mk 2 4)), (StackEntry.mk 5 YYVal.vnone (Loc.mk 1 1)), (StackEntry.mk 1 YYVal.vnone (Loc.mk 0 0)), (StackEntry.mk 0 YYVal.vnone (Loc.mk 0 0))] (by rfl) (by rfl) (by rfl) (by rfl) (by rfl) (by rfl)).trans
  ((yyparse_step_reduce _ _ _ _ _ _ _ _ _ (EvalContext.mk Universe.V4 [(Token.TokenString x1), (Token.TokenString y1), Token.TokenEqual, Token.TokenNot] []) _ _ _ [(StackEntry.mk 21 YYVal.vnone (Loc.mk 1 4)), (StackEntry.mk 1 YYVal.vnone (Loc.mk 0 0)), (StackEntry.mk 0 YYVal.vnone (Loc.mk 0 0))] (by rfl) (by rfl) (by rfl) (by rfl) (by rfl) (by rfl)).trans
  ((yyparse_step_shift _ _ _ _ _ _ _ _ [(StackEntry.mk 42 YYVal.vnone (Loc.mk 5 5)), (StackEntry.mk 21 YYVal.vnone (Loc.mk 1 4)), (StackEntry.mk 1 YYVal.vnone (Loc.mk 0 0)), (StackEntry.mk 0 YYVal.vnone (Loc.mk 0 0))] (by rfl) (by rfl)).trans
  ((yyparse_step_shift _ _ _ _ _ _ _ _ [(StackEntry.mk 16 (YYVal.vstr x2) (Loc.mk 6 6)), (StackEntry.mk 42 YYVal.vnone (Loc.mk 5 5)), (StackEntry.mk 21 YYVal.vnone (Loc.mk 1 4)), (StackEntry.mk 1 YYVal.vnone (Loc.mk 0 0)), (StackEntry.mk 0 YYVal.vnone (Loc.mk 0 0))] (by rfl) (by rfl)).trans
  ((yyparse_step_reduce _ _ _ _ _ _ _ _ _ (EvalContext.mk Universe.V4 [(Token.TokenString x1), (Token.TokenString y1), Token.TokenEqual, Token.TokenNot, (Token.TokenString x2)] []) _ _ _ [(StackEntry.mk 22 YYVal.vnone (Loc.mk 6 6)), (StackEntry.mk 42 YYVal.vnone (Loc.mk 5 5)), (StackEntry.mk 21 YYVal.vnone (Loc.mk 1 4)), (StackEntry.mk 1 YYVal.vnone (Loc.mk 0 0)), (StackEntry.mk 0 YYVal.vnone (Loc.mk 0 0))] (by rfl) (by rfl) (by rfl) (by rfl) (by rfl) (by rfl)).trans
  ((yyparse_step_shift _ _ _ _ _ _ _ _ [(StackEntry.mk 44 YYVal.vnone (Loc.mk 7 7)), (StackEntry.mk 22 YYVal.vnone (Loc.mk 6 6)), (StackEntry.mk 42 YYVal.vnone (Loc.mk 5 5)), (StackEntry.mk 21 YYVal.vnone (Loc.mk 1 4)), (StackEntry.mk 1 YYVal.vnone (Loc.mk 0 0)), (StackEntry.mk 0 YYVal.vnone (Loc.mk 0 0))] (by rfl) (by rfl)).trans
  ((yyparse_step_shift _ _ _ _ _ _ _ _ [(StackEntry.mk 16 (YYVal.vstr y2) (Loc.mk 8 8)), (StackEntry.mk 44 YYVal.vnone (Loc.mk 7 7)), (StackEntry.mk 22 YYVal.vnone (Loc.mk 6 6)), (StackEntry.mk 42 YYVal.vnone (Loc.mk 5 5)), (StackEntry.mk 21 YYVal.vnone (Loc.mk 1 4)), (StackEntry.mk 1 YYVal.vnone (Loc.mk 0 0)), (StackEntry.mk 0 YYVal.vnone (Loc.mk 0 0))] (by rfl) (by rfl)).trans
  ((yyparse_step_reduce _ _ _ _ _ _ _ _ _ (EvalContext.mk Universe.V4 [(Token.TokenString x1), (Token.TokenString y1), Token.TokenEqual, Token.TokenNot, (Token.TokenString x2), (Token.TokenString y2)] []) _ _ _ [(StackEntry.mk 85 YYVal.vnone (Loc.mk 8 8)), (StackEntry.mk 44 YYVal.vnone (Loc.mk 7 7)), (StackEntry.mk 22 YYVal.vnone (Loc.mk 6 6)), (StackEntry.mk 42 YYVal.vnone (Loc.mk 5 5)), (StackEntry.mk 21 YYVal.vnone (Loc.mk 1 4)), (StackEntry.mk 1 YYVal.vnone (Loc.mk 0 0)), (StackEntry.mk 0 YYVal.vnone (Loc.mk 0 0))] (by rfl) (by rfl) (by rfl) (by rfl) (by rfl) (by rfl)).trans
  ((yyparse_step_reduce _ _ _ _ _ _ _ _ _ (EvalContext.mk Universe.V4 [(Token.TokenString x1), (Token.TokenString y1), Token.TokenEqual, Token.TokenNot, (Token.TokenString x2), (Token.TokenString y2), Token.TokenEqual] []) _ _ _ [(StackEntry.mk 83 YYVal.vnone (Loc.mk 6 8)), (StackEntry.mk 42 YYVal.vnone (Loc.mk 5 5)), (StackEntry.mk 21 YYVal.vnone (Loc.mk 1 4)), (StackEntry.mk 1 YYVal.vnone (Loc.mk 0 0)), (StackEntry.mk 0 YYVal.vnone (Loc.mk 0 0))] (by rfl) (by rfl) (by rfl) (by rfl) (by rfl) (by rfl)).trans
  ((yyparse_step_reduce _ _ _ _ _ _ _ _ _ (EvalContext.mk Universe.V4 [(Token.TokenString x1), (Token.TokenString y1), Token.TokenEqual, Token.TokenNot, (Token.TokenString x2), (Token.TokenString y2), Token.TokenEqual, Token.TokenAnd] []) _ _ _ [(StackEntry.mk 21 YYVal.vnone (Loc.mk 1 8)), (StackEntry.mk 1 YYVal.vnone (Loc.mk 0 0)), (StackEntry.mk 0 YYVal.vnone (Loc.mk 0 0))] (by rfl) (by rfl) (by rfl) (by rfl) (by rfl) (by rfl)).trans
  ((yyparse_step_reduce _ _ _ _ _ _ _ _ _ (EvalContext.mk Universe.V4 [(Token.TokenString x1), (Token.TokenString y1), Token.TokenEqual, Token.TokenNot, (Token.TokenString x2), (Token.TokenString y2), Token.TokenEqual, Token.TokenAnd] []) _ _ _ [(StackEntry.mk 20 YYVal.vnone (Loc.mk 1 8)), (StackEntry.mk 1 YYVal.vnone (Loc.mk 0 0)), (StackEntry.mk 0 YYVal.vnone (Loc.mk 0 0))] (by rfl) (by rfl) (by rfl) (by rfl) (by rfl) (by rfl)).trans
  ((yyparse_step_reduce _ _ _ _ _ _ _ _ _ (EvalContext.mk Universe.V4 [(Token.TokenString x1), (Token.TokenString y1), Token.TokenEqual, Token.TokenNot, (Token.TokenString x2), (Token.TokenString y2), Token.TokenEqual, Token.TokenAnd] []) _ _ _ [(StackEntry.mk 3 YYVal.vnone (Loc.mk 0 8)), (StackEntry.mk 0 YYVal.vnone (Loc.mk 0 0))] (by rfl) (by rfl) (by rfl) (by rfl) (by rfl) (by rfl)).trans
  ((yyparse_step_shift _ _ _ _ _ _ _ _ [(StackEntry.mk 27 YYVal.vnone (Loc.mk 9 9)), (StackEntry.mk 3 YYVal.vnone (Loc.mk 0 8)), (StackEntry.mk 0 YYVal.vnone (Loc.mk 0 0))] (by rfl) (by rfl)).trans
  (yyparse_step_accept _ _ _ _ _ (by rfl))))))))))))))))))))))

theorem run_not_and_paren (x1 y1 x2 y2 : String) :
    yyparse 500 (EvalContext.mk Universe.V4 [] []) [StackEntry.mk 0 YYVal.vnone (Loc.mk 0 0)] none
      [(Terminal.tTopLevelBool, (Loc.mk 0 0)), (Terminal.tLParen, (Loc.mk 1 1)), (Terminal.tNot, (Loc.mk 2 2)), ((Terminal.tString x1), (Loc.mk 3 3)), (Terminal.tEqual, (Loc.mk 4 4)), ((Terminal.tString y1), (Loc.mk 5 5)), (Terminal.tRParen, (Loc.mk 6 6)), (Terminal.tAnd, (Loc.mk 7 7)), ((Terminal.tString x2), (Loc.mk 8 8)), (Terminal.tEqual, (Loc.mk 9 9)), ((Terminal.tString y2), (Loc.mk 10 10)), (Terminal.tEndOfFile, (Loc.mk 11 11))] =
    .ok (EvalContext.mk Universe.V4 [(Token.TokenString x1), (Token.TokenString y1), Token.TokenEqual, Token.TokenNot, (Token.TokenString x2), (Token.TokenString y2), Token.TokenEqual, Token.TokenAnd] []) := by
  exact ((yyparse_step_shift _ _ _ _ _ _ _ _ [(StackEntry.mk 1 YYVal.vnone (Loc.mk 0 0)), (StackEntry.mk 0 YYVal.vnone (Loc.mk 0 0))] (by rfl) (by rfl)).trans
  ((yyparse_step_shift _ _ _ _ _ _ _ _ [(StackEntry.mk 4 YYVal.vnone (Loc.mk 1 1)), (StackEntry.mk 1 YYVal.vnone (Loc.mk 0 0)), (StackEntry.mk 0 YYVal.vnone (Loc.mk 0 0))] (by rfl) (by rfl)).trans
  ((yyparse_step_shift _ _ _ _ _ _ _ _ [(StackEntry.mk 5 YYVal.vnone (Loc.mk 2 2)), (StackEntry.mk 4 YYVal.vnone (Loc.mk 1 1)), (StackEntry.mk 1 YYVal.vnone (Loc.mk 0 0)), (StackEntry.mk 0 YYVal.vnone (Loc.mk 0 0))] (by rfl) (by rfl)).trans
  ((yyparse_step_shift _ _ _ _ _ _ _ _ [(StackEntry.mk 16 (YYVal.vstr x1) (Loc.mk 3 3)), (StackEntry.mk 5 YYVal.vnone (Loc.mk 2 2)), (StackEntry.mk 4 YYVal.vnone (Loc.mk 1 1)), (StackEntry.mk 1 YYVal.vnone (Loc.mk 0 0)), (StackEntry.mk 0 YYVal.vnone (Loc.mk 0 0))] (by rfl) (by rfl)).trans
  ((yyparse_step_reduce _ _ _ _ _ _ _ _ _ (EvalContext.mk Universe.V4 [(Token.TokenString x1)] []) _ _ _ [(StackEntry.mk 22 YYVal.vnone (Loc.mk 3 3)), (StackEntry.mk 5 YYVal.vnone (Loc.mk 2 2)), (StackEntry.mk 4 YYVal.vnone (Loc.mk 1 1)), (StackEntry.mk 1 YYVal.vnone (Loc.mk 0 0)), (StackEntry.mk 0 YYVal.vnone (Loc.mk 0 0))] (by rfl) (by rfl) (by rfl) (by rfl) (by rfl) (by rfl)).trans
  ((yyparse_step_shift _ _ _ _ _ _ _ _ [(StackEntry.mk 44 YYVal.vnone (Loc.mk 4 4)), (StackEntry.mk 22 YYVal.vnone (Loc.mk 3 3)), (StackEntry.mk 5 YYVal.vnone (Loc.mk 2 2)), (StackEntry.mk 4 YYVal.vnone (Loc.mk 1 1)), (StackEntry.mk 1 YYVal.vnone (Loc.mk 0 0)), (StackEntry.mk 0 YYVal.vnone (Loc.mk 0 0))] (by rfl) (by rfl)).trans
  ((yyparse_step_shift _ _ _ _ _ _ _ _ [(StackEntry.mk 16 (YYVal.vstr y1) (Loc.mk 5 5)), (StackEntry.mk 44 YYVal.vnone (Loc.mk 4 4)), (StackEntry.mk 22 YYVal.vnone (Loc.mk 3 3)), (StackEntry.mk 5 YYVal.vnone (Loc.mk 2 2)), (StackEntry.mk 4 YYVal.vnone (Loc.mk 1 1)), (StackEntry.mk 1 YYVal.vnone (Loc.mk 0 0)), (StackEntry.mk 0 YYVal.vnone (Loc.mk 0 0))] (by rfl) (by rfl)).trans
  ((yyparse_step_reduce _ _ _ _ _ _ _ _ _ (EvalContext.mk Universe.V4 [(Token.TokenString x1), (Token.TokenString y1)] []) _ _ _ [(StackEntry.mk 85 YYVal.vnone (Loc.mk 5 5)), (StackEntry.mk 44 YYVal.vnone (Loc.mk 4 4)), (StackEntry.mk 22 YYVal.vnone (Loc.mk 3 3)), (StackEntry.mk 5 YYVal.vnone (Loc.mk 2 2)), (StackEntry.mk 4 YYVal.vnone (Loc.mk 1 1)), (StackEntry.mk 1 YYVal.vnone (Loc.mk 0 0)), (StackEntry.mk 0 YYVal.vnone (Loc.mk 0 0))] (by rfl) (by rfl) (by rfl) (by rfl) (by rfl) (by rfl)).trans
  ((yyparse_step_reduce _ _ _ _ _ _ _ _ _ (EvalContext.mk Universe.V4 [(Token.TokenString x1), (Token.TokenString y1), Token.TokenEqual] []) _ _ _ [(StackEntry.mk 29 YYVal.vnone (Loc.mk 3 5)), (StackEntry.mk 5 YYVal.vnone (Loc.mk 2 2)), (StackEntry.mk 4 YYVal.vnone (Loc.mk 1 1)), (StackEntry.mk 1 YYVal.vnone (Loc.mk 0 0)), (StackEntry.mk 0 YYVal.vnone (Loc.mk 0 0))] (by rfl) (by rfl) (by rfl) (by rfl) (by rfl) (by rfl)).trans
  ((yyparse_step_reduce _ _ _ _ _ _ _ _ _ (EvalContext.mk Universe.V4 [(Token.TokenString x1), (Token.TokenString y1), Token.TokenEqual, Token.TokenNot] []) _ _ _ [(StackEntry.mk 28 YYVal.vnone (Loc.mk 2 5)), (StackEntry.mk 4 YYVal.vnone (Loc.mk 1 1)), (StackEntry.mk 1 YYVal.vnone (Loc.mk 0 0)), (StackEntry.mk 0 YYVal.vnone (Loc.mk 0 0))] (by rfl) (by rfl) (by rfl) (by rfl) (by rfl) (by rfl)).trans
  ((yyparse_step_shift _ _ _ _ _ _ _ _ [(StackEntry.mk 45 YYVal.vnone (Loc.mk 6 6)), (StackEntry.mk 28 YYVal.vnone (Loc.mk 2 5)), (StackEntry.mk 4 YYVal.vnone (Loc.mk 1 1)), (StackEntry.mk 1 YYVal.vnone (Loc.mk 0 0)), (StackEntry.mk 0 YYVal.vnone (Loc.mk 0 0))] (by rfl) (by rfl)).trans
  ((yyparse_step_reduce _ _ _ _ _ _ _ _ _ (EvalContext.mk Universe.V4 [(Token.TokenString x1), (Token.TokenString y1), Token.TokenEqual, Token.TokenNot] []) _ _ _ [(StackEntry.mk 21 YYVal.vnone (Loc.mk 1 6)), (StackEntry.mk 1 YYVal.vnone (Loc.mk 0 0)), (StackEntry.mk 0 YYVal.vnone (Loc.mk 0 0))] (by rfl) (by rfl) (by rfl) (by rfl) (by rfl) (by rfl)).trans
  ((yyparse_step_shift _ _ _ _ _ _ _ _ [(StackEntry.mk 42 YYVal.vnone (Loc.mk 7 7)), (StackEntry.mk 21 YYVal.vnone (Loc.mk 1 6)), (StackEntry.mk 1 YYVal.vnone (Loc.mk 0 0)), (StackEntry.mk 0 YYVal.vnone (Loc.mk 0 0))] (by rfl) (by rfl)).trans
  ((yyparse_step_shift _ _ _ _ _ _ _ _ [(StackEntry.mk 16 (YYVal.vstr x2) (Loc.mk 8 8)), (StackEntry.mk 42 YYVal.vnone (Loc.mk 7 7)), (StackEntry.mk 21 YYVal.vnone (Loc.mk 1 6)), (StackEntry.mk 1 YYVal.vnone (Loc.mk 0 0)), (StackEntry.mk 0 YYVal.vnone (Loc.mk 0 0))] (by rfl) (by rfl)).trans
  ((yyparse_step_reduce _ _ _ _ _ _ _ _ _ (EvalContext.mk Universe.V4 [(Token.TokenString x1), (Token.TokenString y1), Token.TokenEqual, Token.TokenNot, (Token.TokenString x2)] []) _ _ _ [(StackEntry.mk 22 YYVal.vnone (Loc.mk 8 8)), (StackEntry.mk 42 YYVal.vnone (Loc.mk 7 7)), (StackEntry.mk 21 YYVal.vnone (Loc.mk 1 6)), (StackEntry.mk 1 YYVal.vnone (Loc.mk 0 0)), (StackEntry.mk 0 YYVal.vnone (Loc.mk 0 0))] (by rfl) (by rfl) (by rfl) (by rfl) (by rfl) (by rfl)).trans
  ((yyparse_step_shift _ _ _ _ _ _ _ _ [(StackEntry.mk 44 YYVal.vnone (Loc.mk 9 9)), (StackEntry.mk 22 YYVal.vnone (Loc.mk 8 8)), (StackEntry.mk 42 YYVal.vnone (Loc.mk 7 7)), (StackEntry.mk 21 YYVal.vnone (Loc.mk 1 6)), (StackEntry.mk 1 YYVal.vnone (Loc.mk 0 0)), (StackEntry.mk 0 YYVal.vnone (Loc.mk 0 0))] (by rfl) (by rfl)).trans
  ((yyparse_step_shift _ _ _ _ _ _ _ _ [(StackEntry.mk 16 (YYVal.vstr y2) (Loc.mk 10 10)), (StackEntry.mk 44 YYVal.vnone (Loc.mk 9 9)), (StackEntry.mk 22 YYVal.vnone (Loc.mk 8 8)), (StackEntry.mk 42 YYVal.vnone (Loc.mk 7 7)), (StackEntry.mk 21 YYVal.vnone (Loc.mk 1 6)), (StackEntry.mk 1 YYVal.vnone (Loc.mk 0 0)), (StackEntry.mk 0 YYVal.vnone (Loc.mk 0 0))] (by rfl) (by rfl)).trans
  ((yyparse_step_reduce _ _ _ _ _ _ _ _ _ (EvalContext.mk Universe.V4 [(Token.TokenString x1), (Token.TokenString y1), Token.TokenEqual, Token.TokenNot, (Token.TokenString x2), (Token.TokenString y2)] []) _ _ _ [(StackEntry.mk 85 YYVal.vnone (Loc.mk 10 10)), (StackEntry.mk 44 YYVal.vnone (Loc.mk 9 9)), (StackEntry.mk 22 YYVal.vnone (Loc.mk 8 8)), (StackEntry.mk 42 YYVal.vnone (Loc.mk 7 7)), (StackEntry.mk 21 YYVal.vnone (Loc.mk 1 6)), (StackEntry.mk 1 YYVal.vnone (Loc.mk 0 0)), (StackEntry.mk 0 YYVal.vnone (Loc.mk 0 0))] (by rfl) (by rfl) (by rfl) (by rfl) (by rfl) (by rfl)).trans
  ((yyparse_step_reduce _ _ _ _ _ _ _ _ _ (EvalContext.mk Universe.V4 [(Token.TokenString x1), (Token.TokenString y1), Token.TokenEqual, Token.TokenNot, (Token.TokenString x2), (Token.TokenString y2), Token.TokenEqual] []) _ _ _ [(StackEntry.mk 83 YYVal.vnone (Loc.mk 8 10)), (StackEntry.mk 42 YYVal.vnone (Loc.mk 7 7)), (StackEntry.mk 21 YYVal.vnone (Loc.mk 1 6)), (StackEntry.mk 1 YYVal.vnone (Loc.mk 0 0)), (StackEntry.mk 0 YYVal.vnone (Loc.mk 0 0))] (by rfl) (by rfl) (by rfl) (by rfl) (by rfl) (by rfl)).trans
  ((yyparse_step_reduce _ _ _ _ _ _ _ _ _ (EvalContext.mk Universe.V4 [(Token.TokenString x1), (Token.TokenString y1), Token.TokenEqual, Token.TokenNot, (Token.TokenString x2), (Token.TokenString y2), Token.TokenEqual, Token.TokenAnd] []) _ _ _ [(StackEntry.mk 21 YYVal.vnone (Loc.mk 1 10)), (StackEntry.mk 1 YYVal.vnone (Loc.mk 0 0)), (StackEntry.mk 0 YYVal.vnone (Loc.mk 0 0))] (by rfl) (by rfl) (by rfl) (by rfl) (by rfl) (by rfl)).trans
  ((yyparse_step_reduce _ _ _ _ _ _ _ _ _ (EvalContext.mk Universe.V4 [(Token.TokenString x1), (Token.TokenString y1), Token.TokenEqual, Token.TokenNot, (Token.TokenString x2), (Token.TokenString y2), Token.TokenEqual, Token.TokenAnd] []) _ _ _ [(StackEntry.mk 20 YYVal.vnone (Loc.mk 1 10)), (StackEntry.mk 1 YYVal.vnone (Loc.mk 0 0)), (StackEntry.mk 0 YYVal.vnone (Loc.mk 0 0))] (by rfl) (by rfl) (by rfl) (by rfl) (by rfl) (by rfl)).trans
  ((yyparse_step_reduce _ _ _ _ _ _ _ _ _ (EvalContext.mk Universe.V4 [(Token.TokenString x1), (Token.TokenString y1), Token.TokenEqual, Token.TokenNot, (Token.TokenString x2), (Token.TokenString y2), Token.TokenEqual, Token.TokenAnd] []) _ _ _ [(StackEntry.mk 3 YYVal.vnone (Loc.mk 0 10)), (StackEntry.mk 0 YYVal.vnone (Loc.mk 0 0))] (by rfl) (by rfl) (by rfl) (by rfl) (by rfl) (by rfl)).trans
  ((yyparse_step_shift _ _ _ _ _ _ _ _ [(StackEntry.mk 27 YYVal.vnone (Loc.mk 11 11)), (StackEntry.mk 3 YYVal.vnone (Loc.mk 0 10)), (StackEntry.mk 0 YYVal.vnone (Loc.mk 0 0))] (by rfl) (by rfl)).trans
  (yyparse_step_accept _ _ _ _ _ (by rfl)))))))))))))))))))))))))

theorem run_or_or (x1 y1 x2 y2 x3 y3 : String) :
    yyparse 500 (EvalContext.mk Universe.V4 [] []) [StackEntry.mk 0 YYVal.vnone (Loc.mk 0 0)] none
      [(Terminal.tTopLevelBool, (Loc.mk 0 0)), ((Terminal.tString x1), (Loc.mk 1 1)), (Terminal.tEqual, (Loc.mk 2 2)), ((Terminal.tString y1), (Loc.mk 3 3)), (Terminal.tOr, (Loc.mk 4 4)), ((Terminal.tString x2), (Loc.mk 5 5)), (Terminal.tEqual, (Loc.mk 6 6)), ((Terminal.tString y2), (Loc.mk 7 7)), (Terminal.tOr, (Loc.mk 8 8)), ((Terminal.tString x3), (Loc.mk 9 9)), (Terminal.tEqual, (Loc.mk 10 10)), ((Terminal.tString y3), (Loc.mk 11 11)), (Terminal.tEndOfFile, (Loc.mk 12 12))] =
    .ok (EvalContext.mk Universe.V4 [(Token.TokenString x1), (Token.TokenString y1), Token.TokenEqual, (Token.TokenString x2), (Token.TokenString y2), Token.TokenEqual, Token.TokenOr, (Token.TokenString x3), (Token.TokenString y3), Token.TokenEqual, Token.TokenOr] []) := by
  exact ((yyparse_step_shift _ _ _ _ _ _ _ _ [(StackEntry.mk 1 YYVal.vnone (Loc.mk 0 0)), (StackEntry.mk 0 YYVal.vnone (Loc.mk 0 0))] (by rfl) (by rfl)).trans
  ((yyparse_step_shift _ _ _ _ _ _ _ _ [(StackEntry.mk 16 (YYVal.vstr x1) (Loc.mk 1 1)), (StackEntry.mk 1 YYVal.vnone (Loc.mk 0 0)), (StackEntry.mk 0 YYVal.vnone (Loc.mk 0 0))] (by rfl) (by rfl)).trans
  ((yyparse_step_reduce _ _ _ _ _ _ _ _ _ (EvalContext.mk Universe.V4 [(Token.TokenString x1)] []) _ _ _ [(StackEntry.mk 22 YYVal.vnone (Loc.mk 1 1)), (StackEntry.mk 1 YYVal.vnone (Loc.mk 0 0)), (StackEntry.mk 0 YYVal.vnone (Loc.mk 0 0))] (by rfl) (by rfl) (by rfl) (by rfl) (by rfl) (by rfl)).trans
  ((yyparse_step_shift _ _ _ _ _ _ _ _ [(StackEntry.mk 44 YYVal.vnone (Loc.mk 2 2)), (StackEntry.mk 22 YYVal.vnone (Loc.mk 1 1)), (StackEntry.mk 1 YYVal.vnone (Loc.mk 0 0)), (StackEntry.mk 0 YYVal.vnone (Loc.mk 0 0))] (by rfl) (by rfl)).trans
  ((yyparse_step_shift _ _ _ _ _ _ _ _ [(StackEntry.mk 16 (YYVal.vstr y1) (Loc.mk 3 3)), (StackEntry.mk 44 YYVal.vnone (Loc.mk 2 2)), (StackEntry.mk 22 YYVal.vnone (Loc.mk 1 1)), (StackEntry.mk 1 YYVal.vnone (Loc.mk 0 0)), (StackEntry.mk 0 YYVal.vnone (Loc.mk 0 0))] (by rfl) (by rfl)).trans
  ((yyparse_step_reduce _ _ _ _ _ _ _ _ _ (EvalContext.mk Universe.V4 [(Token.TokenString x1), (Token.TokenString y1)] []) _ _ _ [(StackEntry.mk 85 YYVal.vnone (Loc.mk 3 3)), (StackEntry.mk 44 YYVal.vnone (Loc.mk 2 2)), (StackEntry.mk 22 YYVal.vnone (Loc.mk 1 1)), (StackEntry.mk 1 YYVal.vnone (Loc.mk 0 0)), (StackEntry.mk 0 YYVal.vnone (Loc.mk 0 0))] (by rfl) (by rfl) (by rfl) (by rfl) (by rfl) (by rfl)).trans
  ((yyparse_step_reduce _ _ _ _ _ _ _ _ _ (EvalContext.mk Universe.V4 [(Token.TokenString x1), (Token.TokenString y1), Token.TokenEqual] []) _ _ _ [(StackEntry.mk 21 YYVal.vnone (Loc.mk 1 3)), (StackEntry.mk 1 YYVal.vnone (Loc.mk 0 0)), (StackEntry.mk 0 YYVal.vnone (Loc.mk 0 0))] (by rfl) (by rfl) (by rfl) (by rfl) (by rfl) (by rfl)).trans
  ((yyparse_step_shift _ _ _ _ _ _ _ _ [(StackEntry.mk 43 YYVal.vnone (Loc.mk 4 4)), (StackEntry.mk 21 YYVal.vnone (Loc.mk 1 3)), (StackEntry.mk 1 YYVal.vnone (Loc.mk 0 0)), (StackEntry.mk 0 YYVal.vnone (Loc.mk 0 0))] (by rfl) (by rfl)).trans
  ((yyparse_step_shift _ _ _ _ _ _ _ _ [(StackEntry.mk 16 (YYVal.vstr x2) (Loc.mk 5 5)), (StackEntry.mk 43 YYVal.vnone (Loc.mk 4 4)), (StackEntry.mk 21 YYVal.vnone (Loc.mk 1 3)), (StackEntry.mk 1 YYVal.vnone (Loc.mk 0 0)), (StackEntry.mk 0 YYVal.vnone (Loc.mk 0 0))] (by rfl) (by rfl)).trans
  ((yyparse_step_reduce _ _ _ _ _ _ _ _ _ (EvalContext.mk Universe.V4 [(Token.TokenString x1), (Token.TokenString y1), Token.TokenEqual, (Token.TokenString x2)] []) _ _ _ [(StackEntry.mk 22 YYVal.vnone (Loc.mk 5 5)), (StackEntry.mk 43 YYVal.vnone (Loc.mk 4 4)), (StackEntry.mk 21 YYVal.vnone (Loc.mk 1 3)), (StackEntry.mk 1 YYVal.vnone (Loc.mk 0 0)), (StackEntry.mk 0 YYVal.vnone (Loc.mk 0 0))] (by rfl) (by rfl) (by rfl) (by rfl) (by rfl) (by rfl)).trans
  ((yyparse_step_shift _ _ _ _ _ _ _ _ [(StackEntry.mk 44 YYVal.vnone (Loc.mk 6 6)), (StackEntry.mk 22 YYVal.vnone (Loc.mk 5 5)), (StackEntry.mk 43 YYVal.vnone (Loc.mk 4 4)), (StackEntry.mk 21 YYVal.vnone (Loc.mk 1 3)), (StackEntry.mk 1 YYVal.vnone (Loc.mk 0 0)), (StackEntry.mk 0 YYVal.vnone (Loc.mk 0 0))] (by rfl) (by rfl)).trans
  ((yyparse_step_shift _ _ _ _ _ _ _ _ [(StackEntry.mk 16 (YYVal.vstr y2) (Loc.mk 7 7)), (StackEntry.mk 44 YYVal.vnone (Loc.mk 6 6)), (StackEntry.mk 22 YYVal.vnone (Loc.mk 5 5)), (StackEntry.mk 43 YYVal.vnone (Loc.mk 4 4)), (StackEntry.mk 21 YYVal.vnone (Loc.mk 1 3)), (StackEntry.mk 1 YYVal.vnone (Loc.mk 0 0)), (StackEntry.mk 0 YYVal.vnone (Loc.mk 0 0))] (by rfl) (by rfl)).trans
  ((yyparse_step_reduce _ _ _ _ _ _ _ _ _ (EvalContext.mk Universe.V4 [(Token.TokenString x1), (Token.TokenString y1), Token.TokenEqual, (Token.TokenString x2), (Token.TokenString y2)] []) _ _ _ [(StackEntry.mk 85 YYVal.vnone (Loc.mk 7 7)), (StackEntry.mk 44 YYVal.vnone (Loc.mk 6 6)), (StackEntry.mk 22 YYVal.vnone (Loc.mk 5 5)), (StackEntry.mk 43 YYVal.vnone (Loc.mk 4 4)), (StackEntry.mk 21 YYVal.vnone (Loc.mk 1 3)), (StackEntry.mk 1 YYVal.vnone (Loc.mk 0 0)), (StackEntry.mk 0 YYVal.vnone (Loc.mk 0 0))] (by rfl) (by rfl) (by rfl) (by rfl) (by rfl) (by rfl)).trans
  ((yyparse_step_reduce _ _ _ _ _ _ _ _ _ (EvalContext.mk Universe.V4 [(Token.TokenString x1), (Token.TokenString y1), Token.TokenEqual, (Token.TokenString x2), (Token.TokenString y2), Token.TokenEqual] []) _ _ _ [(StackEntry.mk 84 YYVal.vnone (Loc.mk 5 7)), (StackEntry.mk 43 YYVal.vnone (Loc.mk 4 4)), (StackEntry.mk 21 YYVal.vnone (Loc.mk 1 3)), (StackEntry.mk 1 YYVal.vnone (Loc.mk 0 0)), (StackEntry.mk 0 YYVal.vnone (Loc.mk 0 0))] (by rfl) (by rfl) (by rfl) (by rfl) (by rfl) (by rfl)).trans
  ((yyparse_step_reduce _ _ _ _ _ _ _ _ _ (EvalContext.mk Universe.V4 [(Token.TokenString x1), (Token.TokenString y1), Token.TokenEqual, (Token.TokenString x2), (Token.TokenString y2), Token.TokenEqual, Token.TokenOr] []) _ _ _ [(StackEntry.mk 21 YYVal.vnone (Loc.mk 1 7)), (StackEntry.mk 1 YYVal.vnone (Loc.mk 0 0)), (StackEntry.mk 0 YYVal.vnone (Loc.mk 0 0))] (by rfl) (by rfl) (by rfl) (by rfl) (by rfl) (by rfl)).trans
  ((yyparse_step_shift _ _ _ _ _ _ _ _ [(StackEntry.mk 43 YYVal.vnone (Loc.mk 8 8)), (StackEntry.mk 21 YYVal.vnone (Loc.mk 1 7)), (StackEntry.mk 1 YYVal.vnone (Loc.mk 0 0)), (StackEntry.mk 0 YYVal.vnone (Loc.mk 0 0))] (by rfl) (by rfl)).trans
  ((yyparse_step_shift _ _ _ _ _ _ _ _ [(StackEntry.mk 16 (YYVal.vstr x3) (Loc.mk 9 9)), (StackEntry.mk 43 YYVal.vnone (Loc.mk 8 8)), (StackEntry.mk 21 YYVal.vnone (Loc.mk 1 7)), (StackEntry.mk 1 YYVal.vnone (Loc.mk 0 0)), (StackEntry.mk 0 YYVal.vnone (Loc.mk 0 0))] (by rfl) (by rfl)).trans
  ((yyparse_step_reduce _ _ _ _ _ _ _ _ _ (EvalContext.mk Universe.V4 [(Token.TokenString x1), (Token.TokenString y1), Token.TokenEqual, (Token.TokenString x2), (Token.TokenString y2), Token.TokenEqual, Token.TokenOr, (Token.TokenString x3)] []) _ _ _ [(StackEntry.mk 22 YYVal.vnone (Loc.mk 9 9)), (StackEntry.mk 43 YYVal.vnone (Loc.mk 8 8)), (StackEntry.mk 21 YYVal.vnone (Loc.mk 1 7)), (StackEntry.mk 1 YYVal.vnone (Loc.mk 0 0)), (StackEntry.mk 0 YYVal.vnone (Loc.mk 0 0))] (by rfl) (by rfl) (by rfl) (by rfl) (by rfl) (by rfl)).trans
  ((yyparse_step_shift _ _ _ _ _ _ _ _ [(StackEntry.mk 44 YYVal.vnone (Loc.mk 10 10)), (StackEntry.mk 22 YYVal.vnone (Loc.mk 9 9)), (StackEntry.mk 43 YYVal.vnone (Loc.mk 8 8)), (StackEntry.mk 21 YYVal.vnone (Loc.mk 1 7)), (StackEntry.mk 1 YYVal.vnone (Loc.mk 0 0)), (StackEntry.mk 0 YYVal.vnone (Loc.mk 0 0))] (by rfl) (by rfl)).trans
  ((yyparse_step_shift _ _ _ _ _ _ _ _ [(StackEntry.mk 16 (YYVal.vstr y3) (Loc.mk 11 11)), (StackEntry.mk 44 YYVal.vnone (Loc.mk 10 10)), (StackEntry.mk 22 YYVal.vnone (Loc.mk 9 9)), (StackEntry.mk 43 YYVal.vnone (Loc.mk 8 8)), (StackEntry.mk 21 YYVal.vnone (Loc.mk 1 7)), (StackEntry.mk 1 YYVal.vnone (Loc.mk 0 0)), (StackEntry.mk 0 YYVal.vnone (Loc.mk 0 0))] (by rfl) (by rfl)).trans
  ((yyparse_step_reduce _ _ _ _ _ _ _ _ _ (EvalContext.mk Universe.V4 [(Token.TokenString x1), (Token.TokenString y1), Token.TokenEqual, (Token.TokenString x2), (Token.TokenString y2), Token.TokenEqual, Token.TokenOr, (Token.TokenString x3), (Token.TokenString y3)] []) _ _ _ [(StackEntry.mk 85 YYVal.vnone (Loc.mk 11 11)), (StackEntry.mk 44 YYVal.vnone (Loc.mk 10 10)), (StackEntry.mk 22 YYVal.vnone (Loc.mk 9 9)), (StackEntry.mk 43 YYVal.vnone (Loc.mk 8 8)), (StackEntry.mk 21 YYVal.vnone (Loc.mk 1 7)), (StackEntry.mk 1 YYVal.vnone (Loc.mk 0 0)), (StackEntry.mk 0 YYVal.vnone (Loc.mk 0 0))] (by rfl) (by rfl) (by rfl) (by rfl) (by rfl) (by rfl)).trans
  ((yyparse_step_reduce _ _ _ _ _ _ _ _ _ (EvalContext.mk Universe.V4 [(Token.TokenString x1), (Token.TokenString y1), Token.TokenEqual, (Token.TokenString x2), (Token.TokenString y2), Token.TokenEqual, Token.TokenOr, (Token.TokenString x3), (Token.TokenString y3), Token.TokenEqual] []) _ _ _ [(StackEntry.mk 84 YYVal.vnone (Loc.mk 9 11)), (StackEntry.mk 43 YYVal.vnone (Loc.mk 8 8)), (StackEntry.mk 21 YYVal.vnone (Loc.mk 1 7)), (StackEntry.mk 1 YYVal.vnone (Loc.mk 0 0)), (StackEntry.mk 0 YYVal.vnone (Loc.mk 0 0))] (by rfl) (by rfl) (by rfl) (by rfl) (by rfl) (by rfl)).trans
  ((yyparse_step_reduce _ _ _ _ _ _ _ _ _ (EvalContext.mk Universe.V4 [(Token.TokenString x1), (Token.TokenString y1), Token.TokenEqual, (Token.TokenString x2), (Token.TokenString y2), Token.TokenEqual, Token.TokenOr, (Token.TokenString x3), (Token.TokenString y3), Token.TokenEqual, Token.TokenOr] []) _ _ _ [(StackEntry.mk 21 YYVal.vnone (Loc.mk 1 11)), (StackEntry.mk 1 YYVal.vnone (Loc.mk 0 0)), (StackEntry.mk 0 YYVal.vnone (Loc.mk 0 0))] (by rfl) (by rfl) (by rfl) (by rfl) (by rfl) (by rfl)).trans
  ((yyparse_step_reduce _ _ _ _ _ _ _ _ _ (EvalContext.mk Universe.V4 [(Token.TokenString x1), (Token.TokenString y1), Token.TokenEqual, (Token.TokenString x2), (Token.TokenString y2), Token.TokenEqual, Token.TokenOr, (Token.TokenString x3), (Token.TokenString y3), Token.TokenEqual, Token.TokenOr] []) _ _ _ [(StackEntry.mk 20 YYVal.vnone (Loc.mk 1 11)), (StackEntry.mk 1 YYVal.vnone (Loc.mk 0 0)), (StackEntry.mk 0 YYVal.vnone (Loc.mk 0 0))] (by rfl) (by rfl) (by rfl) (by rfl) (by rfl) (by rfl)).trans
  ((yyparse_step_reduce _ _ _ _ _ _ _ _ _ (EvalContext.mk Universe.V4 [(Token.TokenString x1), (Token.TokenString y1), Token.TokenEqual, (Token.TokenString x2), (Token.TokenString y2), Token.TokenEqual, Token.TokenOr, (Token.TokenString x3), (Token.TokenString y3), Token.TokenEqual, Token.TokenOr] []) _ _ _ [(StackEntry.mk 3 YYVal.vnone (Loc.mk 0 11)), (StackEntry.mk 0 YYVal.vnone (Loc.mk 0 0))] (by rfl) (by rfl) (by rfl) (by rfl) (by rfl) (by rfl)).trans
  ((yyparse_step_shift _ _ _ _ _ _ _ _ [(StackEntry.mk 27 YYVal.vnone (Loc.mk 12 12)), (StackEntry.mk 3 YYVal.vnone (Loc.mk 0 11)), (StackEntry.mk 0 YYVal.vnone (Loc.mk 0 0))] (by rfl) (by rfl)).trans
  (yyparse_step_accept _ _ _ _ _ (by rfl))))))))))))))))))))))))))))

theorem run_or_or_left (x1 y1 x2 y2 x3 y3 : String) :
    yyparse 500 (EvalContext.mk Universe.V4 [] []) [StackEntry.mk 0 YYVal.vnone (Loc.mk 0 0)] none
      [(Terminal.tTopLevelBool, (Loc.mk 0 0)), (Terminal.tLParen, (Loc.mk 1 1)), ((Terminal.tString x1), (Loc.mk 2 2)), (Terminal.tEqual, (Loc.mk 3 3)), ((Terminal.tString y1), (Loc.mk 4 4)), (Terminal.tOr, (Loc.mk 5 5)), ((Terminal.tString x2), (Loc.mk 6 6)), (Terminal.tEqual, (Loc.mk 7 7)), ((Terminal.tString y2), (Loc.mk 8 8)), (Terminal.tRParen, (Loc.mk 9 9)), (Terminal.tOr, (Loc.mk 10 10)), ((Terminal.tString x3), (Loc.mk 11 11)), (Terminal.tEqual, (Loc.mk 12 12)), ((Terminal.tString y3), (Loc.mk 13 13)), (Terminal.tEndOfFile, (Loc.mk 14 14))] =
    .ok (EvalContext.mk Universe.V4 [(Token.TokenString x1), (Token.TokenString y1), Token.TokenEqual, (Token.TokenString x2), (Token.TokenString y2), Token.TokenEqual, Token.TokenOr, (Token.TokenString x3), (Token.TokenString y3), Token.TokenEqual, Token.TokenOr] []) := by
  exact ((yyparse_step_shift _ _ _ _ _ _ _ _ [(StackEntry.mk 1 YYVal.vnone (Loc.mk 0 0)), (StackEntry.mk 0 YYVal.vnone (Loc.mk 0 0))] (by rfl) (by rfl)).trans
  ((yyparse_step_shift _ _ _ _ _ _ _ _ [(StackEntry.mk 4 YYVal.vnone (Loc.mk 1 1)), (StackEntry.mk 1 YYVal.vnone (Loc.mk 0 0)), (StackEntry.mk 0 YYVal.vnone (Loc.mk 0 0))] (by rfl) (by rfl)).trans
  ((yyparse_step_shift _ _ _ _ _ _ _ _ [(StackEntry.mk 16 (YYVal.vstr x1) (Loc.mk 2 2)), (StackEntry.mk 4 YYVal.vnone (Loc.mk 1 1)), (StackEntry.mk 1 YYVal.vnone (Loc.mk 0 0)), (StackEntry.mk 0 YYVal.vnone (Loc.mk 0 0))] (by rfl) (by rfl)).trans
  ((yyparse_step_reduce _ _ _ _ _ _ _ _ _ (EvalContext.mk Universe.V4 [(Token.TokenString x1)] []) _ _ _ [(StackEntry.mk 22 YYVal.vnone (Loc.mk 2 2)), (StackEntry.mk 4 YYVal.vnone (Loc.mk 1 1)), (StackEntry.mk 1 YYVal.vnone (Loc.mk 0 0)), (StackEntry.mk 0 YYVal.vnone (Loc.mk 0 0))] (by rfl) (by rfl) (by rfl) (by rfl) (by rfl) (by rfl)).trans
  ((yyparse_step_shift _ _ _ _ _ _ _ _ [(StackEntry.mk 44 YYVal.vnone (Loc.mk 3 3)), (StackEntry.mk 22 YYVal.vnone (Loc.mk 2 2)), (StackEntry.mk 4 YYVal.vnone (Loc.mk 1 1)), (StackEntry.mk 1 YYVal.vnone (Loc.mk 0 0)), (StackEntry.mk 0 YYVal.vnone (Loc.mk 0 0))] (by rfl) (by rfl)).trans
  ((yyparse_step_shift _ _ _ _ _ _ _ _ [(StackEntry.mk 16 (YYVal.vstr y1) (Loc.mk 4 4)), (StackEntry.mk 44 YYVal.vnone (Loc.mk 3 3)), (StackEntry.mk 22 YYVal.vnone (Loc.mk 2 2)), (StackEntry.mk 4 YYVal.vnone (Loc.mk 1 1)), (StackEntry.mk 1 YYVal.vnone (Loc.mk 0 0)), (StackEntry.mk 0 YYVal.vnone (Loc.mk 0 0))] (by rfl) (by rfl)).trans
  ((yyparse_step_reduce _ _ _ _ _ _ _ _ _ (EvalContext.mk Universe.V4 [(Token.TokenString x1), (Token.TokenString y1)] []) _ _ _ [(StackEntry.mk 85 YYVal.vnone (Loc.mk 4 4)), (StackEntry.mk 44 YYVal.vnone (Loc.mk 3 3)), (StackEntry.mk 22 YYVal.vnone (Loc.mk 2 2)), (StackEntry.mk 4 YYVal.vnone (Loc.mk 1 1)), (StackEntry.mk 1 YYVal.vnone (Loc.mk 0 0)), (StackEntry.mk 0 YYVal.vnone (Loc.mk 0 0))] (by rfl) (by rfl) (by rfl) (by rfl) (by rfl) (by rfl)).trans
  ((yyparse_step_reduce _ _ _ _ _ _ _ _ _ (EvalContext.mk Universe.V4 [(Token.TokenString x1), (Token.TokenString y1), Token.TokenEqual] []) _ _ _ [(StackEntry.mk 28 YYVal.vnone (Loc.mk 2 4)), (StackEntry.mk 4 YYVal.vnone (Loc.mk 1 1)), (StackEntry.mk 1 YYVal.vnone (Loc.mk 0 0)), (StackEntry.mk 0 YYVal.vnone (Loc.mk 0 0))] (by rfl) (by rfl) (by rfl) (by rfl) (by rfl) (by rfl)).trans
  ((yyparse_step_shift _ _ _ _ _ _ _ _ [(StackEntry.mk 43 YYVal.vnone (Loc.mk 5 5)), (StackEntry.mk 28 YYVal.vnone (Loc.mk 2 4)), (StackEntry.mk 4 YYVal.vnone (Loc.mk 1 1)), (StackEntry.mk 1 YYVal.vnone (Loc.mk 0 0)), (StackEntry.mk 0 YYVal.vnone (Loc.mk 0 0))] (by rfl) (by rfl)).trans
  ((yyparse_step_shift _ _ _ _ _ _ _ _ [(StackEntry.mk 16 (YYVal.vstr x2) (Loc.mk 6 6)), (StackEntry.mk 43 YYVal.vnone (Loc.mk 5 5)), (StackEntry.mk 28 YYVal.vnone (Loc.mk 2 4)), (StackEntry.mk 4 YYVal.vnone (Loc.mk 1 1)), (StackEntry.mk 1 YYVal.vnone (Loc.mk 0 0)), (StackEntry.mk 0 YYVal.vnone (Loc.mk 0 0))] (by rfl) (by rfl)).trans
  ((yyparse_step_reduce _ _ _ _ _ _ _ _ _ (EvalContext.mk Universe.V4 [(Token.TokenString x1), (Token.TokenString y1), Token.TokenEqual, (Token.TokenString x2)] []) _ _ _ [(StackEntry.mk 22 YYVal.vnone (Loc.mk 6 6)), (StackEntry.mk 43 YYVal.vnone (Loc.mk 5 5)), (StackEntry.mk 28 YYVal.vnone (Loc.mk 2 4)), (StackEntry.mk 4 YYVal.vnone (Loc.mk 1 1)), (StackEntry.mk 1 YYVal.vnone (Loc.mk 0 0)), (StackEntry.mk 0 YYVal.vnone (Loc.mk 0 0))] (by rfl) (by rfl) (by rfl) (by rfl) (by rfl) (by rfl)).trans
  ((yyparse_step_shift _ _ _ _ _ _ _ _ [(StackEntry.mk 44 YYVal.vnone (Loc.mk 7 7)), (StackEntry.mk 22 YYVal.vnone (Loc.mk 6 6)), (StackEntry.mk 43 YYVal.vnone (Loc.mk 5 5)), (StackEntry.mk 28 YYVal.vnone (Loc.mk 2 4)), (StackEntry.mk 4 YYVal.vnone (Loc.mk 1 1)), (StackEntry.mk 1 YYVal.vnone (Loc.mk 0 0)), (StackEntry.mk 0 YYVal.vnone (Loc.mk 0 0))] (by rfl) (by rfl)).trans
  ((yyparse_step_shift _ _ _ _ _ _ _ _ [(StackEntry.mk 16 (YYVal.vstr y2) (Loc.mk 8 8)), (StackEntry.mk 44 YYVal.vnone (Loc.mk 7 7)), (StackEntry.mk 22 YYVal.vnone (Loc.mk 6 6)), (StackEntry.mk 43 YYVal.vnone (Loc.mk 5 5)), (StackEntry.mk 28 YYVal.vnone (Loc.mk 2 4)), (StackEntry.mk 4 YYVal.vnone (Loc.mk 1 1)), (StackEntry.mk 1 YYVal.vnone (Loc.mk 0 0)), (StackEntry.mk 0 YYVal.vnone (Loc.mk 0 0))] (by rfl) (by rfl)).trans
  ((yyparse_step_reduce _ _ _ _ _ _ _ _ _ (EvalContext.mk Universe.V4 [(Token.TokenString x1), (Token.TokenString y1), Token.TokenEqual, (Token.TokenString x2), (Token.TokenString y2)] []) _ _ _ [(StackEntry.mk 85 YYVal.vnone (Loc.mk 8 8)), (StackEntry.mk 44 YYVal.vnone (Loc.mk 7 7)), (StackEntry.mk 22 YYVal.vnone (Loc.mk 6 6)), (StackEntry.mk 43 YYVal.vnone (Loc.mk 5 5)), (StackEntry.mk 28 YYVal.vnone (Loc.mk 2 4)), (StackEntry.mk 4 YYVal.vnone (Loc.mk 1 1)), (StackEntry.mk 1 YYVal.vnone (Loc.mk 0 0)), (StackEntry.mk 0 YYVal.vnone (Loc.mk 0 0))] (by rfl) (by rfl) (by rfl) (by rfl) (by rfl) (by rfl)).trans
  ((yyparse_step_reduce _ _ _ _ _ _ _ _ _ (EvalContext.mk Universe.V4 [(Token.TokenString x1), (Token.TokenString y1), Token.TokenEqual, (Token.TokenString x2), (Token.TokenString y2), Token.TokenEqual] []) _ _ _ [(StackEntry.mk 84 YYVal.vnone (Loc.mk 6 8)), (StackEntry.mk 43 YYVal.vnone (Loc.mk 5 5)), (StackEntry.mk 28 YYVal.vnone (Loc.mk 2 4)), (StackEntry.mk 4 YYVal.vnone (Loc.mk 1 1)), (StackEntry.mk 1 YYVal.vnone (Loc.mk 0 0)), (StackEntry.mk 0 YYVal.vnone (Loc.mk 0 0))] (by rfl) (by rfl) (by rfl) (by rfl) (by rfl) (by rfl)).trans
  ((yyparse_step_reduce _ _ _ _ _ _ _ _ _ (EvalContext.mk Universe.V4 [(Token.TokenString x1), (Token.TokenString y1), Token.TokenEqual, (Token.TokenString x2), (Token.TokenString y2), Token.TokenEqual, Token.TokenOr] []) _ _ _ [(StackEntry.mk 28 YYVal.vnone (Loc.mk 2 8)), (StackEntry.mk 4 YYVal.vnone (Loc.mk 1 1)), (StackEntry.mk 1 YYVal.vnone (Loc.mk 0 0)), (StackEntry.mk 0 YYVal.vnone (Loc.mk 0 0))] (by rfl) (by rfl) (by rfl) (by rfl) (by rfl) (by rfl)).trans
  ((yyparse_step_shift _ _ _ _ _ _ _ _ [(StackEntry.mk 45 YYVal.vnone (Loc.mk 9 9)), (StackEntry.mk 28 YYVal.vnone (Loc.mk 2 8)), (StackEntry.mk 4 YYVal.vnone (Loc.mk 1 1)), (StackEntry.mk 1 YYVal.vnone (Loc.mk 0 0)), (StackEntry.mk 0 YYVal.vnone (Loc.mk 0 0))] (by rfl) (by rfl)).trans
  ((yyparse_step_reduce _ _ _ _ _ _ _ _ _ (EvalContext.mk Universe.V4 [(Token.TokenString x1), (Token.TokenString y1), Token.TokenEqual, (Token.TokenString x2), (Token.TokenString y2), Token.TokenEqual, Token.TokenOr] []) _ _ _ [(StackEntry.mk 21 YYVal.vnone (Loc.mk 1 9)), (StackEntry.mk 1 YYVal.vnone (Loc.mk 0 0)), (StackEntry.mk 0 YYVal.vnone (Loc.mk 0 0))] (by rfl) (by rfl) (by rfl) (by rfl) (by rfl) (by rfl)).trans
  ((yyparse_step_shift _ _ _ _ _ _ _ _ [(StackEntry.mk 43 YYVal.vnone (Loc.mk 10 10)), (StackEntry.mk 21 YYVal.vnone (Loc.mk 1 9)), (StackEntry.mk 1 YYVal.vnone (Loc.mk 0 0)), (StackEntry.mk 0 YYVal.vnone (Loc.mk 0 0))] (by rfl) (by rfl)).trans
  ((yyparse_step_shift _ _ _ _ _ _ _ _ [(StackEntry.mk 16 (YYVal.vstr x3) (Loc.mk 11 11)), (StackEntry.mk 43 YYVal.vnone (Loc.mk 10 10)), (StackEntry.mk 21 YYVal.vnone (Loc.mk 1 9)), (StackEntry.mk 1 YYVal.vnone (Loc.mk 0 0)), (StackEntry.mk 0 YYVal.vnone (Loc.mk 0 0))] (by rfl) (by rfl)).trans
  ((yyparse_step_reduce _ _ _ _ _ _ _ _ _ (EvalContext.mk Universe.V4 [(Token.TokenString x1), (Token.TokenString y1), Token.TokenEqual, (Token.TokenString x2), (Token.TokenString y2), Token.TokenEqual, Token.TokenOr, (Token.TokenString x3)] []) _ _ _ [(StackEntry.mk 22 YYVal.vnone (Loc.mk 11 11)), (StackEntry.mk 43 YYVal.vnone (Loc.mk 10 10)), (StackEntry.mk 21 YYVal.vnone (Loc.mk 1 9)), (StackEntry.mk 1 YYVal.vnone (Loc.mk 0 0)), (StackEntry.mk 0 YYVal.vnone (Loc.mk 0 0))] (by rfl) (by rfl) (by rfl) (by rfl) (by rfl) (by rfl)).trans
  ((yyparse_step_shift _ _ _ _ _ _ _ _ [(StackEntry.mk 44 YYVal.vnone (Loc.mk 12 12)), (StackEntry.mk 22 YYVal.vnone (Loc.mk 11 11)), (StackEntry.mk 43 YYVal.vnone (Loc.mk 10 10)), (StackEntry.mk 21 YYVal.vnone (Loc.mk 1 9)), (StackEntry.mk 1 YYVal.vnone (Loc.mk 0 0)), (StackEntry.mk 0 YYVal.vnone (Loc.mk 0 0))] (by rfl) (by rfl)).trans
  ((yyparse_step_shift _ _ _ _ _ _ _ _ [(StackEntry.mk 16 (YYVal.vstr y3) (Loc.mk 13 13)), (StackEntry.mk 44 YYVal.vnone (Loc.mk 12 12)), (StackEntry.mk 22 YYVal.vnone (Loc.mk 11 11)), (StackEntry.mk 43 YYVal.vnone (Loc.mk 10 10)), (StackEntry.mk 21 YYVal.vnone (Loc.mk 1 9)), (StackEntry.mk 1 YYVal.vnone (Loc.mk 0 0)), (StackEntry.mk 0 YYVal.vnone (Loc.mk 0 0))] (by rfl) (by rfl)).trans
  ((yyparse_step_reduce _ _ _ _ _ _ _ _ _ (EvalContext.mk Universe.V4 [(Token.TokenString x1), (Token.TokenString y1), Token.TokenEqual, (Token.TokenString x2), (Token.TokenString y2), Token.TokenEqual, Token.TokenOr, (Token.TokenString x3), (Token.TokenString y3)] []) _ _ _ [(StackEntry.mk 85 YYVal.vnone (Loc.mk 13 13)), (StackEntry.mk 44 YYVal.vnone (Loc.mk 12 12)), (StackEntry.mk 22 YYVal.vnone (Loc.mk 11 11)), (StackEntry.mk 43 YYVal.vnone (Loc.mk 10 10)), (StackEntry.mk 21 YYVal.vnone (Loc.mk 1 9)), (StackEntry.mk 1 YYVal.vnone (Loc.mk 0 0)), (StackEntry.mk 0 YYVal.vnone (Loc.mk 0 0))] (by rfl) (by rfl) (by rfl) (by rfl) (by rfl) (by rfl)).trans
  ((yyparse_step_reduce _ _ _ _ _ _ _ _ _ (EvalContext.mk Universe.V4 [(Token.TokenString x1), (Token.TokenString y1), Token.TokenEqual, (Token.TokenString x2), (Token.TokenString y2), Token.TokenEqual, Token.TokenOr, (Token.TokenString x3), (Token.TokenString y3), Token.TokenEqual] []) _ _ _ [(StackEntry.mk 84 YYVal.vnone (Loc.mk 11 13)), (StackEntry.mk 43 YYVal.vnone (Loc.mk 10 10)), (StackEntry.mk 21 YYVal.vnone (Loc.mk 1 9)), (StackEntry.mk 1 YYVal.vnone (Loc.mk 0 0)), (StackEntry.mk 0 YYVal.vnone (Loc.mk 0 0))] (by rfl) (by rfl) (by rfl) (by rfl) (by rfl) (by rfl)).trans
  ((yyparse_step_reduce _ _ _ _ _ _ _ _ _ (EvalContext.mk Universe.V4 [(Token.TokenString x1), (Token.TokenString y1), Token.TokenEqual, (Token.TokenString x2), (Token.TokenString y2), Token.TokenEqual, Token.TokenOr, (Token.TokenString x3), (Token.TokenString y3), Token.TokenEqual, Token.TokenOr] []) _ _ _ [(StackEntry.mk 21 YYVal.vnone (Loc.mk 1 13)), (StackEntry.mk 1 YYVal.vnone (Loc.mk 0 0)), (StackEntry.mk 0 YYVal.vnone (Loc.mk 0 0))] (by rfl) (by rfl) (by rfl) (by rfl) (by rfl) (by rfl)).trans
  ((yyparse_step_reduce _ _ _ _ _ _ _ _ _ (EvalContext.mk Universe.V4 [(Token.TokenString x1), (Token.TokenString y1), Token.TokenEqual, (Token.TokenString x2), (Token.TokenString y2), Token.TokenEqual, Token.TokenOr, (Token.TokenString x3), (Token.TokenString y3), Token.TokenEqual, Token.TokenOr] []) _ _ _ [(StackEntry.mk 20 YYVal.vnone (Loc.mk 1 13)), (StackEntry.mk 1 YYVal.vnone (Loc.mk 0 0)), (StackEntry.mk 0 YYVal.vnone (Loc.mk 0 0))] (by rfl) (by rfl) (by rfl) (by rfl) (by rfl) (by rfl)).trans
  ((yyparse_step_reduce _ _ _ _ _ _ _ _ _ (EvalContext.mk Universe.V4 [(Token.TokenString x1), (Token.TokenString y1), Token.TokenEqual, (Token.TokenString x2), (Token.TokenString y2), Token.TokenEqual, Token.TokenOr, (Token.TokenString x3), (Token.TokenString y3), Token.TokenEqual, Token.TokenOr] []) _ _ _ [(StackEntry.mk 3 YYVal.vnone (Loc.mk 0 13)), (StackEntry.mk 0 YYVal.vnone (Loc.mk 0 0))] (by rfl) (by rfl) (by rfl) (by rfl) (by rfl) (by rfl)).trans
  ((yyparse_step_shift _ _ _ _ _ _ _ _ [(StackEntry.mk 27 YYVal.vnone (Loc.mk 14 14)), (StackEntry.mk 3 YYVal.vnone (Loc.mk 0 13)), (StackEntry.mk 0 YYVal.vnone (Loc.mk 0 0))] (by rfl) (by rfl)).trans
  (yyparse_step_accept _ _ _ _ _ (by rfl)))))))))))))))))))))))))))))))

theorem run_and_and (x1 y1 x2 y2 x3 y3 : String) :
    yyparse 500 (EvalContext.mk Universe.V4 [] []) [StackEntry.mk 0 YYVal.vnone (Loc.mk 0 0)] none
      [(Terminal.tTopLevelBool, (Loc.mk 0 0)), ((Terminal.tString x1), (Loc.mk 1 1)), (Terminal.tEqual, (Loc.mk 2 2)), ((Terminal.tString y1), (Loc.mk 3 3)), (Terminal.tAnd, (Loc.mk 4 4)), ((Terminal.tString x2), (Loc.mk 5 5)), (Terminal.tEqual, (Loc.mk 6 6)), ((Terminal.tString y2), (Loc.mk 7 7)), (Terminal.tAnd, (Loc.mk 8 8)), ((Terminal.tString x3), (Loc.mk 9 9)), (Terminal.tEqual, (Loc.mk 10 10)), ((Terminal.tString y3), (Loc.mk 11 11)), (Terminal.tEndOfFile, (Loc.mk 12 12))] =
    .ok (EvalContext.mk Universe.V4 [(Token.TokenString x1), (Token.TokenString y1), Token.TokenEqual, (Token.TokenString x2), (Token.TokenString y2), Token.TokenEqual, Token.TokenAnd, (Token.TokenString x3), (Token.TokenString y3), Token.TokenEqual, Token.TokenAnd] []) := by
  exact ((yyparse_step_shift _ _ _ _ _ _ _ _ [(StackEntry.mk 1 YYVal.vnone (Loc.mk 0 0)), (StackEntry.mk 0 YYVal.vnone (Loc.mk 0 0))] (by rfl) (by rfl)).trans
  ((yyparse_step_shift _ _ _ _ _ _ _ _ [(StackEntry.mk 16 (YYVal.vstr x1) (Loc.mk 1 1)), (StackEntry.mk 1 YYVal.vnone (Loc.mk 0 0)), (StackEntry.mk 0 YYVal.vnone (Loc.mk 0 0))] (by rfl) (by rfl)).trans
  ((yyparse_step_reduce _ _ _ _ _ _ _ _ _ (EvalContext.mk Universe.V4 [(Token.TokenString x1)] []) _ _ _ [(StackEntry.mk 22 YYVal.vnone (Loc.mk 1 1)), (StackEntry.mk 1 YYVal.vnone (Loc.mk 0 0)), (StackEntry.mk 0 YYVal.vnone (Loc.mk 0 0))] (by rfl) (by rfl) (by rfl) (by rfl) (by rfl) (by rfl)).trans
  ((yyparse_step_shift _ _ _ _ _ _ _ _ [(StackEntry.mk 44 YYVal.vnone (Loc.mk 2 2)), (StackEntry.mk 22 YYVal.vnone (Loc.mk 1 1)), (StackEntry.mk 1 YYVal.vnone (Loc.mk 0 0)), (StackEntry.mk 0 YYVal.vnone (Loc.mk 0 0))] (by rfl) (by rfl)).trans
  ((yyparse_step_shift _ _ _ _ _ _ _ _ [(StackEntry.mk 16 (YYVal.vstr y1) (Loc.mk 3 3)), (StackEntry.mk 44 YYVal.vnone (Loc.mk 2 2)), (StackEntry.mk 22 YYVal.vnone (Loc.mk 1 1)), (StackEntry.mk 1 YYVal.vnone (Loc.mk 0 0)), (StackEntry.mk 0 YYVal.vnone (Loc.mk 0 0))] (by rfl) (by rfl)).trans
  ((yyparse_step_reduce _ _ _ _ _ _ _ _ _ (EvalContext.mk Universe.V4 [(Token.TokenString x1), (Token.TokenString y1)] []) _ _ _ [(StackEntry.mk 85 YYVal.vnone (Loc.mk 3 3)), (StackEntry.mk 44 YYVal.vnone (Loc.mk 2 2)), (StackEntry.mk 22 YYVal.vnone (Loc.mk 1 1)), (StackEntry.mk 1 YYVal.vnone (Loc.mk 0 0)), (StackEntry.mk 0 YYVal.vnone (Loc.mk 0 0))] (by rfl) (by rfl) (by rfl) (by rfl) (by rfl) (by rfl)).trans
  ((yyparse_step_reduce _ _ _ _ _ _ _ _ _ (EvalContext.mk Universe.V4 [(Token.TokenString x1), (Token.TokenString y1), Token.TokenEqual] []) _ _ _ [(StackEntry.mk 21 YYVal.vnone (Loc.mk 1 3)), (StackEntry.mk 1 YYVal.vnone (Loc.mk 0 0)), (StackEntry.mk 0 YYVal.vnone (Loc.mk 0 0))] (by rfl) (by rfl) (by rfl) (by rfl) (by rfl) (by rfl)).trans
  ((yyparse_step_shift _ _ _ _ _ _ _ _ [(StackEntry.mk 42 YYVal.vnone (Loc.mk 4 4)), (StackEntry.mk 21 YYVal.vnone (Loc.mk 1 3)), (StackEntry.mk 1 YYVal.vnone (Loc.mk 0 0)), (StackEntry.mk 0 YYVal.vnone (Loc.mk 0 0))] (by rfl) (by rfl)).trans
  ((yyparse_step_shift _ _ _ _ _ _ _ _ [(StackEntry.mk 16 (YYVal.vstr x2) (Loc.mk 5 5)), (StackEntry.mk 42 YYVal.vnone (Loc.mk 4 4)), (StackEntry.mk 21 YYVal.vnone (Loc.mk 1 3)), (StackEntry.mk 1 YYVal.vnone (Loc.mk 0 0)), (StackEntry.mk 0 YYVal.vnone (Loc.mk 0 0))] (by rfl) (by rfl)).trans
  ((yyparse_step_reduce _ _ _ _ _ _ _ _ _ (EvalContext.mk Universe.V4 [(Token.TokenString x1), (Token.TokenString y1), Token.TokenEqual, (Token.TokenString x2)] []) _ _ _ [(StackEntry.mk 22 YYVal.vnone (Loc.mk 5 5)), (StackEntry.mk 42 YYVal.vnone (Loc.mk 4 4)), (StackEntry.mk 21 YYVal.vnone (Loc.mk 1 3)), (StackEntry.mk 1 YYVal.vnone (Loc.mk 0 0)), (StackEntry.mk 0 YYVal.vnone (Loc.mk 0 0))] (by rfl) (by rfl) (by rfl) (by rfl) (by rfl) (by rfl)).trans
  ((yyparse_step_shift _ _ _ _ _ _ _ _ [(StackEntry.mk 44 YYVal.vnone (Loc.mk 6 6)), (StackEntry.mk 22 YYVal.vnone (Loc.mk 5 5)), (StackEntry.mk 42 YYVal.vnone (Loc.mk 4 4)), (StackEntry.mk 21 YYVal.vnone (Loc.mk 1 3)), (StackEntry.mk 1 YYVal.vnone (Loc.mk 0 0)), (StackEntry.mk 0 YYVal.vnone (Loc.mk 0 0))] (by rfl) (by rfl)).trans
  ((yyparse_step_shift _ _ _ _ _ _ _ _ [(StackEntry.mk 16 (YYVal.vstr y2) (Loc.mk 7 7)), (StackEntry.mk 44 YYVal.vnone (Loc.mk 6 6)), (StackEntry.mk 22 YYVal.vnone (Loc.mk 5 5)), (StackEntry.mk 42 YYVal.vnone (Loc.mk 4 4)), (StackEntry.mk 21 YYVal.vnone (Loc.mk 1 3)), (StackEntry.mk 1 YYVal.vnone (Loc.mk 0 0)), (StackEntry.mk 0 YYVal.vnone (Loc.mk 0 0))] (by rfl) (by rfl)).trans
  ((yyparse_step_reduce _ _ _ _ _ _ _ _ _ (EvalContext.mk Universe.V4 [(Token.TokenString x1), (Token.TokenString y1), Token.TokenEqual, (Token.TokenString x2), (Token.TokenString y2)] []) _ _ _ [(StackEntry.mk 85 YYVal.vnone (Loc.mk 7 7)), (StackEntry.mk 44 YYVal.vnone (Loc.mk 6 6)), (StackEntry.mk 22 YYVal.vnone (Loc.mk 5 5)), (StackEntry.mk 42 YYVal.vnone (Loc.mk 4 4)), (StackEntry.mk 21 YYVal.vnone (Loc.mk 1 3)), (StackEntry.mk 1 YYVal.vnone (Loc.mk 0 0)), (StackEntry.mk 0 YYVal.vnone (Loc.mk 0 0))] (by rfl) (by rfl) (by rfl) (by rfl) (by rfl) (by rfl)).trans
  ((yyparse_step_reduce _ _ _ _ _ _ _ _ _ (EvalContext.mk Universe.V4 [(Token.TokenString x1), (Token.TokenString y1), Token.TokenEqual, (Token.TokenString x2), (Token.TokenString y2), Token.TokenEqual] []) _ _ _ [(StackEntry.mk 83 YYVal.vnone (Loc.mk 5 7)), (StackEntry.mk 42 YYVal.vnone (Loc.mk 4 4)), (StackEntry.mk 21 YYVal.vnone (Loc.mk 1 3)), (StackEntry.mk 1 YYVal.vnone (Loc.mk 0 0)), (StackEntry.mk 0 YYVal.vnone (Loc.mk 0 0))] (by rfl) (by rfl) (by rfl) (by rfl) (by rfl) (by rfl)).trans
  ((yyparse_step_reduce _ _ _ _ _ _ _ _ _ (EvalContext.mk Universe.V4 [(Token.TokenString x1), (Token.TokenString y1), Token.TokenEqual, (Token.TokenString x2), (Token.TokenString y2), Token.TokenEqual, Token.TokenAnd] []) _ _ _ [(StackEntry.mk 21 YYVal.vnone (Loc.mk 1 7)), (StackEntry.mk 1 YYVal.vnone (Loc.mk 0 0)), (StackEntry.mk 0 YYVal.vnone (Loc.mk 0 0))] (by rfl) (by rfl) (by rfl) (by rfl) (by rfl) (by rfl)).trans
  ((yyparse_step_shift _ _ _ _ _ _ _ _ [(StackEntry.mk 42 YYVal.vnone (Loc.mk 8 8)), (StackEntry.mk 21 YYVal.vnone (Loc.mk 1 7)), (StackEntry.mk 1 YYVal.vnone (Loc.mk 0 0)), (StackEntry.mk 0 YYVal.vnone (Loc.mk 0 0))] (by rfl) (by rfl)).trans
  ((yyparse_step_shift _ _ _ _ _ _ _ _ [(StackEntry.mk 16 (YYVal.vstr x3) (Loc.mk 9 9)), (StackEntry.mk 42 YYVal.vnone (Loc.mk 8 8)), (StackEntry.mk 21 YYVal.vnone (Loc.mk 1 7)), (StackEntry.mk 1 YYVal.vnone (Loc.mk 0 0)), (StackEntry.mk 0 YYVal.vnone (Loc.mk 0 0))] (by rfl) (by rfl)).trans
  ((yyparse_step_reduce _ _ _ _ _ _ _ _ _ (EvalContext.mk Universe.V4 [(Token.TokenString x1), (Token.TokenString y1), Token.TokenEqual, (Token.TokenString x2), (Token.TokenString y2), Token.TokenEqual, Token.TokenAnd, (Token.TokenString x3)] []) _ _ _ [(StackEntry.mk 22 YYVal.vnone (Loc.mk 9 9)), (StackEntry.mk 42 YYVal.vnone (Loc.mk 8 8)), (StackEntry.mk 21 YYVal.vnone (Loc.mk 1 7)), (StackEntry.mk 1 YYVal.vnone (Loc.mk 0 0)), (StackEntry.mk 0 YYVal.vnone (Loc.mk 0 0))] (by rfl) (by rfl) (by rfl) (by rfl) (by rfl) (by rfl)).trans
  ((yyparse_step_shift _ _ _ _ _ _ _ _ [(StackEntry.mk 44 YYVal.vnone (Loc.mk 10 10)), (StackEntry.mk 22 YYVal.vnone (Loc.mk 9 9)), (StackEntry.mk 42 YYVal.vnone (Loc.mk 8 8)), (StackEntry.mk 21 YYVal.vnone (Loc.mk 1 7)), (StackEntry.mk 1 YYVal.vnone (Loc.mk 0 0)), (StackEntry.mk 0 YYVal.vnone (Loc.mk 0 0))] (by rfl) (by rfl)).trans
  ((yyparse_step_shift _ _ _ _ _ _ _ _ [(StackEntry.mk 16 (YYVal.vstr y3) (Loc.mk 11 11)), (StackEntry.mk 44 YYVal.vnone (Loc.mk 10 10)), (StackEntry.mk 22 YYVal.vnone (Loc.mk 9 9)), (StackEntry.mk 42 YYVal.vnone (Loc.mk 8 8)), (StackEntry.mk 21 YYVal.vnone (Loc.mk 1 7)), (StackEntry.mk 1 YYVal.vnone (Loc.mk 0 0)), (StackEntry.mk 0 YYVal.vnone (Loc.mk 0 0))] (by rfl) (by rfl)).trans
  ((yyparse_step_reduce _ _ _ _ _ _ _ _ _ (EvalContext.mk Universe.V4 [(Token.TokenString x1), (Token.TokenString y1), Token.TokenEqual, (Token.TokenString x2), (Token.TokenString y2), Token.TokenEqual, Token.TokenAnd, (Token.TokenString x3), (Token.TokenString y3)] []) _ _ _ [(StackEntry.mk 85 YYVal.vnone (Loc.mk 11 11)), (StackEntry.mk 44 YYVal.vnone (Loc.mk 10 10)), (StackEntry.mk 22 YYVal.vnone (Loc.mk 9 9)), (StackEntry.mk 42 YYVal.vnone (Loc.mk 8 8)), (StackEntry.mk 21 YYVal.vnone (Loc.mk 1 7)), (StackEntry.mk 1 YYVal.vnone (Loc.mk 0 0)), (StackEntry.mk 0 YYVal.vnone (Loc.mk 0 0))] (by rfl) (by rfl) (by rfl) (by rfl) (by rfl) (by rfl)).trans
  ((yyparse_step_reduce _ _ _ _ _ _ _ _ _ (EvalContext.mk Universe.V4 [(Token.TokenString x1), (Token.TokenString y1), Token.TokenEqual, (Token.TokenString x2), (Token.TokenString y2), Token.TokenEqual, Token.TokenAnd, (Token.TokenString x3), (Token.TokenString y3), Token.TokenEqual] []) _ _ _ [(StackEntry.mk 83 YYVal.vnone (Loc.mk 9 11)), (StackEntry.mk 42 YYVal.vnone (Loc.mk 8 8)), (StackEntry.mk 21 YYVal.vnone (Loc.mk 1 7)), (StackEntry.mk 1 YYVal.vnone (Loc.mk 0 0)), (StackEntry.mk 0 YYVal.vnone (Loc.mk 0 0))] (by rfl) (by rfl) (by rfl) (by rfl) (by rfl) (by rfl)).trans
  ((yyparse_step_reduce _ _ _ _ _ _ _ _ _ (EvalContext.mk Universe.V4 [(Token.TokenString x1), (Token.TokenString y1), Token.TokenEqual, (Token.TokenString x2), (Token.TokenString y2), Token.TokenEqual, Token.TokenAnd, (Token.TokenString x3), (Token.TokenString y3), Token.TokenEqual, Token.TokenAnd] []) _ _ _ [(StackEntry.mk 21 YYVal.vnone (Loc.mk 1 11)), (StackEntry.mk 1 YYVal.vnone (Loc.mk 0 0)), (StackEntry.mk 0 YYVal.vnone (Loc.mk 0 0))] (by rfl) (by rfl) (by rfl) (by rfl) (by rfl) (by rfl)).trans
  ((yyparse_step_reduce _ _ _ _ _ _ _ _ _ (EvalContext.mk Universe.V4 [(Token.TokenString x1), (Token.TokenString y1), Token.TokenEqual, (Token.TokenString x2), (Token.TokenString y2), Token.TokenEqual, Token.TokenAnd, (Token.TokenString x3), (Token.TokenString y3), Token.TokenEqual, Token.TokenAnd] []) _ _ _ [(StackEntry.mk 20 YYVal.vnone (Loc.mk 1 11)), (StackEntry.mk 1 YYVal.vnone (Loc.mk 0 0)), (StackEntry.mk 0 YYVal.vnone (Loc.mk 0 0))] (by rfl) (by rfl) (by rfl) (by rfl) (by rfl) (by rfl)).trans
  ((yyparse_step_reduce _ _ _ _ _ _ _ _ _ (EvalContext.mk Universe.V4 [(Token.TokenString x1), (Token.TokenString y1), Token.TokenEqual, (Token.TokenString x2), (Token.TokenString y2), Token.TokenEqual, Token.TokenAnd, (Token.TokenString x3), (Token.TokenString y3), Token.TokenEqual, Token.TokenAnd] []) _ _ _ [(StackEntry.mk 3 YYVal.vnone (Loc.mk 0 11)), (StackEntry.mk 0 YYVal.vnone (Loc.mk 0 0))] (by rfl) (by rfl) (by rfl) (by rfl) (by rfl) (by rfl)).trans
  ((yyparse_step_shift _ _ _ _ _ _ _ _ [(StackEntry.mk 27 YYVal.vnone (Loc.mk 12 12)), (StackEntry.mk 3 YYVal.vnone (Loc.mk 0 11)), (StackEntry.mk 0 YYVal.vnone (Loc.mk 0 0))] (by rfl) (by rfl)).trans
  (yyparse_step_accept _ _ _ _ _ (by rfl))))))))))))))))))))))))))))

theorem run_and_and_left (x1 y1 x2 y2 x3 y3 : String) :
    yyparse 500 (EvalContext.mk Universe.V4 [] []) [StackEntry.mk 0 YYVal.vnone (Loc.mk 0 0)] none
      [(Terminal.tTopLevelBool, (Loc.mk 0 0)), (Terminal.tLParen, (Loc.mk 1 1)), ((Terminal.tString x1), (Loc.mk 2 2)), (Terminal.tEqual, (Loc.mk 3 3)), ((Terminal.tString y1), (Loc.mk 4 4)), (Terminal.tAnd, (Loc.mk 5 5)), ((Terminal.tString x2), (Loc.mk 6 6)), (Terminal.tEqual, (Loc.mk 7 7)), ((Terminal.tString y2), (Loc.mk 8 8)), (Terminal.tRParen, (Loc.mk 9 9)), (Terminal.tAnd, (Loc.mk 10 10)), ((Terminal.tString x3), (Loc.mk 11 11)), (Terminal.tEqual, (Loc.mk 12 12)), ((Terminal.tString y3), (Loc.mk 13 13)), (Terminal.tEndOfFile, (Loc.mk 14 14))] =
    .ok (EvalContext.mk Universe.V4 [(Token.TokenString x1), (Token.TokenString y1), Token.TokenEqual, (Token.TokenString x2), (Token.TokenString y2), Token.TokenEqual, Token.TokenAnd, (Token.TokenString x3), (Token.TokenString y3), Token.TokenEqual, Token.TokenAnd] []) := by
  exact ((yyparse_step_shift _ _ _ _ _ _ _ _ [(StackEntry.mk 1 YYVal.vnone (Loc.mk 0 0)), (StackEntry.mk 0 YYVal.vnone (Loc.mk 0 0))] (by rfl) (by rfl)).trans
  ((yyparse_step_shift _ _ _ _ _ _ _ _ [(StackEntry.mk 4 YYVal.vnone (Loc.mk 1 1)), (StackEntry.mk 1 YYVal.vnone (Loc.mk 0 0)), (StackEntry.mk 0 YYVal.vnone (Loc.mk 0 0))] (by rfl) (by rfl)).trans
  ((yyparse_step_shift _ _ _ _ _ _ _ _ [(StackEntry.mk 16 (YYVal.vstr x1) (Loc.mk 2 2)), (StackEntry.mk 4 YYVal.vnone (Loc.mk 1 1)), (StackEntry.mk 1 YYVal.vnone (Loc.mk 0 0)), (StackEntry.mk 0 YYVal.vnone (Loc.mk 0 0))] (by rfl) (by rfl)).trans
  ((yyparse_step_reduce _ _ _ _ _ _ _ _ _ (EvalContext.mk Universe.V4 [(Token.TokenString x1)] []) _ _ _ [(StackEntry.mk 22 YYVal.vnone (Loc.mk 2 2)), (StackEntry.mk 4 YYVal.vnone (Loc.mk 1 1)), (StackEntry.mk 1 YYVal.vnone (Loc.mk 0 0)), (StackEntry.mk 0 YYVal.vnone (Loc.mk 0 0))] (by rfl) (by rfl) (by rfl) (by rfl) (by rfl) (by rfl)).trans
  ((yyparse_step_shift _ _ _ _ _ _ _ _ [(StackEntry.mk 44 YYVal.vnone (Loc.mk 3 3)), (StackEntry.mk 22 YYVal.vnone (Loc.mk 2 2)), (StackEntry.mk 4 YYVal.vnone (Loc.mk 1 1)), (StackEntry.mk 1 YYVal.vnone (Loc.mk 0 0)), (StackEntry.mk 0 YYVal.vnone (Loc.mk 0 0))] (by rfl) (by rfl)).trans
  ((yyparse_step_shift _ _ _ _ _ _ _ _ [(StackEntry.mk 16 (YYVal.vstr y1) (Loc.mk 4 4)), (StackEntry.mk 44 YYVal.vnone (Loc.mk 3 3)), (StackEntry.mk 22 YYVal.vnone (Loc.mk 2 2)), (StackEntry.mk 4 YYVal.vnone (Loc.mk 1 1)), (StackEntry.mk 1 YYVal.vnone (Loc.mk 0 0)), (StackEntry.mk 0 YYVal.vnone (Loc.mk 0 0))] (by rfl) (by rfl)).trans
  ((yyparse_step_reduce _ _ _ _ _ _ _ _ _ (EvalContext.mk Universe.V4 [(Token.TokenString x1), (Token.TokenString y1)] []) _ _ _ [(StackEntry.mk 85 YYVal.vnone (Loc.mk 4 4)), (StackEntry.mk 44 YYVal.vnone (Loc.mk 3 3)), (StackEntry.mk 22 YYVal.vnone (Loc.mk 2 2)), (StackEntry.mk 4 YYVal.vnone (Loc.mk 1 1)), (StackEntry.mk 1 YYVal.vnone (Loc.mk 0 0)), (StackEntry.mk 0 YYVal.vnone (Loc.mk 0 0))] (by rfl) (by rfl) (by rfl) (by rfl) (by rfl) (by rfl)).trans
  ((yyparse_step_reduce _ _ _ _ _ _ _ _ _ (EvalContext.mk Universe.V4 [(Token.TokenString x1), (Token.TokenString y1), Token.TokenEqual] []) _ _ _ [(StackEntry.mk 28 YYVal.vnone (Loc.mk 2 4)), (StackEntry.mk 4 YYVal.vnone (Loc.mk 1 1)), (StackEntry.mk 1 YYVal.vnone (Loc.mk 0 0)), (StackEntry.mk 0 YYVal.vnone (Loc.mk 0 0))] (by rfl) (by rfl) (by rfl) (by rfl) (by rfl) (by rfl)).trans
  ((yyparse_step_shift _ _ _ _ _ _ _ _ [(StackEntry.mk 42 YYVal.vnone (Loc.mk 5 5)), (StackEntry.mk 28 YYVal.vnone (Loc.mk 2 4)), (StackEntry.mk 4 YYVal.vnone (Loc.mk 1 1)), (StackEntry.mk 1 YYVal.vnone (Loc.mk 0 0)), (StackEntry.mk 0 YYVal.vnone (Loc.mk 0 0))] (by rfl) (by rfl)).trans
  ((yyparse_step_shift _ _ _ _ _ _ _ _ [(StackEntry.mk 16 (YYVal.vstr x2) (Loc.mk 6 6)), (StackEntry.mk 42 YYVal.vnone (Loc.mk 5 5)), (StackEntry.mk 28 YYVal.vnone (Loc.mk 2 4)), (StackEntry.mk 4 YYVal.vnone (Loc.mk 1 1)), (StackEntry.mk 1 YYVal.vnone (Loc.mk 0 0)), (StackEntry.mk 0 YYVal.vnone (Loc.mk 0 0))] (by rfl) (by rfl)).trans
  ((yyparse_step_reduce _ _ _ _ _ _ _ _ _ (EvalContext.mk Universe.V4 [(Token.TokenString x1), (Token.TokenString y1), Token.TokenEqual, (Token.TokenString x2)] []) _ _ _ [(StackEntry.mk 22 YYVal.vnone (Loc.mk 6 6)), (StackEntry.mk 42 YYVal.vnone (Loc.mk 5 5)), (StackEntry.mk 28 YYVal.vnone (Loc.mk 2 4)), (StackEntry.mk 4 YYVal.vnone (Loc.mk 1 1)), (StackEntry.mk 1 YYVal.vnone (Loc.mk 0 0)), (StackEntry.mk 0 YYVal.vnone (Loc.mk 0 0))] (by rfl) (by rfl) (by rfl) (by rfl) (by rfl) (by rfl)).trans
  ((yyparse_step_shift _ _ _ _ _ _ _ _ [(StackEntry.mk 44 YYVal.vnone (Loc.mk 7 7)), (StackEntry.mk 22 YYVal.vnone (Loc.mk 6 6)), (StackEntry.mk 42 YYVal.vnone (Loc.mk 5 5)), (StackEntry.mk 28 YYVal.vnone (Loc.mk 2 4)), (StackEntry.mk 4 YYVal.vnone (Loc.mk 1 1)), (StackEntry.mk 1 YYVal.vnone (Loc.mk 0 0)), (StackEntry.mk 0 YYVal.vnone (Loc.mk 0 0))] (by rfl) (by rfl)).trans
  ((yyparse_step_shift _ _ _ _ _ _ _ _ [(StackEntry.mk 16 (YYVal.vstr y2) (Loc.mk 8 8)), (StackEntry.mk 44 YYVal.vnone (Loc.mk 7 7)), (StackEntry.mk 22 YYVal.vnone (Loc.mk 6 6)), (StackEntry.mk 42 YYVal.vnone (Loc.mk 5 5)), (StackEntry.mk 28 YYVal.vnone (Loc.mk 2 4)), (StackEntry.mk 4 YYVal.vnone (Loc.mk 1 1)), (StackEntry.mk 1 YYVal.vnone (Loc.mk 0 0)), (StackEntry.mk 0 YYVal.vnone (Loc.mk 0 0))] (by rfl) (by rfl)).trans
  ((yyparse_step_reduce _ _ _ _ _ _ _ _ _ (EvalContext.mk Universe.V4 [(Token.TokenString x1), (Token.TokenString y1), Token.TokenEqual, (Token.TokenString x2), (Token.TokenString y2)] []) _ _ _ [(StackEntry.mk 85 YYVal.vnone (Loc.mk 8 8)), (StackEntry.mk 44 YYVal.vnone (Loc.mk 7 7)), (StackEntry.mk 22 YYVal.vnone (Loc.mk 6 6)), (StackEntry.mk 42 YYVal.vnone (Loc.mk 5 5)), (StackEntry.mk 28 YYVal.vnone (Loc.mk 2 4)), (StackEntry.mk 4 YYVal.vnone (Loc.mk 1 1)), (StackEntry.mk 1 YYVal.vnone (Loc.mk 0 0)), (StackEntry.mk 0 YYVal.vnone (Loc.mk 0 0))] (by rfl) (by rfl) (by rfl) (by rfl) (by rfl) (by rfl)).trans
  ((yyparse_step_reduce _ _ _ _ _ _ _ _ _ (EvalContext.mk Universe.V4 [(Token.TokenString x1), (Token.TokenString y1), Token.TokenEqual, (Token.TokenString x2), (Token.TokenString y2), Token.TokenEqual] []) _ _ _ [(StackEntry.mk 83 YYVal.vnone (Loc.mk 6 8)), (StackEntry.mk 42 YYVal.vnone (Loc.mk 5 5)), (StackEntry.mk 28 YYVal.vnone (Loc.mk 2 4)), (StackEntry.mk 4 YYVal.vnone (Loc.mk 1 1)), (StackEntry.mk 1 YYVal.vnone (Loc.mk 0 0)), (StackEntry.mk 0 YYVal.vnone (Loc.mk 0 0))] (by rfl) (by rfl) (by rfl) (by rfl) (by rfl) (by rfl)).trans
  ((yyparse_step_reduce _ _ _ _ _ _ _ _ _ (EvalContext.mk Universe.V4 [(Token.TokenString x1), (Token.TokenString y1), Token.TokenEqual, (Token.TokenString x2), (Token.TokenString y2), Token.TokenEqual, Token.TokenAnd] []) _ _ _ [(StackEntry.mk 28 YYVal.vnone (Loc.mk 2 8)), (StackEntry.mk 4 YYVal.vnone (Loc.mk 1 1)), (StackEntry.mk 1 YYVal.vnone (Loc.mk 0 0)), (StackEntry.mk 0 YYVal.vnone (Loc.mk 0 0))] (by rfl) (by rfl) (by rfl) (by rfl) (by rfl) (by rfl)).trans
  ((yyparse_step_shift _ _ _ _ _ _ _ _ [(StackEntry.mk 45 YYVal.vnone (Loc.mk 9 9)), (StackEntry.mk 28 YYVal.vnone (Loc.mk 2 8)), (StackEntry.mk 4 YYVal.vnone (Loc.mk 1 1)), (StackEntry.mk 1 YYVal.vnone (Loc.mk 0 0)), (StackEntry.mk 0 YYVal.vnone (Loc.mk 0 0))] (by rfl) (by rfl)).trans
  ((yyparse_step_reduce _ _ _ _ _ _ _ _ _ (EvalContext.mk Universe.V4 [(Token.TokenString x1), (Token.TokenString y1), Token.TokenEqual, (Token.TokenString x2), (Token.TokenString y2), Token.TokenEqual, Token.TokenAnd] []) _ _ _ [(StackEntry.mk 21 YYVal.vnone (Loc.mk 1 9)), (StackEntry.mk 1 YYVal.vnone (Loc.mk 0 0)), (StackEntry.mk 0 YYVal.vnone (Loc.mk 0 0))] (by rfl) (by rfl) (by rfl) (by rfl) (by rfl) (by rfl)).trans
  ((yyparse_step_shift _ _ _ _ _ _ _ _ [(StackEntry.mk 42 YYVal.vnone (Loc.mk 10 10)), (StackEntry.mk 21 YYVal.vnone (Loc.mk 1 9)), (StackEntry.mk 1 YYVal.vnone (Loc.mk 0 0)), (StackEntry.mk 0 YYVal.vnone (Loc.mk 0 0))] (by rfl) (by rfl)).trans
  ((yyparse_step_shift _ _ _ _ _ _ _ _ [(StackEntry.mk 16 (YYVal.vstr x3) (Loc.mk 11 11)), (StackEntry.mk 42 YYVal.vnone (Loc.mk 10 10)), (StackEntry.mk 21 YYVal.vnone (Loc.mk 1 9)), (StackEntry.mk 1 YYVal.vnone (Loc.mk 0 0)), (StackEntry.mk 0 YYVal.vnone (Loc.mk 0 0))] (by rfl) (by rfl)).trans
  ((yyparse_step_reduce _ _ _ _ _ _ _ _ _ (EvalContext.mk Universe.V4 [(Token.TokenString x1), (Token.TokenString y1), Token.TokenEqual, (Token.TokenString x2), (Token.TokenString y2), Token.TokenEqual, Token.TokenAnd, (Token.TokenString x3)] []) _ _ _ [(StackEntry.mk 22 YYVal.vnone (Loc.mk 11 11)), (StackEntry.mk 42 YYVal.vnone (Loc.mk 10 10)), (StackEntry.mk 21 YYVal.vnone (Loc.mk 1 9)), (StackEntry.mk 1 YYVal.vnone (Loc.mk 0 0)), (StackEntry.mk 0 YYVal.vnone (Loc.mk 0 0))] (by rfl) (by rfl) (by rfl) (by rfl) (by rfl) (by rfl)).trans
  ((yyparse_step_shift _ _ _ _ _ _ _ _ [(StackEntry.mk 44 YYVal.vnone (Loc.mk 12 12)), (StackEntry.mk 22 YYVal.vnone (Loc.mk 11 11)), (StackEntry.mk 42 YYVal.vnone (Loc.mk 10 10)), (StackEntry.mk 21 YYVal.vnone (Loc.mk 1 9)), (StackEntry.mk 1 YYVal.vnone (Loc.mk 0 0)), (StackEntry.mk 0 YYVal.vnone (Loc.mk 0 0))] (by rfl) (by rfl)).trans
  ((yyparse_step_shift _ _ _ _ _ _ _ _ [(StackEntry.mk 16 (YYVal.vstr y3) (Loc.mk 13 13)), (StackEntry.mk 44 YYVal.vnone (Loc.mk 12 12)), (StackEntry.mk 22 YYVal.vnone (Loc.mk 11 11)), (StackEntry.mk 42 YYVal.vnone (Loc.mk 10 10)), (StackEntry.mk 21 YYVal.vnone (Loc.mk 1 9)), (StackEntry.mk 1 YYVal.vnone (Loc.mk 0 0)), (StackEntry.mk 0 YYVal.vnone (Loc.mk 0 0))] (by rfl) (by rfl)).trans
  ((yyparse_step_reduce _ _ _ _ _ _ _ _ _ (EvalContext.mk Universe.V4 [(Token.TokenString x1), (Token.TokenString y1), Token.TokenEqual, (Token.TokenString x2), (Token.TokenString y2), Token.TokenEqual, Token.TokenAnd, (Token.TokenString x3), (Token.TokenString y3)] []) _ _ _ [(StackEntry.mk 85 YYVal.vnone (Loc.mk 13 13)), (StackEntry.mk 44 YYVal.vnone (Loc.mk 12 12)), (StackEntry.mk 22 YYVal.vnone (Loc.mk 11 11)), (StackEntry.mk 42 YYVal.vnone (Loc.mk 10 10)), (StackEntry.mk 21 YYVal.vnone (Loc.mk 1 9)), (StackEntry.mk 1 YYVal.vnone (Loc.mk 0 0)), (StackEntry.mk 0 YYVal.vnone (Loc.mk 0 0))] (by rfl) (by rfl) (by rfl) (by rfl) (by rfl) (by rfl)).trans
  ((yyparse_step_reduce _ _ _ _ _ _ _ _ _ (EvalContext.mk Universe.V4 [(Token.TokenString x1), (Token.TokenString y1), Token.TokenEqual, (Token.TokenString x2), (Token.TokenString y2), Token.TokenEqual, Token.TokenAnd, (Token.TokenString x3), (Token.TokenString y3), Token.TokenEqual] []) _ _ _ [(StackEntry.mk 83 YYVal.vnone (Loc.mk 11 13)), (StackEntry.mk 42 YYVal.vnone (Loc.mk 10 10)), (StackEntry.mk 21 YYVal.vnone (Loc.mk 1 9)), (StackEntry.mk 1 YYVal.vnone (Loc.mk 0 0)), (StackEntry.mk 0 YYVal.vnone (Loc.mk 0 0))] (by rfl) (by rfl) (by rfl) (by rfl) (by rfl) (by rfl)).trans
  ((yyparse_step_reduce _ _ _ _ _ _ _ _ _ (EvalContext.mk Universe.V4 [(Token.TokenString x1), (Token.TokenString y1), Token.TokenEqual, (Token.TokenString x2), (Token.TokenString y2), Token.TokenEqual, Token.TokenAnd, (Token.TokenString x3), (Token.TokenString y3), Token.TokenEqual, Token.TokenAnd] []) _ _ _ [(StackEntry.mk 21 YYVal.vnone (Loc.mk 1 13)), (StackEntry.mk 1 YYVal.vnone (Loc.mk 0 0)), (StackEntry.mk 0 YYVal.vnone (Loc.mk 0 0))] (by rfl) (by rfl) (by rfl) (by rfl) (by rfl) (by rfl)).trans
  ((yyparse_step_reduce _ _ _ _ _ _ _ _ _ (EvalContext.mk Universe.V4 [(Token.TokenString x1), (Token.TokenString y1), Token.TokenEqual, (Token.TokenString x2), (Token.TokenString y2), Token.TokenEqual, Token.TokenAnd, (Token.TokenString x3), (Token.TokenString y3), Token.TokenEqual, Token.TokenAnd] []) _ _ _ [(StackEntry.mk 20 YYVal.vnone (Loc.mk 1 13)), (StackEntry.mk 1 YYVal.vnone (Loc.mk 0 0)), (StackEntry.mk 0 YYVal.vnone (Loc.mk 0 0))] (by rfl) (by rfl) (by rfl) (by rfl) (by rfl) (by rfl)).trans
  ((yyparse_step_reduce _ _ _ _ _ _ _ _ _ (EvalContext.mk Universe.V4 [(Token.TokenString x1), (Token.TokenString y1), Token.TokenEqual, (Token.TokenString x2), (Token.TokenString y2), Token.TokenEqual, Token.TokenAnd, (Token.TokenString x3), (Token.TokenString y3), Token.TokenEqual, Token.TokenAnd] []) _ _ _ [(StackEntry.mk 3 YYVal.vnone (Loc.mk 0 13)), (StackEntry.mk 0 YYVal.vnone (Loc.mk 0 0))] (by rfl) (by rfl) (by rfl) (by rfl) (by rfl) (by rfl)).trans
  ((yyparse_step_shift _ _ _ _ _ _ _ _ [(StackEntry.mk 27 YYVal.vnone (Loc.mk 14 14)), (StackEntry.mk 3 YYVal.vnone (Loc.mk 0 13)), (StackEntry.mk 0 YYVal.vnone (Loc.mk 0 0))] (by rfl) (by rfl)).trans
  (yyparse_step_accept _ _ _ _ _ (by rfl)))))))))))))))))))))))))))))))

theorem run_substring_all (s n : String) :
    yyparse 500 (EvalContext.mk Universe.V4 [] []) [StackEntry.mk 0 YYVal.vnone (Loc.mk 0 0)] none
      [(Terminal.tTopLevelString, (Loc.mk 0 0)), (Terminal.tSubstring, (Loc.mk 1 1)), (Terminal.tLParen, (Loc.mk 2 2)), ((Terminal.tString s), (Loc.mk 3 3)), (Terminal.tComma, (Loc.mk 4 4)), ((Terminal.tInteger n), (Loc.mk 5 5)), (Terminal.tComma, (Loc.mk 6 6)), (Terminal.tAll, (Loc.mk 7 7)), (Terminal.tRParen, (Loc.mk 8 8)), (Terminal.tEndOfFile, (Loc.mk 9 9))] =
    .ok (EvalContext.mk Universe.V4 [(Token.TokenString s), (Token.TokenString n), (Token.TokenString "all"), Token.TokenSubstring] []) := by
  exact ((yyparse_step_shift _ _ _ _ _ _ _ _ [(StackEntry.mk 2 YYVal.vnone (Loc.mk 0 0)), (StackEntry.mk 0 YYVal.vnone (Loc.mk 0 0))] (by rfl) (by rfl)).trans
  ((yyparse_step_shift _ _ _ _ _ _ _ _ [(StackEntry.mk 11 YYVal.vnone (Loc.mk 1 1)), (StackEntry.mk 2 YYVal.vnone (Loc.mk 0 0)), (StackEntry.mk 0 YYVal.vnone (Loc.mk 0 0))] (by rfl) (by rfl)).trans
  ((yyparse_step_shift _ _ _ _ _ _ _ _ [(StackEntry.mk 35 YYVal.vnone (Loc.mk 2 2)), (StackEntry.mk 11 YYVal.vnone (Loc.mk 1 1)), (StackEntry.mk 2 YYVal.vnone (Loc.mk 0 0)), (StackEntry.mk 0 YYVal.vnone (Loc.mk 0 0))] (by rfl) (by rfl)).trans
  ((yyparse_step_shift _ _ _ _ _ _ _ _ [(StackEntry.mk 16 (YYVal.vstr s) (Loc.mk 3 3)), (StackEntry.mk 35 YYVal.vnone (Loc.mk 2 2)), (StackEntry.mk 11 YYVal.vnone (Loc.mk 1 1)), (StackEntry.mk 2 YYVal.vnone (Loc.mk 0 0)), (StackEntry.mk 0 YYVal.vnone (Loc.mk 0 0))] (by rfl) (by rfl)).trans
  ((yyparse_step_reduce _ _ _ _ _ _ _ _ _ (EvalContext.mk Universe.V4 [(Token.TokenString s)] []) _ _ _ [(StackEntry.mk 72 YYVal.vnone (Loc.mk 3 3)), (StackEntry.mk 35 YYVal.vnone (Loc.mk 2 2)), (StackEntry.mk 11 YYVal.vnone (Loc.mk 1 1)), (StackEntry.mk 2 YYVal.vnone (Loc.mk 0 0)), (StackEntry.mk 0 YYVal.vnone (Loc.mk 0 0))] (by rfl) (by rfl) (by rfl) (by rfl) (by rfl) (by rfl)).trans
  ((yyparse_step_shift _ _ _ _ _ _ _ _ [(StackEntry.mk 94 YYVal.vnone (Loc.mk 4 4)), (StackEntry.mk 72 YYVal.vnone (Loc.mk 3 3)), (StackEntry.mk 35 YYVal.vnone (Loc.mk 2 2)), (StackEntry.mk 11 YYVal.vnone (Loc.mk 1 1)), (StackEntry.mk 2 YYVal.vnone (Loc.mk 0 0)), (StackEntry.mk 0 YYVal.vnone (Loc.mk 0 0))] (by rfl) (by rfl)).trans
  ((yyparse_step_shift _ _ _ _ _ _ _ _ [(StackEntry.mk 106 (YYVal.vstr n) (Loc.mk 5 5)), (StackEntry.mk 94 YYVal.vnone (Loc.mk 4 4)), (StackEntry.mk 72 YYVal.vnone (Loc.mk 3 3)), (StackEntry.mk 35 YYVal.vnone (Loc.mk 2 2)), (StackEntry.mk 11 YYVal.vnone (Loc.mk 1 1)), (StackEntry.mk 2 YYVal.vnone (Loc.mk 0 0)), (StackEntry.mk 0 YYVal.vnone (Loc.mk 0 0))] (by rfl) (by rfl)).trans
  ((yyparse_step_reduce _ _ _ _ _ _ _ _ _ (EvalContext.mk Universe.V4 [(Token.TokenString s), (Token.TokenString n)] []) _ _ _ [(StackEntry.mk 107 YYVal.vnone (Loc.mk 5 5)), (StackEntry.mk 94 YYVal.vnone (Loc.mk 4 4)), (StackEntry.mk 72 YYVal.vnone (Loc.mk 3 3)), (StackEntry.mk 35 YYVal.vnone (Loc.mk 2 2)), (StackEntry.mk 11 YYVal.vnone (Loc.mk 1 1)), (StackEntry.mk 2 YYVal.vnone (Loc.mk 0 0)), (StackEntry.mk 0 YYVal.vnone (Loc.mk 0 0))] (by rfl) (by rfl) (by rfl) (by rfl) (by rfl) (by rfl)).trans
  ((yyparse_step_shift _ _ _ _ _ _ _ _ [(StackEntry.mk 126 YYVal.vnone (Loc.mk 6 6)), (StackEntry.mk 107 YYVal.vnone (Loc.mk 5 5)), (StackEntry.mk 94 YYVal.vnone (Loc.mk 4 4)), (StackEntry.mk 72 YYVal.vnone (Loc.mk 3 3)), (StackEntry.mk 35 YYVal.vnone (Loc.mk 2 2)), (StackEntry.mk 11 YYVal.vnone (Loc.mk 1 1)), (StackEntry.mk 2 YYVal.vnone (Loc.mk 0 0)), (StackEntry.mk 0 YYVal.vnone (Loc.mk 0 0))] (by rfl) (by rfl)).trans
  ((yyparse_step_shift _ _ _ _ _ _ _ _ [(StackEntry.mk 138 YYVal.vnone (Loc.mk 7 7)), (StackEntry.mk 126 YYVal.vnone (Loc.mk 6 6)), (StackEntry.mk 107 YYVal.vnone (Loc.mk 5 5)), (StackEntry.mk 94 YYVal.vnone (Loc.mk 4 4)), (StackEntry.mk 72 YYVal.vnone (Loc.mk 3 3)), (StackEntry.mk 35 YYVal.vnone (Loc.mk 2 2)), (StackEntry.mk 11 YYVal.vnone (Loc.mk 1 1)), (StackEntry.mk 2 YYVal.vnone (Loc.mk 0 0)), (StackEntry.mk 0 YYVal.vnone (Loc.mk 0 0))] (by rfl) (by rfl)).trans
  ((yyparse_step_reduce _ _ _ _ _ _ _ _ _ (EvalContext.mk Universe.V4 [(Token.TokenString s), (Token.TokenString n), (Token.TokenString "all")] []) _ _ _ [(StackEntry.mk 140 YYVal.vnone (Loc.mk 7 7)), (StackEntry.mk 126 YYVal.vnone (Loc.mk 6 6)), (StackEntry.mk 107 YYVal.vnone (Loc.mk 5 5)), (StackEntry.mk 94 YYVal.vnone (Loc.mk 4 4)), (StackEntry.mk 72 YYVal.vnone (Loc.mk 3 3)), (StackEntry.mk 35 YYVal.vnone (Loc.mk 2 2)), (StackEntry.mk 11 YYVal.vnone (Loc.mk 1 1)), (StackEntry.mk 2 YYVal.vnone (Loc.mk 0 0)), (StackEntry.mk 0 YYVal.vnone (Loc.mk 0 0))] (by rfl) (by rfl) (by rfl) (by rfl) (by rfl) (by rfl)).trans
  ((yyparse_step_shift _ _ _ _ _ _ _ _ [(StackEntry.mk 146 YYVal.vnone (Loc.mk 8 8)), (StackEntry.mk 140 YYVal.vnone (Loc.mk 7 7)), (StackEntry.mk 126 YYVal.vnone (Loc.mk 6 6)), (StackEntry.mk 107 YYVal.vnone (Loc.mk 5 5)), (StackEntry.mk 94 YYVal.vnone (Loc.mk 4 4)), (StackEntry.mk 72 YYVal.vnone (Loc.mk 3 3)), (StackEntry.mk 35 YYVal.vnone (Loc.mk 2 2)), (StackEntry.mk 11 YYVal.vnone (Loc.mk 1 1)), (StackEntry.mk 2 YYVal.vnone (Loc.mk 0 0)), (StackEntry.mk 0 YYVal.vnone (Loc.mk 0 0))] (by rfl) (by rfl)).trans
  ((yyparse_step_reduce _ _ _ _ _ _ _ _ _ (EvalContext.mk Universe.V4 [(Token.TokenString s), (Token.TokenString n), (Token.TokenString "all"), Token.TokenSubstring] []) _ _ _ [(StackEntry.mk 26 YYVal.vnone (Loc.mk 1 8)), (StackEntry.mk 2 YYVal.vnone (Loc.mk 0 0)), (StackEntry.mk 0 YYVal.vnone (Loc.mk 0 0))] (by rfl) (by rfl) (by rfl) (by rfl) (by rfl) (by rfl)).trans
  ((yyparse_step_reduce _ _ _ _ _ _ _ _ _ (EvalContext.mk Universe.V4 [(Token.TokenString s), (Token.TokenString n), (Token.TokenString "all"), Token.TokenSubstring] []) _ _ _ [(StackEntry.mk 24 YYVal.vnone (Loc.mk 1 8)), (StackEntry.mk 2 YYVal.vnone (Loc.mk 0 0)), (StackEntry.mk 0 YYVal.vnone (Loc.mk 0 0))] (by rfl) (by rfl) (by rfl) (by rfl) (by rfl) (by rfl)).trans
  ((yyparse_step_reduce _ _ _ _ _ _ _ _ _ (EvalContext.mk Universe.V4 [(Token.TokenString s), (Token.TokenString n), (Token.TokenString "all"), Token.TokenSubstring] []) _ _ _ [(StackEntry.mk 3 YYVal.vnone (Loc.mk 0 8)), (StackEntry.mk 0 YYVal.vnone (Loc.mk 0 0))] (by rfl) (by rfl) (by rfl) (by rfl) (by rfl) (by rfl)).trans
  ((yyparse_step_shift _ _ _ _ _ _ _ _ [(StackEntry.mk 27 YYVal.vnone (Loc.mk 9 9)), (StackEntry.mk 3 YYVal.vnone (Loc.mk 0 8)), (StackEntry.mk 0 YYVal.vnone (Loc.mk 0 0))] (by rfl) (by rfl)).trans
  (yyparse_step_accept _ _ _ _ _ (by rfl))))))))))))))))))

theorem run_relay6ex_v4 :
    yyparse 500 (EvalContext.mk Universe.V4 [] []) [StackEntry.mk 0 YYVal.vnone (Loc.mk 0 0)] none
      [(Terminal.tTopLevelBool, (Loc.mk 0 0)), (Terminal.tRelay6, (Loc.mk 1 1)), (Terminal.tLBracket, (Loc.mk 2 2)), ((Terminal.tInteger "0"), (Loc.mk 3 3)), (Terminal.tRBracket, (Loc.mk 4 4)), (Terminal.tDot, (Loc.mk 5 5)), (Terminal.tOption, (Loc.mk 6 6)), (Terminal.tLBracket, (Loc.mk 7 7)), ((Terminal.tInteger "17"), (Loc.mk 8 8)), (Terminal.tRBracket, (Loc.mk 9 9)), (Terminal.tDot, (Loc.mk 10 10)), (Terminal.tExists, (Loc.mk 11 11)), (Terminal.tEndOfFile, (Loc.mk 12 12))] =
    .error (.semError (Loc.mk 1 1) "relay6 can only be used in DHCPv6.") := by
  exact ((yyparse_step_shift _ _ _ _ _ _ _ _ [(StackEntry.mk 1 YYVal.vnone (Loc.mk 0 0)), (StackEntry.mk 0 YYVal.vnone (Loc.mk 0 0))] (by rfl) (by rfl)).trans
  ((yyparse_step_shift _ _ _ _ _ _ _ _ [(StackEntry.mk 8 YYVal.vnone (Loc.mk 1 1)), (StackEntry.mk 1 YYVal.vnone (Loc.mk 0 0)), (StackEntry.mk 0 YYVal.vnone (Loc.mk 0 0))] (by rfl) (by rfl)).trans
  ((yyparse_step_shift _ _ _ _ _ _ _ _ [(StackEntry.mk 32 YYVal.vnone (Loc.mk 2 2)), (StackEntry.mk 8 YYVal.vnone (Loc.mk 1 1)), (StackEntry.mk 1 YYVal.vnone (Loc.mk 0 0)), (StackEntry.mk 0 YYVal.vnone (Loc.mk 0 0))] (by rfl) (by rfl)).trans
  ((yyparse_step_shift _ _ _ _ _ _ _ _ [(StackEntry.mk 50 (YYVal.vstr "0") (Loc.mk 3 3)), (StackEntry.mk 32 YYVal.vnone (Loc.mk 2 2)), (StackEntry.mk 8 YYVal.vnone (Loc.mk 1 1)), (StackEntry.mk 1 YYVal.vnone (Loc.mk 0 0)), (StackEntry.mk 0 YYVal.vnone (Loc.mk 0 0))] (by rfl) (by rfl)).trans
  ((yyparse_step_reduce _ _ _ _ _ _ _ _ _ (EvalContext.mk Universe.V4 [] []) _ _ _ [(StackEntry.mk 51 (YYVal.vu8 0) (Loc.mk 3 3)), (StackEntry.mk 32 YYVal.vnone (Loc.mk 2 2)), (StackEntry.mk 8 YYVal.vnone (Loc.mk 1 1)), (StackEntry.mk 1 YYVal.vnone (Loc.mk 0 0)), (StackEntry.mk 0 YYVal.vnone (Loc.mk 0 0))] (by rfl) (by rfl) (by rfl) (by rfl) (by rfl) (by rfl)).trans
  ((yyparse_step_shift _ _ _ _ _ _ _ _ [(StackEntry.mk 88 YYVal.vnone (Loc.mk 4 4)), (StackEntry.mk 51 (YYVal.vu8 0) (Loc.mk 3 3)), (StackEntry.mk 32 YYVal.vnone (Loc.mk 2 2)), (StackEntry.mk 8 YYVal.vnone (Loc.mk 1 1)), (StackEntry.mk 1 YYVal.vnone (Loc.mk 0 0)), (StackEntry.mk 0 YYVal.vnone (Loc.mk 0 0))] (by rfl) (by rfl)).trans
  ((yyparse_step_shift _ _ _ _ _ _ _ _ [(StackEntry.mk 100 YYVal.vnone (Loc.mk 5 5)), (StackEntry.mk 88 YYVal.vnone (Loc.mk 4 4)), (StackEntry.mk 51 (YYVal.vu8 0) (Loc.mk 3 3)), (StackEntry.mk 32 YYVal.vnone (Loc.mk 2 2)), (StackEntry.mk 8 YYVal.vnone (Loc.mk 1 1)), (StackEntry.mk 1 YYVal.vnone (Loc.mk 0 0)), (StackEntry.mk 0 YYVal.vnone (Loc.mk 0 0))] (by rfl) (by rfl)).trans
  ((yyparse_step_shift _ _ _ _ _ _ _ _ [(StackEntry.mk 117 YYVal.vnone (Loc.mk 6 6)), (StackEntry.mk 100 YYVal.vnone (Loc.mk 5 5)), (StackEntry.mk 88 YYVal.vnone (Loc.mk 4 4)), (StackEntry.mk 51 (YYVal.vu8 0) (Loc.mk 3 3)), (StackEntry.mk 32 YYVal.vnone (Loc.mk 2 2)), (StackEntry.mk 8 YYVal.vnone (Loc.mk 1 1)), (StackEntry.mk 1 YYVal.vnone (Loc.mk 0 0)), (StackEntry.mk 0 YYVal.vnone (Loc.mk 0 0))] (by rfl) (by rfl)).trans
  ((yyparse_step_shift _ _ _ _ _ _ _ _ [(StackEntry.mk 132 YYVal.vnone (Loc.mk 7 7)), (StackEntry.mk 117 YYVal.vnone (Loc.mk 6 6)), (StackEntry.mk 100 YYVal.vnone (Loc.mk 5 5)), (StackEntry.mk 88 YYVal.vnone (Loc.mk 4 4)), (StackEntry.mk 51 (YYVal.vu8 0) (Loc.mk 3 3)), (StackEntry.mk 32 YYVal.vnone (Loc.mk 2 2)), (StackEntry.mk 8 YYVal.vnone (Loc.mk 1 1)), (StackEntry.mk 1 YYVal.vnone (Loc.mk 0 0)), (StackEntry.mk 0 YYVal.vnone (Loc.mk 0 0))] (by rfl) (by rfl)).trans
  ((yyparse_step_shift _ _ _ _ _ _ _ _ [(StackEntry.mk 46 (YYVal.vstr "17") (Loc.mk 8 8)), (StackEntry.mk 132 YYVal.vnone (Loc.mk 7 7)), (StackEntry.mk 117 YYVal.vnone (Loc.mk 6 6)), (StackEntry.mk 100 YYVal.vnone (Loc.mk 5 5)), (StackEntry.mk 88 YYVal.vnone (Loc.mk 4 4)), (StackEntry.mk 51 (YYVal.vu8 0) (Loc.mk 3 3)), (StackEntry.mk 32 YYVal.vnone (Loc.mk 2 2)), (StackEntry.mk 8 YYVal.vnone (Loc.mk 1 1)), (StackEntry.mk 1 YYVal.vnone (Loc.mk 0 0)), (StackEntry.mk 0 YYVal.vnone (Loc.mk 0 0))] (by rfl) (by rfl)).trans
  ((yyparse_step_reduce _ _ _ _ _ _ _ _ _ (EvalContext.mk Universe.V4 [] []) _ _ _ [(StackEntry.mk 143 (YYVal.vu16 17) (Loc.mk 8 8)), (StackEntry.mk 132 YYVal.vnone (Loc.mk 7 7)), (StackEntry.mk 117 YYVal.vnone (Loc.mk 6 6)), (StackEntry.mk 100 YYVal.vnone (Loc.mk 5 5)), (StackEntry.mk 88 YYVal.vnone (Loc.mk 4 4)), (StackEntry.mk 51 (YYVal.vu8 0) (Loc.mk 3 3)), (StackEntry.mk 32 YYVal.vnone (Loc.mk 2 2)), (StackEntry.mk 8 YYVal.vnone (Loc.mk 1 1)), (StackEntry.mk 1 YYVal.vnone (Loc.mk 0 0)), (StackEntry.mk 0 YYVal.vnone (Loc.mk 0 0))] (by rfl) (by rfl) (by rfl) (by rfl) (by rfl) (by rfl)).trans
  ((yyparse_step_shift _ _ _ _ _ _ _ _ [(StackEntry.mk 149 YYVal.vnone (Loc.mk 9 9)), (StackEntry.mk 143 (YYVal.vu16 17) (Loc.mk 8 8)), (StackEntry.mk 132 YYVal.vnone (Loc.mk 7 7)), (StackEntry.mk 117 YYVal.vnone (Loc.mk 6 6)), (StackEntry.mk 100 YYVal.vnone (Loc.mk 5 5)), (StackEntry.mk 88 YYVal.vnone (Loc.mk 4 4)), (StackEntry.mk 51 (YYVal.vu8 0) (Loc.mk 3 3)), (StackEntry.mk 32 YYVal.vnone (Loc.mk 2 2)), (StackEntry.mk 8 YYVal.vnone (Loc.mk 1 1)), (StackEntry.mk 1 YYVal.vnone (Loc.mk 0 0)), (StackEntry.mk 0 YYVal.vnone (Loc.mk 0 0))] (by rfl) (by rfl)).trans
  ((yyparse_step_shift _ _ _ _ _ _ _ _ [(StackEntry.mk 154 YYVal.vnone (Loc.mk 10 10)), (StackEntry.mk 149 YYVal.vnone (Loc.mk 9 9)), (StackEntry.mk 143 (YYVal.vu16 17) (Loc.mk 8 8)), (StackEntry.mk 132 YYVal.vnone (Loc.mk 7 7)), (StackEntry.mk 117 YYVal.vnone (Loc.mk 6 6)), (StackEntry.mk 100 YYVal.vnone (Loc.mk 5 5)), (StackEntry.mk 88 YYVal.vnone (Loc.mk 4 4)), (StackEntry.mk 51 (YYVal.vu8 0) (Loc.mk 3 3)), (StackEntry.mk 32 YYVal.vnone (Loc.mk 2 2)), (StackEntry.mk 8 YYVal.vnone (Loc.mk 1 1)), (StackEntry.mk 1 YYVal.vnone (Loc.mk 0 0)), (StackEntry.mk 0 YYVal.vnone (Loc.mk 0 0))] (by rfl) (by rfl)).trans
  ((yyparse_step_shift _ _ _ _ _ _ _ _ [(StackEntry.mk 158 YYVal.vnone (Loc.mk 11 11)), (StackEntry.mk 154 YYVal.vnone (Loc.mk 10 10)), (StackEntry.mk 149 YYVal.vnone (Loc.mk 9 9)), (StackEntry.mk 143 (YYVal.vu16 17) (Loc.mk 8 8)), (StackEntry.mk 132 YYVal.vnone (Loc.mk 7 7)), (StackEntry.mk 117 YYVal.vnone (Loc.mk 6 6)), (StackEntry.mk 100 YYVal.vnone (Loc.mk 5 5)), (StackEntry.mk 88 YYVal.vnone (Loc.mk 4 4)), (StackEntry.mk 51 (YYVal.vu8 0) (Loc.mk 3 3)), (StackEntry.mk 32 YYVal.vnone (Loc.mk 2 2)), (StackEntry.mk 8 YYVal.vnone (Loc.mk 1 1)), (StackEntry.mk 1 YYVal.vnone (Loc.mk 0 0)), (StackEntry.mk 0 YYVal.vnone (Loc.mk 0 0))] (by rfl) (by rfl)).trans
  (yyparse_step_reduce_err _ _ _ _ _ _ _ _ _ (by rfl) (by rfl))))))))))))))))

theorem run_relay4ex_v6 :
    yyparse 500 (EvalContext.mk Universe.V6 [] []) [StackEntry.mk 0 YYVal.vnone (Loc.mk 0 0)] none
      [(Terminal.tTopLevelBool, (Loc.mk 0 0)), (Terminal.tRelay4, (Loc.mk 1 1)), (Terminal.tLBracket, (Loc.mk 2 2)), ((Terminal.tInteger "1"), (Loc.mk 3 3)), (Terminal.tRBracket, (Loc.mk 4 4)), (Terminal.tDot, (Loc.mk 5 5)), (Terminal.tExists, (Loc.mk 6 6)), (Terminal.tEndOfFile, (Loc.mk 7 7))] =
    .error (.semError (Loc.mk 1 1) "relay4 can only be used in DHCPv4.") := by
  exact ((yyparse_step_shift _ _ _ _ _ _ _ _ [(StackEntry.mk 1 YYVal.vnone (Loc.mk 0 0)), (StackEntry.mk 0 YYVal.vnone (Loc.mk 0 0))] (by rfl) (by rfl)).trans
  ((yyparse_step_shift _ _ _ _ _ _ _ _ [(StackEntry.mk 7 YYVal.vnone (Loc.mk 1 1)), (StackEntry.mk 1 YYVal.vnone (Loc.mk 0 0)), (StackEntry.mk 0 YYVal.vnone (Loc.mk 0 0))] (by rfl) (by rfl)).trans
  ((yyparse_step_shift _ _ _ _ _ _ _ _ [(StackEntry.mk 31 YYVal.vnone (Loc.mk 2 2)), (StackEntry.mk 7 YYVal.vnone (Loc.mk 1 1)), (StackEntry.mk 1 YYVal.vnone (Loc.mk 0 0)), (StackEntry.mk 0 YYVal.vnone (Loc.mk 0 0))] (by rfl) (by rfl)).trans
  ((yyparse_step_shift _ _ _ _ _ _ _ _ [(StackEntry.mk 46 (YYVal.vstr "1") (Loc.mk 3 3)), (StackEntry.mk 31 YYVal.vnone (Loc.mk 2 2)), (StackEntry.mk 7 YYVal.vnone (Loc.mk 1 1)), (StackEntry.mk 1 YYVal.vnone (Loc.mk 0 0)), (StackEntry.mk 0 YYVal.vnone (Loc.mk 0 0))] (by rfl) (by rfl)).trans
  ((yyparse_step_reduce _ _ _ _ _ _ _ _ _ (EvalContext.mk Universe.V6 [] []) _ _ _ [(StackEntry.mk 49 (YYVal.vu16 1) (Loc.mk 3 3)), (StackEntry.mk 31 YYVal.vnone (Loc.mk 2 2)), (StackEntry.mk 7 YYVal.vnone (Loc.mk 1 1)), (StackEntry.mk 1 YYVal.vnone (Loc.mk 0 0)), (StackEntry.mk 0 YYVal.vnone (Loc.mk 0 0))] (by rfl) (by rfl) (by rfl) (by rfl) (by rfl) (by rfl)).trans
  ((yyparse_step_shift _ _ _ _ _ _ _ _ [(StackEntry.mk 87 YYVal.vnone (Loc.mk 4 4)), (StackEntry.mk 49 (YYVal.vu16 1) (Loc.mk 3 3)), (StackEntry.mk 31 YYVal.vnone (Loc.mk 2 2)), (StackEntry.mk 7 YYVal.vnone (Loc.mk 1 1)), (StackEntry.mk 1 YYVal.vnone (Loc.mk 0 0)), (StackEntry.mk 0 YYVal.vnone (Loc.mk 0 0))] (by rfl) (by rfl)).trans
  ((yyparse_step_shift _ _ _ _ _ _ _ _ [(StackEntry.mk 99 YYVal.vnone (Loc.mk 5 5)), (StackEntry.mk 87 YYVal.vnone (Loc.mk 4 4)), (StackEntry.mk 49 (YYVal.vu16 1) (Loc.mk 3 3)), (StackEntry.mk 31 YYVal.vnone (Loc.mk 2 2)), (StackEntry.mk 7 YYVal.vnone (Loc.mk 1 1)), (StackEntry.mk 1 YYVal.vnone (Loc.mk 0 0)), (StackEntry.mk 0 YYVal.vnone (Loc.mk 0 0))] (by rfl) (by rfl)).trans
  ((yyparse_step_shift _ _ _ _ _ _ _ _ [(StackEntry.mk 115 YYVal.vnone (Loc.mk 6 6)), (StackEntry.mk 99 YYVal.vnone (Loc.mk 5 5)), (StackEntry.mk 87 YYVal.vnone (Loc.mk 4 4)), (StackEntry.mk 49 (YYVal.vu16 1) (Loc.mk 3 3)), (StackEntry.mk 31 YYVal.vnone (Loc.mk 2 2)), (StackEntry.mk 7 YYVal.vnone (Loc.mk 1 1)), (StackEntry.mk 1 YYVal.vnone (Loc.mk 0 0)), (StackEntry.mk 0 YYVal.vnone (Loc.mk 0 0))] (by rfl) (by rfl)).trans
  (yyparse_step_reduce_err _ _ _ _ _ _ _ _ _ (by rfl) (by rfl))))))))))

theorem run_pkt4mac_v6 :
    yyparse 500 (EvalContext.mk Universe.V6 [] []) [StackEntry.mk 0 YYVal.vnone (Loc.mk 0 0)] none
      [(Terminal.tTopLevelString, (Loc.mk 0 0)), (Terminal.tPkt4, (Loc.mk 1 1)), (Terminal.tDot, (Loc.mk 2 2)), (Terminal.tMac, (Loc.mk 3 3)), (Terminal.tEndOfFile, (Loc.mk 4 4))] =
    .error (.semError (Loc.mk 1 1) "pkt4 can only be used in DHCPv4.") := by
  exact ((yyparse_step_shift _ _ _ _ _ _ _ _ [(StackEntry.mk 2 YYVal.vnone (Loc.mk 0 0)), (StackEntry.mk 0 YYVal.vnone (Loc.mk 0 0))] (by rfl) (by rfl)).trans
  ((yyparse_step_shift _ _ _ _ _ _ _ _ [(StackEntry.mk 10 YYVal.vnone (Loc.mk 1 1)), (StackEntry.mk 2 YYVal.vnone (Loc.mk 0 0)), (StackEntry.mk 0 YYVal.vnone (Loc.mk 0 0))] (by rfl) (by rfl)).trans
  ((yyparse_step_shift _ _ _ _ _ _ _ _ [(StackEntry.mk 34 YYVal.vnone (Loc.mk 2 2)), (StackEntry.mk 10 YYVal.vnone (Loc.mk 1 1)), (StackEntry.mk 2 YYVal.vnone (Loc.mk 0 0)), (StackEntry.mk 0 YYVal.vnone (Loc.mk 0 0))] (by rfl) (by rfl)).trans
  ((yyparse_step_shift _ _ _ _ _ _ _ _ [(StackEntry.mk 57 YYVal.vnone (Loc.mk 3 3)), (StackEntry.mk 34 YYVal.vnone (Loc.mk 2 2)), (StackEntry.mk 10 YYVal.vnone (Loc.mk 1 1)), (StackEntry.mk 2 YYVal.vnone (Loc.mk 0 0)), (StackEntry.mk 0 YYVal.vnone (Loc.mk 0 0))] (by rfl) (by rfl)).trans
  ((yyparse_step_reduce _ _ _ _ _ _ _ _ _ (EvalContext.mk Universe.V6 [] []) _ _ _ [(StackEntry.mk 66 (YYVal.vpkt4 Pkt4Field.CHADDR) (Loc.mk 3 3)), (StackEntry.mk 34 YYVal.vnone (Loc.mk 2 2)), (StackEntry.mk 10 YYVal.vnone (Loc.mk 1 1)), (StackEntry.mk 2 YYVal.vnone (Loc.mk 0 0)), (StackEntry.mk 0 YYVal.vnone (Loc.mk 0 0))] (by rfl) (by rfl) (by rfl) (by rfl) (by rfl) (by rfl)).trans
  (yyparse_step_reduce_err _ _ _ _ _ _ _ _ _ (by rfl) (by rfl)))))))

theorem run_rparen_v4 :
    yyparse 500 (EvalContext.mk Universe.V4 [] []) [StackEntry.mk 0 YYVal.vnone (Loc.mk 0 0)] none
      [(Terminal.tTopLevelBool, (Loc.mk 0 0)), (Terminal.tRParen, (Loc.mk 1 1))] =
    .error (.synError (Loc.mk 1 1) "syntax error, unexpected )") := by
  exact ((yyparse_step_shift _ _ _ _ _ _ _ _ [(StackEntry.mk 1 YYVal.vnone (Loc.mk 0 0)), (StackEntry.mk 0 YYVal.vnone (Loc.mk 0 0))] (by rfl) (by rfl)).trans
  (yyparse_step_abort _ _ _ _ _ _ _ _ (by rfl)))

theorem run_pktmac_v4 :
    yyparse 500 (EvalContext.mk Universe.V4 [] []) [StackEntry.mk 0 YYVal.vnone (Loc.mk 0 0)] none
      [(Terminal.tTopLevelString, (Loc.mk 0 0)), (Terminal.tPkt, (Loc.mk 1 1)), (Terminal.tDot, (Loc.mk 2 2)), (Terminal.tMac, (Loc.mk 3 3)), (Terminal.tEndOfFile, (Loc.mk 4 4))] =
    .error (.synError (Loc.mk 3 3) "syntax error, unexpected mac, expecting iface or src or dst or len") := by
  exact ((yyparse_step_shift _ _ _ _ _ _ _ _ [(StackEntry.mk 2 YYVal.vnone (Loc.mk 0 0)), (StackEntry.mk 0 YYVal.vnone (Loc.mk 0 0))] (by rfl) (by rfl)).trans
  ((yyparse_step_shift _ _ _ _ _ _ _ _ [(StackEntry.mk 9 YYVal.vnone (Loc.mk 1 1)), (StackEntry.mk 2 YYVal.vnone (Loc.mk 0 0)), (StackEntry.mk 0 YYVal.vnone (Loc.mk 0 0))] (by rfl) (by rfl)).trans
  ((yyparse_step_shift _ _ _ _ _ _ _ _ [(StackEntry.mk 33 YYVal.vnone (Loc.mk 2 2)), (StackEntry.mk 9 YYVal.vnone (Loc.mk 1 1)), (StackEntry.mk 2 YYVal.vnone (Loc.mk 0 0)), (StackEntry.mk 0 YYVal.vnone (Loc.mk 0 0))] (by rfl) (by rfl)).trans
  (yyparse_step_abort _ _ _ _ _ _ _ _ (by rfl)))))

theorem run_vc_noeid_v4 :
    yyparse 500 (EvalContext.mk Universe.V4 [] []) [StackEntry.mk 0 YYVal.vnone (Loc.mk 0 0)] none
      [(Terminal.tTopLevelBool, (Loc.mk 0 0)), (Terminal.tVendorClass, (Loc.mk 1 1)), (Terminal.tLBracket, (Loc.mk 2 2)), (Terminal.tRBracket, (Loc.mk 3 3)), (Terminal.tDot, (Loc.mk 4 4)), (Terminal.tExists, (Loc.mk 5 5)), (Terminal.tEndOfFile, (Loc.mk 6 6))] =
    .error (.synError (Loc.mk 3 3) "syntax error, unexpected ], expecting * or integer") := by
  exact ((yyparse_step_shift _ _ _ _ _ _ _ _ [(StackEntry.mk 1 YYVal.vnone (Loc.mk 0 0)), (StackEntry.mk 0 YYVal.vnone (Loc.mk 0 0))] (by rfl) (by rfl)).trans
  ((yyparse_step_shift _ _ _ _ _ _ _ _ [(StackEntry.mk 14 YYVal.vnone (Loc.mk 1 1)), (StackEntry.mk 1 YYVal.vnone (Loc.mk 0 0)), (StackEntry.mk 0 YYVal.vnone (Loc.mk 0 0))] (by rfl) (by rfl)).trans
  ((yyparse_step_shift _ _ _ _ _ _ _ _ [(StackEntry.mk 38 YYVal.vnone (Loc.mk 2 2)), (StackEntry.mk 14 YYVal.vnone (Loc.mk 1 1)), (StackEntry.mk 1 YYVal.vnone (Loc.mk 0 0)), (StackEntry.mk 0 YYVal.vnone (Loc.mk 0 0))] (by rfl) (by rfl)).trans
  (yyparse_step_abort _ _ _ _ _ _ _ _ (by rfl)))))

theorem run_vcdata_v4 :
    yyparse 500 (EvalContext.mk Universe.V4 [] []) [StackEntry.mk 0 YYVal.vnone (Loc.mk 0 0)] none
      [(Terminal.tTopLevelString, (Loc.mk 0 0)), (Terminal.tVendorClass, (Loc.mk 1 1)), (Terminal.tLBracket, (Loc.mk 2 2)), ((Terminal.tInteger "1234"), (Loc.mk 3 3)), (Terminal.tRBracket, (Loc.mk 4 4)), (Terminal.tDot, (Loc.mk 5 5)), (Terminal.tData, (Loc.mk 6 6)), (Terminal.tEndOfFile, (Loc.mk 7 7))] =
    .ok (EvalContext.mk Universe.V4 [(Token.TokenVendorClassData Universe.V4 1234 VendorField.DATA 0)] []) := by
  exact ((yyparse_step_shift _ _ _ _ _ _ _ _ [(StackEntry.mk 2 YYVal.vnone (Loc.mk 0 0)), (StackEntry.mk 0 YYVal.vnone (Loc.mk 0 0))] (by rfl) (by rfl)).trans
  ((yyparse_step_shift _ _ _ _ _ _ _ _ [(StackEntry.mk 14 YYVal.vnone (Loc.mk 1 1)), (StackEntry.mk 2 YYVal.vnone (Loc.mk 0 0)), (StackEntry.mk 0 YYVal.vnone (Loc.mk 0 0))] (by rfl) (by rfl)).trans
  ((yyparse_step_shift _ _ _ _ _ _ _ _ [(StackEntry.mk 38 YYVal.vnone (Loc.mk 2 2)), (StackEntry.mk 14 YYVal.vnone (Loc.mk 1 1)), (StackEntry.mk 2 YYVal.vnone (Loc.mk 0 0)), (StackEntry.mk 0 YYVal.vnone (Loc.mk 0 0))] (by rfl) (by rfl)).trans
  ((yyparse_step_shift _ _ _ _ _ _ _ _ [(StackEntry.mk 78 (YYVal.vstr "1234") (Loc.mk 3 3)), (StackEntry.mk 38 YYVal.vnone (Loc.mk 2 2)), (StackEntry.mk 14 YYVal.vnone (Loc.mk 1 1)), (StackEntry.mk 2 YYVal.vnone (Loc.mk 0 0)), (StackEntry.mk 0 YYVal.vnone (Loc.mk 0 0))] (by rfl) (by rfl)).trans
  ((yyparse_step_reduce _ _ _ _ _ _ _ _ _ (EvalContext.mk Universe.V4 [] []) _ _ _ [(StackEntry.mk 79 (YYVal.vu32 1234) (Loc.mk 3 3)), (StackEntry.mk 38 YYVal.vnone (Loc.mk 2 2)), (StackEntry.mk 14 YYVal.vnone (Loc.mk 1 1)), (StackEntry.mk 2 YYVal.vnone (Loc.mk 0 0)), (StackEntry.mk 0 YYVal.vnone (Loc.mk 0 0))] (by rfl) (by rfl) (by rfl) (by rfl) (by rfl) (by rfl)).trans
  ((yyparse_step_shift _ _ _ _ _ _ _ _ [(StackEntry.mk 96 YYVal.vnone (Loc.mk 4 4)), (StackEntry.mk 79 (YYVal.vu32 1234) (Loc.mk 3 3)), (StackEntry.mk 38 YYVal.vnone (Loc.mk 2 2)), (StackEntry.mk 14 YYVal.vnone (Loc.mk 1 1)), (StackEntry.mk 2 YYVal.vnone (Loc.mk 0 0)), (StackEntry.mk 0 YYVal.vnone (Loc.mk 0 0))] (by rfl) (by rfl)).trans
  ((yyparse_step_shift _ _ _ _ _ _ _ _ [(StackEntry.mk 109 YYVal.vnone (Loc.mk 5 5)), (StackEntry.mk 96 YYVal.vnone (Loc.mk 4 4)), (StackEntry.mk 79 (YYVal.vu32 1234) (Loc.mk 3 3)), (StackEntry.mk 38 YYVal.vnone (Loc.mk 2 2)), (StackEntry.mk 14 YYVal.vnone (Loc.mk 1 1)), (StackEntry.mk 2 YYVal.vnone (Loc.mk 0 0)), (StackEntry.mk 0 YYVal.vnone (Loc.mk 0 0))] (by rfl) (by rfl)).trans
  ((yyparse_step_shift _ _ _ _ _ _ _ _ [(StackEntry.mk 129 YYVal.vnone (Loc.mk 6 6)), (StackEntry.mk 109 YYVal.vnone (Loc.mk 5 5)), (StackEntry.mk 96 YYVal.vnone (Loc.mk 4 4)), (StackEntry.mk 79 (YYVal.vu32 1234) (Loc.mk 3 3)), (StackEntry.mk 38 YYVal.vnone (Loc.mk 2 2)), (StackEntry.mk 14 YYVal.vnone (Loc.mk 1 1)), (StackEntry.mk 2 YYVal.vnone (Loc.mk 0 0)), (StackEntry.mk 0 YYVal.vnone (Loc.mk 0 0))] (by rfl) (by rfl)).trans
  ((yyparse_step_reduce _ _ _ _ _ _ _ _ _ (EvalContext.mk Universe.V4 [(Token.TokenVendorClassData Universe.V4 1234 VendorField.DATA 0)] []) _ _ _ [(StackEntry.mk 26 YYVal.vnone (Loc.mk 1 6)), (StackEntry.mk 2 YYVal.vnone (Loc.mk 0 0)), (StackEntry.mk 0 YYVal.vnone (Loc.mk 0 0))] (by rfl) (by rfl) (by rfl) (by rfl) (by rfl) (by rfl)).trans
  ((yyparse_step_reduce _ _ _ _ _ _ _ _ _ (EvalContext.mk Universe.V4 [(Token.TokenVendorClassData Universe.V4 1234 VendorField.DATA 0)] []) _ _ _ [(StackEntry.mk 24 YYVal.vnone (Loc.mk 1 6)), (StackEntry.mk 2 YYVal.vnone (Loc.mk 0 0)), (StackEntry.mk 0 YYVal.vnone (Loc.mk 0 0))] (by rfl) (by rfl) (by rfl) (by rfl) (by rfl) (by rfl)).trans
  ((yyparse_step_reduce _ _ _ _ _ _ _ _ _ (EvalContext.mk Universe.V4 [(Token.TokenVendorClassData Universe.V4 1234 VendorField.DATA 0)] []) _ _ _ [(StackEntry.mk 3 YYVal.vnone (Loc.mk 0 6)), (StackEntry.mk 0 YYVal.vnone (Loc.mk 0 0))] (by rfl) (by rfl) (by rfl) (by rfl) (by rfl) (by rfl)).trans
  ((yyparse_step_shift _ _ _ _ _ _ _ _ [(StackEntry.mk 27 YYVal.vnone (Loc.mk 7 7)), (StackEntry.mk 3 YYVal.vnone (Loc.mk 0 6)), (StackEntry.mk 0 YYVal.vnone (Loc.mk 0 0))] (by rfl) (by rfl)).trans
  (yyparse_step_accept _ _ _ _ _ (by rfl))))))))))))))

theorem run_vcdata3_v4 :
    yyparse 500 (EvalContext.mk Universe.V4 [] []) [StackEntry.mk 0 YYVal.vnone (Loc.mk 0 0)] none
      [(Terminal.tTopLevelString, (Loc.mk 0 0)), (Terminal.tVendorClass, (Loc.mk 1 1)), (Terminal.tLBracket, (Loc.mk 2 2)), ((Terminal.tInteger "1234"), (Loc.mk 3 3)), (Terminal.tRBracket, (Loc.mk 4 4)), (Terminal.tDot, (Loc.mk 5 5)), (Terminal.tData, (Loc.mk 6 6)), (Terminal.tLBracket, (Loc.mk 7 7)), ((Terminal.tInteger "3"), (Loc.mk 8 8)), (Terminal.tRBracket, (Loc.mk 9 9)), (Terminal.tEndOfFile, (Loc.mk 10 10))] =
    .ok (EvalContext.mk Universe.V4 [(Token.TokenVendorClassData Universe.V4 1234 VendorField.DATA 3)] []) := by
  exact ((yyparse_step_shift _ _ _ _ _ _ _ _ [(StackEntry.mk 2 YYVal.vnone (Loc.mk 0 0)), (StackEntry.mk 0 YYVal.vnone (Loc.mk 0 0))] (by rfl) (by rfl)).trans
  ((yyparse_step_shift _ _ _ _ _ _ _ _ [(StackEntry.mk 14 YYVal.vnone (Loc.mk 1 1)), (StackEntry.mk 2 YYVal.vnone (Loc.mk 0 0)), (StackEntry.mk 0 YYVal.vnone (Loc.mk 0 0))] (by rfl) (by rfl)).trans
  ((yyparse_step_shift _ _ _ _ _ _ _ _ [(StackEntry.mk 38 YYVal.vnone (Loc.mk 2 2)), (StackEntry.mk 14 YYVal.vnone (Loc.mk 1 1)), (StackEntry.mk 2 YYVal.vnone (Loc.mk 0 0)), (StackEntry.mk 0 YYVal.vnone (Loc.mk 0 0))] (by rfl) (by rfl)).trans
  ((yyparse_step_shift _ _ _ _ _ _ _ _ [(StackEntry.mk 78 (YYVal.vstr "1234") (Loc.mk 3 3)), (StackEntry.mk 38 YYVal.vnone (Loc.mk 2 2)), (StackEntry.mk 14 YYVal.vnone (Loc.mk 1 1)), (StackEntry.mk 2 YYVal.vnone (Loc.mk 0 0)), (StackEntry.mk 0 YYVal.vnone (Loc.mk 0 0))] (by rfl) (by rfl)).trans
  ((yyparse_step_reduce _ _ _ _ _ _ _ _ _ (EvalContext.mk Universe.V4 [] []) _ _ _ [(StackEntry.mk 79 (YYVal.vu32 1234) (Loc.mk 3 3)), (StackEntry.mk 38 YYVal.vnone (Loc.mk 2 2)), (StackEntry.mk 14 YYVal.vnone (Loc.mk 1 1)), (StackEntry.mk 2 YYVal.vnone (Loc.mk 0 0)), (StackEntry.mk 0 YYVal.vnone (Loc.mk 0 0))] (by rfl) (by rfl) (by rfl) (by rfl) (by rfl) (by rfl)).trans
  ((yyparse_step_shift _ _ _ _ _ _ _ _ [(StackEntry.mk 96 YYVal.vnone (Loc.mk 4 4)), (StackEntry.mk 79 (YYVal.vu32 1234) (Loc.mk 3 3)), (StackEntry.mk 38 YYVal.vnone (Loc.mk 2 2)), (StackEntry.mk 14 YYVal.vnone (Loc.mk 1 1)), (StackEntry.mk 2 YYVal.vnone (Loc.mk 0 0)), (StackEntry.mk 0 YYVal.vnone (Loc.mk 0 0))] (by rfl) (by rfl)).trans
  ((yyparse_step_shift _ _ _ _ _ _ _ _ [(StackEntry.mk 109 YYVal.vnone (Loc.mk 5 5)), (StackEntry.mk 96 YYVal.vnone (Loc.mk 4 4)), (StackEntry.mk 79 (YYVal.vu32 1234) (Loc.mk 3 3)), (StackEntry.mk 38 YYVal.vnone (Loc.mk 2 2)), (StackEntry.mk 14 YYVal.vnone (Loc.mk 1 1)), (StackEntry.mk 2 YYVal.vnone (Loc.mk 0 0)), (StackEntry.mk 0 YYVal.vnone (Loc.mk 0 0))] (by rfl) (by rfl)).trans
  ((yyparse_step_shift _ _ _ _ _ _ _ _ [(StackEntry.mk 129 YYVal.vnone (Loc.mk 6 6)), (StackEntry.mk 109 YYVal.vnone (Loc.mk 5 5)), (StackEntry.mk 96 YYVal.vnone (Loc.mk 4 4)), (StackEntry.mk 79 (YYVal.vu32 1234) (Loc.mk 3 3)), (StackEntry.mk 38 YYVal.vnone (Loc.mk 2 2)), (StackEntry.mk 14 YYVal.vnone (Loc.mk 1 1)), (StackEntry.mk 2 YYVal.vnone (Loc.mk 0 0)), (StackEntry.mk 0 YYVal.vnone (Loc.mk 0 0))] (by rfl) (by rfl)).trans
  ((yyparse_step_shift _ _ _ _ _ _ _ _ [(StackEntry.mk 141 YYVal.vnone (Loc.mk 7 7)), (StackEntry.mk 129 YYVal.vnone (Loc.mk 6 6)), (StackEntry.mk 109 YYVal.vnone (Loc.mk 5 5)), (StackEntry.mk 96 YYVal.vnone (Loc.mk 4 4)), (StackEntry.mk 79 (YYVal.vu32 1234) (Loc.mk 3 3)), (StackEntry.mk 38 YYVal.vnone (Loc.mk 2 2)), (StackEntry.mk 14 YYVal.vnone (Loc.mk 1 1)), (StackEntry.mk 2 YYVal.vnone (Loc.mk 0 0)), (StackEntry.mk 0 YYVal.vnone (Loc.mk 0 0))] (by rfl) (by rfl)).trans
  ((yyparse_step_shift _ _ _ _ _ _ _ _ [(StackEntry.mk 147 (YYVal.vstr "3") (Loc.mk 8 8)), (StackEntry.mk 141 YYVal.vnone (Loc.mk 7 7)), (StackEntry.mk 129 YYVal.vnone (Loc.mk 6 6)), (StackEntry.mk 109 YYVal.vnone (Loc.mk 5 5)), (StackEntry.mk 96 YYVal.vnone (Loc.mk 4 4)), (StackEntry.mk 79 (YYVal.vu32 1234) (Loc.mk 3 3)), (StackEntry.mk 38 YYVal.vnone (Loc.mk 2 2)), (StackEntry.mk 14 YYVal.vnone (Loc.mk 1 1)), (StackEntry.mk 2 YYVal.vnone (Loc.mk 0 0)), (StackEntry.mk 0 YYVal.vnone (Loc.mk 0 0))] (by rfl) (by rfl)).trans
  ((yyparse_step_shift _ _ _ _ _ _ _ _ [(StackEntry.mk 152 YYVal.vnone (Loc.mk 9 9)), (StackEntry.mk 147 (YYVal.vstr "3") (Loc.mk 8 8)), (StackEntry.mk 141 YYVal.vnone (Loc.mk 7 7)), (StackEntry.mk 129 YYVal.vnone (Loc.mk 6 6)), (StackEntry.mk 109 YYVal.vnone (Loc.mk 5 5)), (StackEntry.mk 96 YYVal.vnone (Loc.mk 4 4)), (StackEntry.mk 79 (YYVal.vu32 1234) (Loc.mk 3 3)), (StackEntry.mk 38 YYVal.vnone (Loc.mk 2 2)), (StackEntry.mk 14 YYVal.vnone (Loc.mk 1 1)), (StackEntry.mk 2 YYVal.vnone (Loc.mk 0 0)), (StackEntry.mk 0 YYVal.vnone (Loc.mk 0 0))] (by rfl) (by rfl)).trans
  ((yyparse_step_reduce _ _ _ _ _ _ _ _ _ (EvalContext.mk Universe.V4 [(Token.TokenVendorClassData Universe.V4 1234 VendorField.DATA 3)] []) _ _ _ [(StackEntry.mk 26 YYVal.vnone (Loc.mk 1 9)), (StackEntry.mk 2 YYVal.vnone (Loc.mk 0 0)), (StackEntry.mk 0 YYVal.vnone (Loc.mk 0 0))] (by rfl) (by rfl) (by rfl) (by rfl) (by rfl) (by rfl)).trans
  ((yyparse_step_reduce _ _ _ _ _ _ _ _ _ (EvalContext.mk Universe.V4 [(Token.TokenVendorClassData Universe.V4 1234 VendorField.DATA 3)] []) _ _ _ [(StackEntry.mk 24 YYVal.vnone (Loc.mk 1 9)), (StackEntry.mk 2 YYVal.vnone (Loc.mk 0 0)), (StackEntry.mk 0 YYVal.vnone (Loc.mk 0 0))] (by rfl) (by rfl) (by rfl) (by rfl) (by rfl) (by rfl)).trans
  ((yyparse_step_reduce _ _ _ _ _ _ _ _ _ (EvalContext.mk Universe.V4 [(Token.TokenVendorClassData Universe.V4 1234 VendorField.DATA 3)] []) _ _ _ [(StackEntry.mk 3 YYVal.vnone (Loc.mk 0 9)), (StackEntry.mk 0 YYVal.vnone (Loc.mk 0 0))] (by rfl) (by rfl) (by rfl) (by rfl) (by rfl) (by rfl)).trans
  ((yyparse_step_shift _ _ _ _ _ _ _ _ [(StackEntry.mk 27 YYVal.vnone (Loc.mk 10 10)), (StackEntry.mk 3 YYVal.vnone (Loc.mk 0 9)), (StackEntry.mk 0 YYVal.vnone (Loc.mk 0 0))] (by rfl) (by rfl)).trans
  (yyparse_step_accept _ _ _ _ _ (by rfl)))))))))))))))))

theorem run_vcdata300_v4 :
    yyparse 500 (EvalContext.mk Universe.V4 [] []) [StackEntry.mk 0 YYVal.vnone (Loc.mk 0 0)] none
      [(Terminal.tTopLevelString, (Loc.mk 0 0)), (Terminal.tVendorClass, (Loc.mk 1 1)), (Terminal.tLBracket, (Loc.mk 2 2)), ((Terminal.tInteger "1234"), (Loc.mk 3 3)), (Terminal.tRBracket, (Loc.mk 4 4)), (Terminal.tDot, (Loc.mk 5 5)), (Terminal.tData, (Loc.mk 6 6)), (Terminal.tLBracket, (Loc.mk 7 7)), ((Terminal.tInteger "300"), (Loc.mk 8 8)), (Terminal.tRBracket, (Loc.mk 9 9)), (Terminal.tEndOfFile, (Loc.mk 10 10))] =
    .error (.convError (Loc.mk 8 8) "300 is not a valid 8-bit unsigned integer") := by
  exact ((yyparse_step_shift _ _ _ _ _ _ _ _ [(StackEntry.mk 2 YYVal.vnone (Loc.mk 0 0)), (StackEntry.mk 0 YYVal.vnone (Loc.mk 0 0))] (by rfl) (by rfl)).trans
  ((yyparse_step_shift _ _ _ _ _ _ _ _ [(StackEntry.mk 14 YYVal.vnone (Loc.mk 1 1)), (StackEntry.mk 2 YYVal.vnone (Loc.mk 0 0)), (StackEntry.mk 0 YYVal.vnone (Loc.mk 0 0))] (by rfl) (by rfl)).trans
  ((yyparse_step_shift _ _ _ _ _ _ _ _ [(StackEntry.mk 38 YYVal.vnone (Loc.mk 2 2)), (StackEntry.mk 14 YYVal.vnone (Loc.mk 1 1)), (StackEntry.mk 2 YYVal.vnone (Loc.mk 0 0)), (StackEntry.mk 0 YYVal.vnone (Loc.mk 0 0))] (by rfl) (by rfl)).trans
  ((yyparse_step_shift _ _ _ _ _ _ _ _ [(StackEntry.mk 78 (YYVal.vstr "1234") (Loc.mk 3 3)), (StackEntry.mk 38 YYVal.vnone (Loc.mk 2 2)), (StackEntry.mk 14 YYVal.vnone (Loc.mk 1 1)), (StackEntry.mk 2 YYVal.vnone (Loc.mk 0 0)), (StackEntry.mk 0 YYVal.vnone (Loc.mk 0 0))] (by rfl) (by rfl)).trans
  ((yyparse_step_reduce _ _ _ _ _ _ _ _ _ (EvalContext.mk Universe.V4 [] []) _ _ _ [(StackEntry.mk 79 (YYVal.vu32 1234) (Loc.mk 3 3)), (StackEntry.mk 38 YYVal.vnone (Loc.mk 2 2)), (StackEntry.mk 14 YYVal.vnone (Loc.mk 1 1)), (StackEntry.mk 2 YYVal.vnone (Loc.mk 0 0)), (StackEntry.mk 0 YYVal.vnone (Loc.mk 0 0))] (by rfl) (by rfl) (by rfl) (by rfl) (by rfl) (by rfl)).trans
  ((yyparse_step_shift _ _ _ _ _ _ _ _ [(StackEntry.mk 96 YYVal.vnone (Loc.mk 4 4)), (StackEntry.mk 79 (YYVal.vu32 1234) (Loc.mk 3 3)), (StackEntry.mk 38 YYVal.vnone (Loc.mk 2 2)), (StackEntry.mk 14 YYVal.vnone (Loc.mk 1 1)), (StackEntry.mk 2 YYVal.vnone (Loc.mk 0 0)), (StackEntry.mk 0 YYVal.vnone (Loc.mk 0 0))] (by rfl) (by rfl)).trans
  ((yyparse_step_shift _ _ _ _ _ _ _ _ [(StackEntry.mk 109 YYVal.vnone (Loc.mk 5 5)), (StackEntry.mk 96 YYVal.vnone (Loc.mk 4 4)), (StackEntry.mk 79 (YYVal.vu32 1234) (Loc.mk 3 3)), (StackEntry.mk 38 YYVal.vnone (Loc.mk 2 2)), (StackEntry.mk 14 YYVal.vnone (Loc.mk 1 1)), (StackEntry.mk 2 YYVal.vnone (Loc.mk 0 0)), (StackEntry.mk 0 YYVal.vnone (Loc.mk 0 0))] (by rfl) (by rfl)).trans
  ((yyparse_step_shift _ _ _ _ _ _ _ _ [(StackEntry.mk 129 YYVal.vnone (Loc.mk 6 6)), (StackEntry.mk 109 YYVal.vnone (Loc.mk 5 5)), (StackEntry.mk 96 YYVal.vnone (Loc.mk 4 4)), (StackEntry.mk 79 (YYVal.vu32 1234) (Loc.mk 3 3)), (StackEntry.mk 38 YYVal.vnone (Loc.mk 2 2)), (StackEntry.mk 14 YYVal.vnone (Loc.mk 1 1)), (StackEntry.mk 2 YYVal.vnone (Loc.mk 0 0)), (StackEntry.mk 0 YYVal.vnone (Loc.mk 0 0))] (by rfl) (by rfl)).trans
  ((yyparse_step_shift _ _ _ _ _ _ _ _ [(StackEntry.mk 141 YYVal.vnone (Loc.mk 7 7)), (StackEntry.mk 129 YYVal.vnone (Loc.mk 6 6)), (StackEntry.mk 109 YYVal.vnone (Loc.mk 5 5)), (StackEntry.mk 96 YYVal.vnone (Loc.mk 4 4)), (StackEntry.mk 79 (YYVal.vu32 1234) (Loc.mk 3 3)), (StackEntry.mk 38 YYVal.vnone (Loc.mk 2 2)), (StackEntry.mk 14 YYVal.vnone (Loc.mk 1 1)), (StackEntry.mk 2 YYVal.vnone (Loc.mk 0 0)), (StackEntry.mk 0 YYVal.vnone (Loc.mk 0 0))] (by rfl) (by rfl)).trans
  ((yyparse_step_shift _ _ _ _ _ _ _ _ [(StackEntry.mk 147 (YYVal.vstr "300") (Loc.mk 8 8)), (StackEntry.mk 141 YYVal.vnone (Loc.mk 7 7)), (StackEntry.mk 129 YYVal.vnone (Loc.mk 6 6)), (StackEntry.mk 109 YYVal.vnone (Loc.mk 5 5)), (StackEntry.mk 96 YYVal.vnone (Loc.mk 4 4)), (StackEntry.mk 79 (YYVal.vu32 1234) (Loc.mk 3 3)), (StackEntry.mk 38 YYVal.vnone (Loc.mk 2 2)), (StackEntry.mk 14 YYVal.vnone (Loc.mk 1 1)), (StackEntry.mk 2 YYVal.vnone (Loc.mk 0 0)), (StackEntry.mk 0 YYVal.vnone (Loc.mk 0 0))] (by rfl) (by rfl)).trans
  ((yyparse_step_shift _ _ _ _ _ _ _ _ [(StackEntry.mk 152 YYVal.vnone (Loc.mk 9 9)), (StackEntry.mk 147 (YYVal.vstr "300") (Loc.mk 8 8)), (StackEntry.mk 141 YYVal.vnone (Loc.mk 7 7)), (StackEntry.mk 129 YYVal.vnone (Loc.mk 6 6)), (StackEntry.mk 109 YYVal.vnone (Loc.mk 5 5)), (StackEntry.mk 96 YYVal.vnone (Loc.mk 4 4)), (StackEntry.mk 79 (YYVal.vu32 1234) (Loc.mk 3 3)), (StackEntry.mk 38 YYVal.vnone (Loc.mk 2 2)), (StackEntry.mk 14 YYVal.vnone (Loc.mk 1 1)), (StackEntry.mk 2 YYVal.vnone (Loc.mk 0 0)), (StackEntry.mk 0 YYVal.vnone (Loc.mk 0 0))] (by rfl) (by rfl)).trans
  (yyparse_step_reduce_err _ _ _ _ _ _ _ _ _ (by rfl) (by rfl)))))))))))))

theorem run_vcstar_v4 :
    yyparse 500 (EvalContext.mk Universe.V4 [] []) [StackEntry.mk 0 YYVal.vnone (Loc.mk 0 0)] none
      [(Terminal.tTopLevelBool, (Loc.mk 0 0)), (Terminal.tVendorClass, (Loc.mk 1 1)), (Terminal.tLBracket, (Loc.mk 2 2)), (Terminal.tStar, (Loc.mk 3 3)), (Terminal.tRBracket, (Loc.mk 4 4)), (Terminal.tDot, (Loc.mk 5 5)), (Terminal.tExists, (Loc.mk 6 6)), (Terminal.tEndOfFile, (Loc.mk 7 7))] =
    .ok (EvalContext.mk Universe.V4 [(Token.TokenVendorClass Universe.V4 0 (VendorArg3.rep RepresentationType.EXISTS))] []) := by
  exact ((yyparse_step_shift _ _ _ _ _ _ _ _ [(StackEntry.mk 1 YYVal.vnone (Loc.mk 0 0)), (StackEntry.mk 0 YYVal.vnone (Loc.mk 0 0))] (by rfl) (by rfl)).trans
  ((yyparse_step_shift _ _ _ _ _ _ _ _ [(StackEntry.mk 14 YYVal.vnone (Loc.mk 1 1)), (StackEntry.mk 1 YYVal.vnone (Loc.mk 0 0)), (StackEntry.mk 0 YYVal.vnone (Loc.mk 0 0))] (by rfl) (by rfl)).trans
  ((yyparse_step_shift _ _ _ _ _ _ _ _ [(StackEntry.mk 38 YYVal.vnone (Loc.mk 2 2)), (StackEntry.mk 14 YYVal.vnone (Loc.mk 1 1)), (StackEntry.mk 1 YYVal.vnone (Loc.mk 0 0)), (StackEntry.mk 0 YYVal.vnone (Loc.mk 0 0))] (by rfl) (by rfl)).trans
  ((yyparse_step_shift _ _ _ _ _ _ _ _ [(StackEntry.mk 77 YYVal.vnone (Loc.mk 3 3)), (StackEntry.mk 38 YYVal.vnone (Loc.mk 2 2)), (StackEntry.mk 14 YYVal.vnone (Loc.mk 1 1)), (StackEntry.mk 1 YYVal.vnone (Loc.mk 0 0)), (StackEntry.mk 0 YYVal.vnone (Loc.mk 0 0))] (by rfl) (by rfl)).trans
  ((yyparse_step_reduce _ _ _ _ _ _ _ _ _ (EvalContext.mk Universe.V4 [] []) _ _ _ [(StackEntry.mk 79 (YYVal.vu32 0) (Loc.mk 3 3)), (StackEntry.mk 38 YYVal.vnone (Loc.mk 2 2)), (StackEntry.mk 14 YYVal.vnone (Loc.mk 1 1)), (StackEntry.mk 1 YYVal.vnone (Loc.mk 0 0)), (StackEntry.mk 0 YYVal.vnone (Loc.mk 0 0))] (by rfl) (by rfl) (by rfl) (by rfl) (by rfl) (by rfl)).trans
  ((yyparse_step_shift _ _ _ _ _ _ _ _ [(StackEntry.mk 96 YYVal.vnone (Loc.mk 4 4)), (StackEntry.mk 79 (YYVal.vu32 0) (Loc.mk 3 3)), (StackEntry.mk 38 YYVal.vnone (Loc.mk 2 2)), (StackEntry.mk 14 YYVal.vnone (Loc.mk 1 1)), (StackEntry.mk 1 YYVal.vnone (Loc.mk 0 0)), (StackEntry.mk 0 YYVal.vnone (Loc.mk 0 0))] (by rfl) (by rfl)).trans
  ((yyparse_step_shift _ _ _ _ _ _ _ _ [(StackEntry.mk 109 YYVal.vnone (Loc.mk 5 5)), (StackEntry.mk 96 YYVal.vnone (Loc.mk 4 4)), (StackEntry.mk 79 (YYVal.vu32 0) (Loc.mk 3 3)), (StackEntry.mk 38 YYVal.vnone (Loc.mk 2 2)), (StackEntry.mk 14 YYVal.vnone (Loc.mk 1 1)), (StackEntry.mk 1 YYVal.vnone (Loc.mk 0 0)), (StackEntry.mk 0 YYVal.vnone (Loc.mk 0 0))] (by rfl) (by rfl)).trans
  ((yyparse_step_shift _ _ _ _ _ _ _ _ [(StackEntry.mk 128 YYVal.vnone (Loc.mk 6 6)), (StackEntry.mk 109 YYVal.vnone (Loc.mk 5 5)), (StackEntry.mk 96 YYVal.vnone (Loc.mk 4 4)), (StackEntry.mk 79 (YYVal.vu32 0) (Loc.mk 3 3)), (StackEntry.mk 38 YYVal.vnone (Loc.mk 2 2)), (StackEntry.mk 14 YYVal.vnone (Loc.mk 1 1)), (StackEntry.mk 1 YYVal.vnone (Loc.mk 0 0)), (StackEntry.mk 0 YYVal.vnone (Loc.mk 0 0))] (by rfl) (by rfl)).trans
  ((yyparse_step_reduce _ _ _ _ _ _ _ _ _ (EvalContext.mk Universe.V4 [(Token.TokenVendorClass Universe.V4 0 (VendorArg3.rep RepresentationType.EXISTS))] []) _ _ _ [(StackEntry.mk 21 YYVal.vnone (Loc.mk 1 6)), (StackEntry.mk 1 YYVal.vnone (Loc.mk 0 0)), (StackEntry.mk 0 YYVal.vnone (Loc.mk 0 0))] (by rfl) (by rfl) (by rfl) (by rfl) (by rfl) (by rfl)).trans
  ((yyparse_step_reduce _ _ _ _ _ _ _ _ _ (EvalContext.mk Universe.V4 [(Token.TokenVendorClass Universe.V4 0 (VendorArg3.rep RepresentationType.EXISTS))] []) _ _ _ [(StackEntry.mk 20 YYVal.vnone (Loc.mk 1 6)), (StackEntry.mk 1 YYVal.vnone (Loc.mk 0 0)), (StackEntry.mk 0 YYVal.vnone (Loc.mk 0 0))] (by rfl) (by rfl) (by rfl) (by rfl) (by rfl) (by rfl)).trans
  ((yyparse_step_reduce _ _ _ _ _ _ _ _ _ (EvalContext.mk Universe.V4 [(Token.TokenVendorClass Universe.V4 0 (VendorArg3.rep RepresentationType.EXISTS))] []) _ _ _ [(StackEntry.mk 3 YYVal.vnone (Loc.mk 0 6)), (StackEntry.mk 0 YYVal.vnone (Loc.mk 0 0))] (by rfl) (by rfl) (by rfl) (by rfl) (by rfl) (by rfl)).trans
  ((yyparse_step_shift _ _ _ _ _ _ _ _ [(StackEntry.mk 27 YYVal.vnone (Loc.mk 7 7)), (StackEntry.mk 3 YYVal.vnone (Loc.mk 0 6)), (StackEntry.mk 0 YYVal.vnone (Loc.mk 0 0))] (by rfl) (by rfl)).trans
  (yyparse_step_accept _ _ _ _ _ (by rfl))))))))))))))

theorem run_vstar_v4 :
    yyparse 500 (EvalContext.mk Universe.V4 [] []) [StackEntry.mk 0 YYVal.vnone (Loc.mk 0 0)] none
      [(Terminal.tTopLevelBool, (Loc.mk 0 0)), (Terminal.tVendor, (Loc.mk 1 1)), (Terminal.tLBracket, (Loc.mk 2 2)), (Terminal.tStar, (Loc.mk 3 3)), (Terminal.tRBracket, (Loc.mk 4 4)), (Terminal.tDot, (Loc.mk 5 5)), (Terminal.tExists, (Loc.mk 6 6)), (Terminal.tEndOfFile, (Loc.mk 7 7))] =
    .ok (EvalContext.mk Universe.V4 [(Token.TokenVendor Universe.V4 0 (VendorArg3.rep RepresentationType.EXISTS))] []) := by
  exact ((yyparse_step_shift _ _ _ _ _ _ _ _ [(StackEntry.mk 1 YYVal.vnone (Loc.mk 0 0)), (StackEntry.mk 0 YYVal.vnone (Loc.mk 0 0))] (by rfl) (by rfl)).trans
  ((yyparse_step_shift _ _ _ _ _ _ _ _ [(StackEntry.mk 15 YYVal.vnone (Loc.mk 1 1)), (StackEntry.mk 1 YYVal.vnone (Loc.mk 0 0)), (StackEntry.mk 0 YYVal.vnone (Loc.mk 0 0))] (by rfl) (by rfl)).trans
  ((yyparse_step_shift _ _ _ _ _ _ _ _ [(StackEntry.mk 40 YYVal.vnone (Loc.mk 2 2)), (StackEntry.mk 15 YYVal.vnone (Loc.mk 1 1)), (StackEntry.mk 1 YYVal.vnone (Loc.mk 0 0)), (StackEntry.mk 0 YYVal.vnone (Loc.mk 0 0))] (by rfl) (by rfl)).trans
  ((yyparse_step_shift _ _ _ _ _ _ _ _ [(StackEntry.mk 77 YYVal.vnone (Loc.mk 3 3)), (StackEntry.mk 40 YYVal.vnone (Loc.mk 2 2)), (StackEntry.mk 15 YYVal.vnone (Loc.mk 1 1)), (StackEntry.mk 1 YYVal.vnone (Loc.mk 0 0)), (StackEntry.mk 0 YYVal.vnone (Loc.mk 0 0))] (by rfl) (by rfl)).trans
  ((yyparse_step_reduce _ _ _ _ _ _ _ _ _ (EvalContext.mk Universe.V4 [] []) _ _ _ [(StackEntry.mk 81 (YYVal.vu32 0) (Loc.mk 3 3)), (StackEntry.mk 40 YYVal.vnone (Loc.mk 2 2)), (StackEntry.mk 15 YYVal.vnone (Loc.mk 1 1)), (StackEntry.mk 1 YYVal.vnone (Loc.mk 0 0)), (StackEntry.mk 0 YYVal.vnone (Loc.mk 0 0))] (by rfl) (by rfl) (by rfl) (by rfl) (by rfl) (by rfl)).trans
  ((yyparse_step_shift _ _ _ _ _ _ _ _ [(StackEntry.mk 97 YYVal.vnone (Loc.mk 4 4)), (StackEntry.mk 81 (YYVal.vu32 0) (Loc.mk 3 3)), (StackEntry.mk 40 YYVal.vnone (Loc.mk 2 2)), (StackEntry.mk 15 YYVal.vnone (Loc.mk 1 1)), (StackEntry.mk 1 YYVal.vnone (Loc.mk 0 0)), (StackEntry.mk 0 YYVal.vnone (Loc.mk 0 0))] (by rfl) (by rfl)).trans
  ((yyparse_step_shift _ _ _ _ _ _ _ _ [(StackEntry.mk 110 YYVal.vnone (Loc.mk 5 5)), (StackEntry.mk 97 YYVal.vnone (Loc.mk 4 4)), (StackEntry.mk 81 (YYVal.vu32 0) (Loc.mk 3 3)), (StackEntry.mk 40 YYVal.vnone (Loc.mk 2 2)), (StackEntry.mk 15 YYVal.vnone (Loc.mk 1 1)), (StackEntry.mk 1 YYVal.vnone (Loc.mk 0 0)), (StackEntry.mk 0 YYVal.vnone (Loc.mk 0 0))] (by rfl) (by rfl)).trans
  ((yyparse_step_shift _ _ _ _ _ _ _ _ [(StackEntry.mk 131 YYVal.vnone (Loc.mk 6 6)), (StackEntry.mk 110 YYVal.vnone (Loc.mk 5 5)), (StackEntry.mk 97 YYVal.vnone (Loc.mk 4 4)), (StackEntry.mk 81 (YYVal.vu32 0) (Loc.mk 3 3)), (StackEntry.mk 40 YYVal.vnone (Loc.mk 2 2)), (StackEntry.mk 15 YYVal.vnone (Loc.mk 1 1)), (StackEntry.mk 1 YYVal.vnone (Loc.mk 0 0)), (StackEntry.mk 0 YYVal.vnone (Loc.mk 0 0))] (by rfl) (by rfl)).trans
  ((yyparse_step_reduce _ _ _ _ _ _ _ _ _ (EvalContext.mk Universe.V4 [(Token.TokenVendor Universe.V4 0 (VendorArg3.rep RepresentationType.EXISTS))] []) _ _ _ [(StackEntry.mk 21 YYVal.vnone (Loc.mk 1 6)), (StackEntry.mk 1 YYVal.vnone (Loc.mk 0 0)), (StackEntry.mk 0 YYVal.vnone (Loc.mk 0 0))] (by rfl) (by rfl) (by rfl) (by rfl) (by rfl) (by rfl)).trans
  ((yyparse_step_reduce _ _ _ _ _ _ _ _ _ (EvalContext.mk Universe.V4 [(Token.TokenVendor Universe.V4 0 (VendorArg3.rep RepresentationType.EXISTS))] []) _ _ _ [(StackEntry.mk 20 YYVal.vnone (Loc.mk 1 6)), (StackEntry.mk 1 YYVal.vnone (Loc.mk 0 0)), (StackEntry.mk 0 YYVal.vnone (Loc.mk 0 0))] (by rfl) (by rfl) (by rfl) (by rfl) (by rfl) (by rfl)).trans
  ((yyparse_step_reduce _ _ _ _ _ _ _ _ _ (EvalContext.mk Universe.V4 [(Token.TokenVendor Universe.V4 0 (VendorArg3.rep RepresentationType.EXISTS))] []) _ _ _ [(StackEntry.mk 3 YYVal.vnone (Loc.mk 0 6)), (StackEntry.mk 0 YYVal.vnone (Loc.mk 0 0))] (by rfl) (by rfl) (by rfl) (by rfl) (by rfl) (by rfl)).trans
  ((yyparse_step_shift _ _ _ _ _ _ _ _ [(StackEntry.mk 27 YYVal.vnone (Loc.mk 7 7)), (StackEntry.mk 3 YYVal.vnone (Loc.mk 0 6)), (StackEntry.mk 0 YYVal.vnone (Loc.mk 0 0))] (by rfl) (by rfl)).trans
  (yyparse_step_accept _ _ _ _ _ (by rfl))))))))))))))

theorem run_vc1234_v4 :
    yyparse 500 (EvalContext.mk Universe.V4 [] []) [StackEntry.mk 0 YYVal.vnone (Loc.mk 0 0)] none
      [(Terminal.tTopLevelBool, (Loc.mk 0 0)), (Terminal.tVendorClass, (Loc.mk 1 1)), (Terminal.tLBracket, (Loc.mk 2 2)), ((Terminal.tInteger "1234"), (Loc.mk 3 3)), (Terminal.tRBracket, (Loc.mk 4 4)), (Terminal.tDot, (Loc.mk 5 5)), (Terminal.tExists, (Loc.mk 6 6)), (Terminal.tEndOfFile, (Loc.mk 7 7))] =
    .ok (EvalContext.mk Universe.V4 [(Token.TokenVendorClass Universe.V4 1234 (VendorArg3.rep RepresentationType.EXISTS))] []) := by
  exact ((yyparse_step_shift _ _ _ _ _ _ _ _ [(StackEntry.mk 1 YYVal.vnone (Loc.mk 0 0)), (StackEntry.mk 0 YYVal.vnone (Loc.mk 0 0))] (by rfl) (by rfl)).trans
  ((yyparse_step_shift _ _ _ _ _ _ _ _ [(StackEntry.mk 14 YYVal.vnone (Loc.mk 1 1)), (StackEntry.mk 1 YYVal.vnone (Loc.mk 0 0)), (StackEntry.mk 0 YYVal.vnone (Loc.mk 0 0))] (by rfl) (by rfl)).trans
  ((yyparse_step_shift _ _ _ _ _ _ _ _ [(StackEntry.mk 38 YYVal.vnone (Loc.mk 2 2)), (StackEntry.mk 14 YYVal.vnone (Loc.mk 1 1)), (StackEntry.mk 1 YYVal.vnone (Loc.mk 0 0)), (StackEntry.mk 0 YYVal.vnone (Loc.mk 0 0))] (by rfl) (by rfl)).trans
  ((yyparse_step_shift _ _ _ _ _ _ _ _ [(StackEntry.mk 78 (YYVal.vstr "1234") (Loc.mk 3 3)), (StackEntry.mk 38 YYVal.vnone (Loc.mk 2 2)), (StackEntry.mk 14 YYVal.vnone (Loc.mk 1 1)), (StackEntry.mk 1 YYVal.vnone (Loc.mk 0 0)), (StackEntry.mk 0 YYVal.vnone (Loc.mk 0 0))] (by rfl) (by rfl)).trans
  ((yyparse_step_reduce _ _ _ _ _ _ _ _ _ (EvalContext.mk Universe.V4 [] []) _ _ _ [(StackEntry.mk 79 (YYVal.vu32 1234) (Loc.mk 3 3)), (StackEntry.mk 38 YYVal.vnone (Loc.mk 2 2)), (StackEntry.mk 14 YYVal.vnone (Loc.mk 1 1)), (StackEntry.mk 1 YYVal.vnone (Loc.mk 0 0)), (StackEntry.mk 0 YYVal.vnone (Loc.mk 0 0))] (by rfl) (by rfl) (by rfl) (by rfl) (by rfl) (by rfl)).trans
  ((yyparse_step_shift _ _ _ _ _ _ _ _ [(StackEntry.mk 96 YYVal.vnone (Loc.mk 4 4)), (StackEntry.mk 79 (YYVal.vu32 1234) (Loc.mk 3 3)), (StackEntry.mk 38 YYVal.vnone (Loc.mk 2 2)), (StackEntry.mk 14 YYVal.vnone (Loc.mk 1 1)), (StackEntry.mk 1 YYVal.vnone (Loc.mk 0 0)), (StackEntry.mk 0 YYVal.vnone (Loc.mk 0 0))] (by rfl) (by rfl)).trans
  ((yyparse_step_shift _ _ _ _ _ _ _ _ [(StackEntry.mk 109 YYVal.vnone (Loc.mk 5 5)), (StackEntry.mk 96 YYVal.vnone (Loc.mk 4 4)), (StackEntry.mk 79 (YYVal.vu32 1234) (Loc.mk 3 3)), (StackEntry.mk 38 YYVal.vnone (Loc.mk 2 2)), (StackEntry.mk 14 YYVal.vnone (Loc.mk 1 1)), (StackEntry.mk 1 YYVal.vnone (Loc.mk 0 0)), (StackEntry.mk 0 YYVal.vnone (Loc.mk 0 0))] (by rfl) (by rfl)).trans
  ((yyparse_step_shift _ _ _ _ _ _ _ _ [(StackEntry.mk 128 YYVal.vnone (Loc.mk 6 6)), (StackEntry.mk 109 YYVal.vnone (Loc.mk 5 5)), (StackEntry.mk 96 YYVal.vnone (Loc.mk 4 4)), (StackEntry.mk 79 (YYVal.vu32 1234) (Loc.mk 3 3)), (StackEntry.mk 38 YYVal.vnone (Loc.mk 2 2)), (StackEntry.mk 14 YYVal.vnone (Loc.mk 1 1)), (StackEntry.mk 1 YYVal.vnone (Loc.mk 0 0)), (StackEntry.mk 0 YYVal.vnone (Loc.mk 0 0))] (by rfl) (by rfl)).trans
  ((yyparse_step_reduce _ _ _ _ _ _ _ _ _ (EvalContext.mk Universe.V4 [(Token.TokenVendorClass Universe.V4 1234 (VendorArg3.rep RepresentationType.EXISTS))] []) _ _ _ [(StackEntry.mk 21 YYVal.vnone (Loc.mk 1 6)), (StackEntry.mk 1 YYVal.vnone (Loc.mk 0 0)), (StackEntry.mk 0 YYVal.vnone (Loc.mk 0 0))] (by rfl) (by rfl) (by rfl) (by rfl) (by rfl) (by rfl)).trans
  ((yyparse_step_reduce _ _ _ _ _ _ _ _ _ (EvalContext.mk Universe.V4 [(Token.TokenVendorClass Universe.V4 1234 (VendorArg3.rep RepresentationType.EXISTS))] []) _ _ _ [(StackEntry.mk 20 YYVal.vnone (Loc.mk 1 6)), (StackEntry.mk 1 YYVal.vnone (Loc.mk 0 0)), (StackEntry.mk 0 YYVal.vnone (Loc.mk 0 0))] (by rfl) (by rfl) (by rfl) (by rfl) (by rfl) (by rfl)).trans
  ((yyparse_step_reduce _ _ _ _ _ _ _ _ _ (EvalContext.mk Universe.V4 [(Token.TokenVendorClass Universe.V4 1234 (VendorArg3.rep RepresentationType.EXISTS))] []) _ _ _ [(StackEntry.mk 3 YYVal.vnone (Loc.mk 0 6)), (StackEntry.mk 0 YYVal.vnone (Loc.mk 0 0))] (by rfl) (by rfl) (by rfl) (by rfl) (by rfl) (by rfl)).trans
  ((yyparse_step_shift _ _ _ _ _ _ _ _ [(StackEntry.mk 27 YYVal.vnone (Loc.mk 7 7)), (StackEntry.mk 3 YYVal.vnone (Loc.mk 0 6)), (StackEntry.mk 0 YYVal.vnone (Loc.mk 0 0))] (by rfl) (by rfl)).trans
  (yyparse_step_accept _ _ _ _ _ (by rfl))))))))))))))

theorem run_vsubex_v4 :
    yyparse 500 (EvalContext.mk Universe.V4 [] []) [StackEntry.mk 0 YYVal.vnone (Loc.mk 0 0)] none
      [(Terminal.tTopLevelBool, (Loc.mk 0 0)), (Terminal.tVendor, (Loc.mk 1 1)), (Terminal.tLBracket, (Loc.mk 2 2)), ((Terminal.tInteger "9"), (Loc.mk 3 3)), (Terminal.tRBracket, (Loc.mk 4 4)), (Terminal.tDot, (Loc.mk 5 5)), (Terminal.tOption, (Loc.mk 6 6)), (Terminal.tLBracket, (Loc.mk 7 7)), ((Terminal.tInteger "1"), (Loc.mk 8 8)), (Terminal.tRBracket, (Loc.mk 9 9)), (Terminal.tDot, (Loc.mk 10 10)), (Terminal.tExists, (Loc.mk 11 11)), (Terminal.tEndOfFile, (Loc.mk 12 12))] =
    .ok (EvalContext.mk Universe.V4 [(Token.TokenVendorSub Universe.V4 9 RepresentationType.EXISTS 1)] []) := by
  exact ((yyparse_step_shift _ _ _ _ _ _ _ _ [(StackEntry.mk 1 YYVal.vnone (Loc.mk 0 0)), (StackEntry.mk 0 YYVal.vnone (Loc.mk 0 0))] (by rfl) (by rfl)).trans
  ((yyparse_step_shift _ _ _ _ _ _ _ _ [(StackEntry.mk 15 YYVal.vnone (Loc.mk 1 1)), (StackEntry.mk 1 YYVal.vnone (Loc.mk 0 0)), (StackEntry.mk 0 YYVal.vnone (Loc.mk 0 0))] (by rfl) (by rfl)).trans
  ((yyparse_step_shift _ _ _ _ _ _ _ _ [(StackEntry.mk 40 YYVal.vnone (Loc.mk 2 2)), (StackEntry.mk 15 YYVal.vnone (Loc.mk 1 1)), (StackEntry.mk 1 YYVal.vnone (Loc.mk 0 0)), (StackEntry.mk 0 YYVal.vnone (Loc.mk 0 0))] (by rfl) (by rfl)).trans
  ((yyparse_step_shift _ _ _ _ _ _ _ _ [(StackEntry.mk 78 (YYVal.vstr "9") (Loc.mk 3 3)), (StackEntry.mk 40 YYVal.vnone (Loc.mk 2 2)), (StackEntry.mk 15 YYVal.vnone (Loc.mk 1 1)), (StackEntry.mk 1 YYVal.vnone (Loc.mk 0 0)), (StackEntry.mk 0 YYVal.vnone (Loc.mk 0 0))] (by rfl) (by rfl)).trans
  ((yyparse_step_reduce _ _ _ _ _ _ _ _ _ (EvalContext.mk Universe.V4 [] []) _ _ _ [(StackEntry.mk 81 (YYVal.vu32 9) (Loc.mk 3 3)), (StackEntry.mk 40 YYVal.vnone (Loc.mk 2 2)), (StackEntry.mk 15 YYVal.vnone (Loc.mk 1 1)), (StackEntry.mk 1 YYVal.vnone (Loc.mk 0 0)), (StackEntry.mk 0 YYVal.vnone (Loc.mk 0 0))] (by rfl) (by rfl) (by rfl) (by rfl) (by rfl) (by rfl)).trans
  ((yyparse_step_shift _ _ _ _ _ _ _ _ [(StackEntry.mk 97 YYVal.vnone (Loc.mk 4 4)), (StackEntry.mk 81 (YYVal.vu32 9) (Loc.mk 3 3)), (StackEntry.mk 40 YYVal.vnone (Loc.mk 2 2)), (StackEntry.mk 15 YYVal.vnone (Loc.mk 1 1)), (StackEntry.mk 1 YYVal.vnone (Loc.mk 0 0)), (StackEntry.mk 0 YYVal.vnone (Loc.mk 0 0))] (by rfl) (by rfl)).trans
  ((yyparse_step_shift _ _ _ _ _ _ _ _ [(StackEntry.mk 110 YYVal.vnone (Loc.mk 5 5)), (StackEntry.mk 97 YYVal.vnone (Loc.mk 4 4)), (StackEntry.mk 81 (YYVal.vu32 9) (Loc.mk 3 3)), (StackEntry.mk 40 YYVal.vnone (Loc.mk 2 2)), (StackEntry.mk 15 YYVal.vnone (Loc.mk 1 1)), (StackEntry.mk 1 YYVal.vnone (Loc.mk 0 0)), (StackEntry.mk 0 YYVal.vnone (Loc.mk 0 0))] (by rfl) (by rfl)).trans
  ((yyparse_step_shift _ _ _ _ _ _ _ _ [(StackEntry.mk 130 YYVal.vnone (Loc.mk 6 6)), (StackEntry.mk 110 YYVal.vnone (Loc.mk 5 5)), (StackEntry.mk 97 YYVal.vnone (Loc.mk 4 4)), (StackEntry.mk 81 (YYVal.vu32 9) (Loc.mk 3 3)), (StackEntry.mk 40 YYVal.vnone (Loc.mk 2 2)), (StackEntry.mk 15 YYVal.vnone (Loc.mk 1 1)), (StackEntry.mk 1 YYVal.vnone (Loc.mk 0 0)), (StackEntry.mk 0 YYVal.vnone (Loc.mk 0 0))] (by rfl) (by rfl)).trans
  ((yyparse_step_shift _ _ _ _ _ _ _ _ [(StackEntry.mk 142 YYVal.vnone (Loc.mk 7 7)), (StackEntry.mk 130 YYVal.vnone (Loc.mk 6 6)), (StackEntry.mk 110 YYVal.vnone (Loc.mk 5 5)), (StackEntry.mk 97 YYVal.vnone (Loc.mk 4 4)), (StackEntry.mk 81 (YYVal.vu32 9) (Loc.mk 3 3)), (StackEntry.mk 40 YYVal.vnone (Loc.mk 2 2)), (StackEntry.mk 15 YYVal.vnone (Loc.mk 1 1)), (StackEntry.mk 1 YYVal.vnone (Loc.mk 0 0)), (StackEntry.mk 0 YYVal.vnone (Loc.mk 0 0))] (by rfl) (by rfl)).trans
  ((yyparse_step_shift _ _ _ _ _ _ _ _ [(StackEntry.mk 46 (YYVal.vstr "1") (Loc.mk 8 8)), (StackEntry.mk 142 YYVal.vnone (Loc.mk 7 7)), (StackEntry.mk 130 YYVal.vnone (Loc.mk 6 6)), (StackEntry.mk 110 YYVal.vnone (Loc.mk 5 5)), (StackEntry.mk 97 YYVal.vnone (Loc.mk 4 4)), (StackEntry.mk 81 (YYVal.vu32 9) (Loc.mk 3 3)), (StackEntry.mk 40 YYVal.vnone (Loc.mk 2 2)), (StackEntry.mk 15 YYVal.vnone (Loc.mk 1 1)), (StackEntry.mk 1 YYVal.vnone (Loc.mk 0 0)), (StackEntry.mk 0 YYVal.vnone (Loc.mk 0 0))] (by rfl) (by rfl)).trans
  ((yyparse_step_reduce _ _ _ _ _ _ _ _ _ (EvalContext.mk Universe.V4 [] []) _ _ _ [(StackEntry.mk 148 (YYVal.vu16 1) (Loc.mk 8 8)), (StackEntry.mk 142 YYVal.vnone (Loc.mk 7 7)), (StackEntry.mk 130 YYVal.vnone (Loc.mk 6 6)), (StackEntry.mk 110 YYVal.vnone (Loc.mk 5 5)), (StackEntry.mk 97 YYVal.vnone (Loc.mk 4 4)), (StackEntry.mk 81 (YYVal.vu32 9) (Loc.mk 3 3)), (StackEntry.mk 40 YYVal.vnone (Loc.mk 2 2)), (StackEntry.mk 15 YYVal.vnone (Loc.mk 1 1)), (StackEntry.mk 1 YYVal.vnone (Loc.mk 0 0)), (StackEntry.mk 0 YYVal.vnone (Loc.mk 0 0))] (by rfl) (by rfl) (by rfl) (by rfl) (by rfl) (by rfl)).trans
  ((yyparse_step_shift _ _ _ _ _ _ _ _ [(StackEntry.mk 153 YYVal.vnone (Loc.mk 9 9)), (StackEntry.mk 148 (YYVal.vu16 1) (Loc.mk 8 8)), (StackEntry.mk 142 YYVal.vnone (Loc.mk 7 7)), (StackEntry.mk 130 YYVal.vnone (Loc.mk 6 6)), (StackEntry.mk 110 YYVal.vnone (Loc.mk 5 5)), (StackEntry.mk 97 YYVal.vnone (Loc.mk 4 4)), (StackEntry.mk 81 (YYVal.vu32 9) (Loc.mk 3 3)), (StackEntry.mk 40 YYVal.vnone (Loc.mk 2 2)), (StackEntry.mk 15 YYVal.vnone (Loc.mk 1 1)), (StackEntry.mk 1 YYVal.vnone (Loc.mk 0 0)), (StackEntry.mk 0 YYVal.vnone (Loc.mk 0 0))] (by rfl) (by rfl)).trans
  ((yyparse_step_shift _ _ _ _ _ _ _ _ [(StackEntry.mk 157 YYVal.vnone (Loc.mk 10 10)), (StackEntry.mk 153 YYVal.vnone (Loc.mk 9 9)), (StackEntry.mk 148 (YYVal.vu16 1) (Loc.mk 8 8)), (StackEntry.mk 142 YYVal.vnone (Loc.mk 7 7)), (StackEntry.mk 130 YYVal.vnone (Loc.mk 6 6)), (StackEntry.mk 110 YYVal.vnone (Loc.mk 5 5)), (StackEntry.mk 97 YYVal.vnone (Loc.mk 4 4)), (StackEntry.mk 81 (YYVal.vu32 9) (Loc.mk 3 3)), (StackEntry.mk 40 YYVal.vnone (Loc.mk 2 2)), (StackEntry.mk 15 YYVal.vnone (Loc.mk 1 1)), (StackEntry.mk 1 YYVal.vnone (Loc.mk 0 0)), (StackEntry.mk 0 YYVal.vnone (Loc.mk 0 0))] (by rfl) (by rfl)).trans
  ((yyparse_step_shift _ _ _ _ _ _ _ _ [(StackEntry.mk 162 YYVal.vnone (Loc.mk 11 11)), (StackEntry.mk 157 YYVal.vnone (Loc.mk 10 10)), (StackEntry.mk 153 YYVal.vnone (Loc.mk 9 9)), (StackEntry.mk 148 (YYVal.vu16 1) (Loc.mk 8 8)), (StackEntry.mk 142 YYVal.vnone (Loc.mk 7 7)), (StackEntry.mk 130 YYVal.vnone (Loc.mk 6 6)), (StackEntry.mk 110 YYVal.vnone (Loc.mk 5 5)), (StackEntry.mk 97 YYVal.vnone (Loc.mk 4 4)), (StackEntry.mk 81 (YYVal.vu32 9) (Loc.mk 3 3)), (StackEntry.mk 40 YYVal.vnone (Loc.mk 2 2)), (StackEntry.mk 15 YYVal.vnone (Loc.mk 1 1)), (StackEntry.mk 1 YYVal.vnone (Loc.mk 0 0)), (StackEntry.mk 0 YYVal.vnone (Loc.mk 0 0))] (by rfl) (by rfl)).trans
  ((yyparse_step_reduce _ _ _ _ _ _ _ _ _ (EvalContext.mk Universe.V4 [(Token.TokenVendorSub Universe.V4 9 RepresentationType.EXISTS 1)] []) _ _ _ [(StackEntry.mk 21 YYVal.vnone (Loc.mk 1 11)), (StackEntry.mk 1 YYVal.vnone (Loc.mk 0 0)), (StackEntry.mk 0 YYVal.vnone (Loc.mk 0 0))] (by rfl) (by rfl) (by rfl) (by rfl) (by rfl) (by rfl)).trans
  ((yyparse_step_reduce _ _ _ _ _ _ _ _ _ (EvalContext.mk Universe.V4 [(Token.TokenVendorSub Universe.V4 9 RepresentationType.EXISTS 1)] []) _ _ _ [(StackEntry.mk 20 YYVal.vnone (Loc.mk 1 11)), (StackEntry.mk 1 YYVal.vnone (Loc.mk 0 0)), (StackEntry.mk 0 YYVal.vnone (Loc.mk 0 0))] (by rfl) (by rfl) (by rfl) (by rfl) (by rfl) (by rfl)).trans
  ((yyparse_step_reduce _ _ _ _ _ _ _ _ _ (EvalContext.mk Universe.V4 [(Token.TokenVendorSub Universe.V4 9 RepresentationType.EXISTS 1)] []) _ _ _ [(StackEntry.mk 3 YYVal.vnone (Loc.mk 0 11)), (StackEntry.mk 0 YYVal.vnone (Loc.mk 0 0))] (by rfl) (by rfl) (by rfl) (by rfl) (by rfl) (by rfl)).trans
  ((yyparse_step_shift _ _ _ _ _ _ _ _ [(StackEntry.mk 27 YYVal.vnone (Loc.mk 12 12)), (StackEntry.mk 3 YYVal.vnone (Loc.mk 0 11)), (StackEntry.mk 0 YYVal.vnone (Loc.mk 0 0))] (by rfl) (by rfl)).trans
  (yyparse_step_accept _ _ _ _ _ (by rfl))))))))))))))))))))

theorem run_vsubhex_v4 :
    yyparse 500 (EvalContext.mk Universe.V4 [] []) [StackEntry.mk 0 YYVal.vnone (Loc.mk 0 0)] none
      [(Terminal.tTopLevelString, (Loc.mk 0 0)), (Terminal.tVendor, (Loc.mk 1 1)), (Terminal.tLBracket, (Loc.mk 2 2)), ((Terminal.tInteger "9"), (Loc.mk 3 3)), (Terminal.tRBracket, (Loc.mk 4 4)), (Terminal.tDot, (Loc.mk 5 5)), (Terminal.tOption, (Loc.mk 6 6)), (Terminal.tLBracket, (Loc.mk 7 7)), ((Terminal.tInteger "1"), (Loc.mk 8 8)), (Terminal.tRBracket, (Loc.mk 9 9)), (Terminal.tDot, (Loc.mk 10 10)), (Terminal.tHex, (Loc.mk 11 11)), (Terminal.tEndOfFile, (Loc.mk 12 12))] =
    .ok (EvalContext.mk Universe.V4 [(Token.TokenVendorSub Universe.V4 9 RepresentationType.HEXADECIMAL 1)] []) := by
  exact ((yyparse_step_shift _ _ _ _ _ _ _ _ [(StackEntry.mk 2 YYVal.vnone (Loc.mk 0 0)), (StackEntry.mk 0 YYVal.vnone (Loc.mk 0 0))] (by rfl) (by rfl)).trans
  ((yyparse_step_shift _ _ _ _ _ _ _ _ [(StackEntry.mk 15 YYVal.vnone (Loc.mk 1 1)), (StackEntry.mk 2 YYVal.vnone (Loc.mk 0 0)), (StackEntry.mk 0 YYVal.vnone (Loc.mk 0 0))] (by rfl) (by rfl)).trans
  ((yyparse_step_shift _ _ _ _ _ _ _ _ [(StackEntry.mk 40 YYVal.vnone (Loc.mk 2 2)), (StackEntry.mk 15 YYVal.vnone (Loc.mk 1 1)), (StackEntry.mk 2 YYVal.vnone (Loc.mk 0 0)), (StackEntry.mk 0 YYVal.vnone (Loc.mk 0 0))] (by rfl) (by rfl)).trans
  ((yyparse_step_shift _ _ _ _ _ _ _ _ [(StackEntry.mk 78 (YYVal.vstr "9") (Loc.mk 3 3)), (StackEntry.mk 40 YYVal.vnone (Loc.mk 2 2)), (StackEntry.mk 15 YYVal.vnone (Loc.mk 1 1)), (StackEntry.mk 2 YYVal.vnone (Loc.mk 0 0)), (StackEntry.mk 0 YYVal.vnone (Loc.mk 0 0))] (by rfl) (by rfl)).trans
  ((yyparse_step_reduce _ _ _ _ _ _ _ _ _ (EvalContext.mk Universe.V4 [] []) _ _ _ [(StackEntry.mk 81 (YYVal.vu32 9) (Loc.mk 3 3)), (StackEntry.mk 40 YYVal.vnone (Loc.mk 2 2)), (StackEntry.mk 15 YYVal.vnone (Loc.mk 1 1)), (StackEntry.mk 2 YYVal.vnone (Loc.mk 0 0)), (StackEntry.mk 0 YYVal.vnone (Loc.mk 0 0))] (by rfl) (by rfl) (by rfl) (by rfl) (by rfl) (by rfl)).trans
  ((yyparse_step_shift _ _ _ _ _ _ _ _ [(StackEntry.mk 97 YYVal.vnone (Loc.mk 4 4)), (StackEntry.mk 81 (YYVal.vu32 9) (Loc.mk 3 3)), (StackEntry.mk 40 YYVal.vnone (Loc.mk 2 2)), (StackEntry.mk 15 YYVal.vnone (Loc.mk 1 1)), (StackEntry.mk 2 YYVal.vnone (Loc.mk 0 0)), (StackEntry.mk 0 YYVal.vnone (Loc.mk 0 0))] (by rfl) (by rfl)).trans
  ((yyparse_step_shift _ _ _ _ _ _ _ _ [(StackEntry.mk 110 YYVal.vnone (Loc.mk 5 5)), (StackEntry.mk 97 YYVal.vnone (Loc.mk 4 4)), (StackEntry.mk 81 (YYVal.vu32 9) (Loc.mk 3 3)), (StackEntry.mk 40 YYVal.vnone (Loc.mk 2 2)), (StackEntry.mk 15 YYVal.vnone (Loc.mk 1 1)), (StackEntry.mk 2 YYVal.vnone (Loc.mk 0 0)), (StackEntry.mk 0 YYVal.vnone (Loc.mk 0 0))] (by rfl) (by rfl)).trans
  ((yyparse_step_shift _ _ _ _ _ _ _ _ [(StackEntry.mk 130 YYVal.vnone (Loc.mk 6 6)), (StackEntry.mk 110 YYVal.vnone (Loc.mk 5 5)), (StackEntry.mk 97 YYVal.vnone (Loc.mk 4 4)), (StackEntry.mk 81 (YYVal.vu32 9) (Loc.mk 3 3)), (StackEntry.mk 40 YYVal.vnone (Loc.mk 2 2)), (StackEntry.mk 15 YYVal.vnone (Loc.mk 1 1)), (StackEntry.mk 2 YYVal.vnone (Loc.mk 0 0)), (StackEntry.mk 0 YYVal.vnone (Loc.mk 0 0))] (by rfl) (by rfl)).trans
  ((yyparse_step_shift _ _ _ _ _ _ _ _ [(StackEntry.mk 142 YYVal.vnone (Loc.mk 7 7)), (StackEntry.mk 130 YYVal.vnone (Loc.mk 6 6)), (StackEntry.mk 110 YYVal.vnone (Loc.mk 5 5)), (StackEntry.mk 97 YYVal.vnone (Loc.mk 4 4)), (StackEntry.mk 81 (YYVal.vu32 9) (Loc.mk 3 3)), (StackEntry.mk 40 YYVal.vnone (Loc.mk 2 2)), (StackEntry.mk 15 YYVal.vnone (Loc.mk 1 1)), (StackEntry.mk 2 YYVal.vnone (Loc.mk 0 0)), (StackEntry.mk 0 YYVal.vnone (Loc.mk 0 0))] (by rfl) (by rfl)).trans
  ((yyparse_step_shift _ _ _ _ _ _ _ _ [(StackEntry.mk 46 (YYVal.vstr "1") (Loc.mk 8 8)), (StackEntry.mk 142 YYVal.vnone (Loc.mk 7 7)), (StackEntry.mk 130 YYVal.vnone (Loc.mk 6 6)), (StackEntry.mk 110 YYVal.vnone (Loc.mk 5 5)), (StackEntry.mk 97 YYVal.vnone (Loc.mk 4 4)), (StackEntry.mk 81 (YYVal.vu32 9) (Loc.mk 3 3)), (StackEntry.mk 40 YYVal.vnone (Loc.mk 2 2)), (StackEntry.mk 15 YYVal.vnone (Loc.mk 1 1)), (StackEntry.mk 2 YYVal.vnone (Loc.mk 0 0)), (StackEntry.mk 0 YYVal.vnone (Loc.mk 0 0))] (by rfl) (by rfl)).trans
  ((yyparse_step_reduce _ _ _ _ _ _ _ _ _ (EvalContext.mk Universe.V4 [] []) _ _ _ [(StackEntry.mk 148 (YYVal.vu16 1) (Loc.mk 8 8)), (StackEntry.mk 142 YYVal.vnone (Loc.mk 7 7)), (StackEntry.mk 130 YYVal.vnone (Loc.mk 6 6)), (StackEntry.mk 110 YYVal.vnone (Loc.mk 5 5)), (StackEntry.mk 97 YYVal.vnone (Loc.mk 4 4)), (StackEntry.mk 81 (YYVal.vu32 9) (Loc.mk 3 3)), (StackEntry.mk 40 YYVal.vnone (Loc.mk 2 2)), (StackEntry.mk 15 YYVal.vnone (Loc.mk 1 1)), (StackEntry.mk 2 YYVal.vnone (Loc.mk 0 0)), (StackEntry.mk 0 YYVal.vnone (Loc.mk 0 0))] (by rfl) (by rfl) (by rfl) (by rfl) (by rfl) (by rfl)).trans
  ((yyparse_step_shift _ _ _ _ _ _ _ _ [(StackEntry.mk 153 YYVal.vnone (Loc.mk 9 9)), (StackEntry.mk 148 (YYVal.vu16 1) (Loc.mk 8 8)), (StackEntry.mk 142 YYVal.vnone (Loc.mk 7 7)), (StackEntry.mk 130 YYVal.vnone (Loc.mk 6 6)), (StackEntry.mk 110 YYVal.vnone (Loc.mk 5 5)), (StackEntry.mk 97 YYVal.vnone (Loc.mk 4 4)), (StackEntry.mk 81 (YYVal.vu32 9) (Loc.mk 3 3)), (StackEntry.mk 40 YYVal.vnone (Loc.mk 2 2)), (StackEntry.mk 15 YYVal.vnone (Loc.mk 1 1)), (StackEntry.mk 2 YYVal.vnone (Loc.mk 0 0)), (StackEntry.mk 0 YYVal.vnone (Loc.mk 0 0))] (by rfl) (by rfl)).trans
  ((yyparse_step_shift _ _ _ _ _ _ _ _ [(StackEntry.mk 157 YYVal.vnone (Loc.mk 10 10)), (StackEntry.mk 153 YYVal.vnone (Loc.mk 9 9)), (StackEntry.mk 148 (YYVal.vu16 1) (Loc.mk 8 8)), (StackEntry.mk 142 YYVal.vnone (Loc.mk 7 7)), (StackEntry.mk 130 YYVal.vnone (Loc.mk 6 6)), (StackEntry.mk 110 YYVal.vnone (Loc.mk 5 5)), (StackEntry.mk 97 YYVal.vnone (Loc.mk 4 4)), (StackEntry.mk 81 (YYVal.vu32 9) (Loc.mk 3 3)), (StackEntry.mk 40 YYVal.vnone (Loc.mk 2 2)), (StackEntry.mk 15 YYVal.vnone (Loc.mk 1 1)), (StackEntry.mk 2 YYVal.vnone (Loc.mk 0 0)), (StackEntry.mk 0 YYVal.vnone (Loc.mk 0 0))] (by rfl) (by rfl)).trans
  ((yyparse_step_shift _ _ _ _ _ _ _ _ [(StackEntry.mk 112 YYVal.vnone (Loc.mk 11 11)), (StackEntry.mk 157 YYVal.vnone (Loc.mk 10 10)), (StackEntry.mk 153 YYVal.vnone (Loc.mk 9 9)), (StackEntry.mk 148 (YYVal.vu16 1) (Loc.mk 8 8)), (StackEntry.mk 142 YYVal.vnone (Loc.mk 7 7)), (StackEntry.mk 130 YYVal.vnone (Loc.mk 6 6)), (StackEntry.mk 110 YYVal.vnone (Loc.mk 5 5)), (StackEntry.mk 97 YYVal.vnone (Loc.mk 4 4)), (StackEntry.mk 81 (YYVal.vu32 9) (Loc.mk 3 3)), (StackEntry.mk 40 YYVal.vnone (Loc.mk 2 2)), (StackEntry.mk 15 YYVal.vnone (Loc.mk 1 1)), (StackEntry.mk 2 YYVal.vnone (Loc.mk 0 0)), (StackEntry.mk 0 YYVal.vnone (Loc.mk 0 0))] (by rfl) (by rfl)).trans
  ((yyparse_step_reduce _ _ _ _ _ _ _ _ _ (EvalContext.mk Universe.V4 [] []) _ _ _ [(StackEntry.mk 163 (YYVal.vrep RepresentationType.HEXADECIMAL) (Loc.mk 11 11)), (StackEntry.mk 157 YYVal.vnone (Loc.mk 10 10)), (StackEntry.mk 153 YYVal.vnone (Loc.mk 9 9)), (StackEntry.mk 148 (YYVal.vu16 1) (Loc.mk 8 8)), (StackEntry.mk 142 YYVal.vnone (Loc.mk 7 7)), (StackEntry.mk 130 YYVal.vnone (Loc.mk 6 6)), (StackEntry.mk 110 YYVal.vnone (Loc.mk 5 5)), (StackEntry.mk 97 YYVal.vnone (Loc.mk 4 4)), (StackEntry.mk 81 (YYVal.vu32 9) (Loc.mk 3 3)), (StackEntry.mk 40 YYVal.vnone (Loc.mk 2 2)), (StackEntry.mk 15 YYVal.vnone (Loc.mk 1 1)), (StackEntry.mk 2 YYVal.vnone (Loc.mk 0 0)), (StackEntry.mk 0 YYVal.vnone (Loc.mk 0 0))] (by rfl) (by rfl) (by rfl) (by rfl) (by rfl) (by rfl)).trans
  ((yyparse_step_reduce _ _ _ _ _ _ _ _ _ (EvalContext.mk Universe.V4 [(Token.TokenVendorSub Universe.V4 9 RepresentationType.HEXADECIMAL 1)] []) _ _ _ [(StackEntry.mk 26 YYVal.vnone (Loc.mk 1 11)), (StackEntry.mk 2 YYVal.vnone (Loc.mk 0 0)), (StackEntry.mk 0 YYVal.vnone (Loc.mk 0 0))] (by rfl) (by rfl) (by rfl) (by rfl) (by rfl) (by rfl)).trans
  ((yyparse_step_reduce _ _ _ _ _ _ _ _ _ (EvalContext.mk Universe.V4 [(Token.TokenVendorSub Universe.V4 9 RepresentationType.HEXADECIMAL 1)] []) _ _ _ [(StackEntry.mk 24 YYVal.vnone (Loc.mk 1 11)), (StackEntry.mk 2 YYVal.vnone (Loc.mk 0 0)), (StackEntry.mk 0 YYVal.vnone (Loc.mk 0 0))] (by rfl) (by rfl) (by rfl) (by rfl) (by rfl) (by rfl)).trans
  ((yyparse_step_reduce _ _ _ _ _ _ _ _ _ (EvalContext.mk Universe.V4 [(Token.TokenVendorSub Universe.V4 9 RepresentationType.HEXADECIMAL 1)] []) _ _ _ [(StackEntry.mk 3 YYVal.vnone (Loc.mk 0 11)), (StackEntry.mk 0 YYVal.vnone (Loc.mk 0 0))] (by rfl) (by rfl) (by rfl) (by rfl) (by rfl) (by rfl)).trans
  ((yyparse_step_shift _ _ _ _ _ _ _ _ [(StackEntry.mk 27 YYVal.vnone (Loc.mk 12 12)), (StackEntry.mk 3 YYVal.vnone (Loc.mk 0 11)), (StackEntry.mk 0 YYVal.vnone (Loc.mk 0 0))] (by rfl) (by rfl)).trans
  (yyparse_step_accept _ _ _ _ _ (by rfl)))))))))))))))))))))

theorem run_vc9data3_v4 :
    yyparse 500 (EvalContext.mk Universe.V4 [] []) [StackEntry.mk 0 YYVal.vnone (Loc.mk 0 0)] none
      [(Terminal.tTopLevelString, (Loc.mk 0 0)), (Terminal.tVendorClass, (Loc.mk 1 1)), (Terminal.tLBracket, (Loc.mk 2 2)), ((Terminal.tInteger "9"), (Loc.mk 3 3)), (Terminal.tRBracket, (Loc.mk 4 4)), (Terminal.tDot, (Loc.mk 5 5)), (Terminal.tData, (Loc.mk 6 6)), (Terminal.tLBracket, (Loc.mk 7 7)), ((Terminal.tInteger "3"), (Loc.mk 8 8)), (Terminal.tRBracket, (Loc.mk 9 9)), (Terminal.tEndOfFile, (Loc.mk 10 10))] =
    .ok (EvalContext.mk Universe.V4 [(Token.TokenVendorClassData Universe.V4 9 VendorField.DATA 3)] []) := by
  exact ((yyparse_step_shift _ _ _ _ _ _ _ _ [(StackEntry.mk 2 YYVal.vnone (Loc.mk 0 0)), (StackEntry.mk 0 YYVal.vnone (Loc.mk 0 0))] (by rfl) (by rfl)).trans
  ((yyparse_step_shift _ _ _ _ _ _ _ _ [(StackEntry.mk 14 YYVal.vnone (Loc.mk 1 1)), (StackEntry.mk 2 YYVal.vnone (Loc.mk 0 0)), (StackEntry.mk 0 YYVal.vnone (Loc.mk 0 0))] (by rfl) (by rfl)).trans
  ((yyparse_step_shift _ _ _ _ _ _ _ _ [(StackEntry.mk 38 YYVal.vnone (Loc.mk 2 2)), (StackEntry.mk 14 YYVal.vnone (Loc.mk 1 1)), (StackEntry.mk 2 YYVal.vnone (Loc.mk 0 0)), (StackEntry.mk 0 YYVal.vnone (Loc.mk 0 0))] (by rfl) (by rfl)).trans
  ((yyparse_step_shift _ _ _ _ _ _ _ _ [(StackEntry.mk 78 (YYVal.vstr "9") (Loc.mk 3 3)), (StackEntry.mk 38 YYVal.vnone (Loc.mk 2 2)), (StackEntry.mk 14 YYVal.vnone (Loc.mk 1 1)), (StackEntry.mk 2 YYVal.vnone (Loc.mk 0 0)), (StackEntry.mk 0 YYVal.vnone (Loc.mk 0 0))] (by rfl) (by rfl)).trans
  ((yyparse_step_reduce _ _ _ _ _ _ _ _ _ (EvalContext.mk Universe.V4 [] []) _ _ _ [(StackEntry.mk 79 (YYVal.vu32 9) (Loc.mk 3 3)), (StackEntry.mk 38 YYVal.vnone (Loc.mk 2 2)), (StackEntry.mk 14 YYVal.vnone (Loc.mk 1 1)), (StackEntry.mk 2 YYVal.vnone (Loc.mk 0 0)), (StackEntry.mk 0 YYVal.vnone (Loc.mk 0 0))] (by rfl) (by rfl) (by rfl) (by rfl) (by rfl) (by rfl)).trans
  ((yyparse_step_shift _ _ _ _ _ _ _ _ [(StackEntry.mk 96 YYVal.vnone (Loc.mk 4 4)), (StackEntry.mk 79 (YYVal.vu32 9) (Loc.mk 3 3)), (StackEntry.mk 38 YYVal.vnone (Loc.mk 2 2)), (StackEntry.mk 14 YYVal.vnone (Loc.mk 1 1)), (StackEntry.mk 2 YYVal.vnone (Loc.mk 0 0)), (StackEntry.mk 0 YYVal.vnone (Loc.mk 0 0))] (by rfl) (by rfl)).trans
  ((yyparse_step_shift _ _ _ _ _ _ _ _ [(StackEntry.mk 109 YYVal.vnone (Loc.mk 5 5)), (StackEntry.mk 96 YYVal.vnone (Loc.mk 4 4)), (StackEntry.mk 79 (YYVal.vu32 9) (Loc.mk 3 3)), (StackEntry.mk 38 YYVal.vnone (Loc.mk 2 2)), (StackEntry.mk 14 YYVal.vnone (Loc.mk 1 1)), (StackEntry.mk 2 YYVal.vnone (Loc.mk 0 0)), (StackEntry.mk 0 YYVal.vnone (Loc.mk 0 0))] (by rfl) (by rfl)).trans
  ((yyparse_step_shift _ _ _ _ _ _ _ _ [(StackEntry.mk 129 YYVal.vnone (Loc.mk 6 6)), (StackEntry.mk 109 YYVal.vnone (Loc.mk 5 5)), (StackEntry.mk 96 YYVal.vnone (Loc.mk 4 4)), (StackEntry.mk 79 (YYVal.vu32 9) (Loc.mk 3 3)), (StackEntry.mk 38 YYVal.vnone (Loc.mk 2 2)), (StackEntry.mk 14 YYVal.vnone (Loc.mk 1 1)), (StackEntry.mk 2 YYVal.vnone (Loc.mk 0 0)), (StackEntry.mk 0 YYVal.vnone (Loc.mk 0 0))] (by rfl) (by rfl)).trans
  ((yyparse_step_shift _ _ _ _ _ _ _ _ [(StackEntry.mk 141 YYVal.vnone (Loc.mk 7 7)), (StackEntry.mk 129 YYVal.vnone (Loc.mk 6 6)), (StackEntry.mk 109 YYVal.vnone (Loc.mk 5 5)), (StackEntry.mk 96 YYVal.vnone (Loc.mk 4 4)), (StackEntry.mk 79 (YYVal.vu32 9) (Loc.mk 3 3)), (StackEntry.mk 38 YYVal.vnone (Loc.mk 2 2)), (StackEntry.mk 14 YYVal.vnone (Loc.mk 1 1)), (StackEntry.mk 2 YYVal.vnone (Loc.mk 0 0)), (StackEntry.mk 0 YYVal.vnone (Loc.mk 0 0))] (by rfl) (by rfl)).trans
  ((yyparse_step_shift _ _ _ _ _ _ _ _ [(StackEntry.mk 147 (YYVal.vstr "3") (Loc.mk 8 8)), (StackEntry.mk 141 YYVal.vnone (Loc.mk 7 7)), (StackEntry.mk 129 YYVal.vnone (Loc.mk 6 6)), (StackEntry.mk 109 YYVal.vnone (Loc.mk 5 5)), (StackEntry.mk 96 YYVal.vnone (Loc.mk 4 4)), (StackEntry.mk 79 (YYVal.vu32 9) (Loc.mk 3 3)), (StackEntry.mk 38 YYVal.vnone (Loc.mk 2 2)), (StackEntry.mk 14 YYVal.vnone (Loc.mk 1 1)), (StackEntry.mk 2 YYVal.vnone (Loc.mk 0 0)), (StackEntry.mk 0 YYVal.vnone (Loc.mk 0 0))] (by rfl) (by rfl)).trans
  ((yyparse_step_shift _ _ _ _ _ _ _ _ [(StackEntry.mk 152 YYVal.vnone (Loc.mk 9 9)), (StackEntry.mk 147 (YYVal.vstr "3") (Loc.mk 8 8)), (StackEntry.mk 141 YYVal.vnone (Loc.mk 7 7)), (StackEntry.mk 129 YYVal.vnone (Loc.mk 6 6)), (StackEntry.mk 109 YYVal.vnone (Loc.mk 5 5)), (StackEntry.mk 96 YYVal.vnone (Loc.mk 4 4)), (StackEntry.mk 79 (YYVal.vu32 9) (Loc.mk 3 3)), (StackEntry.mk 38 YYVal.vnone (Loc.mk 2 2)), (StackEntry.mk 14 YYVal.vnone (Loc.mk 1 1)), (StackEntry.mk 2 YYVal.vnone (Loc.mk 0 0)), (StackEntry.mk 0 YYVal.vnone (Loc.mk 0 0))] (by rfl) (by rfl)).trans
  ((yyparse_step_reduce _ _ _ _ _ _ _ _ _ (EvalContext.mk Universe.V4 [(Token.TokenVendorClassData Universe.V4 9 VendorField.DATA 3)] []) _ _ _ [(StackEntry.mk 26 YYVal.vnone (Loc.mk 1 9)), (StackEntry.mk 2 YYVal.vnone (Loc.mk 0 0)), (StackEntry.mk 0 YYVal.vnone (Loc.mk 0 0))] (by rfl) (by rfl) (by rfl) (by rfl) (by rfl) (by rfl)).trans
  ((yyparse_step_reduce _ _ _ _ _ _ _ _ _ (EvalContext.mk Universe.V4 [(Token.TokenVendorClassData Universe.V4 9 VendorField.DATA 3)] []) _ _ _ [(StackEntry.mk 24 YYVal.vnone (Loc.mk 1 9)), (StackEntry.mk 2 YYVal.vnone (Loc.mk 0 0)), (StackEntry.mk 0 YYVal.vnone (Loc.mk 0 0))] (by rfl) (by rfl) (by rfl) (by rfl) (by rfl) (by rfl)).trans
  ((yyparse_step_reduce _ _ _ _ _ _ _ _ _ (EvalContext.mk Universe.V4 [(Token.TokenVendorClassData Universe.V4 9 VendorField.DATA 3)] []) _ _ _ [(StackEntry.mk 3 YYVal.vnone (Loc.mk 0 9)), (StackEntry.mk 0 YYVal.vnone (Loc.mk 0 0))] (by rfl) (by rfl) (by rfl) (by rfl) (by rfl) (by rfl)).trans
  ((yyparse_step_shift _ _ _ _ _ _ _ _ [(StackEntry.mk 27 YYVal.vnone (Loc.mk 10 10)), (StackEntry.mk 3 YYVal.vnone (Loc.mk 0 9)), (StackEntry.mk 0 YYVal.vnone (Loc.mk 0 0))] (by rfl) (by rfl)).trans
  (yyparse_step_accept _ _ _ _ _ (by rfl)))))))))))))))))

theorem run_vent_v4 :
    yyparse 500 (EvalContext.mk Universe.V4 [] []) [StackEntry.mk 0 YYVal.vnone (Loc.mk 0 0)] none
      [(Terminal.tTopLevelString, (Loc.mk 0 0)), (Terminal.tVendor, (Loc.mk 1 1)), (Terminal.tDot, (Loc.mk 2 2)), (Terminal.tEnterprise, (Loc.mk 3 3)), (Terminal.tEndOfFile, (Loc.mk 4 4))] =
    .ok (EvalContext.mk Universe.V4 [(Token.TokenVendor Universe.V4 0 (VendorArg3.field VendorField.ENTERPRISE_ID))] []) := by
  exact ((yyparse_step_shift _ _ _ _ _ _ _ _ [(StackEntry.mk 2 YYVal.vnone (Loc.mk 0 0)), (StackEntry.mk 0 YYVal.vnone (Loc.mk 0 0))] (by rfl) (by rfl)).trans
  ((yyparse_step_shift _ _ _ _ _ _ _ _ [(StackEntry.mk 15 YYVal.vnone (Loc.mk 1 1)), (StackEntry.mk 2 YYVal.vnone (Loc.mk 0 0)), (StackEntry.mk 0 YYVal.vnone (Loc.mk 0 0))] (by rfl) (by rfl)).trans
  ((yyparse_step_shift _ _ _ _ _ _ _ _ [(StackEntry.mk 41 YYVal.vnone (Loc.mk 2 2)), (StackEntry.mk 15 YYVal.vnone (Loc.mk 1 1)), (StackEntry.mk 2 YYVal.vnone (Loc.mk 0 0)), (StackEntry.mk 0 YYVal.vnone (Loc.mk 0 0))] (by rfl) (by rfl)).trans
  ((yyparse_step_shift _ _ _ _ _ _ _ _ [(StackEntry.mk 82 YYVal.vnone (Loc.mk 3 3)), (StackEntry.mk 41 YYVal.vnone (Loc.mk 2 2)), (StackEntry.mk 15 YYVal.vnone (Loc.mk 1 1)), (StackEntry.mk 2 YYVal.vnone (Loc.mk 0 0)), (StackEntry.mk 0 YYVal.vnone (Loc.mk 0 0))] (by rfl) (by rfl)).trans
  ((yyparse_step_reduce _ _ _ _ _ _ _ _ _ (EvalContext.mk Universe.V4 [(Token.TokenVendor Universe.V4 0 (VendorArg3.field VendorField.ENTERPRISE_ID))] []) _ _ _ [(StackEntry.mk 26 YYVal.vnone (Loc.mk 1 3)), (StackEntry.mk 2 YYVal.vnone (Loc.mk 0 0)), (StackEntry.mk 0 YYVal.vnone (Loc.mk 0 0))] (by rfl) (by rfl) (by rfl) (by rfl) (by rfl) (by rfl)).trans
  ((yyparse_step_reduce _ _ _ _ _ _ _ _ _ (EvalContext.mk Universe.V4 [(Token.TokenVendor Universe.V4 0 (VendorArg3.field VendorField.ENTERPRISE_ID))] []) _ _ _ [(StackEntry.mk 24 YYVal.vnone (Loc.mk 1 3)), (StackEntry.mk 2 YYVal.vnone (Loc.mk 0 0)), (StackEntry.mk 0 YYVal.vnone (Loc.mk 0 0))] (by rfl) (by rfl) (by rfl) (by rfl) (by rfl) (by rfl)).trans
  ((yyparse_step_reduce _ _ _ _ _ _ _ _ _ (EvalContext.mk Universe.V4 [(Token.TokenVendor Universe.V4 0 (VendorArg3.field VendorField.ENTERPRISE_ID))] []) _ _ _ [(StackEntry.mk 3 YYVal.vnone (Loc.mk 0 3)), (StackEntry.mk 0 YYVal.vnone (Loc.mk 0 0))] (by rfl) (by rfl) (by rfl) (by rfl) (by rfl) (by rfl)).trans
  ((yyparse_step_shift _ _ _ _ _ _ _ _ [(StackEntry.mk 27 YYVal.vnone (Loc.mk 4 4)), (StackEntry.mk 3 YYVal.vnone (Loc.mk 0 3)), (StackEntry.mk 0 YYVal.vnone (Loc.mk 0 0))] (by rfl) (by rfl)).trans
  (yyparse_step_accept _ _ _ _ _ (by rfl))))))))))

theorem run_vcdata_v6 :
    yyparse 500 (EvalContext.mk Universe.V6 [] []) [StackEntry.mk 0 YYVal.vnone (Loc.mk 0 0)] none
      [(Terminal.tTopLevelString, (Loc.mk 0 0)), (Terminal.tVendorClass, (Loc.mk 1 1)), (Terminal.tLBracket, (Loc.mk 2 2)), ((Terminal.tInteger "1234"), (Loc.mk 3 3)), (Terminal.tRBracket, (Loc.mk 4 4)), (Terminal.tDot, (Loc.mk 5 5)), (Terminal.tData, (Loc.mk 6 6)), (Terminal.tEndOfFile, (Loc.mk 7 7))] =
    .ok (EvalContext.mk Universe.V6 [(Token.TokenVendorClassData Universe.V6 1234 VendorField.DATA 0)] []) := by
  exact ((yyparse_step_shift _ _ _ _ _ _ _ _ [(StackEntry.mk 2 YYVal.vnone (Loc.mk 0 0)), (StackEntry.mk 0 YYVal.vnone (Loc.mk 0 0))] (by rfl) (by rfl)).trans
  ((yyparse_step_shift _ _ _ _ _ _ _ _ [(StackEntry.mk 14 YYVal.vnone (Loc.mk 1 1)), (StackEntry.mk 2 YYVal.vnone (Loc.mk 0 0)), (StackEntry.mk 0 YYVal.vnone (Loc.mk 0 0))] (by rfl) (by rfl)).trans
  ((yyparse_step_shift _ _ _ _ _ _ _ _ [(StackEntry.mk 38 YYVal.vnone (Loc.mk 2 2)), (StackEntry.mk 14 YYVal.vnone (Loc.mk 1 1)), (StackEntry.mk 2 YYVal.vnone (Loc.mk 0 0)), (StackEntry.mk 0 YYVal.vnone (Loc.mk 0 0))] (by rfl) (by rfl)).trans
  ((yyparse_step_shift _ _ _ _ _ _ _ _ [(StackEntry.mk 78 (YYVal.vstr "1234") (Loc.mk 3 3)), (StackEntry.mk 38 YYVal.vnone (Loc.mk 2 2)), (StackEntry.mk 14 YYVal.vnone (Loc.mk 1 1)), (StackEntry.mk 2 YYVal.vnone (Loc.mk 0 0)), (StackEntry.mk 0 YYVal.vnone (Loc.mk 0 0))] (by rfl) (by rfl)).trans
  ((yyparse_step_reduce _ _ _ _ _ _ _ _ _ (EvalContext.mk Universe.V6 [] []) _ _ _ [(StackEntry.mk 79 (YYVal.vu32 1234) (Loc.mk 3 3)), (StackEntry.mk 38 YYVal.vnone (Loc.mk 2 2)), (StackEntry.mk 14 YYVal.vnone (Loc.mk 1 1)), (StackEntry.mk 2 YYVal.vnone (Loc.mk 0 0)), (StackEntry.mk 0 YYVal.vnone (Loc.mk 0 0))] (by rfl) (by rfl) (by rfl) (by rfl) (by rfl) (by rfl)).trans
  ((yyparse_step_shift _ _ _ _ _ _ _ _ [(StackEntry.mk 96 YYVal.vnone (Loc.mk 4 4)), (StackEntry.mk 79 (YYVal.vu32 1234) (Loc.mk 3 3)), (StackEntry.mk 38 YYVal.vnone (Loc.mk 2 2)), (StackEntry.mk 14 YYVal.vnone (Loc.mk 1 1)), (StackEntry.mk 2 YYVal.vnone (Loc.mk 0 0)), (StackEntry.mk 0 YYVal.vnone (Loc.mk 0 0))] (by rfl) (by rfl)).trans
  ((yyparse_step_shift _ _ _ _ _ _ _ _ [(StackEntry.mk 109 YYVal.vnone (Loc.mk 5 5)), (StackEntry.mk 96 YYVal.vnone (Loc.mk 4 4)), (StackEntry.mk 79 (YYVal.vu32 1234) (Loc.mk 3 3)), (StackEntry.mk 38 YYVal.vnone (Loc.mk 2 2)), (StackEntry.mk 14 YYVal.vnone (Loc.mk 1 1)), (StackEntry.mk 2 YYVal.vnone (Loc.mk 0 0)), (StackEntry.mk 0 YYVal.vnone (Loc.mk 0 0))] (by rfl) (by rfl)).trans
  ((yyparse_step_shift _ _ _ _ _ _ _ _ [(StackEntry.mk 129 YYVal.vnone (Loc.mk 6 6)), (StackEntry.mk 109 YYVal.vnone (Loc.mk 5 5)), (StackEntry.mk 96 YYVal.vnone (Loc.mk 4 4)), (StackEntry.mk 79 (YYVal.vu32 1234) (Loc.mk 3 3)), (StackEntry.mk 38 YYVal.vnone (Loc.mk 2 2)), (StackEntry.mk 14 YYVal.vnone (Loc.mk 1 1)), (StackEntry.mk 2 YYVal.vnone (Loc.mk 0 0)), (StackEntry.mk 0 YYVal.vnone (Loc.mk 0 0))] (by rfl) (by rfl)).trans
  ((yyparse_step_reduce _ _ _ _ _ _ _ _ _ (EvalContext.mk Universe.V6 [(Token.TokenVendorClassData Universe.V6 1234 VendorField.DATA 0)] []) _ _ _ [(StackEntry.mk 26 YYVal.vnone (Loc.mk 1 6)), (StackEntry.mk 2 YYVal.vnone (Loc.mk 0 0)), (StackEntry.mk 0 YYVal.vnone (Loc.mk 0 0))] (by rfl) (by rfl) (by rfl) (by rfl) (by rfl) (by rfl)).trans
  ((yyparse_step_reduce _ _ _ _ _ _ _ _ _ (EvalContext.mk Universe.V6 [(Token.TokenVendorClassData Universe.V6 1234 VendorField.DATA 0)] []) _ _ _ [(StackEntry.mk 24 YYVal.vnone (Loc.mk 1 6)), (StackEntry.mk 2 YYVal.vnone (Loc.mk 0 0)), (StackEntry.mk 0 YYVal.vnone (Loc.mk 0 0))] (by rfl) (by rfl) (by rfl) (by rfl) (by rfl) (by rfl)).trans
  ((yyparse_step_reduce _ _ _ _ _ _ _ _ _ (EvalContext.mk Universe.V6 [(Token.TokenVendorClassData Universe.V6 1234 VendorField.DATA 0)] []) _ _ _ [(StackEntry.mk 3 YYVal.vnone (Loc.mk 0 6)), (StackEntry.mk 0 YYVal.vnone (Loc.mk 0 0))] (by rfl) (by rfl) (by rfl) (by rfl) (by rfl) (by rfl)).trans
  ((yyparse_step_shift _ _ _ _ _ _ _ _ [(StackEntry.mk 27 YYVal.vnone (Loc.mk 7 7)), (StackEntry.mk 3 YYVal.vnone (Loc.mk 0 6)), (StackEntry.mk 0 YYVal.vnone (Loc.mk 0 0))] (by rfl) (by rfl)).trans
  (yyparse_step_accept _ _ _ _ _ (by rfl))))))))))))))

theorem run_vcdata3_v6 :
    yyparse 500 (EvalContext.mk Universe.V6 [] []) [StackEntry.mk 0 YYVal.vnone (Loc.mk 0 0)] none
      [(Terminal.tTopLevelString, (Loc.mk 0 0)), (Terminal.tVendorClass, (Loc.mk 1 1)), (Terminal.tLBracket, (Loc.mk 2 2)), ((Terminal.tInteger "1234"), (Loc.mk 3 3)), (Terminal.tRBracket, (Loc.mk 4 4)), (Terminal.tDot, (Loc.mk 5 5)), (Terminal.tData, (Loc.mk 6 6)), (Terminal.tLBracket, (Loc.mk 7 7)), ((Terminal.tInteger "3"), (Loc.mk 8 8)), (Terminal.tRBracket, (Loc.mk 9 9)), (Terminal.tEndOfFile, (Loc.mk 10 10))] =
    .ok (EvalContext.mk Universe.V6 [(Token.TokenVendorClassData Universe.V6 1234 VendorField.DATA 3)] []) := by
  exact ((yyparse_step_shift _ _ _ _ _ _ _ _ [(StackEntry.mk 2 YYVal.vnone (Loc.mk 0 0)), (StackEntry.mk 0 YYVal.vnone (Loc.mk 0 0))] (by rfl) (by rfl)).trans
  ((yyparse_step_shift _ _ _ _ _ _ _ _ [(StackEntry.mk 14 YYVal.vnone (Loc.mk 1 1)), (StackEntry.mk 2 YYVal.vnone (Loc.mk 0 0)), (StackEntry.mk 0 YYVal.vnone (Loc.mk 0 0))] (by rfl) (by rfl)).trans
  ((yyparse_step_shift _ _ _ _ _ _ _ _ [(StackEntry.mk 38 YYVal.vnone (Loc.mk 2 2)), (StackEntry.mk 14 YYVal.vnone (Loc.mk 1 1)), (StackEntry.mk 2 YYVal.vnone (Loc.mk 0 0)), (StackEntry.mk 0 YYVal.vnone (Loc.mk 0 0))] (by rfl) (by rfl)).trans
  ((yyparse_step_shift _ _ _ _ _ _ _ _ [(StackEntry.mk 78 (YYVal.vstr "1234") (Loc.mk 3 3)), (StackEntry.mk 38 YYVal.vnone (Loc.mk 2 2)), (StackEntry.mk 14 YYVal.vnone (Loc.mk 1 1)), (StackEntry.mk 2 YYVal.vnone (Loc.mk 0 0)), (StackEntry.mk 0 YYVal.vnone (Loc.mk 0 0))] (by rfl) (by rfl)).trans
  ((yyparse_step_reduce _ _ _ _ _ _ _ _ _ (EvalContext.mk Universe.V6 [] []) _ _ _ [(StackEntry.mk 79 (YYVal.vu32 1234) (Loc.mk 3 3)), (StackEntry.mk 38 YYVal.vnone (Loc.mk 2 2)), (StackEntry.mk 14 YYVal.vnone (Loc.mk 1 1)), (StackEntry.mk 2 YYVal.vnone (Loc.mk 0 0)), (StackEntry.mk 0 YYVal.vnone (Loc.mk 0 0))] (by rfl) (by rfl) (by rfl) (by rfl) (by rfl) (by rfl)).trans
  ((yyparse_step_shift _ _ _ _ _ _ _ _ [(StackEntry.mk 96 YYVal.vnone (Loc.mk 4 4)), (StackEntry.mk 79 (YYVal.vu32 1234) (Loc.mk 3 3)), (StackEntry.mk 38 YYVal.vnone (Loc.mk 2 2)), (StackEntry.mk 14 YYVal.vnone (Loc.mk 1 1)), (StackEntry.mk 2 YYVal.vnone (Loc.mk 0 0)), (StackEntry.mk 0 YYVal.vnone (Loc.mk 0 0))] (by rfl) (by rfl)).trans
  ((yyparse_step_shift _ _ _ _ _ _ _ _ [(StackEntry.mk 109 YYVal.vnone (Loc.mk 5 5)), (StackEntry.mk 96 YYVal.vnone (Loc.mk 4 4)), (StackEntry.mk 79 (YYVal.vu32 1234) (Loc.mk 3 3)), (StackEntry.mk 38 YYVal.vnone (Loc.mk 2 2)), (StackEntry.mk 14 YYVal.vnone (Loc.mk 1 1)), (StackEntry.mk 2 YYVal.vnone (Loc.mk 0 0)), (StackEntry.mk 0 YYVal.vnone (Loc.mk 0 0))] (by rfl) (by rfl)).trans
  ((yyparse_step_shift _ _ _ _ _ _ _ _ [(StackEntry.mk 129 YYVal.vnone (Loc.mk 6 6)), (StackEntry.mk 109 YYVal.vnone (Loc.mk 5 5)), (StackEntry.mk 96 YYVal.vnone (Loc.mk 4 4)), (StackEntry.mk 79 (YYVal.vu32 1234) (Loc.mk 3 3)), (StackEntry.mk 38 YYVal.vnone (Loc.mk 2 2)), (StackEntry.mk 14 YYVal.vnone (Loc.mk 1 1)), (StackEntry.mk 2 YYVal.vnone (Loc.mk 0 0)), (StackEntry.mk 0 YYVal.vnone (Loc.mk 0 0))] (by rfl) (by rfl)).trans
  ((yyparse_step_shift _ _ _ _ _ _ _ _ [(StackEntry.mk 141 YYVal.vnone (Loc.mk 7 7)), (StackEntry.mk 129 YYVal.vnone (Loc.mk 6 6)), (StackEntry.mk 109 YYVal.vnone (Loc.mk 5 5)), (StackEntry.mk 96 YYVal.vnone (Loc.mk 4 4)), (StackEntry.mk 79 (YYVal.vu32 1234) (Loc.mk 3 3)), (StackEntry.mk 38 YYVal.vnone (Loc.mk 2 2)), (StackEntry.mk 14 YYVal.vnone (Loc.mk 1 1)), (StackEntry.mk 2 YYVal.vnone (Loc.mk 0 0)), (StackEntry.mk 0 YYVal.vnone (Loc.mk 0 0))] (by rfl) (by rfl)).trans
  ((yyparse_step_shift _ _ _ _ _ _ _ _ [(StackEntry.mk 147 (YYVal.vstr "3") (Loc.mk 8 8)), (StackEntry.mk 141 YYVal.vnone (Loc.mk 7 7)), (StackEntry.mk 129 YYVal.vnone (Loc.mk 6 6)), (StackEntry.mk 109 YYVal.vnone (Loc.mk 5 5)), (StackEntry.mk 96 YYVal.vnone (Loc.mk 4 4)), (StackEntry.mk 79 (YYVal.vu32 1234) (Loc.mk 3 3)), (StackEntry.mk 38 YYVal.vnone (Loc.mk 2 2)), (StackEntry.mk 14 YYVal.vnone (Loc.mk 1 1)), (StackEntry.mk 2 YYVal.vnone (Loc.mk 0 0)), (StackEntry.mk 0 YYVal.vnone (Loc.mk 0 0))] (by rfl) (by rfl)).trans
  ((yyparse_step_shift _ _ _ _ _ _ _ _ [(StackEntry.mk 152 YYVal.vnone (Loc.mk 9 9)), (StackEntry.mk 147 (YYVal.vstr "3") (Loc.mk 8 8)), (StackEntry.mk 141 YYVal.vnone (Loc.mk 7 7)), (StackEntry.mk 129 YYVal.vnone (Loc.mk 6 6)), (StackEntry.mk 109 YYVal.vnone (Loc.mk 5 5)), (StackEntry.mk 96 YYVal.vnone (Loc.mk 4 4)), (StackEntry.mk 79 (YYVal.vu32 1234) (Loc.mk 3 3)), (StackEntry.mk 38 YYVal.vnone (Loc.mk 2 2)), (StackEntry.mk 14 YYVal.vnone (Loc.mk 1 1)), (StackEntry.mk 2 YYVal.vnone (Loc.mk 0 0)), (StackEntry.mk 0 YYVal.vnone (Loc.mk 0 0))] (by rfl) (by rfl)).trans
  ((yyparse_step_reduce _ _ _ _ _ _ _ _ _ (EvalContext.mk Universe.V6 [(Token.TokenVendorClassData Universe.V6 1234 VendorField.DATA 3)] []) _ _ _ [(StackEntry.mk 26 YYVal.vnone (Loc.mk 1 9)), (StackEntry.mk 2 YYVal.vnone (Loc.mk 0 0)), (StackEntry.mk 0 YYVal.vnone (Loc.mk 0 0))] (by rfl) (by rfl) (by rfl) (by rfl) (by rfl) (by rfl)).trans
  ((yyparse_step_reduce _ _ _ _ _ _ _ _ _ (EvalContext.mk Universe.V6 [(Token.TokenVendorClassData Universe.V6 1234 VendorField.DATA 3)] []) _ _ _ [(StackEntry.mk 24 YYVal.vnone (Loc.mk 1 9)), (StackEntry.mk 2 YYVal.vnone (Loc.mk 0 0)), (StackEntry.mk 0 YYVal.vnone (Loc.mk 0 0))] (by rfl) (by rfl) (by rfl) (by rfl) (by rfl) (by rfl)).trans
  ((yyparse_step_reduce _ _ _ _ _ _ _ _ _ (EvalContext.mk Universe.V6 [(Token.TokenVendorClassData Universe.V6 1234 VendorField.DATA 3)] []) _ _ _ [(StackEntry.mk 3 YYVal.vnone (Loc.mk 0 9)), (StackEntry.mk 0 YYVal.vnone (Loc.mk 0 0))] (by rfl) (by rfl) (by rfl) (by rfl) (by rfl) (by rfl)).trans
  ((yyparse_step_shift _ _ _ _ _ _ _ _ [(StackEntry.mk 27 YYVal.vnone (Loc.mk 10 10)), (StackEntry.mk 3 YYVal.vnone (Loc.mk 0 9)), (StackEntry.mk 0 YYVal.vnone (Loc.mk 0 0))] (by rfl) (by rfl)).trans
  (yyparse_step_accept _ _ _ _ _ (by rfl)))))))))))))))))

theorem run_vcdata300_v6 :
    yyparse 500 (EvalContext.mk Universe.V6 [] []) [StackEntry.mk 0 YYVal.vnone (Loc.mk 0 0)] none
      [(Terminal.tTopLevelString, (Loc.mk 0 0)), (Terminal.tVendorClass, (Loc.mk 1 1)), (Terminal.tLBracket, (Loc.mk 2 2)), ((Terminal.tInteger "1234"), (Loc.mk 3 3)), (Terminal.tRBracket, (Loc.mk 4 4)), (Terminal.tDot, (Loc.mk 5 5)), (Terminal.tData, (Loc.mk 6 6)), (Terminal.tLBracket, (Loc.mk 7 7)), ((Terminal.tInteger "300"), (Loc.mk 8 8)), (Terminal.tRBracket, (Loc.mk 9 9)), (Terminal.tEndOfFile, (Loc.mk 10 10))] =
    .error (.convError (Loc.mk 8 8) "300 is not a valid 8-bit unsigned integer") := by
  exact ((yyparse_step_shift _ _ _ _ _ _ _ _ [(StackEntry.mk 2 YYVal.vnone (Loc.mk 0 0)), (StackEntry.mk 0 YYVal.vnone (Loc.mk 0 0))] (by rfl) (by rfl)).trans
  ((yyparse_step_shift _ _ _ _ _ _ _ _ [(StackEntry.mk 14 YYVal.vnone (Loc.mk 1 1)), (StackEntry.mk 2 YYVal.vnone (Loc.mk 0 0)), (StackEntry.mk 0 YYVal.vnone (Loc.mk 0 0))] (by rfl) (by rfl)).trans
  ((yyparse_step_shift _ _ _ _ _ _ _ _ [(StackEntry.mk 38 YYVal.vnone (Loc.mk 2 2)), (StackEntry.mk 14 YYVal.vnone (Loc.mk 1 1)), (StackEntry.mk 2 YYVal.vnone (Loc.mk 0 0)), (StackEntry.mk 0 YYVal.vnone (Loc.mk 0 0))] (by rfl) (by rfl)).trans
  ((yyparse_step_shift _ _ _ _ _ _ _ _ [(StackEntry.mk 78 (YYVal.vstr "1234") (Loc.mk 3 3)), (StackEntry.mk 38 YYVal.vnone (Loc.mk 2 2)), (StackEntry.mk 14 YYVal.vnone (Loc.mk 1 1)), (StackEntry.mk 2 YYVal.vnone (Loc.mk 0 0)), (StackEntry.mk 0 YYVal.vnone (Loc.mk 0 0))] (by rfl) (by rfl)).trans
  ((yyparse_step_reduce _ _ _ _ _ _ _ _ _ (EvalContext.mk Universe.V6 [] []) _ _ _ [(StackEntry.mk 79 (YYVal.vu32 1234) (Loc.mk 3 3)), (StackEntry.mk 38 YYVal.vnone (Loc.mk 2 2)), (StackEntry.mk 14 YYVal.vnone (Loc.mk 1 1)), (StackEntry.mk 2 YYVal.vnone (Loc.mk 0 0)), (StackEntry.mk 0 YYVal.vnone (Loc.mk 0 0))] (by rfl) (by rfl) (by rfl) (by rfl) (by rfl) (by rfl)).trans
  ((yyparse_step_shift _ _ _ _ _ _ _ _ [(StackEntry.mk 96 YYVal.vnone (Loc.mk 4 4)), (StackEntry.mk 79 (YYVal.vu32 1234) (Loc.mk 3 3)), (StackEntry.mk 38 YYVal.vnone (Loc.mk 2 2)), (StackEntry.mk 14 YYVal.vnone (Loc.mk 1 1)), (StackEntry.mk 2 YYVal.vnone (Loc.mk 0 0)), (StackEntry.mk 0 YYVal.vnone (Loc.mk 0 0))] (by rfl) (by rfl)).trans
  ((yyparse_step_shift _ _ _ _ _ _ _ _ [(StackEntry.mk 109 YYVal.vnone (Loc.mk 5 5)), (StackEntry.mk 96 YYVal.vnone (Loc.mk 4 4)), (StackEntry.mk 79 (YYVal.vu32 1234) (Loc.mk 3 3)), (StackEntry.mk 38 YYVal.vnone (Loc.mk 2 2)), (StackEntry.mk 14 YYVal.vnone (Loc.mk 1 1)), (StackEntry.mk 2 YYVal.vnone (Loc.mk 0 0)), (StackEntry.mk 0 YYVal.vnone (Loc.mk 0 0))] (by rfl) (by rfl)).trans
  ((yyparse_step_shift _ _ _ _ _ _ _ _ [(StackEntry.mk 129 YYVal.vnone (Loc.mk 6 6)), (StackEntry.mk 109 YYVal.vnone (Loc.mk 5 5)), (StackEntry.mk 96 YYVal.vnone (Loc.mk 4 4)), (StackEntry.mk 79 (YYVal.vu32 1234) (Loc.mk 3 3)), (StackEntry.mk 38 YYVal.vnone (Loc.mk 2 2)), (StackEntry.mk 14 YYVal.vnone (Loc.mk 1 1)), (StackEntry.mk 2 YYVal.vnone (Loc.mk 0 0)), (StackEntry.mk 0 YYVal.vnone (Loc.mk 0 0))] (by rfl) (by rfl)).trans
  ((yyparse_step_shift _ _ _ _ _ _ _ _ [(StackEntry.mk 141 YYVal.vnone (Loc.mk 7 7)), (StackEntry.mk 129 YYVal.vnone (Loc.mk 6 6)), (StackEntry.mk 109 YYVal.vnone (Loc.mk 5 5)), (StackEntry.mk 96 YYVal.vnone (Loc.mk 4 4)), (StackEntry.mk 79 (YYVal.vu32 1234) (Loc.mk 3 3)), (StackEntry.mk 38 YYVal.vnone (Loc.mk 2 2)), (StackEntry.mk 14 YYVal.vnone (Loc.mk 1 1)), (StackEntry.mk 2 YYVal.vnone (Loc.mk 0 0)), (StackEntry.mk 0 YYVal.vnone (Loc.mk 0 0))] (by rfl) (by rfl)).trans
  ((yyparse_step_shift _ _ _ _ _ _ _ _ [(StackEntry.mk 147 (YYVal.vstr "300") (Loc.mk 8 8)), (StackEntry.mk 141 YYVal.vnone (Loc.mk 7 7)), (StackEntry.mk 129 YYVal.vnone (Loc.mk 6 6)), (StackEntry.mk 109 YYVal.vnone (Loc.mk 5 5)), (StackEntry.mk 96 YYVal.vnone (Loc.mk 4 4)), (StackEntry.mk 79 (YYVal.vu32 1234) (Loc.mk 3 3)), (StackEntry.mk 38 YYVal.vnone (Loc.mk 2 2)), (StackEntry.mk 14 YYVal.vnone (Loc.mk 1 1)), (StackEntry.mk 2 YYVal.vnone (Loc.mk 0 0)), (StackEntry.mk 0 YYVal.vnone (Loc.mk 0 0))] (by rfl) (by rfl)).trans
  ((yyparse_step_shift _ _ _ _ _ _ _ _ [(StackEntry.mk 152 YYVal.vnone (Loc.mk 9 9)), (StackEntry.mk 147 (YYVal.vstr "300") (Loc.mk 8 8)), (StackEntry.mk 141 YYVal.vnone (Loc.mk 7 7)), (StackEntry.mk 129 YYVal.vnone (Loc.mk 6 6)), (StackEntry.mk 109 YYVal.vnone (Loc.mk 5 5)), (StackEntry.mk 96 YYVal.vnone (Loc.mk 4 4)), (StackEntry.mk 79 (YYVal.vu32 1234) (Loc.mk 3 3)), (StackEntry.mk 38 YYVal.vnone (Loc.mk 2 2)), (StackEntry.mk 14 YYVal.vnone (Loc.mk 1 1)), (StackEntry.mk 2 YYVal.vnone (Loc.mk 0 0)), (StackEntry.mk 0 YYVal.vnone (Loc.mk 0 0))] (by rfl) (by rfl)).trans
  (yyparse_step_reduce_err _ _ _ _ _ _ _ _ _ (by rfl) (by rfl)))))))))))))

theorem run_vcstar_v6 :
    yyparse 500 (EvalContext.mk Universe.V6 [] []) [StackEntry.mk 0 YYVal.vnone (Loc.mk 0 0)] none
      [(Terminal.tTopLevelBool, (Loc.mk 0 0)), (Terminal.tVendorClass, (Loc.mk 1 1)), (Terminal.tLBracket, (Loc.mk 2 2)), (Terminal.tStar, (Loc.mk 3 3)), (Terminal.tRBracket, (Loc.mk 4 4)), (Terminal.tDot, (Loc.mk 5 5)), (Terminal.tExists, (Loc.mk 6 6)), (Terminal.tEndOfFile, (Loc.mk 7 7))] =
    .ok (EvalContext.mk Universe.V6 [(Token.TokenVendorClass Universe.V6 0 (VendorArg3.rep RepresentationType.EXISTS))] []) := by
  exact ((yyparse_step_shift _ _ _ _ _ _ _ _ [(StackEntry.mk 1 YYVal.vnone (Loc.mk 0 0)), (StackEntry.mk 0 YYVal.vnone (Loc.mk 0 0))] (by rfl) (by rfl)).trans
  ((yyparse_step_shift _ _ _ _ _ _ _ _ [(StackEntry.mk 14 YYVal.vnone (Loc.mk 1 1)), (StackEntry.mk 1 YYVal.vnone (Loc.mk 0 0)), (StackEntry.mk 0 YYVal.vnone (Loc.mk 0 0))] (by rfl) (by rfl)).trans
  ((yyparse_step_shift _ _ _ _ _ _ _ _ [(StackEntry.mk 38 YYVal.vnone (Loc.mk 2 2)), (StackEntry.mk 14 YYVal.vnone (Loc.mk 1 1)), (StackEntry.mk 1 YYVal.vnone (Loc.mk 0 0)), (StackEntry.mk 0 YYVal.vnone (Loc.mk 0 0))] (by rfl) (by rfl)).trans
  ((yyparse_step_shift _ _ _ _ _ _ _ _ [(StackEntry.mk 77 YYVal.vnone (Loc.mk 3 3)), (StackEntry.mk 38 YYVal.vnone (Loc.mk 2 2)), (StackEntry.mk 14 YYVal.vnone (Loc.mk 1 1)), (StackEntry.mk 1 YYVal.vnone (Loc.mk 0 0)), (StackEntry.mk 0 YYVal.vnone (Loc.mk 0 0))] (by rfl) (by rfl)).trans
  ((yyparse_step_reduce _ _ _ _ _ _ _ _ _ (EvalContext.mk Universe.V6 [] []) _ _ _ [(StackEntry.mk 79 (YYVal.vu32 0) (Loc.mk 3 3)), (StackEntry.mk 38 YYVal.vnone (Loc.mk 2 2)), (StackEntry.mk 14 YYVal.vnone (Loc.mk 1 1)), (StackEntry.mk 1 YYVal.vnone (Loc.mk 0 0)), (StackEntry.mk 0 YYVal.vnone (Loc.mk 0 0))] (by rfl) (by rfl) (by rfl) (by rfl) (by rfl) (by rfl)).trans
  ((yyparse_step_shift _ _ _ _ _ _ _ _ [(StackEntry.mk 96 YYVal.vnone (Loc.mk 4 4)), (StackEntry.mk 79 (YYVal.vu32 0) (Loc.mk 3 3)), (StackEntry.mk 38 YYVal.vnone (Loc.mk 2 2)), (StackEntry.mk 14 YYVal.vnone (Loc.mk 1 1)), (StackEntry.mk 1 YYVal.vnone (Loc.mk 0 0)), (StackEntry.mk 0 YYVal.vnone (Loc.mk 0 0))] (by rfl) (by rfl)).trans
  ((yyparse_step_shift _ _ _ _ _ _ _ _ [(StackEntry.mk 109 YYVal.vnone (Loc.mk 5 5)), (StackEntry.mk 96 YYVal.vnone (Loc.mk 4 4)), (StackEntry.mk 79 (YYVal.vu32 0) (Loc.mk 3 3)), (StackEntry.mk 38 YYVal.vnone (Loc.mk 2 2)), (StackEntry.mk 14 YYVal.vnone (Loc.mk 1 1)), (StackEntry.mk 1 YYVal.vnone (Loc.mk 0 0)), (StackEntry.mk 0 YYVal.vnone (Loc.mk 0 0))] (by rfl) (by rfl)).trans
  ((yyparse_step_shift _ _ _ _ _ _ _ _ [(StackEntry.mk 128 YYVal.vnone (Loc.mk 6 6)), (StackEntry.mk 109 YYVal.vnone (Loc.mk 5 5)), (StackEntry.mk 96 YYVal.vnone (Loc.mk 4 4)), (StackEntry.mk 79 (YYVal.vu32 0) (Loc.mk 3 3)), (StackEntry.mk 38 YYVal.vnone (Loc.mk 2 2)), (StackEntry.mk 14 YYVal.vnone (Loc.mk 1 1)), (StackEntry.mk 1 YYVal.vnone (Loc.mk 0 0)), (StackEntry.mk 0 YYVal.vnone (Loc.mk 0 0))] (by rfl) (by rfl)).trans
  ((yyparse_step_reduce _ _ _ _ _ _ _ _ _ (EvalContext.mk Universe.V6 [(Token.TokenVendorClass Universe.V6 0 (VendorArg3.rep RepresentationType.EXISTS))] []) _ _ _ [(StackEntry.mk 21 YYVal.vnone (Loc.mk 1 6)), (StackEntry.mk 1 YYVal.vnone (Loc.mk 0 0)), (StackEntry.mk 0 YYVal.vnone (Loc.mk 0 0))] (by rfl) (by rfl) (by rfl) (by rfl) (by rfl) (by rfl)).trans
  ((yyparse_step_reduce _ _ _ _ _ _ _ _ _ (EvalContext.mk Universe.V6 [(Token.TokenVendorClass Universe.V6 0 (VendorArg3.rep RepresentationType.EXISTS))] []) _ _ _ [(StackEntry.mk 20 YYVal.vnone (Loc.mk 1 6)), (StackEntry.mk 1 YYVal.vnone (Loc.mk 0 0)), (StackEntry.mk 0 YYVal.vnone (Loc.mk 0 0))] (by rfl) (by rfl) (by rfl) (by rfl) (by rfl) (by rfl)).trans
  ((yyparse_step_reduce _ _ _ _ _ _ _ _ _ (EvalContext.mk Universe.V6 [(Token.TokenVendorClass Universe.V6 0 (VendorArg3.rep RepresentationType.EXISTS))] []) _ _ _ [(StackEntry.mk 3 YYVal.vnone (Loc.mk 0 6)), (StackEntry.mk 0 YYVal.vnone (Loc.mk 0 0))] (by rfl) (by rfl) (by rfl) (by rfl) (by rfl) (by rfl)).trans
  ((yyparse_step_shift _ _ _ _ _ _ _ _ [(StackEntry.mk 27 YYVal.vnone (Loc.mk 7 7)), (StackEntry.mk 3 YYVal.vnone (Loc.mk 0 6)), (StackEntry.mk 0 YYVal.vnone (Loc.mk 0 0))] (by rfl) (by rfl)).trans
  (yyparse_step_accept _ _ _ _ _ (by rfl))))))))))))))

theorem run_vstar_v6 :
    yyparse 500 (EvalContext.mk Universe.V6 [] []) [StackEntry.mk 0 YYVal.vnone (Loc.mk 0 0)] none
      [(Terminal.tTopLevelBool, (Loc.mk 0 0)), (Terminal.tVendor, (Loc.mk 1 1)), (Terminal.tLBracket, (Loc.mk 2 2)), (Terminal.tStar, (Loc.mk 3 3)), (Terminal.tRBracket, (Loc.mk 4 4)), (Terminal.tDot, (Loc.mk 5 5)), (Terminal.tExists, (Loc.mk 6 6)), (Terminal.tEndOfFile, (Loc.mk 7 7))] =
    .ok (EvalContext.mk Universe.V6 [(Token.TokenVendor Universe.V6 0 (VendorArg3.rep RepresentationType.EXISTS))] []) := by
  exact ((yyparse_step_shift _ _ _ _ _ _ _ _ [(StackEntry.mk 1 YYVal.vnone (Loc.mk 0 0)), (StackEntry.mk 0 YYVal.vnone (Loc.mk 0 0))] (by rfl) (by rfl)).trans
  ((yyparse_step_shift _ _ _ _ _ _ _ _ [(StackEntry.mk 15 YYVal.vnone (Loc.mk 1 1)), (StackEntry.mk 1 YYVal.vnone (Loc.mk 0 0)), (StackEntry.mk 0 YYVal.vnone (Loc.mk 0 0))] (by rfl) (by rfl)).trans
  ((yyparse_step_shift _ _ _ _ _ _ _ _ [(StackEntry.mk 40 YYVal.vnone (Loc.mk 2 2)), (StackEntry.mk 15 YYVal.vnone (Loc.mk 1 1)), (StackEntry.mk 1 YYVal.vnone (Loc.mk 0 0)), (StackEntry.mk 0 YYVal.vnone (Loc.mk 0 0))] (by rfl) (by rfl)).trans
  ((yyparse_step_shift _ _ _ _ _ _ _ _ [(StackEntry.mk 77 YYVal.vnone (Loc.mk 3 3)), (StackEntry.mk 40 YYVal.vnone (Loc.mk 2 2)), (StackEntry.mk 15 YYVal.vnone (Loc.mk 1 1)), (StackEntry.mk 1 YYVal.vnone (Loc.mk 0 0)), (StackEntry.mk 0 YYVal.vnone (Loc.mk 0 0))] (by rfl) (by rfl)).trans
  ((yyparse_step_reduce _ _ _ _ _ _ _ _ _ (EvalContext.mk Universe.V6 [] []) _ _ _ [(StackEntry.mk 81 (YYVal.vu32 0) (Loc.mk 3 3)), (StackEntry.mk 40 YYVal.vnone (Loc.mk 2 2)), (StackEntry.mk 15 YYVal.vnone (Loc.mk 1 1)), (StackEntry.mk 1 YYVal.vnone (Loc.mk 0 0)), (StackEntry.mk 0 YYVal.vnone (Loc.mk 0 0))] (by rfl) (by rfl) (by rfl) (by rfl) (by rfl) (by rfl)).trans
  ((yyparse_step_shift _ _ _ _ _ _ _ _ [(StackEntry.mk 97 YYVal.vnone (Loc.mk 4 4)), (StackEntry.mk 81 (YYVal.vu32 0) (Loc.mk 3 3)), (StackEntry.mk 40 YYVal.vnone (Loc.mk 2 2)), (StackEntry.mk 15 YYVal.vnone (Loc.mk 1 1)), (StackEntry.mk 1 YYVal.vnone (Loc.mk 0 0)), (StackEntry.mk 0 YYVal.vnone (Loc.mk 0 0))] (by rfl) (by rfl)).trans
  ((yyparse_step_shift _ _ _ _ _ _ _ _ [(StackEntry.mk 110 YYVal.vnone (Loc.mk 5 5)), (StackEntry.mk 97 YYVal.vnone (Loc.mk 4 4)), (StackEntry.mk 81 (YYVal.vu32 0) (Loc.mk 3 3)), (StackEntry.mk 40 YYVal.vnone (Loc.mk 2 2)), (StackEntry.mk 15 YYVal.vnone (Loc.mk 1 1)), (StackEntry.mk 1 YYVal.vnone (Loc.mk 0 0)), (StackEntry.mk 0 YYVal.vnone (Loc.mk 0 0))] (by rfl) (by rfl)).trans
  ((yyparse_step_shift _ _ _ _ _ _ _ _ [(StackEntry.mk 131 YYVal.vnone (Loc.mk 6 6)), (StackEntry.mk 110 YYVal.vnone (Loc.mk 5 5)), (StackEntry.mk 97 YYVal.vnone (Loc.mk 4 4)), (StackEntry.mk 81 (YYVal.vu32 0) (Loc.mk 3 3)), (StackEntry.mk 40 YYVal.vnone (Loc.mk 2 2)), (StackEntry.mk 15 YYVal.vnone (Loc.mk 1 1)), (StackEntry.mk 1 YYVal.vnone (Loc.mk 0 0)), (StackEntry.mk 0 YYVal.vnone (Loc.mk 0 0))] (by rfl) (by rfl)).trans
  ((yyparse_step_reduce _ _ _ _ _ _ _ _ _ (EvalContext.mk Universe.V6 [(Token.TokenVendor Universe.V6 0 (VendorArg3.rep RepresentationType.EXISTS))] []) _ _ _ [(StackEntry.mk 21 YYVal.vnone (Loc.mk 1 6)), (StackEntry.mk 1 YYVal.vnone (Loc.mk 0 0)), (StackEntry.mk 0 YYVal.vnone (Loc.mk 0 0))] (by rfl) (by rfl) (by rfl) (by rfl) (by rfl) (by rfl)).trans
  ((yyparse_step_reduce _ _ _ _ _ _ _ _ _ (EvalContext.mk Universe.V6 [(Token.TokenVendor Universe.V6 0 (VendorArg3.rep RepresentationType.EXISTS))] []) _ _ _ [(StackEntry.mk 20 YYVal.vnone (Loc.mk 1 6)), (StackEntry.mk 1 YYVal.vnone (Loc.mk 0 0)), (StackEntry.mk 0 YYVal.vnone (Loc.mk 0 0))] (by rfl) (by rfl) (by rfl) (by rfl) (by rfl) (by rfl)).trans
  ((yyparse_step_reduce _ _ _ _ _ _ _ _ _ (EvalContext.mk Universe.V6 [(Token.TokenVendor Universe.V6 0 (VendorArg3.rep RepresentationType.EXISTS))] []) _ _ _ [(StackEntry.mk 3 YYVal.vnone (Loc.mk 0 6)), (StackEntry.mk 0 YYVal.vnone (Loc.mk 0 0))] (by rfl) (by rfl) (by rfl) (by rfl) (by rfl) (by rfl)).trans
  ((yyparse_step_shift _ _ _ _ _ _ _ _ [(StackEntry.mk 27 YYVal.vnone (Loc.mk 7 7)), (StackEntry.mk 3 YYVal.vnone (Loc.mk 0 6)), (StackEntry.mk 0 YYVal.vnone (Loc.mk 0 0))] (by rfl) (by rfl)).trans
  (yyparse_step_accept _ _ _ _ _ (by rfl))))))))))))))

theorem run_vc1234_v6 :
    yyparse 500 (EvalContext.mk Universe.V6 [] []) [StackEntry.mk 0 YYVal.vnone (Loc.mk 0 0)] none
      [(Terminal.tTopLevelBool, (Loc.mk 0 0)), (Terminal.tVendorClass, (Loc.mk 1 1)), (Terminal.tLBracket, (Loc.mk 2 2)), ((Terminal.tInteger "1234"), (Loc.mk 3 3)), (Terminal.tRBracket, (Loc.mk 4 4)), (Terminal.tDot, (Loc.mk 5 5)), (Terminal.tExists, (Loc.mk 6 6)), (Terminal.tEndOfFile, (Loc.mk 7 7))] =
    .ok (EvalContext.mk Universe.V6 [(Token.TokenVendorClass Universe.V6 1234 (VendorArg3.rep RepresentationType.EXISTS))] []) := by
  exact ((yyparse_step_shift _ _ _ _ _ _ _ _ [(StackEntry.mk 1 YYVal.vnone (Loc.mk 0 0)), (StackEntry.mk 0 YYVal.vnone (Loc.mk 0 0))] (by rfl) (by rfl)).trans
  ((yyparse_step_shift _ _ _ _ _ _ _ _ [(StackEntry.mk 14 YYVal.vnone (Loc.mk 1 1)), (StackEntry.mk 1 YYVal.vnone (Loc.mk 0 0)), (StackEntry.mk 0 YYVal.vnone (Loc.mk 0 0))] (by rfl) (by rfl)).trans
  ((yyparse_step_shift _ _ _ _ _ _ _ _ [(StackEntry.mk 38 YYVal.vnone (Loc.mk 2 2)), (StackEntry.mk 14 YYVal.vnone (Loc.mk 1 1)), (StackEntry.mk 1 YYVal.vnone (Loc.mk 0 0)), (StackEntry.mk 0 YYVal.vnone (Loc.mk 0 0))] (by rfl) (by rfl)).trans
  ((yyparse_step_shift _ _ _ _ _ _ _ _ [(StackEntry.mk 78 (YYVal.vstr "1234") (Loc.mk 3 3)), (StackEntry.mk 38 YYVal.vnone (Loc.mk 2 2)), (StackEntry.mk 14 YYVal.vnone (Loc.mk 1 1)), (StackEntry.mk 1 YYVal.vnone (Loc.mk 0 0)), (StackEntry.mk 0 YYVal.vnone (Loc.mk 0 0))] (by rfl) (by rfl)).trans
  ((yyparse_step_reduce _ _ _ _ _ _ _ _ _ (EvalContext.mk Universe.V6 [] []) _ _ _ [(StackEntry.mk 79 (YYVal.vu32 1234) (Loc.mk 3 3)), (StackEntry.mk 38 YYVal.vnone (Loc.mk 2 2)), (StackEntry.mk 14 YYVal.vnone (Loc.mk 1 1)), (StackEntry.mk 1 YYVal.vnone (Loc.mk 0 0)), (StackEntry.mk 0 YYVal.vnone (Loc.mk 0 0))] (by rfl) (by rfl) (by rfl) (by rfl) (by rfl) (by rfl)).trans
  ((yyparse_step_shift _ _ _ _ _ _ _ _ [(StackEntry.mk 96 YYVal.vnone (Loc.mk 4 4)), (StackEntry.mk 79 (YYVal.vu32 1234) (Loc.mk 3 3)), (StackEntry.mk 38 YYVal.vnone (Loc.mk 2 2)), (StackEntry.mk 14 YYVal.vnone (Loc.mk 1 1)), (StackEntry.mk 1 YYVal.vnone (Loc.mk 0 0)), (StackEntry.mk 0 YYVal.vnone (Loc.mk 0 0))] (by rfl) (by rfl)).trans
  ((yyparse_step_shift _ _ _ _ _ _ _ _ [(StackEntry.mk 109 YYVal.vnone (Loc.mk 5 5)), (StackEntry.mk 96 YYVal.vnone (Loc.mk 4 4)), (StackEntry.mk 79 (YYVal.vu32 1234) (Loc.mk 3 3)), (StackEntry.mk 38 YYVal.vnone (Loc.mk 2 2)), (StackEntry.mk 14 YYVal.vnone (Loc.mk 1 1)), (StackEntry.mk 1 YYVal.vnone (Loc.mk 0 0)), (StackEntry.mk 0 YYVal.vnone (Loc.mk 0 0))] (by rfl) (by rfl)).trans
  ((yyparse_step_shift _ _ _ _ _ _ _ _ [(StackEntry.mk 128 YYVal.vnone (Loc.mk 6 6)), (StackEntry.mk 109 YYVal.vnone (Loc.mk 5 5)), (StackEntry.mk 96 YYVal.vnone (Loc.mk 4 4)), (StackEntry.mk 79 (YYVal.vu32 1234) (Loc.mk 3 3)), (StackEntry.mk 38 YYVal.vnone (Loc.mk 2 2)), (StackEntry.mk 14 YYVal.vnone (Loc.mk 1 1)), (StackEntry.mk 1 YYVal.vnone (Loc.mk 0 0)), (StackEntry.mk 0 YYVal.vnone (Loc.mk 0 0))] (by rfl) (by rfl)).trans
  ((yyparse_step_reduce _ _ _ _ _ _ _ _ _ (EvalContext.mk Universe.V6 [(Token.TokenVendorClass Universe.V6 1234 (VendorArg3.rep RepresentationType.EXISTS))] []) _ _ _ [(StackEntry.mk 21 YYVal.vnone (Loc.mk 1 6)), (StackEntry.mk 1 YYVal.vnone (Loc.mk 0 0)), (StackEntry.mk 0 YYVal.vnone (Loc.mk 0 0))] (by rfl) (by rfl) (by rfl) (by rfl) (by rfl) (by rfl)).trans
  ((yyparse_step_reduce _ _ _ _ _ _ _ _ _ (EvalContext.mk Universe.V6 [(Token.TokenVendorClass Universe.V6 1234 (VendorArg3.rep RepresentationType.EXISTS))] []) _ _ _ [(StackEntry.mk 20 YYVal.vnone (Loc.mk 1 6)), (StackEntry.mk 1 YYVal.vnone (Loc.mk 0 0)), (StackEntry.mk 0 YYVal.vnone (Loc.mk 0 0))] (by rfl) (by rfl) (by rfl) (by rfl) (by rfl) (by rfl)).trans
  ((yyparse_step_reduce _ _ _ _ _ _ _ _ _ (EvalContext.mk Universe.V6 [(Token.TokenVendorClass Universe.V6 1234 (VendorArg3.rep RepresentationType.EXISTS))] []) _ _ _ [(StackEntry.mk 3 YYVal.vnone (Loc.mk 0 6)), (StackEntry.mk 0 YYVal.vnone (Loc.mk 0 0))] (by rfl) (by rfl) (by rfl) (by rfl) (by rfl) (by rfl)).trans
  ((yyparse_step_shift _ _ _ _ _ _ _ _ [(StackEntry.mk 27 YYVal.vnone (Loc.mk 7 7)), (StackEntry.mk 3 YYVal.vnone (Loc.mk 0 6)), (StackEntry.mk 0 YYVal.vnone (Loc.mk 0 0))] (by rfl) (by rfl)).trans
  (yyparse_step_accept _ _ _ _ _ (by rfl))))))))))))))

theorem run_vsubex_v6 :
    yyparse 500 (EvalContext.mk Universe.V6 [] []) [StackEntry.mk 0 YYVal.vnone (Loc.mk 0 0)] none
      [(Terminal.tTopLevelBool, (Loc.mk 0 0)), (Terminal.tVendor, (Loc.mk 1 1)), (Terminal.tLBracket, (Loc.mk 2 2)), ((Terminal.tInteger "9"), (Loc.mk 3 3)), (Terminal.tRBracket, (Loc.mk 4 4)), (Terminal.tDot, (Loc.mk 5 5)), (Terminal.tOption, (Loc.mk 6 6)), (Terminal.tLBracket, (Loc.mk 7 7)), ((Terminal.tInteger "1"), (Loc.mk 8 8)), (Terminal.tRBracket, (Loc.mk 9 9)), (Terminal.tDot, (Loc.mk 10 10)), (Terminal.tExists, (Loc.mk 11 11)), (Terminal.tEndOfFile, (Loc.mk 12 12))] =
    .ok (EvalContext.mk Universe.V6 [(Token.TokenVendorSub Universe.V6 9 RepresentationType.EXISTS 1)] []) := by
  exact ((yyparse_step_shift _ _ _ _ _ _ _ _ [(StackEntry.mk 1 YYVal.vnone (Loc.mk 0 0)), (StackEntry.mk 0 YYVal.vnone (Loc.mk 0 0))] (by rfl) (by rfl)).trans
  ((yyparse_step_shift _ _ _ _ _ _ _ _ [(StackEntry.mk 15 YYVal.vnone (Loc.mk 1 1)), (StackEntry.mk 1 YYVal.vnone (Loc.mk 0 0)), (StackEntry.mk 0 YYVal.vnone (Loc.mk 0 0))] (by rfl) (by rfl)).trans
  ((yyparse_step_shift _ _ _ _ _ _ _ _ [(StackEntry.mk 40 YYVal.vnone (Loc.mk 2 2)), (StackEntry.mk 15 YYVal.vnone (Loc.mk 1 1)), (StackEntry.mk 1 YYVal.vnone (Loc.mk 0 0)), (StackEntry.mk 0 YYVal.vnone (Loc.mk 0 0))] (by rfl) (by rfl)).trans
  ((yyparse_step_shift _ _ _ _ _ _ _ _ [(StackEntry.mk 78 (YYVal.vstr "9") (Loc.mk 3 3)), (StackEntry.mk 40 YYVal.vnone (Loc.mk 2 2)), (StackEntry.mk 15 YYVal.vnone (Loc.mk 1 1)), (StackEntry.mk 1 YYVal.vnone (Loc.mk 0 0)), (StackEntry.mk 0 YYVal.vnone (Loc.mk 0 0))] (by rfl) (by rfl)).trans
  ((yyparse_step_reduce _ _ _ _ _ _ _ _ _ (EvalContext.mk Universe.V6 [] []) _ _ _ [(StackEntry.mk 81 (YYVal.vu32 9) (Loc.mk 3 3)), (StackEntry.mk 40 YYVal.vnone (Loc.mk 2 2)), (StackEntry.mk 15 YYVal.vnone (Loc.mk 1 1)), (StackEntry.mk 1 YYVal.vnone (Loc.mk 0 0)), (StackEntry.mk 0 YYVal.vnone (Loc.mk 0 0))] (by rfl) (by rfl) (by rfl) (by rfl) (by rfl) (by rfl)).trans
  ((yyparse_step_shift _ _ _ _ _ _ _ _ [(StackEntry.mk 97 YYVal.vnone (Loc.mk 4 4)), (StackEntry.mk 81 (YYVal.vu32 9) (Loc.mk 3 3)), (StackEntry.mk 40 YYVal.vnone (Loc.mk 2 2)), (StackEntry.mk 15 YYVal.vnone (Loc.mk 1 1)), (StackEntry.mk 1 YYVal.vnone (Loc.mk 0 0)), (StackEntry.mk 0 YYVal.vnone (Loc.mk 0 0))] (by rfl) (by rfl)).trans
  ((yyparse_step_shift _ _ _ _ _ _ _ _ [(StackEntry.mk 110 YYVal.vnone (Loc.mk 5 5)), (StackEntry.mk 97 YYVal.vnone (Loc.mk 4 4)), (StackEntry.mk 81 (YYVal.vu32 9) (Loc.mk 3 3)), (StackEntry.mk 40 YYVal.vnone (Loc.mk 2 2)), (StackEntry.mk 15 YYVal.vnone (Loc.mk 1 1)), (StackEntry.mk 1 YYVal.vnone (Loc.mk 0 0)), (StackEntry.mk 0 YYVal.vnone (Loc.mk 0 0))] (by rfl) (by rfl)).trans
  ((yyparse_step_shift _ _ _ _ _ _ _ _ [(StackEntry.mk 130 YYVal.vnone (Loc.mk 6 6)), (StackEntry.mk 110 YYVal.vnone (Loc.mk 5 5)), (StackEntry.mk 97 YYVal.vnone (Loc.mk 4 4)), (StackEntry.mk 81 (YYVal.vu32 9) (Loc.mk 3 3)), (StackEntry.mk 40 YYVal.vnone (Loc.mk 2 2)), (StackEntry.mk 15 YYVal.vnone (Loc.mk 1 1)), (StackEntry.mk 1 YYVal.vnone (Loc.mk 0 0)), (StackEntry.mk 0 YYVal.vnone (Loc.mk 0 0))] (by rfl) (by rfl)).trans
  ((yyparse_step_shift _ _ _ _ _ _ _ _ [(StackEntry.mk 142 YYVal.vnone (Loc.mk 7 7)), (StackEntry.mk 130 YYVal.vnone (Loc.mk 6 6)), (StackEntry.mk 110 YYVal.vnone (Loc.mk 5 5)), (StackEntry.mk 97 YYVal.vnone (Loc.mk 4 4)), (StackEntry.mk 81 (YYVal.vu32 9) (Loc.mk 3 3)), (StackEntry.mk 40 YYVal.vnone (Loc.mk 2 2)), (StackEntry.mk 15 YYVal.vnone (Loc.mk 1 1)), (StackEntry.mk 1 YYVal.vnone (Loc.mk 0 0)), (StackEntry.mk 0 YYVal.vnone (Loc.mk 0 0))] (by rfl) (by rfl)).trans
  ((yyparse_step_shift _ _ _ _ _ _ _ _ [(StackEntry.mk 46 (YYVal.vstr "1") (Loc.mk 8 8)), (StackEntry.mk 142 YYVal.vnone (Loc.mk 7 7)), (StackEntry.mk 130 YYVal.vnone (Loc.mk 6 6)), (StackEntry.mk 110 YYVal.vnone (Loc.mk 5 5)), (StackEntry.mk 97 YYVal.vnone (Loc.mk 4 4)), (StackEntry.mk 81 (YYVal.vu32 9) (Loc.mk 3 3)), (StackEntry.mk 40 YYVal.vnone (Loc.mk 2 2)), (StackEntry.mk 15 YYVal.vnone (Loc.mk 1 1)), (StackEntry.mk 1 YYVal.vnone (Loc.mk 0 0)), (StackEntry.mk 0 YYVal.vnone (Loc.mk 0 0))] (by rfl) (by rfl)).trans
  ((yyparse_step_reduce _ _ _ _ _ _ _ _ _ (EvalContext.mk Universe.V6 [] []) _ _ _ [(StackEntry.mk 148 (YYVal.vu16 1) (Loc.mk 8 8)), (StackEntry.mk 142 YYVal.vnone (Loc.mk 7 7)), (StackEntry.mk 130 YYVal.vnone (Loc.mk 6 6)), (StackEntry.mk 110 YYVal.vnone (Loc.mk 5 5)), (StackEntry.mk 97 YYVal.vnone (Loc.mk 4 4)), (StackEntry.mk 81 (YYVal.vu32 9) (Loc.mk 3 3)), (StackEntry.mk 40 YYVal.vnone (Loc.mk 2 2)), (StackEntry.mk 15 YYVal.vnone (Loc.mk 1 1)), (StackEntry.mk 1 YYVal.vnone (Loc.mk 0 0)), (StackEntry.mk 0 YYVal.vnone (Loc.mk 0 0))] (by rfl) (by rfl) (by rfl) (by rfl) (by rfl) (by rfl)).trans
  ((yyparse_step_shift _ _ _ _ _ _ _ _ [(StackEntry.mk 153 YYVal.vnone (Loc.mk 9 9)), (StackEntry.mk 148 (YYVal.vu16 1) (Loc.mk 8 8)), (StackEntry.mk 142 YYVal.vnone (Loc.mk 7 7)), (StackEntry.mk 130 YYVal.vnone (Loc.mk 6 6)), (StackEntry.mk 110 YYVal.vnone (Loc.mk 5 5)), (StackEntry.mk 97 YYVal.vnone (Loc.mk 4 4)), (StackEntry.mk 81 (YYVal.vu32 9) (Loc.mk 3 3)), (StackEntry.mk 40 YYVal.vnone (Loc.mk 2 2)), (StackEntry.mk 15 YYVal.vnone (Loc.mk 1 1)), (StackEntry.mk 1 YYVal.vnone (Loc.mk 0 0)), (StackEntry.mk 0 YYVal.vnone (Loc.mk 0 0))] (by rfl) (by rfl)).trans
  ((yyparse_step_shift _ _ _ _ _ _ _ _ [(StackEntry.mk 157 YYVal.vnone (Loc.mk 10 10)), (StackEntry.mk 153 YYVal.vnone (Loc.mk 9 9)), (StackEntry.mk 148 (YYVal.vu16 1) (Loc.mk 8 8)), (StackEntry.mk 142 YYVal.vnone (Loc.mk 7 7)), (StackEntry.mk 130 YYVal.vnone (Loc.mk 6 6)), (StackEntry.mk 110 YYVal.vnone (Loc.mk 5 5)), (StackEntry.mk 97 YYVal.vnone (Loc.mk 4 4)), (StackEntry.mk 81 (YYVal.vu32 9) (Loc.mk 3 3)), (StackEntry.mk 40 YYVal.vnone (Loc.mk 2 2)), (StackEntry.mk 15 YYVal.vnone (Loc.mk 1 1)), (StackEntry.mk 1 YYVal.vnone (Loc.mk 0 0)), (StackEntry.mk 0 YYVal.vnone (Loc.mk 0 0))] (by rfl) (by rfl)).trans
  ((yyparse_step_shift _ _ _ _ _ _ _ _ [(StackEntry.mk 162 YYVal.vnone (Loc.mk 11 11)), (StackEntry.mk 157 YYVal.vnone (Loc.mk 10 10)), (StackEntry.mk 153 YYVal.vnone (Loc.mk 9 9)), (StackEntry.mk 148 (YYVal.vu16 1) (Loc.mk 8 8)), (StackEntry.mk 142 YYVal.vnone (Loc.mk 7 7)), (StackEntry.mk 130 YYVal.vnone (Loc.mk 6 6)), (StackEntry.mk 110 YYVal.vnone (Loc.mk 5 5)), (StackEntry.mk 97 YYVal.vnone (Loc.mk 4 4)), (StackEntry.mk 81 (YYVal.vu32 9) (Loc.mk 3 3)), (StackEntry.mk 40 YYVal.vnone (Loc.mk 2 2)), (StackEntry.mk 15 YYVal.vnone (Loc.mk 1 1)), (StackEntry.mk 1 YYVal.vnone (Loc.mk 0 0)), (StackEntry.mk 0 YYVal.vnone (Loc.mk 0 0))] (by rfl) (by rfl)).trans
  ((yyparse_step_reduce _ _ _ _ _ _ _ _ _ (EvalContext.mk Universe.V6 [(Token.TokenVendorSub Universe.V6 9 RepresentationType.EXISTS 1)] []) _ _ _ [(StackEntry.mk 21 YYVal.vnone (Loc.mk 1 11)), (StackEntry.mk 1 YYVal.vnone (Loc.mk 0 0)), (StackEntry.mk 0 YYVal.vnone (Loc.mk 0 0))] (by rfl) (by rfl) (by rfl) (by rfl) (by rfl) (by rfl)).trans
  ((yyparse_step_reduce _ _ _ _ _ _ _ _ _ (EvalContext.mk Universe.V6 [(Token.TokenVendorSub Universe.V6 9 RepresentationType.EXISTS 1)] []) _ _ _ [(StackEntry.mk 20 YYVal.vnone (Loc.mk 1 11)), (StackEntry.mk 1 YYVal.vnone (Loc.mk 0 0)), (StackEntry.mk 0 YYVal.vnone (Loc.mk 0 0))] (by rfl) (by rfl) (by rfl) (by rfl) (by rfl) (by rfl)).trans
  ((yyparse_step_reduce _ _ _ _ _ _ _ _ _ (EvalContext.mk Universe.V6 [(Token.TokenVendorSub Universe.V6 9 RepresentationType.EXISTS 1)] []) _ _ _ [(StackEntry.mk 3 YYVal.vnone (Loc.mk 0 11)), (StackEntry.mk 0 YYVal.vnone (Loc.mk 0 0))] (by rfl) (by rfl) (by rfl) (by rfl) (by rfl) (by rfl)).trans
  ((yyparse_step_shift _ _ _ _ _ _ _ _ [(StackEntry.mk 27 YYVal.vnone (Loc.mk 12 12)), (StackEntry.mk 3 YYVal.vnone (Loc.mk 0 11)), (StackEntry.mk 0 YYVal.vnone (Loc.mk 0 0))] (by rfl) (by rfl)).trans
  (yyparse_step_accept _ _ _ _ _ (by rfl))))))))))))))))))))

theorem run_vsubhex_v6 :
    yyparse 500 (EvalContext.mk Universe.V6 [] []) [StackEntry.mk 0 YYVal.vnone (Loc.mk 0 0)] none
      [(Terminal.tTopLevelString, (Loc.mk 0 0)), (Terminal.tVendor, (Loc.mk 1 1)), (Terminal.tLBracket, (Loc.mk 2 2)), ((Terminal.tInteger "9"), (Loc.mk 3 3)), (Terminal.tRBracket, (Loc.mk 4 4)), (Terminal.tDot, (Loc.mk 5 5)), (Terminal.tOption, (Loc.mk 6 6)), (Terminal.tLBracket, (Loc.mk 7 7)), ((Terminal.tInteger "1"), (Loc.mk 8 8)), (Terminal.tRBracket, (Loc.mk 9 9)), (Terminal.tDot, (Loc.mk 10 10)), (Terminal.tHex, (Loc.mk 11 11)), (Terminal.tEndOfFile, (Loc.mk 12 12))] =
    .ok (EvalContext.mk Universe.V6 [(Token.TokenVendorSub Universe.V6 9 RepresentationType.HEXADECIMAL 1)] []) := by
  exact ((yyparse_step_shift _ _ _ _ _ _ _ _ [(StackEntry.mk 2 YYVal.vnone (Loc.mk 0 0)), (StackEntry.mk 0 YYVal.vnone (Loc.mk 0 0))] (by rfl) (by rfl)).trans
  ((yyparse_step_shift _ _ _ _ _ _ _ _ [(StackEntry.mk 15 YYVal.vnone (Loc.mk 1 1)), (StackEntry.mk 2 YYVal.vnone (Loc.mk 0 0)), (StackEntry.mk 0 YYVal.vnone (Loc.mk 0 0))] (by rfl) (by rfl)).trans
  ((yyparse_step_shift _ _ _ _ _ _ _ _ [(StackEntry.mk 40 YYVal.vnone (Loc.mk 2 2)), (StackEntry.mk 15 YYVal.vnone (Loc.mk 1 1)), (StackEntry.mk 2 YYVal.vnone (Loc.mk 0 0)), (StackEntry.mk 0 YYVal.vnone (Loc.mk 0 0))] (by rfl) (by rfl)).trans
  ((yyparse_step_shift _ _ _ _ _ _ _ _ [(StackEntry.mk 78 (YYVal.vstr "9") (Loc.mk 3 3)), (StackEntry.mk 40 YYVal.vnone (Loc.mk 2 2)), (StackEntry.mk 15 YYVal.vnone (Loc.mk 1 1)), (StackEntry.mk 2 YYVal.vnone (Loc.mk 0 0)), (StackEntry.mk 0 YYVal.vnone (Loc.mk 0 0))] (by rfl) (by rfl)).trans
  ((yyparse_step_reduce _ _ _ _ _ _ _ _ _ (EvalContext.mk Universe.V6 [] []) _ _ _ [(StackEntry.mk 81 (YYVal.vu32 9) (Loc.mk 3 3)), (StackEntry.mk 40 YYVal.vnone (Loc.mk 2 2)), (StackEntry.mk 15 YYVal.vnone (Loc.mk 1 1)), (StackEntry.mk 2 YYVal.vnone (Loc.mk 0 0)), (StackEntry.mk 0 YYVal.vnone (Loc.mk 0 0))] (by rfl) (by rfl) (by rfl) (by rfl) (by rfl) (by rfl)).trans
  ((yyparse_step_shift _ _ _ _ _ _ _ _ [(StackEntry.mk 97 YYVal.vnone (Loc.mk 4 4)), (StackEntry.mk 81 (YYVal.vu32 9) (Loc.mk 3 3)), (StackEntry.mk 40 YYVal.vnone (Loc.mk 2 2)), (StackEntry.mk 15 YYVal.vnone (Loc.mk 1 1)), (StackEntry.mk 2 YYVal.vnone (Loc.mk 0 0)), (StackEntry.mk 0 YYVal.vnone (Loc.mk 0 0))] (by rfl) (by rfl)).trans
  ((yyparse_step_shift _ _ _ _ _ _ _ _ [(StackEntry.mk 110 YYVal.vnone (Loc.mk 5 5)), (StackEntry.mk 97 YYVal.vnone (Loc.mk 4 4)), (StackEntry.mk 81 (YYVal.vu32 9) (Loc.mk 3 3)), (StackEntry.mk 40 YYVal.vnone (Loc.mk 2 2)), (StackEntry.mk 15 YYVal.vnone (Loc.mk 1 1)), (StackEntry.mk 2 YYVal.vnone (Loc.mk 0 0)), (StackEntry.mk 0 YYVal.vnone (Loc.mk 0 0))] (by rfl) (by rfl)).trans
  ((yyparse_step_shift _ _ _ _ _ _ _ _ [(StackEntry.mk 130 YYVal.vnone (Loc.mk 6 6)), (StackEntry.mk 110 YYVal.vnone (Loc.mk 5 5)), (StackEntry.mk 97 YYVal.vnone (Loc.mk 4 4)), (StackEntry.mk 81 (YYVal.vu32 9) (Loc.mk 3 3)), (StackEntry.mk 40 YYVal.vnone (Loc.mk 2 2)), (StackEntry.mk 15 YYVal.vnone (Loc.mk 1 1)), (StackEntry.mk 2 YYVal.vnone (Loc.mk 0 0)), (StackEntry.mk 0 YYVal.vnone (Loc.mk 0 0))] (by rfl) (by rfl)).trans
  ((yyparse_step_shift _ _ _ _ _ _ _ _ [(StackEntry.mk 142 YYVal.vnone (Loc.mk 7 7)), (StackEntry.mk 130 YYVal.vnone (Loc.mk 6 6)), (StackEntry.mk 110 YYVal.vnone (Loc.mk 5 5)), (StackEntry.mk 97 YYVal.vnone (Loc.mk 4 4)), (StackEntry.mk 81 (YYVal.vu32 9) (Loc.mk 3 3)), (StackEntry.mk 40 YYVal.vnone (Loc.mk 2 2)), (StackEntry.mk 15 YYVal.vnone (Loc.mk 1 1)), (StackEntry.mk 2 YYVal.vnone (Loc.mk 0 0)), (StackEntry.mk 0 YYVal.vnone (Loc.mk 0 0))] (by rfl) (by rfl)).trans
  ((yyparse_step_shift _ _ _ _ _ _ _ _ [(StackEntry.mk 46 (YYVal.vstr "1") (Loc.mk 8 8)), (StackEntry.mk 142 YYVal.vnone (Loc.mk 7 7)), (StackEntry.mk 130 YYVal.vnone (Loc.mk 6 6)), (StackEntry.mk 110 YYVal.vnone (Loc.mk 5 5)), (StackEntry.mk 97 YYVal.vnone (Loc.mk 4 4)), (StackEntry.mk 81 (YYVal.vu32 9) (Loc.mk 3 3)), (StackEntry.mk 40 YYVal.vnone (Loc.mk 2 2)), (StackEntry.mk 15 YYVal.vnone (Loc.mk 1 1)), (StackEntry.mk 2 YYVal.vnone (Loc.mk 0 0)), (StackEntry.mk 0 YYVal.vnone (Loc.mk 0 0))] (by rfl) (by rfl)).trans
  ((yyparse_step_reduce _ _ _ _ _ _ _ _ _ (EvalContext.mk Universe.V6 [] []) _ _ _ [(StackEntry.mk 148 (YYVal.vu16 1) (Loc.mk 8 8)), (StackEntry.mk 142 YYVal.vnone (Loc.mk 7 7)), (StackEntry.mk 130 YYVal.vnone (Loc.mk 6 6)), (StackEntry.mk 110 YYVal.vnone (Loc.mk 5 5)), (StackEntry.mk 97 YYVal.vnone (Loc.mk 4 4)), (StackEntry.mk 81 (YYVal.vu32 9) (Loc.mk 3 3)), (StackEntry.mk 40 YYVal.vnone (Loc.mk 2 2)), (StackEntry.mk 15 YYVal.vnone (Loc.mk 1 1)), (StackEntry.mk 2 YYVal.vnone (Loc.mk 0 0)), (StackEntry.mk 0 YYVal.vnone (Loc.mk 0 0))] (by rfl) (by rfl) (by rfl) (by rfl) (by rfl) (by rfl)).trans
  ((yyparse_step_shift _ _ _ _ _ _ _ _ [(StackEntry.mk 153 YYVal.vnone (Loc.mk 9 9)), (StackEntry.mk 148 (YYVal.vu16 1) (Loc.mk 8 8)), (StackEntry.mk 142 YYVal.vnone (Loc.mk 7 7)), (StackEntry.mk 130 YYVal.vnone (Loc.mk 6 6)), (StackEntry.mk 110 YYVal.vnone (Loc.mk 5 5)), (StackEntry.mk 97 YYVal.vnone (Loc.mk 4 4)), (StackEntry.mk 81 (YYVal.vu32 9) (Loc.mk 3 3)), (StackEntry.mk 40 YYVal.vnone (Loc.mk 2 2)), (StackEntry.mk 15 YYVal.vnone (Loc.mk 1 1)), (StackEntry.mk 2 YYVal.vnone (Loc.mk 0 0)), (StackEntry.mk 0 YYVal.vnone (Loc.mk 0 0))] (by rfl) (by rfl)).trans
  ((yyparse_step_shift _ _ _ _ _ _ _ _ [(StackEntry.mk 157 YYVal.vnone (Loc.mk 10 10)), (StackEntry.mk 153 YYVal.vnone (Loc.mk 9 9)), (StackEntry.mk 148 (YYVal.vu16 1) (Loc.mk 8 8)), (StackEntry.mk 142 YYVal.vnone (Loc.mk 7 7)), (StackEntry.mk 130 YYVal.vnone (Loc.mk 6 6)), (StackEntry.mk 110 YYVal.vnone (Loc.mk 5 5)), (StackEntry.mk 97 YYVal.vnone (Loc.mk 4 4)), (StackEntry.mk 81 (YYVal.vu32 9) (Loc.mk 3 3)), (StackEntry.mk 40 YYVal.vnone (Loc.mk 2 2)), (StackEntry.mk 15 YYVal.vnone (Loc.mk 1 1)), (StackEntry.mk 2 YYVal.vnone (Loc.mk 0 0)), (StackEntry.mk 0 YYVal.vnone (Loc.mk 0 0))] (by rfl) (by rfl)).trans
  ((yyparse_step_shift _ _ _ _ _ _ _ _ [(StackEntry.mk 112 YYVal.vnone (Loc.mk 11 11)), (StackEntry.mk 157 YYVal.vnone (Loc.mk 10 10)), (StackEntry.mk 153 YYVal.vnone (Loc.mk 9 9)), (StackEntry.mk 148 (YYVal.vu16 1) (Loc.mk 8 8)), (StackEntry.mk 142 YYVal.vnone (Loc.mk 7 7)), (StackEntry.mk 130 YYVal.vnone (Loc.mk 6 6)), (StackEntry.mk 110 YYVal.vnone (Loc.mk 5 5)), (StackEntry.mk 97 YYVal.vnone (Loc.mk 4 4)), (StackEntry.mk 81 (YYVal.vu32 9) (Loc.mk 3 3)), (StackEntry.mk 40 YYVal.vnone (Loc.mk 2 2)), (StackEntry.mk 15 YYVal.vnone (Loc.mk 1 1)), (StackEntry.mk 2 YYVal.vnone (Loc.mk 0 0)), (StackEntry.mk 0 YYVal.vnone (Loc.mk 0 0))] (by rfl) (by rfl)).trans
  ((yyparse_step_reduce _ _ _ _ _ _ _ _ _ (EvalContext.mk Universe.V6 [] []) _ _ _ [(StackEntry.mk 163 (YYVal.vrep RepresentationType.HEXADECIMAL) (Loc.mk 11 11)), (StackEntry.mk 157 YYVal.vnone (Loc.mk 10 10)), (StackEntry.mk 153 YYVal.vnone (Loc.mk 9 9)), (StackEntry.mk 148 (YYVal.vu16 1) (Loc.mk 8 8)), (StackEntry.mk 142 YYVal.vnone (Loc.mk 7 7)), (StackEntry.mk 130 YYVal.vnone (Loc.mk 6 6)), (StackEntry.mk 110 YYVal.vnone (Loc.mk 5 5)), (StackEntry.mk 97 YYVal.vnone (Loc.mk 4 4)), (StackEntry.mk 81 (YYVal.vu32 9) (Loc.mk 3 3)), (StackEntry.mk 40 YYVal.vnone (Loc.mk 2 2)), (StackEntry.mk 15 YYVal.vnone (Loc.mk 1 1)), (StackEntry.mk 2 YYVal.vnone (Loc.mk 0 0)), (StackEntry.mk 0 YYVal.vnone (Loc.mk 0 0))] (by rfl) (by rfl) (by rfl) (by rfl) (by rfl) (by rfl)).trans
  ((yyparse_step_reduce _ _ _ _ _ _ _ _ _ (EvalContext.mk Universe.V6 [(Token.TokenVendorSub Universe.V6 9 RepresentationType.HEXADECIMAL 1)] []) _ _ _ [(StackEntry.mk 26 YYVal.vnone (Loc.mk 1 11)), (StackEntry.mk 2 YYVal.vnone (Loc.mk 0 0)), (StackEntry.mk 0 YYVal.vnone (Loc.mk 0 0))] (by rfl) (by rfl) (by rfl) (by rfl) (by rfl) (by rfl)).trans
  ((yyparse_step_reduce _ _ _ _ _ _ _ _ _ (EvalContext.mk Universe.V6 [(Token.TokenVendorSub Universe.V6 9 RepresentationType.HEXADECIMAL 1)] []) _ _ _ [(StackEntry.mk 24 YYVal.vnone (Loc.mk 1 11)), (StackEntry.mk 2 YYVal.vnone (Loc.mk 0 0)), (StackEntry.mk 0 YYVal.vnone (Loc.mk 0 0))] (by rfl) (by rfl) (by rfl) (by rfl) (by rfl) (by rfl)).trans
  ((yyparse_step_reduce _ _ _ _ _ _ _ _ _ (EvalContext.mk Universe.V6 [(Token.TokenVendorSub Universe.V6 9 RepresentationType.HEXADECIMAL 1)] []) _ _ _ [(StackEntry.mk 3 YYVal.vnone (Loc.mk 0 11)), (StackEntry.mk 0 YYVal.vnone (Loc.mk 0 0))] (by rfl) (by rfl) (by rfl) (by rfl) (by rfl) (by rfl)).trans
  ((yyparse_step_shift _ _ _ _ _ _ _ _ [(StackEntry.mk 27 YYVal.vnone (Loc.mk 12 12)), (StackEntry.mk 3 YYVal.vnone (Loc.mk 0 11)), (StackEntry.mk 0 YYVal.vnone (Loc.mk 0 0))] (by rfl) (by rfl)).trans
  (yyparse_step_accept _ _ _ _ _ (by rfl)))))))))))))))))))))

theorem run_vc9data3_v6 :
    yyparse 500 (EvalContext.mk Universe.V6 [] []) [StackEntry.mk 0 YYVal.vnone (Loc.mk 0 0)] none
      [(Terminal.tTopLevelString, (Loc.mk 0 0)), (Terminal.tVendorClass, (Loc.mk 1 1)), (Terminal.tLBracket, (Loc.mk 2 2)), ((Terminal.tInteger "9"), (Loc.mk 3 3)), (Terminal.tRBracket, (Loc.mk 4 4)), (Terminal.tDot, (Loc.mk 5 5)), (Terminal.tData, (Loc.mk 6 6)), (Terminal.tLBracket, (Loc.mk 7 7)), ((Terminal.tInteger "3"), (Loc.mk 8 8)), (Terminal.tRBracket, (Loc.mk 9 9)), (Terminal.tEndOfFile, (Loc.mk 10 10))] =
    .ok (EvalContext.mk Universe.V6 [(Token.TokenVendorClassData Universe.V6 9 VendorField.DATA 3)] []) := by
  exact ((yyparse_step_shift _ _ _ _ _ _ _ _ [(StackEntry.mk 2 YYVal.vnone (Loc.mk 0 0)), (StackEntry.mk 0 YYVal.vnone (Loc.mk 0 0))] (by rfl) (by rfl)).trans
  ((yyparse_step_shift _ _ _ _ _ _ _ _ [(StackEntry.mk 14 YYVal.vnone (Loc.mk 1 1)), (StackEntry.mk 2 YYVal.vnone (Loc.mk 0 0)), (StackEntry.mk 0 YYVal.vnone (Loc.mk 0 0))] (by rfl) (by rfl)).trans
  ((yyparse_step_shift _ _ _ _ _ _ _ _ [(StackEntry.mk 38 YYVal.vnone (Loc.mk 2 2)), (StackEntry.mk 14 YYVal.vnone (Loc.mk 1 1)), (StackEntry.mk 2 YYVal.vnone (Loc.mk 0 0)), (StackEntry.mk 0 YYVal.vnone (Loc.mk 0 0))] (by rfl) (by rfl)).trans
  ((yyparse_step_shift _ _ _ _ _ _ _ _ [(StackEntry.mk 78 (YYVal.vstr "9") (Loc.mk 3 3)), (StackEntry.mk 38 YYVal.vnone (Loc.mk 2 2)), (StackEntry.mk 14 YYVal.vnone (Loc.mk 1 1)), (StackEntry.mk 2 YYVal.vnone (Loc.mk 0 0)), (StackEntry.mk 0 YYVal.vnone (Loc.mk 0 0))] (by rfl) (by rfl)).trans
  ((yyparse_step_reduce _ _ _ _ _ _ _ _ _ (EvalContext.mk Universe.V6 [] []) _ _ _ [(StackEntry.mk 79 (YYVal.vu32 9) (Loc.mk 3 3)), (StackEntry.mk 38 YYVal.vnone (Loc.mk 2 2)), (StackEntry.mk 14 YYVal.vnone (Loc.mk 1 1)), (StackEntry.mk 2 YYVal.vnone (Loc.mk 0 0)), (StackEntry.mk 0 YYVal.vnone (Loc.mk 0 0))] (by rfl) (by rfl) (by rfl) (by rfl) (by rfl) (by rfl)).trans
  ((yyparse_step_shift _ _ _ _ _ _ _ _ [(StackEntry.mk 96 YYVal.vnone (Loc.mk 4 4)), (StackEntry.mk 79 (YYVal.vu32 9) (Loc.mk 3 3)), (StackEntry.mk 38 YYVal.vnone (Loc.mk 2 2)), (StackEntry.mk 14 YYVal.vnone (Loc.mk 1 1)), (StackEntry.mk 2 YYVal.vnone (Loc.mk 0 0)), (StackEntry.mk 0 YYVal.vnone (Loc.mk 0 0))] (by rfl) (by rfl)).trans
  ((yyparse_step_shift _ _ _ _ _ _ _ _ [(StackEntry.mk 109 YYVal.vnone (Loc.mk 5 5)), (StackEntry.mk 96 YYVal.vnone (Loc.mk 4 4)), (StackEntry.mk 79 (YYVal.vu32 9) (Loc.mk 3 3)), (StackEntry.mk 38 YYVal.vnone (Loc.mk 2 2)), (StackEntry.mk 14 YYVal.vnone (Loc.mk 1 1)), (StackEntry.mk 2 YYVal.vnone (Loc.mk 0 0)), (StackEntry.mk 0 YYVal.vnone (Loc.mk 0 0))] (by rfl) (by rfl)).trans
  ((yyparse_step_shift _ _ _ _ _ _ _ _ [(StackEntry.mk 129 YYVal.vnone (Loc.mk 6 6)), (StackEntry.mk 109 YYVal.vnone (Loc.mk 5 5)), (StackEntry.mk 96 YYVal.vnone (Loc.mk 4 4)), (StackEntry.mk 79 (YYVal.vu32 9) (Loc.mk 3 3)), (StackEntry.mk 38 YYVal.vnone (Loc.mk 2 2)), (StackEntry.mk 14 YYVal.vnone (Loc.mk 1 1)), (StackEntry.mk 2 YYVal.vnone (Loc.mk 0 0)), (StackEntry.mk 0 YYVal.vnone (Loc.mk 0 0))] (by rfl) (by rfl)).trans
  ((yyparse_step_shift _ _ _ _ _ _ _ _ [(StackEntry.mk 141 YYVal.vnone (Loc.mk 7 7)), (StackEntry.mk 129 YYVal.vnone (Loc.mk 6 6)), (StackEntry.mk 109 YYVal.vnone (Loc.mk 5 5)), (StackEntry.mk 96 YYVal.vnone (Loc.mk 4 4)), (StackEntry.mk 79 (YYVal.vu32 9) (Loc.mk 3 3)), (StackEntry.mk 38 YYVal.vnone (Loc.mk 2 2)), (StackEntry.mk 14 YYVal.vnone (Loc.mk 1 1)), (StackEntry.mk 2 YYVal.vnone (Loc.mk 0 0)), (StackEntry.mk 0 YYVal.vnone (Loc.mk 0 0))] (by rfl) (by rfl)).trans
  ((yyparse_step_shift _ _ _ _ _ _ _ _ [(StackEntry.mk 147 (YYVal.vstr "3") (Loc.mk 8 8)), (StackEntry.mk 141 YYVal.vnone (Loc.mk 7 7)), (StackEntry.mk 129 YYVal.vnone (Loc.mk 6 6)), (StackEntry.mk 109 YYVal.vnone (Loc.mk 5 5)), (StackEntry.mk 96 YYVal.vnone (Loc.mk 4 4)), (StackEntry.mk 79 (YYVal.vu32 9) (Loc.mk 3 3)), (StackEntry.mk 38 YYVal.vnone (Loc.mk 2 2)), (StackEntry.mk 14 YYVal.vnone (Loc.mk 1 1)), (StackEntry.mk 2 YYVal.vnone (Loc.mk 0 0)), (StackEntry.mk 0 YYVal.vnone (Loc.mk 0 0))] (by rfl) (by rfl)).trans
  ((yyparse_step_shift _ _ _ _ _ _ _ _ [(StackEntry.mk 152 YYVal.vnone (Loc.mk 9 9)), (StackEntry.mk 147 (YYVal.vstr "3") (Loc.mk 8 8)), (StackEntry.mk 141 YYVal.vnone (Loc.mk 7 7)), (StackEntry.mk 129 YYVal.vnone (Loc.mk 6 6)), (StackEntry.mk 109 YYVal.vnone (Loc.mk 5 5)), (StackEntry.mk 96 YYVal.vnone (Loc.mk 4 4)), (StackEntry.mk 79 (YYVal.vu32 9) (Loc.mk 3 3)), (StackEntry.mk 38 YYVal.vnone (Loc.mk 2 2)), (StackEntry.mk 14 YYVal.vnone (Loc.mk 1 1)), (StackEntry.mk 2 YYVal.vnone (Loc.mk 0 0)), (StackEntry.mk 0 YYVal.vnone (Loc.mk 0 0))] (by rfl) (by rfl)).trans
  ((yyparse_step_reduce _ _ _ _ _ _ _ _ _ (EvalContext.mk Universe.V6 [(Token.TokenVendorClassData Universe.V6 9 VendorField.DATA 3)] []) _ _ _ [(StackEntry.mk 26 YYVal.vnone (Loc.mk 1 9)), (StackEntry.mk 2 YYVal.vnone (Loc.mk 0 0)), (StackEntry.mk 0 YYVal.vnone (Loc.mk 0 0))] (by rfl) (by rfl) (by rfl) (by rfl) (by rfl) (by rfl)).trans
  ((yyparse_step_reduce _ _ _ _ _ _ _ _ _ (EvalContext.mk Universe.V6 [(Token.TokenVendorClassData Universe.V6 9 VendorField.DATA 3)] []) _ _ _ [(StackEntry.mk 24 YYVal.vnone (Loc.mk 1 9)), (StackEntry.mk 2 YYVal.vnone (Loc.mk 0 0)), (StackEntry.mk 0 YYVal.vnone (Loc.mk 0 0))] (by rfl) (by rfl) (by rfl) (by rfl) (by rfl) (by rfl)).trans
  ((yyparse_step_reduce _ _ _ _ _ _ _ _ _ (EvalContext.mk Universe.V6 [(Token.TokenVendorClassData Universe.V6 9 VendorField.DATA 3)] []) _ _ _ [(StackEntry.mk 3 YYVal.vnone (Loc.mk 0 9)), (StackEntry.mk 0 YYVal.vnone (Loc.mk 0 0))] (by rfl) (by rfl) (by rfl) (by rfl) (by rfl) (by rfl)).trans
  ((yyparse_step_shift _ _ _ _ _ _ _ _ [(StackEntry.mk 27 YYVal.vnone (Loc.mk 10 10)), (StackEntry.mk 3 YYVal.vnone (Loc.mk 0 9)), (StackEntry.mk 0 YYVal.vnone (Loc.mk 0 0))] (by rfl) (by rfl)).trans
  (yyparse_step_accept _ _ _ _ _ (by rfl)))))))))))))))))

theorem run_vent_v6 :
    yyparse 500 (EvalContext.mk Universe.V6 [] []) [StackEntry.mk 0 YYVal.vnone (Loc.mk 0 0)] none
      [(Terminal.tTopLevelString, (Loc.mk 0 0)), (Terminal.tVendor, (Loc.mk 1 1)), (Terminal.tDot, (Loc.mk 2 2)), (Terminal.tEnterprise, (Loc.mk 3 3)), (Terminal.tEndOfFile, (Loc.mk 4 4))] =
    .ok (EvalContext.mk Universe.V6 [(Token.TokenVendor Universe.V6 0 (VendorArg3.field VendorField.ENTERPRISE_ID))] []) := by
  exact ((yyparse_step_shift _ _ _ _ _ _ _ _ [(StackEntry.mk 2 YYVal.vnone (Loc.mk 0 0)), (StackEntry.mk 0 YYVal.vnone (Loc.mk 0 0))] (by rfl) (by rfl)).trans
  ((yyparse_step_shift _ _ _ _ _ _ _ _ [(StackEntry.mk 15 YYVal.vnone (Loc.mk 1 1)), (StackEntry.mk 2 YYVal.vnone (Loc.mk 0 0)), (StackEntry.mk 0 YYVal.vnone (Loc.mk 0 0))] (by rfl) (by rfl)).trans
  ((yyparse_step_shift _ _ _ _ _ _ _ _ [(StackEntry.mk 41 YYVal.vnone (Loc.mk 2 2)), (StackEntry.mk 15 YYVal.vnone (Loc.mk 1 1)), (StackEntry.mk 2 YYVal.vnone (Loc.mk 0 0)), (StackEntry.mk 0 YYVal.vnone (Loc.mk 0 0))] (by rfl) (by rfl)).trans
  ((yyparse_step_shift _ _ _ _ _ _ _ _ [(StackEntry.mk 82 YYVal.vnone (Loc.mk 3 3)), (StackEntry.mk 41 YYVal.vnone (Loc.mk 2 2)), (StackEntry.mk 15 YYVal.vnone (Loc.mk 1 1)), (StackEntry.mk 2 YYVal.vnone (Loc.mk 0 0)), (StackEntry.mk 0 YYVal.vnone (Loc.mk 0 0))] (by rfl) (by rfl)).trans
  ((yyparse_step_reduce _ _ _ _ _ _ _ _ _ (EvalContext.mk Universe.V6 [(Token.TokenVendor Universe.V6 0 (VendorArg3.field VendorField.ENTERPRISE_ID))] []) _ _ _ [(StackEntry.mk 26 YYVal.vnone (Loc.mk 1 3)), (StackEntry.mk 2 YYVal.vnone (Loc.mk 0 0)), (StackEntry.mk 0 YYVal.vnone (Loc.mk 0 0))] (by rfl) (by rfl) (by rfl) (by rfl) (by rfl) (by rfl)).trans
  ((yyparse_step_reduce _ _ _ _ _ _ _ _ _ (EvalContext.mk Universe.V6 [(Token.TokenVendor Universe.V6 0 (VendorArg3.field VendorField.ENTERPRISE_ID))] []) _ _ _ [(StackEntry.mk 24 YYVal.vnone (Loc.mk 1 3)), (StackEntry.mk 2 YYVal.vnone (Loc.mk 0 0)), (StackEntry.mk 0 YYVal.vnone (Loc.mk 0 0))] (by rfl) (by rfl) (by rfl) (by rfl) (by rfl) (by rfl)).trans
  ((yyparse_step_reduce _ _ _ _ _ _ _ _ _ (EvalContext.mk Universe.V6 [(Token.TokenVendor Universe.V6 0 (VendorArg3.field VendorField.ENTERPRISE_ID))] []) _ _ _ [(StackEntry.mk 3 YYVal.vnone (Loc.mk 0 3)), (StackEntry.mk 0 YYVal.vnone (Loc.mk 0 0))] (by rfl) (by rfl) (by rfl) (by rfl) (by rfl) (by rfl)).trans
  ((yyparse_step_shift _ _ _ _ _ _ _ _ [(StackEntry.mk 27 YYVal.vnone (Loc.mk 4 4)), (StackEntry.mk 3 YYVal.vnone (Loc.mk 0 3)), (StackEntry.mk 0 YYVal.vnone (Loc.mk 0 0))] (by rfl) (by rfl)).trans
  (yyparse_step_accept _ _ _ _ _ (by rfl))))))))))


/-- `EvalParser::yysyntax_error_` collects at most
`YYERROR_VERBOSE_ARGS_MAXIMUM = 5` message arguments (the unexpected
terminal plus at most four expected terminals). -/
theorem synArgsLoop_args_le (xs : List Nat) : ∀ (c : Nat) (args : List String),
    1 ≤ c → c ≤ 5 → (synArgsLoop xs c args).2.length ≤ args.length + (5 - c) := by
  induction xs with
  | nil =>
      intro c args _ _
      simp [synArgsLoop]
  | cons x xs ih =>
      intro c args hc1 hc5
      rw [synArgsLoop]
      split
      · simp
      · rename_i hne
        have := ih (c + 1) (args ++ [yytname_.getD x ""]) (by omega) (by omega)
        simp only [List.length_append, List.length_singleton] at this
        omega

/-- When a fifth expected terminal would be needed, the argument loop of
`yysyntax_error_` resets the count to one and keeps only the unexpected
terminal as message argument. -/
theorem synArgsLoop_overflow (xs : List Nat) : ∀ (c : Nat) (args : List String),
    1 ≤ c → c ≤ 5 → 6 ≤ c + xs.length → args ≠ [] →
    (synArgsLoop xs c args).1 = 1 ∧
      (synArgsLoop xs c args).2.getD 0 "" = args.getD 0 "" := by
  induction xs with
  | nil =>
      intro c args _ hc5 h6 _
      exfalso
      simp at h6
      omega
  | cons x xs ih =>
      intro c args hc1 hc5 h6 hne
      rw [synArgsLoop]
      split
      · exact ⟨rfl, rfl⟩
      · rename_i hc
        simp only [List.length_cons] at h6
        have hres := ih (c + 1) (args ++ [yytname_.getD x ""])
          (by omega) (by omega) (by omega) (by simp)
        refine ⟨hres.1, hres.2.trans ?_⟩
        have hlen : 0 < args.length := by
          cases args with
          | nil => exact absurd rfl hne
          | cons a as => simp
        rw [List.getD_append _ _ _ _ hlen]

/-- Lift a completed `yyparse` run to a statement about `parseToks`. -/
theorem parseToks_of_run (u : Universe) (ts : List Terminal)
    (i0 : List (Terminal × Loc)) (res : EvalContext)
    (hrun : yyparse 500 ⟨u, [], []⟩ [⟨0, .vnone, ⟨0, 0⟩⟩] none i0 = .ok res)
    (hloc : locate ts = i0) :
    parseToks u ts = .ok res.expression := by
  simp only [parseToks, hloc, hrun]

/-- Lift a failed `yyparse` run to a statement about `parseToks`. -/
theorem parseToks_of_run_err (u : Universe) (ts : List Terminal)
    (i0 : List (Terminal × Loc)) (e : ParseError)
    (hrun : yyparse 500 ⟨u, [], []⟩ [⟨0, .vnone, ⟨0, 0⟩⟩] none i0 = .error e)
    (hloc : locate ts = i0) :
    parseToks u ts = .error e := by
  simp only [parseToks, hloc, hrun]

/-- C1: family gating is exhaustive. Under family V4 every `relay6[...]`
construct (`exists` and `text`/`hex` forms via rules 14 and 23, the
`relay6[...].peeraddr/linkaddr` field form via rule 27) and the `pkt6`
construct (rule 26) fail with a SemanticError at the construct's location,
and under family V6 every `relay4[...]` construct (rules 13 and 22) and
the `pkt4` construct (rule 25) fail likewise; no successful semantic
action ever appends a token of the wrong protocol family, so no token for
an offending construct is emitted; two whole-parse examples show the
compilation aborting with the SemanticError. -/
theorem C1_family_gating (stk : List StackEntry) (ctx : EvalContext) :
    (ctx.option_universe = Universe.V4 →
      reduceAction 14 stk ctx =
        .error (.semError (stkGet stk 10).loc "relay6 can only be used in DHCPv6.") ∧
      reduceAction 23 stk ctx =
        .error (.semError (stkGet stk 10).loc "relay6 can only be used in DHCPv6.") ∧
      reduceAction 26 stk ctx =
        .error (.semError (stkGet stk 2).loc "pkt6 can only be used in DHCPv6.") ∧
      reduceAction 27 stk ctx =
        .error (.semError (stkGet stk 5).loc "relay6 can only be used in DHCPv6.")) ∧
    (ctx.option_universe = Universe.V6 →
      reduceAction 13 stk ctx =
        .error (.semError (stkGet stk 5).loc "relay4 can only be used in DHCPv4.") ∧
      reduceAction 22 stk ctx =
        .error (.semError (stkGet stk 5).loc "relay4 can only be used in DHCPv4.") ∧
      reduceAction 25 stk ctx =
        .error (.semError (stkGet stk 2).loc "pkt4 can only be used in DHCPv4.")) ∧
    (∀ (rule : Nat) (val : YYVal) (ctx2 : EvalContext),
      reduceAction rule stk ctx = .ok (val, ctx2) →
      ∀ t ∈ ctx2.expression, t ∈ ctx.expression ∨ tokenFamilyOk ctx.option_universe t) ∧
    parseToks .V4 [.tTopLevelBool, .tRelay6, .tLBracket, .tInteger "0", .tRBracket, .tDot,
        .tOption, .tLBracket, .tInteger "17", .tRBracket, .tDot, .tExists, .tEndOfFile] =
      .error (.semError ⟨1, 1⟩ "relay6 can only be used in DHCPv6.") ∧
    parseToks .V6 [.tTopLevelBool, .tRelay4, .tLBracket, .tInteger "1", .tRBracket, .tDot,
        .tExists, .tEndOfFile] =
      .error (.semError ⟨1, 1⟩ "relay4 can only be used in DHCPv4.") := by
  refine ⟨fun h => ⟨?_, ?_, ?_, ?_⟩, fun h => ⟨?_, ?_, ?_⟩,
    fun rule val ctx2 hr => reduceOk_family rule stk ctx val ctx2 hr,
    parseToks_of_run_err _ _ _ _ run_relay6ex_v4 (by rfl),
    parseToks_of_run_err _ _ _ _ run_relay4ex_v6 (by rfl)⟩ <;>
    simp [reduceAction, EvalContext.getUniverse, h]

/-- C1 witness: rule 14 (`relay6[...].option[...].exists`) rejected under
V4 at a concrete stack and context. -/
theorem C1_family_gating_witness :
    reduceAction 14 [] ⟨Universe.V4, [], []⟩ =
      .error (.semError ⟨0, 0⟩ "relay6 can only be used in DHCPv6.") :=
  ((C1_family_gating [] ⟨Universe.V4, [], []⟩).1 rfl).1

/-- C2 counterexample: `'a'=='b' or 'c'=='d' and 'e'=='f'` compiles to the
program of `A or (B and C)` (the And token precedes the final Or token),
which differs from the program of `(A or B) and C`; so `and` and `or` do
not have equal precedence and the claimed grouping is wrong. -/
theorem C2_counterexample :
    parseToks .V4 [.tTopLevelBool, .tString "a", .tEqual, .tString "b", .tOr,
        .tString "c", .tEqual, .tString "d", .tAnd, .tString "e", .tEqual, .tString "f",
        .tEndOfFile] =
      .ok [.TokenString "a", .TokenString "b", .TokenEqual, .TokenString "c", .TokenString "d",
        .TokenEqual, .TokenString "e", .TokenString "f", .TokenEqual, .TokenAnd, .TokenOr] ∧
    parseToks .V4 [.tTopLevelBool, .tLParen, .tString "a", .tEqual, .tString "b", .tOr,
        .tString "c", .tEqual, .tString "d", .tRParen, .tAnd, .tString "e", .tEqual,
        .tString "f", .tEndOfFile] =
      .ok [.TokenString "a", .TokenString "b", .TokenEqual, .TokenString "c", .TokenString "d",
        .TokenEqual, .TokenOr, .TokenString "e", .TokenString "f", .TokenEqual, .TokenAnd] ∧
    ([.TokenString "a", .TokenString "b", .TokenEqual, .TokenString "c", .TokenString "d",
        .TokenEqual, .TokenString "e", .TokenString "f", .TokenEqual, .TokenAnd, .TokenOr] :
        List Token) ≠
      [.TokenString "a", .TokenString "b", .TokenEqual, .TokenString "c", .TokenString "d",
        .TokenEqual, .TokenOr, .TokenString "e", .TokenString "f", .TokenEqual, .TokenAnd] :=
  ⟨parseToks_of_run _ _ _ _ (run_or_and "a" "b" "c" "d" "e" "f") (by rfl),
   parseToks_of_run _ _ _ _ (run_or_and_left "a" "b" "c" "d" "e" "f") (by rfl),
   by decide⟩

/-- C2 amended: `not` binds tighter than `and` and `or`, but `and` binds
tighter than `or` (they are not equal precedence); each of `and` and `or`
is left-associative. Consequently, for all string-equality operands A, B,
C, compiling `A or B and C` emits the same token program as `A or (B and
C)`, `not A and B` the same as `(not A) and B`, `A or B or C` the same as
`(A or B) or C`, and `A and B and C` the same as `(A and B) and C`. -/
theorem C2_amended (x1 y1 x2 y2 x3 y3 : String) :
    parseToks .V4 [.tTopLevelBool, .tString x1, .tEqual, .tString y1, .tOr,
        .tString x2, .tEqual, .tString y2, .tAnd, .tString x3, .tEqual, .tString y3,
        .tEndOfFile] =
      parseToks .V4 [.tTopLevelBool, .tString x1, .tEqual, .tString y1, .tOr, .tLParen,
        .tString x2, .tEqual, .tString y2, .tAnd, .tString x3, .tEqual, .tString y3,
        .tRParen, .tEndOfFile] ∧
    parseToks .V4 [.tTopLevelBool, .tNot, .tString x1, .tEqual, .tString y1, .tAnd,
        .tString x2, .tEqual, .tString y2, .tEndOfFile] =
      parseToks .V4 [.tTopLevelBool, .tLParen, .tNot, .tString x1, .tEqual, .tString y1,
        .tRParen, .tAnd, .tString x2, .tEqual, .tString y2, .tEndOfFile] ∧
    parseToks .V4 [.tTopLevelBool, .tString x1, .tEqual, .tString y1, .tOr,
        .tString x2, .tEqual, .tString y2, .tOr, .tString x3, .tEqual, .tString y3,
        .tEndOfFile] =
      parseToks .V4 [.tTopLevelBool, .tLParen, .tString x1, .tEqual, .tString y1, .tOr,
        .tString x2, .tEqual, .tString y2, .tRParen, .tOr, .tString x3, .tEqual, .tString y3,
        .tEndOfFile] ∧
    parseToks .V4 [.tTopLevelBool, .tString x1, .tEqual, .tString y1, .tAnd,
        .tString x2, .tEqual, .tString y2, .tAnd, .tString x3, .tEqual, .tString y3,
        .tEndOfFile] =
      parseToks .V4 [.tTopLevelBool, .tLParen, .tString x1, .tEqual, .tString y1, .tAnd,
        .tString x2, .tEqual, .tString y2, .tRParen, .tAnd, .tString x3, .tEqual, .tString y3,
        .tEndOfFile] :=
  ⟨(parseToks_of_run _ _ _ _ (run_or_and x1 y1 x2 y2 x3 y3) (by rfl)).trans
    (parseToks_of_run _ _ _ _ (run_or_and_right x1 y1 x2 y2 x3 y3) (by rfl)).symm,
   (parseToks_of_run _ _ _ _ (run_not_and x1 y1 x2 y2) (by rfl)).trans
    (parseToks_of_run _ _ _ _ (run_not_and_paren x1 y1 x2 y2) (by rfl)).symm,
   (parseToks_of_run _ _ _ _ (run_or_or x1 y1 x2 y2 x3 y3) (by rfl)).trans
    (parseToks_of_run _ _ _ _ (run_or_or_left x1 y1 x2 y2 x3 y3) (by rfl)).symm,
   (parseToks_of_run _ _ _ _ (run_and_and x1 y1 x2 y2 x3 y3) (by rfl)).trans
    (parseToks_of_run _ _ _ _ (run_and_and_left x1 y1 x2 y2 x3 y3) (by rfl)).symm⟩

/-- C3 counterexample: the completed production `option_repr_type :=
"text"` (rule 39) appends no token at all: it only produces the semantic
value TEXTUAL and leaves the program unchanged, contradicting "every
completed production immediately appends exactly one Token". -/
theorem C3_counterexample :
    reduceAction 39 [⟨111, .vnone, ⟨4, 4⟩⟩] ⟨Universe.V4, [], []⟩ =
      .ok (.vrep .TEXTUAL, ⟨Universe.V4, [], []⟩) ∧
    ¬ ∃ (v : YYVal) (t : Token),
        reduceAction 39 [⟨111, .vnone, ⟨4, 4⟩⟩] ⟨Universe.V4, [], []⟩ =
          .ok (v, ⟨Universe.V4, [t], []⟩) := by
  constructor
  · rfl
  · rintro ⟨v, t, h⟩
    simp [reduceAction] at h

/-- C3 amended: every completed production appends at most one token to
the program, in post-order; the operator/operand productions (rules 8-35
and 61-63) append exactly one, while the conversion, selector and
structural productions append none. -/
theorem C3_amended (rule : Nat) (stk : List StackEntry) (ctx : EvalContext)
    (val : YYVal) (ctx2 : EvalContext)
    (h : reduceAction rule stk ctx = .ok (val, ctx2)) :
    ∃ app : List Token, ctx2.expression = ctx.expression ++ app ∧ app.length ≤ 1 ∧
      ((8 ≤ rule ∧ rule ≤ 35) ∨ (61 ≤ rule ∧ rule ≤ 63) → app.length = 1) :=
  reduceOk_append rule stk ctx val ctx2 h

/-- C3 witness: rule 8 (`not`) appends exactly one token. -/
theorem C3_amended_witness :
    ∃ app : List Token,
      (emit Token.TokenNot ⟨Universe.V4, [], []⟩).expression =
        (⟨Universe.V4, [], []⟩ : EvalContext).expression ++ app ∧ app.length ≤ 1 ∧
      ((8 ≤ 8 ∧ 8 ≤ 35) ∨ (61 ≤ 8 ∧ 8 ≤ 63) → app.length = 1) :=
  C3_amended 8 [] ⟨Universe.V4, [], []⟩ .vnone
    (emit Token.TokenNot ⟨Universe.V4, [], []⟩) rfl

/-- C4 counterexample: on input `)` (after the top-level marker) sixteen
terminals would have been accepted — more than the claimed cap of 5 — yet
the reported message is "syntax error, unexpected )", not the claimed
generic "syntax error". -/
theorem C4_counterexample :
    parseToks .V4 [.tTopLevelBool, .tRParen] =
      .error (.synError ⟨1, 1⟩ "syntax error, unexpected )") ∧
    5 ≤ (synCandidates 1).length ∧
    "syntax error, unexpected )" ≠ "syntax error" :=
  ⟨parseToks_of_run_err _ _ _ _ run_rparen_v4 (by rfl), by decide, by decide⟩

/-- C4 amended: a syntax error aborts the parse and reports the offending
token's location; the message carries at most 5 arguments (the unexpected
terminal plus at most 4 expected terminals); when five or more terminals
would be acceptable the message falls back to "syntax error, unexpected
X", still naming the offending token but with no expected-terminal list;
a whole-parse example within the cap shows the expected-terminal list. -/
theorem C4_amended (st : Nat) (t : Terminal) :
    (synArgsLoop (synCandidates st) 1 [yytname_.getD t.num ""]).2.length ≤ 5 ∧
    (5 ≤ (synCandidates st).length →
      yysyntaxErrorMsg st (some t) =
        "syntax error, unexpected " ++ yytnamerr (yytname_.getD t.num "")) ∧
    parseToks .V4 [.tTopLevelString, .tPkt, .tDot, .tMac, .tEndOfFile] =
      .error (.synError ⟨3, 3⟩
        "syntax error, unexpected mac, expecting iface or src or dst or len") := by
  refine ⟨?_, ?_, parseToks_of_run_err _ _ _ _ run_pktmac_v4 (by rfl)⟩
  · have h := synArgsLoop_args_le (synCandidates st) 1 [yytname_.getD t.num ""]
      (by omega) (by omega)
    simpa using h
  · intro h5
    obtain ⟨h1, h2⟩ := synArgsLoop_overflow (synCandidates st) 1 [yytname_.getD t.num ""]
      (by omega) (by omega) (by omega) (by simp)
    simp only [yysyntaxErrorMsg]
    rw [h1]
    simp only [formatSynMsg]
    rw [h2]
    simp

/-- C4 witness: state 1 (after the top-level bool marker) has sixteen
acceptable terminals, and the message for an unexpected `)` there is the
no-list fallback. -/
theorem C4_amended_witness :
    5 ≤ (synCandidates 1).length ∧
    yysyntaxErrorMsg 1 (some Terminal.tRParen) =
      "syntax error, unexpected " ++ yytnamerr (yytname_.getD Terminal.tRParen.num "") :=
  ⟨by decide, (C4_amended 1 Terminal.tRParen).2.1 (by decide)⟩

/-- C5: compiling `substring('s', N, all)` appends, after the tokens of
the source expression, a string-constant token carrying the decimal
lexeme of N unchanged (rule 61 wraps the raw INTEGER text in a
TokenString), then a string-constant token "all" (rule 63), then the
Substring token (rule 28) — for every source string s and every integer
lexeme N. -/
theorem C5_substring_operands (s n : String) :
    parseToks .V4 [.tTopLevelString, .tSubstring, .tLParen, .tString s, .tComma, .tInteger n,
        .tComma, .tAll, .tRParen, .tEndOfFile] =
      .ok [.TokenString s, .TokenString n, .TokenString "all", .TokenSubstring] :=
  parseToks_of_run _ _ _ _ (run_substring_all s n) (by rfl)

/-- C6: `vendor-class[E].data` (rule 33) emits a vendor-class token in
DATA mode selecting chunk 0 for every enterprise id on the stack;
`vendor-class[E].data[N]` (rule 34) emits a vendor-class token whose
chunk index is the 8-bit conversion of N, and raises the conversion
error when N does not fit in 8 bits; whole-parse examples under both
families for index omitted, index 3, and out-of-range index 300. -/
theorem C6_vendor_class_data :
    (∀ u, parseToks u [.tTopLevelString, .tVendorClass, .tLBracket, .tInteger "1234",
        .tRBracket, .tDot, .tData, .tEndOfFile] =
      .ok [.TokenVendorClassData u 1234 .DATA 0]) ∧
    (∀ u, parseToks u [.tTopLevelString, .tVendorClass, .tLBracket, .tInteger "1234",
        .tRBracket, .tDot, .tData, .tLBracket, .tInteger "3", .tRBracket, .tEndOfFile] =
      .ok [.TokenVendorClassData u 1234 .DATA 3]) ∧
    (∀ u, parseToks u [.tTopLevelString, .tVendorClass, .tLBracket, .tInteger "1234",
        .tRBracket, .tDot, .tData, .tLBracket, .tInteger "300", .tRBracket, .tEndOfFile] =
      .error (.convError ⟨8, 8⟩ "300 is not a valid 8-bit unsigned integer")) ∧
    (∀ (stk : List StackEntry) (ctx : EvalContext),
      reduceAction 33 stk ctx = .ok (.vnone,
        emit (.TokenVendorClassData ctx.getUniverse (stkGet stk 3).val.asU32 .DATA 0) ctx)) ∧
    (∀ (stk : List StackEntry) (ctx : EvalContext) (idx : Nat),
      ctx.convertUint8 (stkGet stk 1).val.asStr (stkGet stk 1).loc = .ok idx →
      reduceAction 34 stk ctx = .ok (.vnone,
        emit (.TokenVendorClassData ctx.getUniverse (stkGet stk 6).val.asU32 .DATA idx) ctx)) ∧
    (∀ (stk : List StackEntry) (ctx : EvalContext) (e : ParseError),
      ctx.convertUint8 (stkGet stk 1).val.asStr (stkGet stk 1).loc = .error e →
      reduceAction 34 stk ctx = .error e) ∧
    (∀ (ctx : EvalContext) (s : String) (loc : Loc) (n : Nat),
      decNat? s = some n → 256 ≤ n →
      ∃ msg, ctx.convertUint8 s loc = .error (.convError loc msg)) := by
  refine ⟨?_, ?_, ?_, fun stk ctx => rfl, ?_, ?_, ?_⟩
  · intro u
    cases u
    · exact parseToks_of_run _ _ _ _ run_vcdata_v4 (by rfl)
    · exact parseToks_of_run _ _ _ _ run_vcdata_v6 (by rfl)
  · intro u
    cases u
    · exact parseToks_of_run _ _ _ _ run_vcdata3_v4 (by rfl)
    · exact parseToks_of_run _ _ _ _ run_vcdata3_v6 (by rfl)
  · intro u
    cases u
    · exact parseToks_of_run_err _ _ _ _ run_vcdata300_v4 (by rfl)
    · exact parseToks_of_run_err _ _ _ _ run_vcdata300_v6 (by rfl)
  · intro stk ctx idx h
    simp [reduceAction, h]
  · intro stk ctx e h
    simp [reduceAction, h]
  · intro ctx s loc n h hn
    refine ⟨s ++ " is not a valid 8-bit unsigned integer", ?_⟩
    simp only [EvalContext.convertUint8, h]
    rw [if_neg (by omega)]

/-- C6 witness: rule 34 applied to a concrete stack holding index lexeme
"7" and enterprise id 9. -/
theorem C6_vendor_class_data_witness :
    reduceAction 34
      [⟨0, .vnone, ⟨9, 9⟩⟩, ⟨0, .vstr "7", ⟨8, 8⟩⟩, ⟨0, .vnone, ⟨7, 7⟩⟩, ⟨0, .vnone, ⟨6, 6⟩⟩,
       ⟨0, .vnone, ⟨5, 5⟩⟩, ⟨0, .vnone, ⟨4, 4⟩⟩, ⟨0, .vu32 9, ⟨3, 3⟩⟩]
      ⟨Universe.V4, [], []⟩ =
      .ok (.vnone, emit (.TokenVendorClassData Universe.V4 9 .DATA 7) ⟨Universe.V4, [], []⟩) :=
  C6_vendor_class_data.2.2.2.2.1
    [⟨0, .vnone, ⟨9, 9⟩⟩, ⟨0, .vstr "7", ⟨8, 8⟩⟩, ⟨0, .vnone, ⟨7, 7⟩⟩, ⟨0, .vnone, ⟨6, 6⟩⟩,
     ⟨0, .vnone, ⟨5, 5⟩⟩, ⟨0, .vnone, ⟨4, 4⟩⟩, ⟨0, .vu32 9, ⟨3, 3⟩⟩]
    ⟨Universe.V4, [], []⟩ 7 rfl

/-- C7 counterexample: leaving the enterprise id empty is a syntax error,
not an accepted ε-production: parsing `vendor-class[].exists` aborts with
"syntax error, unexpected ], expecting * or integer". -/
theorem C7_counterexample :
    parseToks .V4 [.tTopLevelBool, .tVendorClass, .tLBracket, .tRBracket, .tDot, .tExists,
        .tEndOfFile] =
      .error (.synError ⟨3, 3⟩ "syntax error, unexpected ], expecting * or integer") :=
  parseToks_of_run_err _ _ _ _ run_vc_noeid_v4 (by rfl)

/-- C7 amended: the enterprise_id position accepts either a decimal
INTEGER (converted as a 32-bit unsigned value, rule 46) or the literal
`*` token (rule 47) — not an empty production — and `*` yields enterprise
id 0, meaning "accept any enterprise"; whole-parse examples for
`vendor-class[*]`, `vendor[*]` and `vendor-class[1234]`. -/
theorem C7_amended (stk : List StackEntry) (ctx : EvalContext) :
    reduceAction 47 stk ctx = .ok (.vu32 0, ctx) ∧
    (∀ n : Nat, ctx.convertUint32 (stkGet stk 0).val.asStr (stkGet stk 0).loc = .ok n →
      reduceAction 46 stk ctx = .ok (.vu32 n, ctx)) ∧
    (∀ u, parseToks u [.tTopLevelBool, .tVendorClass, .tLBracket, .tStar, .tRBracket, .tDot,
        .tExists, .tEndOfFile] = .ok [.TokenVendorClass u 0 (.rep .EXISTS)]) ∧
    (∀ u, parseToks u [.tTopLevelBool, .tVendor, .tLBracket, .tStar, .tRBracket, .tDot,
        .tExists, .tEndOfFile] = .ok [.TokenVendor u 0 (.rep .EXISTS)]) ∧
    (∀ u, parseToks u [.tTopLevelBool, .tVendorClass, .tLBracket, .tInteger "1234",
        .tRBracket, .tDot, .tExists, .tEndOfFile] =
      .ok [.TokenVendorClass u 1234 (.rep .EXISTS)]) := by
  refine ⟨rfl, ?_, ?_, ?_, ?_⟩
  · intro n h
    simp [reduceAction, h]
  · intro u
    cases u
    · exact parseToks_of_run _ _ _ _ run_vcstar_v4 (by rfl)
    · exact parseToks_of_run _ _ _ _ run_vcstar_v6 (by rfl)
  · intro u
    cases u
    · exact parseToks_of_run _ _ _ _ run_vstar_v4 (by rfl)
    · exact parseToks_of_run _ _ _ _ run_vstar_v6 (by rfl)
  · intro u
    cases u
    · exact parseToks_of_run _ _ _ _ run_vc1234_v4 (by rfl)
    · exact parseToks_of_run _ _ _ _ run_vc1234_v6 (by rfl)

/-- C7 witness: the INTEGER alternative at lexeme "1234". -/
theorem C7_amended_witness :
    reduceAction 46 [⟨78, .vstr "1234", ⟨3, 3⟩⟩] ⟨Universe.V4, [], []⟩ =
      .ok (.vu32 1234, ⟨Universe.V4, [], []⟩) :=
  (C7_amended [⟨78, .vstr "1234", ⟨3, 3⟩⟩] ⟨Universe.V4, [], []⟩).2.1 1234 rfl

/-- C8 counterexample: the relay4 gate reports "relay4 can only be used
in DHCPv4." — not the combined text "relay4/pkt4 can only be used in
DHCPv4." the claim states. -/
theorem C8_counterexample :
    parseToks .V6 [.tTopLevelBool, .tRelay4, .tLBracket, .tInteger "1", .tRBracket, .tDot,
        .tExists, .tEndOfFile] =
      .error (.semError ⟨1, 1⟩ "relay4 can only be used in DHCPv4.") ∧
    "relay4 can only be used in DHCPv4." ≠ "relay4/pkt4 can only be used in DHCPv4." :=
  ⟨parseToks_of_run_err _ _ _ _ run_relay4ex_v6 (by rfl), by decide⟩

/-- C8 amended: under family V6 a relay4 construct (rules 13 and 22)
reports "relay4 can only be used in DHCPv4." at the relay4 keyword's
location (`yystack_[5]`), and a pkt4 construct (rule 25) reports "pkt4
can only be used in DHCPv4." at the pkt4 keyword's location
(`yystack_[2]`); a whole-parse pkt4 example shows the construct's span
⟨1, 1⟩ being reported. -/
theorem C8_amended (stk : List StackEntry) (ctx : EvalContext) :
    (ctx.option_universe = Universe.V6 →
      reduceAction 13 stk ctx =
        .error (.semError (stkGet stk 5).loc "relay4 can only be used in DHCPv4.") ∧
      reduceAction 22 stk ctx =
        .error (.semError (stkGet stk 5).loc "relay4 can only be used in DHCPv4.") ∧
      reduceAction 25 stk ctx =
        .error (.semError (stkGet stk 2).loc "pkt4 can only be used in DHCPv4.")) ∧
    parseToks .V6 [.tTopLevelString, .tPkt4, .tDot, .tMac, .tEndOfFile] =
      .error (.semError ⟨1, 1⟩ "pkt4 can only be used in DHCPv4.") := by
  refine ⟨fun h => ⟨?_, ?_, ?_⟩,
    parseToks_of_run_err _ _ _ _ run_pkt4mac_v6 (by rfl)⟩ <;>
    simp [reduceAction, EvalContext.getUniverse, h]

/-- C8 witness: rule 13 under V6 at a concrete stack and context. -/
theorem C8_amended_witness :
    reduceAction 13 [] ⟨Universe.V6, [], []⟩ =
      .error (.semError ⟨0, 0⟩ "relay4 can only be used in DHCPv4.") :=
  ((C8_amended [] ⟨Universe.V6, [], []⟩).1 rfl).1

/-- C9: the token program is append-only. Every semantic action that
succeeds extends the program only by appending at its end (first part),
and any completed `yyparse` run leaves the initial program as a prefix of
the final one, so previously emitted tokens are never removed, reordered
or mutated and insertion order equals execution order (second part). -/
theorem C9_append_only :
    (∀ (rule : Nat) (stk : List StackEntry) (ctx : EvalContext) (val : YYVal)
        (ctx2 : EvalContext), reduceAction rule stk ctx = .ok (val, ctx2) →
      ∃ app : List Token, ctx2.expression = ctx.expression ++ app) ∧
    (∀ (fuel : Nat) (ctx : EvalContext) (stk : List StackEntry)
        (la : Option (Terminal × Loc)) (input : List (Terminal × Loc)) (ctx2 : EvalContext),
      yyparse fuel ctx stk la input = .ok ctx2 →
      ∃ app : List Token, ctx2.expression = ctx.expression ++ app) := by
  constructor
  · intro rule stk ctx val ctx2 h
    obtain ⟨app, happ, -⟩ := reduceOk_append rule stk ctx val ctx2 h
    exact ⟨app, happ⟩
  · intro fuel ctx stk la input ctx2 h
    exact yyparse_append fuel ctx stk la input ctx2 h

/-- C9 witness: the `not` action appends at the end of an empty program. -/
theorem C9_append_only_witness :
    ∃ app : List Token,
      (emit Token.TokenNot ⟨Universe.V4, [], []⟩).expression =
        (⟨Universe.V4, [], []⟩ : EvalContext).expression ++ app :=
  C9_append_only.1 8 [] ⟨Universe.V4, [], []⟩ .vnone
    (emit Token.TokenNot ⟨Universe.V4, [], []⟩) rfl

/-- C10: no vendor or vendor-class production is gated on the protocol
family: rules 15, 16, 17, 30, 31, 32 and 33 succeed for every context —
whatever its family — and store the context's current universe inside the
emitted token; whole-parse examples accept vendor and vendor-class
constructs under both V4 and V6 with the family recorded in the token. -/
theorem C10_vendor_not_gated (stk : List StackEntry) (ctx : EvalContext) :
    reduceAction 15 stk ctx = .ok (.vnone,
      emit (.TokenVendorClass ctx.getUniverse (stkGet stk 3).val.asU32 (.rep .EXISTS)) ctx) ∧
    reduceAction 16 stk ctx = .ok (.vnone,
      emit (.TokenVendor ctx.getUniverse (stkGet stk 3).val.asU32 (.rep .EXISTS)) ctx) ∧
    reduceAction 17 stk ctx = .ok (.vnone,
      emit (.TokenVendorSub ctx.getUniverse (stkGet stk 8).val.asU32 .EXISTS
        (stkGet stk 3).val.asU16) ctx) ∧
    reduceAction 30 stk ctx = .ok (.vnone,
      emit (.TokenVendor ctx.getUniverse 0 (.field .ENTERPRISE_ID)) ctx) ∧
    reduceAction 31 stk ctx = .ok (.vnone,
      emit (.TokenVendorClass ctx.getUniverse 0 (.field .ENTERPRISE_ID)) ctx) ∧
    reduceAction 32 stk ctx = .ok (.vnone,
      emit (.TokenVendorSub ctx.getUniverse (stkGet stk 8).val.asU32
        (stkGet stk 0).val.asRep (stkGet stk 3).val.asU16) ctx) ∧
    reduceAction 33 stk ctx = .ok (.vnone,
      emit (.TokenVendorClassData ctx.getUniverse (stkGet stk 3).val.asU32 .DATA 0) ctx) ∧
    (∀ u, parseToks u [.tTopLevelBool, .tVendor, .tLBracket, .tInteger "9", .tRBracket,
        .tDot, .tOption, .tLBracket, .tInteger "1", .tRBracket, .tDot, .tExists,
        .tEndOfFile] = .ok [.TokenVendorSub u 9 .EXISTS 1]) ∧
    (∀ u, parseToks u [.tTopLevelString, .tVendor, .tLBracket, .tInteger "9", .tRBracket,
        .tDot, .tOption, .tLBracket, .tInteger "1", .tRBracket, .tDot, .tHex,
        .tEndOfFile] = .ok [.TokenVendorSub u 9 .HEXADECIMAL 1]) ∧
    (∀ u, parseToks u [.tTopLevelString, .tVendorClass, .tLBracket, .tInteger "9",
        .tRBracket, .tDot, .tData, .tLBracket, .tInteger "3", .tRBracket, .tEndOfFile] =
      .ok [.TokenVendorClassData u 9 .DATA 3]) ∧
    (∀ u, parseToks u [.tTopLevelString, .tVendor, .tDot, .tEnterprise, .tEndOfFile] =
      .ok [.TokenVendor u 0 (.field .ENTERPRISE_ID)]) :=
  ⟨rfl, rfl, rfl, rfl, rfl, rfl, rfl,
   fun u => match u with
     | .V4 => parseToks_of_run _ _ _ _ run_vsubex_v4 (by rfl)
     | .V6 => parseToks_of_run _ _ _ _ run_vsubex_v6 (by rfl),
   fun u => match u with
     | .V4 => parseToks_of_run _ _ _ _ run_vsubhex_v4 (by rfl)
     | .V6 => parseToks_of_run _ _ _ _ run_vsubhex_v6 (by rfl),
   fun u => match u with
     | .V4 => parseToks_of_run _ _ _ _ run_vc9data3_v4 (by rfl)
     | .V6 => parseToks_of_run _ _ _ _ run_vc9data3_v6 (by rfl),
   fun u => match u with
     | .V4 => parseToks_of_run _ _ _ _ run_vent_v4 (by rfl)
     | .V6 => parseToks_of_run _ _ _ _ run_vent_v6 (by rfl)⟩

end KeaEval
